import Mathlib

/-!
# Jool (SIIT / NAT64): the packet translation core

A shallow embedding of the translation functions of
`mod/common/rfc6145/6to4.c` (IPv6 to IPv4) and `mod/common/rfc7915/4to6.c`
(IPv4 to IPv6), of the inner-packet parser of `mod/ttp/6to4.c`, the IPv4
pool of `mod/pool4.c`, the configuration requests of `mod/common/nl/global.c`
and the instance list of `mod/common/xlator.c`, and theorems about them.

Conventions of the embedding.

* Machine integers are natural numbers; every place where the C code wraps
  around or narrows a value carries an explicit `%`.
* Header fields hold the numeric value the C code obtains after
  `be16_to_cpu` / `be32_to_cpu`; the conversions `cpu_to_be16` and
  `cpu_to_be32` keep the value and only narrow it to 16 resp. 32 bits (a
  big-endian host).  The Internet checksum does not depend on the byte
  order (RFC 1071, section 2 (B)).  The section on the byte order has the
  conversions on the octets of a field, for a CPU of either byte order.
* A pointer into a table entry is the place of the entry together with what
  is read through it; two pointers are compared by the place.
* A buffer handed to `csum_partial` as pointer and length is the list of its
  16-bit words.
* Functions of the kernel or of the repository that the sources call but do
  not contain are either parameters of the embedded function or definitions
  whose doc comment says so.
-/

namespace Jool

/-! ## Verdicts -/

/-- The outcome of a translation step (`verdict` in the sources). -/
inductive verdict where
  | VERDICT_CONTINUE
  | VERDICT_ACCEPT
  | VERDICT_DROP
  | VERDICT_UNTRANSLATABLE
  | VERDICT_STOLEN
  deriving DecidableEq, Repr

open verdict

/-! ## Machine-integer ranges -/

/-- A value that fits an 8-bit field. -/
abbrev is_u8 (x : Nat) : Prop := x < 256

/-- A value that fits a 16-bit field. -/
abbrev is_u16 (x : Nat) : Prop := x < 65536

/-- A value that fits a 32-bit field. -/
abbrev is_u32 (x : Nat) : Prop := x < 4294967296

/-- A buffer of 16-bit words. -/
abbrev words16 (l : List Nat) : Prop := ∀ w ∈ l, w < 65536

/-! ## Addresses and headers -/

/-- An IPv6 address as its four 32-bit words (`struct in6_addr`, member
`s6_addr32`). -/
structure in6_addr where
  a0 : Nat
  a1 : Nat
  a2 : Nat
  a3 : Nat
  deriving DecidableEq, Repr

/-- Every word of the address fits 32 bits. -/
abbrev in6_addr.wf (a : in6_addr) : Prop :=
  a.a0 < 4294967296 ∧ a.a1 < 4294967296 ∧ a.a2 < 4294967296 ∧ a.a3 < 4294967296

/-- The plain sum of the four words of an address. -/
def in6_addr.total (a : in6_addr) : Nat := a.a0 + a.a1 + a.a2 + a.a3

/-- The IPv6 header (`struct ipv6hdr`). -/
structure ipv6hdr where
  version : Nat
  priority : Nat
  flow_lbl0 : Nat
  flow_lbl1 : Nat
  flow_lbl2 : Nat
  payload_len : Nat
  nexthdr : Nat
  hop_limit : Nat
  saddr : in6_addr
  daddr : in6_addr
  deriving DecidableEq, Repr

/-- The IPv6 fragment header (`struct frag_hdr`). -/
structure frag_hdr where
  nexthdr : Nat
  reserved : Nat
  frag_off : Nat
  identification : Nat
  deriving DecidableEq, Repr

/-- The IPv4 header (`struct iphdr`); `saddr` and `daddr` are 32-bit values. -/
structure iphdr where
  ihl : Nat
  version : Nat
  tos : Nat
  tot_len : Nat
  id : Nat
  frag_off : Nat
  ttl : Nat
  protocol : Nat
  check : Nat
  saddr : Nat
  daddr : Nat
  deriving DecidableEq, Repr

/-- Every field of the IPv4 header fits its width. -/
abbrev iphdr.wf (h : iphdr) : Prop :=
  h.ihl < 16 ∧ h.version < 16 ∧ h.tos < 256 ∧ h.tot_len < 65536 ∧
  h.id < 65536 ∧ h.frag_off < 65536 ∧ h.ttl < 256 ∧ h.protocol < 256 ∧
  h.check < 65536 ∧ h.saddr < 4294967296 ∧ h.daddr < 4294967296

/-- The TCP header (`struct tcphdr`); `doff_flags` is the 16-bit word that
holds the data offset, the reserved bits and the flags. -/
structure tcphdr where
  source : Nat
  dest : Nat
  seq : Nat
  ack_seq : Nat
  doff_flags : Nat
  window : Nat
  check : Nat
  urg_ptr : Nat
  deriving DecidableEq, Repr

/-- The ten 16-bit words of a TCP header, in wire order. -/
def tcphdr.words (h : tcphdr) : List Nat :=
  [h.source, h.dest, h.seq / 65536, h.seq % 65536, h.ack_seq / 65536,
   h.ack_seq % 65536, h.doff_flags, h.window, h.check, h.urg_ptr]

/-- Every field of the TCP header fits its width. -/
abbrev tcphdr.wf (h : tcphdr) : Prop :=
  h.source < 65536 ∧ h.dest < 65536 ∧ h.seq < 4294967296 ∧
  h.ack_seq < 4294967296 ∧ h.doff_flags < 65536 ∧ h.window < 65536 ∧
  h.check < 65536 ∧ h.urg_ptr < 65536

/-- The UDP header (`struct udphdr`). -/
structure udphdr where
  source : Nat
  dest : Nat
  len : Nat
  check : Nat
  deriving DecidableEq, Repr

/-- The four 16-bit words of a UDP header, in wire order. -/
def udphdr.words (h : udphdr) : List Nat := [h.source, h.dest, h.len, h.check]

/-- Every field of the UDP header fits 16 bits. -/
abbrev udphdr.wf (h : udphdr) : Prop :=
  h.source < 65536 ∧ h.dest < 65536 ∧ h.len < 65536 ∧ h.check < 65536

/-! ## The checksum engine

The kernel's checksum helpers, in their generic C form
(`include/net/checksum.h`, `include/asm-generic/checksum.h`,
`lib/checksum.c`, `net/ipv6/ip6_checksum.c`). -/

/-- The C operator `~` on a 32-bit value. -/
def not32 (x : Nat) : Nat := 4294967295 - x % 4294967296

/-- Modelled from the spec: the kernel helper csum_unfold is not among the
sources; it widens a 16-bit checksum to a 32-bit partial sum (the
"unfold" of the checksum engine). -/
def csum_unfold (csum16 : Nat) : Nat := csum16

/-- Modelled from the spec: the kernel helper csum_add is not among the
sources; 32-bit one's-complement addition, `res += addend; res + (res <
addend)`. -/
def csum_add (csum addend : Nat) : Nat :=
  let res := (csum + addend) % 4294967296
  res + (if res < addend then 1 else 0)

/-- Modelled from the spec: the kernel helper csum_sub is not among the
sources; `csum_add(csum, ~addend)`. -/
def csum_sub (csum addend : Nat) : Nat := csum_add csum (not32 addend)

/-- Modelled from the spec: the kernel helper csum_fold is not among the
sources; it folds a 32-bit partial sum to 16 bits and complements it (the
"fold" of the checksum engine). -/
def csum_fold (csum : Nat) : Nat :=
  let sum := csum % 65536 + csum / 65536
  let sum := sum % 65536 + sum / 65536
  not32 sum % 65536

/-- Modelled from the spec: the kernel helper csum_partial is not among the
sources; the 32-bit one's-complement sum of the 16-bit words of a buffer,
added to `wsum`. -/
def csum_partial (buff : List Nat) (wsum : Nat) : Nat :=
  buff.foldl csum_add wsum

/-- The kernel helper `from64to32`: folds a 64-bit sum to 32 bits. -/
def from64to32 (x : Nat) : Nat :=
  let x := x % 4294967296 + x / 4294967296
  let x := x % 4294967296 + x / 4294967296
  x % 4294967296

/-- Modelled from the spec: the kernel helper csum_tcpudp_nofold is not
among the sources; the 32-bit sum of the IPv4 pseudo-header (addresses,
length, protocol) added to `sum`. -/
def csum_tcpudp_nofold (saddr daddr len proto sum : Nat) : Nat :=
  from64to32 (sum + saddr + daddr + (proto + len))

/-- Modelled from the spec: the kernel helper csum_ipv6_magic is not among
the sources; the folded, complemented sum of the IPv6 pseudo-header
(addresses, length, next header) added to `csum`. -/
def csum_ipv6_magic (saddr daddr : in6_addr) (len proto csum : Nat) : Nat :=
  let sum := csum_add csum saddr.a0
  let sum := csum_add sum saddr.a1
  let sum := csum_add sum saddr.a2
  let sum := csum_add sum saddr.a3
  let sum := csum_add sum daddr.a0
  let sum := csum_add sum daddr.a1
  let sum := csum_add sum daddr.a2
  let sum := csum_add sum daddr.a3
  let sum := csum_add sum len
  let sum := csum_add sum proto
  csum_fold sum

/-- The constant `CSUM_MANGLED_0`. -/
def CSUM_MANGLED_0 : Nat := 65535

/-- The protocol number `IPPROTO_TCP`. -/
def IPPROTO_TCP : Nat := 6

/-- The protocol number `IPPROTO_UDP`. -/
def IPPROTO_UDP : Nat := 17

/-- An IPv6 TCP or UDP datagram verifies: the folded sum over the
pseudo-header and the datagram words (header with its checksum field,
options, payload) is zero, as the kernel tests it. -/
abbrev l4_csum_ok6 (saddr daddr : in6_addr) (len proto : Nat)
    (datagram : List Nat) : Prop :=
  csum_ipv6_magic saddr daddr len proto ( csum_partial datagram 0) = 0

/-- An IPv4 TCP or UDP datagram verifies (`csum_tcpudp_magic` is zero). -/
abbrev l4_csum_ok4 (saddr daddr : Nat) (len proto : Nat)
    (datagram : List Nat) : Prop :=
  csum_fold (csum_tcpudp_nofold saddr daddr len proto
    ( csum_partial datagram 0)) = 0

/-- The function `update_csum_6to4` of `6to4.c`: the incremental update of
a TCP or UDP checksum when the IPv6 pseudo-header and L4 header are replaced
by the IPv4 ones. -/
def update_csum_6to4 (csum16 : Nat) (in_ip6 : ipv6hdr) (in_l4_hdr : List Nat)
    (out_ip4 : iphdr) (out_l4_hdr : List Nat) : Nat :=
  let csum := not32 (csum_unfold csum16)
  -- Remove the IPv6 pseudo-header and L4 header.
  let pseudohdr_csum :=
    not32 (csum_unfold (csum_ipv6_magic in_ip6.saddr in_ip6.daddr 0 0 0))
  let csum := csum_sub csum pseudohdr_csum
  let csum := csum_sub csum ( csum_partial in_l4_hdr 0)
  -- Add the IPv4 pseudo-header and L4 header.
  let pseudohdr_csum := csum_tcpudp_nofold out_ip4.saddr out_ip4.daddr 0 0 0
  let csum := csum_add csum pseudohdr_csum
  let csum := csum_add csum ( csum_partial out_l4_hdr 0)
  csum_fold csum

/-- The function `update_csum_6to4_partial` of `6to4.c`. -/
def update_csum_6to4_partial (csum16 : Nat) (in_ip6 : ipv6hdr)
    (out_ip4 : iphdr) : Nat :=
  let csum := csum_unfold csum16
  let pseudohdr_csum :=
    not32 (csum_unfold (csum_ipv6_magic in_ip6.saddr in_ip6.daddr 0 0 0))
  let csum := csum_sub csum pseudohdr_csum
  let pseudohdr_csum := csum_tcpudp_nofold out_ip4.saddr out_ip4.daddr 0 0 0
  let csum := csum_add csum pseudohdr_csum
  not32 (csum_fold csum) % 65536

/-- The function `update_csum_4to6` of `4to6.c`. -/
def update_csum_4to6 (csum16 : Nat) (in_ip4 : iphdr) (in_l4_hdr : List Nat)
    (out_ip6 : ipv6hdr) (out_l4_hdr : List Nat) : Nat :=
  let csum := not32 (csum_unfold csum16)
  let pseudohdr_csum := csum_tcpudp_nofold in_ip4.saddr in_ip4.daddr 0 0 0
  let csum := csum_sub csum pseudohdr_csum
  let csum := csum_sub csum ( csum_partial in_l4_hdr 0)
  let pseudohdr_csum :=
    not32 (csum_unfold (csum_ipv6_magic out_ip6.saddr out_ip6.daddr 0 0 0))
  let csum := csum_add csum pseudohdr_csum
  let csum := csum_add csum ( csum_partial out_l4_hdr 0)
  csum_fold csum

/-- The function `update_csum_4to6_partial` of `4to6.c`. -/
def update_csum_4to6_partial (csum16 : Nat) (in4 : iphdr) (out6 : ipv6hdr) :
    Nat :=
  let csum := csum_unfold csum16
  let pseudohdr_csum := csum_tcpudp_nofold in4.saddr in4.daddr 0 0 0
  let csum := csum_sub csum pseudohdr_csum
  let pseudohdr_csum :=
    not32 (csum_unfold (csum_ipv6_magic out6.saddr out6.daddr 0 0 0))
  let csum := csum_add csum pseudohdr_csum
  not32 (csum_fold csum) % 65536

/-! ## Tuples, packets and the requests for ICMP errors -/

/-- Modelled from the spec: the conversion cpu_to_be16 is not among the
sources; it takes a 16-bit argument, so the value is narrowed to 16 bits
(the byte order is the host's, see the conventions above). -/
def cpu_to_be16 (x : Nat) : Nat := x % 65536

/-- Modelled from the spec: the conversion cpu_to_be32 is not among the
sources; it takes a 32-bit argument, so the value is narrowed to 32 bits. -/
def cpu_to_be32 (x : Nat) : Nat := x % 4294967296

/-- An IPv4 transport address (`struct ipv4_transport_addr`). -/
structure ipv4_transport_addr where
  l3 : Nat
  l4 : Nat
  deriving DecidableEq, Repr

/-- An IPv6 transport address (`struct ipv6_transport_addr`). -/
structure ipv6_transport_addr where
  l3 : in6_addr
  l4 : Nat
  deriving DecidableEq, Repr

/-- The IPv4 view of `struct tuple` (members `src.addr4`, `dst.addr4`). -/
structure tuple4 where
  src : ipv4_transport_addr
  dst : ipv4_transport_addr
  deriving DecidableEq, Repr

/-- The IPv6 view of `struct tuple` (members `src.addr6`, `dst.addr6`). -/
structure tuple6 where
  src : ipv6_transport_addr
  dst : ipv6_transport_addr
  deriving DecidableEq, Repr

/-- The member alias `icmp4_id` of `struct tuple` (`src.addr4.l4`). -/
def tuple4.icmp4_id (t : tuple4) : Nat := t.src.l4

/-- The member alias `icmp6_id` of `struct tuple` (`src.addr6.l4`). -/
def tuple6.icmp6_id (t : tuple6) : Nat := t.src.l4

/-- The ICMP errors a translation step can ask for (`icmp_error_code`). -/
inductive icmp_error_code where
  | ICMPERR_HOP_LIMIT
  | ICMPERR_TTL
  | ICMPERR_HDR_FIELD
  | ICMPERR_SRC_ROUTE
  | ICMPERR_FILTER
  deriving DecidableEq, Repr

open icmp_error_code

/-- One call of `icmp64_send`: the error and its `info` argument.  The
error is addressed to the source of the incoming packet. -/
structure icmp_request where
  code : icmp_error_code
  info : Nat
  deriving DecidableEq, Repr

/-- What a translation step leaves behind: its verdict, the ICMP errors it
asked for (in call order) and the header it worked on. -/
structure step_result (α : Type) where
  result : verdict
  sent : List icmp_request
  out : α
  deriving Repr

/-- Modelled from the spec: the helper drop of `4to6.c` is not among the
sources; it accounts the packet and yields verdict Drop ("Drop: free and
account"), without any ICMP error. -/
def drop {α : Type} (out : α) : step_result α :=
  { result := VERDICT_DROP, sent := [], out := out }

/-- Modelled from the spec: the helper untranslatable of `4to6.c` is not
among the sources; it accounts the packet and yields verdict
Untranslatable, without any ICMP error of its own. -/
def untranslatable {α : Type} (out : α) : step_result α :=
  { result := VERDICT_UNTRANSLATABLE, sent := [], out := out }

/-- Modelled from the spec: the helper drop_icmp of `4to6.c` is not among
the sources; it asks for a single ICMP error describing the failure and
yields verdict Drop. -/
def drop_icmp {α : Type} (out : α) (icmp : icmp_error_code) (info : Nat) :
    step_result α :=
  { result := VERDICT_DROP, sent := [{ code := icmp, info := info }],
    out := out }

/-! ## TCP and UDP, IPv6 to IPv4 (`6to4.c`) -/

/-- The function `ttp64_tcp`.  `opts` are the option words that follow the
fixed header inside `pkt_l4hdr_len(in)`; `partial_csum` says that
`in->skb->ip_summed` is `CHECKSUM_PARTIAL`; `copy_payload_error` is the
outcome of `copy_payload`. -/
def ttp64_tcp (nat64 : Bool) (tuple4 : tuple4) (partial_csum : Bool)
    (copy_payload_error : Bool) (in_ip6 : ipv6hdr) (out_ip4 : iphdr)
    (tcp_in : tcphdr) (opts : List Nat) : step_result (tcphdr × List Nat) :=
  -- memcpy(tcp_out, tcp_in, pkt_l4hdr_len(in))
  let tcp_out := tcp_in
  let tcp_out :=
    if nat64 then
      { tcp_out with source := cpu_to_be16 tuple4.src.l4,
                     dest := cpu_to_be16 tuple4.dst.l4 }
    else tcp_out
  let tcp_out :=
    if !partial_csum then
      let tcp_copy := { tcp_in with check := 0 }
      let tcp_out := { tcp_out with check := 0 }
      let check := update_csum_6to4 tcp_in.check in_ip6 tcp_copy.words
        out_ip4 tcp_out.words
      { tcp_out with check := check }
    else
      let check := update_csum_6to4_partial tcp_in.check in_ip6 out_ip4
      { tcp_out with check := check }
  { result := if copy_payload_error then VERDICT_DROP else VERDICT_CONTINUE,
    sent := [], out := (tcp_out, opts) }

/-- The function `ttp64_udp`. -/
def ttp64_udp (nat64 : Bool) (tuple4 : tuple4) (partial_csum : Bool)
    (copy_payload_error : Bool) (in_ip6 : ipv6hdr) (out_ip4 : iphdr)
    (udp_in : udphdr) : step_result udphdr :=
  let udp_out := udp_in
  let udp_out :=
    if nat64 then
      { udp_out with source := cpu_to_be16 tuple4.src.l4,
                     dest := cpu_to_be16 tuple4.dst.l4 }
    else udp_out
  let udp_out :=
    if !partial_csum then
      let udp_copy := { udp_in with check := 0 }
      let udp_out := { udp_out with check := 0 }
      let check := update_csum_6to4 udp_in.check in_ip6 udp_copy.words
        out_ip4 udp_out.words
      let udp_out := { udp_out with check := check }
      if udp_out.check = 0 then { udp_out with check := CSUM_MANGLED_0 }
      else udp_out
    else
      let check := update_csum_6to4_partial udp_in.check in_ip6 out_ip4
      { udp_out with check := check }
  { result := if copy_payload_error then VERDICT_DROP else VERDICT_CONTINUE,
    sent := [], out := udp_out }

/-- Modelled from the spec: the helper copy_payload of
`mod/common/rfc6145/6to4.c` is not among the sources; it copies the payload
of the incoming packet behind the outgoing headers ("the payload is
byte-identical") unless the copy fails, which leaves the outgoing payload as
it was.  The result is the error flag and the outgoing payload. -/
def copy_payload (fails : Bool) (in_payload out_payload : List Nat) :
    Bool × List Nat :=
  if fails then (true, out_payload) else (false, in_payload)

/-- The function `ttp64_tcp` of `mod/ttp/6to4.c`, the older translator
(NAT64 only): the error code, the outgoing header with its options, and the
outgoing payload.  `csum4_computable` is the value of
`is_csum4_computable(out)`. -/
def ttp.ttp64_tcp (tuple4 : tuple4) (csum4_computable : Bool)
    (in_ip6 : ipv6hdr) (out_ip4 : iphdr) (tcp_in : tcphdr)
    (opts payload : List Nat) : Int × (tcphdr × List Nat) × List Nat :=
  -- memcpy(tcp_out, tcp_in, in->l4_hdr.len)
  let tcp_out := tcp_in
  let tcp_out := { tcp_out with source := cpu_to_be16 tuple4.src.l4 }
  let tcp_out := { tcp_out with dest := cpu_to_be16 tuple4.dst.l4 }
  let tcp_out : tcphdr :=
    if csum4_computable then
      let tcp_copy := { tcp_in with check := 0 }
      let tcp_out := { tcp_out with check := 0 }
      let check := update_csum_6to4 tcp_in.check in_ip6 tcp_copy.words
        out_ip4 tcp_out.words
      { tcp_out with check := check }
    else tcp_out
  -- memcpy(out->payload.ptr, in->payload.ptr, in->payload.len)
  (0, (tcp_out, opts), payload)

/-- The function `ttp64_udp` of `mod/ttp/6to4.c`; `udp_out0` is the previous
content of the outgoing header. -/
def ttp.ttp64_udp (tuple4 : tuple4) (csum4_computable : Bool)
    (in_ip6 : ipv6hdr) (out_ip4 : iphdr) (udp_in udp_out0 : udphdr)
    (payload : List Nat) : Int × udphdr × List Nat :=
  let udp_out := { udp_out0 with source := cpu_to_be16 tuple4.src.l4 }
  let udp_out := { udp_out with dest := cpu_to_be16 tuple4.dst.l4 }
  let udp_out := { udp_out with len := udp_in.len }
  let udp_out := { udp_out with check := 0 }
  let udp_out : udphdr :=
    if csum4_computable then
      let udp_copy := { udp_in with check := 0 }
      let udp_out := { udp_out with check := 0 }
      let check := update_csum_6to4 udp_in.check in_ip6 udp_copy.words
        out_ip4 udp_out.words
      { udp_out with check := check }
    else udp_out
  let udp_out : udphdr :=
    if udp_out.check = 0 then { udp_out with check := CSUM_MANGLED_0 }
    else udp_out
  (0, udp_out, payload)

/-! ## TCP and UDP, IPv4 to IPv6 (`4to6.c`) -/

/-- The function `ttp46_tcp`. -/
def ttp46_tcp (nat64 : Bool) (tuple6 : tuple6) (partial_csum : Bool)
    (in_ip4 : iphdr) (out_ip6 : ipv6hdr) (tcp_in : tcphdr) (opts : List Nat) :
    step_result (tcphdr × List Nat) :=
  let tcp_out := tcp_in
  let tcp_out :=
    if nat64 then
      { tcp_out with source := cpu_to_be16 tuple6.src.l4,
                     dest := cpu_to_be16 tuple6.dst.l4 }
    else tcp_out
  let tcp_out :=
    if !partial_csum then
      let tcp_copy := { tcp_in with check := 0 }
      let tcp_out := { tcp_out with check := 0 }
      let check := update_csum_4to6 tcp_in.check in_ip4 tcp_copy.words
        out_ip6 tcp_out.words
      { tcp_out with check := check }
    else
      let check := update_csum_4to6_partial tcp_in.check in_ip4 out_ip6
      { tcp_out with check := check }
  { result := VERDICT_CONTINUE, sent := [], out := (tcp_out, opts) }

/-- Modelled from the spec: the helper is_mf_set_ipv4 is not among the
sources; the More Fragments bit (0x2000) of the IPv4 `frag_off` field. -/
def is_mf_set_ipv4 (hdr : iphdr) : Bool := decide (hdr.frag_off / 8192 % 2 = 1)

/-- The function `can_compute_csum` of `4to6.c`; `amend_csum0` is the
configuration value `siit.compute_udp_csum_zero`. -/
def can_compute_csum (nat64 : Bool) (amend_csum0 : Bool) (hdr4 : iphdr) :
    Bool :=
  if nat64 then true
  else if is_mf_set_ipv4 hdr4 || !amend_csum0 then false
  else true

/-- The function `handle_zero_csum` of `4to6.c`: `none` stands for the
error return, otherwise the header with the checksum computed over the new
pseudo-header, the outgoing UDP header and the incoming payload.
`datagram_len` is `pkt_datagram_len(in)`. -/
def handle_zero_csum (nat64 : Bool) (amend_csum0 : Bool) (in_ip4 : iphdr)
    (hdr6 : ipv6hdr) (hdr_udp : udphdr) (payload : List Nat)
    (datagram_len : Nat) : Option udphdr :=
  if !can_compute_csum nat64 amend_csum0 in_ip4 then none
  else
    let csum := csum_partial hdr_udp.words 0
    let csum := csum_partial payload csum
    let check :=
      csum_ipv6_magic hdr6.saddr hdr6.daddr datagram_len IPPROTO_UDP csum
    some { hdr_udp with check := check }

/-- The function `ttp46_udp`. -/
def ttp46_udp (nat64 : Bool) (tuple6 : tuple6) (partial_csum : Bool)
    (amend_csum0 : Bool) (in_ip4 : iphdr) (out_ip6 : ipv6hdr)
    (udp_in : udphdr) (payload : List Nat) (datagram_len : Nat) :
    step_result udphdr :=
  let udp_out := udp_in
  let udp_out :=
    if nat64 then
      { udp_out with source := cpu_to_be16 tuple6.src.l4,
                     dest := cpu_to_be16 tuple6.dst.l4 }
    else udp_out
  if udp_in.check ≠ 0 then
    let udp_out :=
      if !partial_csum then
        let udp_copy := { udp_in with check := 0 }
        let udp_out := { udp_out with check := 0 }
        let check := update_csum_4to6 udp_in.check in_ip4 udp_copy.words
          out_ip6 udp_out.words
        { udp_out with check := check }
      else
        let check := update_csum_4to6_partial udp_in.check in_ip4 out_ip6
        { udp_out with check := check }
    { result := VERDICT_CONTINUE, sent := [], out := udp_out }
  else
    match handle_zero_csum nat64 amend_csum0 in_ip4 out_ip6 udp_out payload
        datagram_len with
    | none => drop_icmp udp_out ICMPERR_FILTER 0
    | some udp_out => { result := VERDICT_CONTINUE, sent := [], out := udp_out }

/-! ## ICMP constants (kernel headers `linux/icmp.h`, `linux/icmpv6.h`) -/

/-- ICMPv6 type Destination Unreachable. -/
def ICMPV6_DEST_UNREACH : Nat := 1
/-- ICMPv6 type Packet Too Big. -/
def ICMPV6_PKT_TOOBIG : Nat := 2
/-- ICMPv6 type Time Exceeded. -/
def ICMPV6_TIME_EXCEED : Nat := 3
/-- ICMPv6 type Parameter Problem. -/
def ICMPV6_PARAMPROB : Nat := 4
/-- ICMPv6 type Echo Request. -/
def ICMPV6_ECHO_REQUEST : Nat := 128
/-- ICMPv6 type Echo Reply. -/
def ICMPV6_ECHO_REPLY : Nat := 129

/-- ICMPv6 Destination Unreachable code: no route. -/
def ICMPV6_NOROUTE : Nat := 0
/-- ICMPv6 Destination Unreachable code: administratively prohibited. -/
def ICMPV6_ADM_PROHIBITED : Nat := 1
/-- ICMPv6 Destination Unreachable code: not a neighbour. -/
def ICMPV6_NOT_NEIGHBOUR : Nat := 2
/-- ICMPv6 Destination Unreachable code: address unreachable. -/
def ICMPV6_ADDR_UNREACH : Nat := 3
/-- ICMPv6 Destination Unreachable code: port unreachable. -/
def ICMPV6_PORT_UNREACH : Nat := 4

/-- ICMPv6 Parameter Problem code: erroneous header field. -/
def ICMPV6_HDR_FIELD : Nat := 0
/-- ICMPv6 Parameter Problem code: unrecognized Next Header. -/
def ICMPV6_UNK_NEXTHDR : Nat := 1

/-- ICMPv4 type Echo Reply. -/
def ICMP_ECHOREPLY : Nat := 0
/-- ICMPv4 type Destination Unreachable. -/
def ICMP_DEST_UNREACH : Nat := 3
/-- ICMPv4 type Echo. -/
def ICMP_ECHO : Nat := 8
/-- ICMPv4 type Time Exceeded. -/
def ICMP_TIME_EXCEEDED : Nat := 11
/-- ICMPv4 type Parameter Problem. -/
def ICMP_PARAMETERPROB : Nat := 12

/-- ICMPv4 Destination Unreachable code 0. -/
def ICMP_NET_UNREACH : Nat := 0
/-- ICMPv4 Destination Unreachable code 1. -/
def ICMP_HOST_UNREACH : Nat := 1
/-- ICMPv4 Destination Unreachable code 2. -/
def ICMP_PROT_UNREACH : Nat := 2
/-- ICMPv4 Destination Unreachable code 3. -/
def ICMP_PORT_UNREACH : Nat := 3
/-- ICMPv4 Destination Unreachable code 4. -/
def ICMP_FRAG_NEEDED : Nat := 4
/-- ICMPv4 Destination Unreachable code 5. -/
def ICMP_SR_FAILED : Nat := 5
/-- ICMPv4 Destination Unreachable code 6. -/
def ICMP_NET_UNKNOWN : Nat := 6
/-- ICMPv4 Destination Unreachable code 7. -/
def ICMP_HOST_UNKNOWN : Nat := 7
/-- ICMPv4 Destination Unreachable code 8. -/
def ICMP_HOST_ISOLATED : Nat := 8
/-- ICMPv4 Destination Unreachable code 9. -/
def ICMP_NET_ANO : Nat := 9
/-- ICMPv4 Destination Unreachable code 10. -/
def ICMP_HOST_ANO : Nat := 10
/-- ICMPv4 Destination Unreachable code 11. -/
def ICMP_NET_UNR_TOS : Nat := 11
/-- ICMPv4 Destination Unreachable code 12. -/
def ICMP_HOST_UNR_TOS : Nat := 12
/-- ICMPv4 Destination Unreachable code 13. -/
def ICMP_PKT_FILTERED : Nat := 13
/-- ICMPv4 Destination Unreachable code 15. -/
def ICMP_PREC_CUTOFF : Nat := 15

/-- ICMPv4 Parameter Problem code 0 (the pointer indicates the error). -/
def ICMP_PTR_INDICATES_ERROR : Nat := 0
/-- ICMPv4 Parameter Problem code 2 (bad length). -/
def ICMP_BAD_LENGTH : Nat := 2

/-- The IPv6 next-header value of ICMPv6 (`NEXTHDR_ICMP`, `IPPROTO_ICMPV6`). -/
def NEXTHDR_ICMP : Nat := 58
/-- The IPv6 next-header value of the fragment header. -/
def NEXTHDR_FRAGMENT : Nat := 44
/-- The IPv4 protocol number of ICMP. -/
def IPPROTO_ICMP : Nat := 1
/-- The minimum IPv6 MTU. -/
def IPV6_MIN_MTU : Nat := 1280
/-- The error number `EINVAL`. -/
def EINVAL : Int := 22

/-! ## ICMP headers -/

/-- The ICMPv6 header (`struct icmp6hdr`); `icmp6_dataun` is the 32-bit
value of the rest of the header (`un_data32[0]`, `icmp6_pointer`,
`icmp6_mtu`, `icmp6_unused`). -/
structure icmp6hdr where
  icmp6_type : Nat
  icmp6_code : Nat
  icmp6_cksum : Nat
  icmp6_dataun : Nat
  deriving DecidableEq, Repr

/-- The member `icmp6_identifier`: the first 16 bits of the rest. -/
def icmp6hdr.icmp6_identifier (h : icmp6hdr) : Nat := h.icmp6_dataun / 65536

/-- The member `icmp6_sequence`: the last 16 bits of the rest. -/
def icmp6hdr.icmp6_sequence (h : icmp6hdr) : Nat := h.icmp6_dataun % 65536

/-- The four 16-bit words of an ICMPv6 header. -/
def icmp6hdr.words (h : icmp6hdr) : List Nat :=
  [h.icmp6_type * 256 + h.icmp6_code, h.icmp6_cksum,
   h.icmp6_dataun / 65536, h.icmp6_dataun % 65536]

/-- The ICMPv4 header (`struct icmphdr`); `un` is the 32-bit value of the
rest of the header (`icmp4_unused`; `un.echo`, `un.frag`). -/
structure icmphdr where
  type : Nat
  code : Nat
  checksum : Nat
  un : Nat
  deriving DecidableEq, Repr

/-- The member `un.echo.id`: the first 16 bits of the rest. -/
def icmphdr.echo_id (h : icmphdr) : Nat := h.un / 65536

/-- The member `un.echo.sequence`: the last 16 bits of the rest. -/
def icmphdr.echo_sequence (h : icmphdr) : Nat := h.un % 65536

/-- The member `un.frag.mtu`: the last 16 bits of the rest. -/
def icmphdr.frag_mtu (h : icmphdr) : Nat := h.un % 65536

/-- Store into the first 16 bits of the rest (`un.echo.id`,
`un.frag.__unused`). -/
def icmphdr.set_hi (h : icmphdr) (v : Nat) : icmphdr :=
  { h with un := v % 65536 * 65536 + h.un % 65536 }

/-- Store into the last 16 bits of the rest (`un.echo.sequence`,
`un.frag.mtu`). -/
def icmphdr.set_lo (h : icmphdr) (v : Nat) : icmphdr :=
  { h with un := h.un / 65536 * 65536 + v % 65536 }

/-- Store into the first 16 bits of the rest of an ICMPv6 header
(`icmp6_identifier`). -/
def icmp6hdr.set_hi (h : icmp6hdr) (v : Nat) : icmp6hdr :=
  { h with icmp6_dataun := v % 65536 * 65536 + h.icmp6_dataun % 65536 }

/-- Store into the last 16 bits of the rest of an ICMPv6 header
(`icmp6_sequence`). -/
def icmp6hdr.set_lo (h : icmp6hdr) (v : Nat) : icmp6hdr :=
  { h with icmp6_dataun := h.icmp6_dataun / 65536 * 65536 + v % 65536 }

/-- The four 16-bit words of an ICMPv4 header. -/
def icmphdr.words (h : icmphdr) : List Nat :=
  [h.type * 256 + h.code, h.checksum, h.un / 65536, h.un % 65536]

/-- Every field of the ICMPv6 header fits its width. -/
abbrev icmp6hdr.wf (h : icmp6hdr) : Prop :=
  h.icmp6_type < 256 ∧ h.icmp6_code < 256 ∧ h.icmp6_cksum < 65536 ∧
  h.icmp6_dataun < 4294967296

/-- Every field of the ICMPv4 header fits its width. -/
abbrev icmphdr.wf (h : icmphdr) : Prop :=
  h.type < 256 ∧ h.code < 256 ∧ h.checksum < 65536 ∧ h.un < 4294967296

/-- An ICMPv4 message verifies: the folded sum over its words (header with
the checksum field, payload), without any pseudo-header, is zero, as
`validate_icmp4_csum` tests it. -/
abbrev icmp4_csum_ok (datagram : List Nat) : Prop :=
  csum_fold ( csum_partial datagram 0) = 0

/-! ## ICMPv6 to ICMPv4 (`6to4.c`) -/

/-- The function `icmp4_minimum_mtu`.  Its parameters are `__u32`, `__u16`
and `__u16`, so the arguments are narrowed on entry. -/
def icmp4_minimum_mtu (packet_mtu nexthop4_mtu nexthop6_mtu : Nat) : Nat :=
  let packet_mtu := packet_mtu % 4294967296
  let nexthop4_mtu := nexthop4_mtu % 65536
  let nexthop6_mtu := nexthop6_mtu % 65536
  let result :=
    if nexthop4_mtu < packet_mtu then
      (if nexthop4_mtu < nexthop6_mtu then nexthop4_mtu else nexthop6_mtu)
    else
      (if packet_mtu < nexthop6_mtu then packet_mtu else nexthop6_mtu)
  cpu_to_be16 result

/-- What `ttp64_icmp` and its helpers get from their surroundings. -/
structure icmp64_env where
  /-- The value of `xlat_is_nat64()`. -/
  nat64 : Bool
  /-- The outgoing tuple. -/
  tuple4 : tuple4
  /-- The incoming IPv6 header. -/
  in_ip6 : ipv6hdr
  /-- The value of `pkt_datagram_len(in)`. -/
  datagram_len : Nat
  /-- The incoming payload, as 16-bit words. -/
  payload : List Nat
  /-- Whether `in->skb->ip_summed` is `CHECKSUM_NONE`. -/
  ip_summed_none : Bool
  /-- Whether `copy_payload` fails. -/
  copy_payload_error : Bool
  /-- The MTU of the device of `route4(out)`; `none` when there is no
  route. -/
  route4 : Option Nat
  /-- The MTU of `in->skb->dev`; `none` when the device is NULL. -/
  in_dev : Option Nat
  /-- The verdict of `ttpcomm_translate_inner_packet`. -/
  translate_inner : verdict
  /-- The outgoing payload `ttpcomm_translate_inner_packet` wrote. -/
  inner_out : List Nat

/-- The function `compute_mtu4` (the branch without `UNIT_TESTING`): the
error code and the outgoing header. -/
def compute_mtu4 (env : icmp64_env) (in_icmp : icmp6hdr) (out_icmp : icmphdr) :
    Int × icmphdr :=
  match env.route4 with
  | none => (-EINVAL, out_icmp)
  | some out_dev_mtu =>
    match env.in_dev with
    | none => (-EINVAL, out_icmp)
    | some in_dev_mtu =>
      let mtu := icmp4_minimum_mtu
        ((in_icmp.icmp6_dataun + 4294967296 - 20) % 4294967296)
        out_dev_mtu
        ((in_dev_mtu + 4294967296 - 20) % 4294967296)
      (0, out_icmp.set_lo mtu)

/-- The function `icmp6_to_icmp4_param_prob_ptr`: the error code and the
outgoing header. -/
def icmp6_to_icmp4_param_prob_ptr (icmpv6_hdr : icmp6hdr)
    (icmpv4_hdr : icmphdr) : Int × icmphdr :=
  let icmp6_ptr := icmpv6_hdr.icmp6_dataun
  let success (icmp4_ptr : Nat) : Int × icmphdr :=
    (0, { icmpv4_hdr with un := cpu_to_be32 (icmp4_ptr * 16777216) })
  let failure : Int × icmphdr := (-EINVAL, icmpv4_hdr)
  if 39 < icmp6_ptr then failure
  else if icmp6_ptr = 0 then success 0
  else if icmp6_ptr = 1 then success 1
  else if icmp6_ptr = 2 ∨ icmp6_ptr = 3 then failure
  else if icmp6_ptr = 4 ∨ icmp6_ptr = 5 then success 2
  else if icmp6_ptr = 6 then success 9
  else if icmp6_ptr = 7 then success 8
  else if icmp6_ptr ≥ 24 then success 16
  else if icmp6_ptr ≥ 8 then success 12
  else failure

/-- The function `icmp6_to_icmp4_dest_unreach`. -/
def icmp6_to_icmp4_dest_unreach (icmpv6_hdr : icmp6hdr)
    (icmpv4_hdr : icmphdr) : Int × icmphdr :=
  let icmpv4_hdr := { icmpv4_hdr with type := ICMP_DEST_UNREACH }
  let icmpv4_hdr := { icmpv4_hdr with un := 0 }
  if icmpv6_hdr.icmp6_code = ICMPV6_NOROUTE
      ∨ icmpv6_hdr.icmp6_code = ICMPV6_NOT_NEIGHBOUR
      ∨ icmpv6_hdr.icmp6_code = ICMPV6_ADDR_UNREACH then
    (0, { icmpv4_hdr with code := ICMP_HOST_UNREACH })
  else if icmpv6_hdr.icmp6_code = ICMPV6_ADM_PROHIBITED then
    (0, { icmpv4_hdr with code := ICMP_HOST_ANO })
  else if icmpv6_hdr.icmp6_code = ICMPV6_PORT_UNREACH then
    (0, { icmpv4_hdr with code := ICMP_PORT_UNREACH })
  else
    (-EINVAL, icmpv4_hdr)

/-- The function `icmp6_to_icmp4_param_prob`. -/
def icmp6_to_icmp4_param_prob (icmpv6_hdr : icmp6hdr) (icmpv4_hdr : icmphdr) :
    Int × icmphdr :=
  if icmpv6_hdr.icmp6_code = ICMPV6_HDR_FIELD then
    let icmpv4_hdr := { icmpv4_hdr with type := ICMP_PARAMETERPROB }
    let icmpv4_hdr := { icmpv4_hdr with code := 0 }
    -- `if (error) return error;`, and `return 0` otherwise
    icmp6_to_icmp4_param_prob_ptr icmpv6_hdr icmpv4_hdr
  else if icmpv6_hdr.icmp6_code = ICMPV6_UNK_NEXTHDR then
    let icmpv4_hdr := { icmpv4_hdr with type := ICMP_DEST_UNREACH }
    let icmpv4_hdr := { icmpv4_hdr with code := ICMP_PROT_UNREACH }
    (0, { icmpv4_hdr with un := 0 })
  else
    (-EINVAL, icmpv4_hdr)

/-- The function `update_icmp4_csum`. -/
def update_icmp4_csum (env : icmp64_env) (in_icmp : icmp6hdr)
    (out_icmp : icmphdr) : Int × icmphdr :=
  let csum := not32 (csum_unfold in_icmp.icmp6_cksum)
  -- Remove the ICMPv6 pseudo-header.
  let tmp := not32 (csum_unfold (csum_ipv6_magic env.in_ip6.saddr
    env.in_ip6.daddr env.datagram_len NEXTHDR_ICMP 0))
  let csum := csum_sub csum tmp
  -- Remove the ICMPv6 header.
  let copy_hdr := { in_icmp with icmp6_cksum := 0 }
  let tmp := csum_partial copy_hdr.words 0
  let csum := csum_sub csum tmp
  -- Add the ICMPv4 header.
  let out_icmp := { out_icmp with checksum := 0 }
  let tmp := csum_partial out_icmp.words 0
  let csum := csum_add csum tmp
  (0, { out_icmp with checksum := csum_fold csum })

/-- The function `compute_icmp4_csum`; the datagram of `out` is its ICMPv4
header followed by the payload the inner translation wrote. -/
def compute_icmp4_csum (env : icmp64_env) (hdr : icmphdr) : Int × icmphdr :=
  let hdr := { hdr with checksum := 0 }
  let check := csum_fold ( csum_partial (hdr.words ++ env.inner_out) 0)
  (0, { hdr with checksum := check })

/-- The function `validate_icmp6_csum`. -/
def validate_icmp6_csum (env : icmp64_env) (in_icmp : icmp6hdr) : verdict :=
  if !env.ip_summed_none then VERDICT_CONTINUE
  else
    let csum := csum_ipv6_magic env.in_ip6.saddr env.in_ip6.daddr
      env.datagram_len NEXTHDR_ICMP
      ( csum_partial (in_icmp.words ++ env.payload) 0)
    if csum ≠ 0 then VERDICT_DROP else VERDICT_CONTINUE

/-- The function `post_icmp4info`. -/
def post_icmp4info (env : icmp64_env) (in_icmp : icmp6hdr)
    (out_icmp : icmphdr) : Int × icmphdr :=
  if env.copy_payload_error then (-EINVAL, out_icmp)
  else update_icmp4_csum env in_icmp out_icmp

/-- The function `post_icmp4error`. -/
def post_icmp4error (env : icmp64_env) (in_icmp : icmp6hdr)
    (out_icmp : icmphdr) : verdict × icmphdr :=
  let result := validate_icmp6_csum env in_icmp
  if result ≠ VERDICT_CONTINUE then (result, out_icmp)
  else
    let result := env.translate_inner
    if result ≠ VERDICT_CONTINUE then (result, out_icmp)
    else
      let r := compute_icmp4_csum env out_icmp
      (if r.1 ≠ 0 then VERDICT_DROP else VERDICT_CONTINUE, r.2)

/-- The function `ttp64_icmp` of `6to4.c`: the verdict and the outgoing
ICMPv4 header, whose previous content is `out0`. -/
def ttp64_icmp (env : icmp64_env) (icmpv6_hdr : icmp6hdr) (out0 : icmphdr) :
    verdict × icmphdr :=
  let icmpv4_hdr := { out0 with checksum := icmpv6_hdr.icmp6_cksum }
  let finish (r : Int × icmphdr) : verdict × icmphdr :=
    (if r.1 ≠ 0 then VERDICT_DROP else VERDICT_CONTINUE, r.2)
  let echo_id :=
    if env.nat64 then cpu_to_be16 env.tuple4.icmp4_id
    else icmpv6_hdr.icmp6_identifier
  if icmpv6_hdr.icmp6_type = ICMPV6_ECHO_REQUEST then
    let icmpv4_hdr := { icmpv4_hdr with type := ICMP_ECHO }
    let icmpv4_hdr := { icmpv4_hdr with code := 0 }
    let icmpv4_hdr := icmpv4_hdr.set_hi echo_id
    let icmpv4_hdr := icmpv4_hdr.set_lo icmpv6_hdr.icmp6_sequence
    finish (post_icmp4info env icmpv6_hdr icmpv4_hdr)
  else if icmpv6_hdr.icmp6_type = ICMPV6_ECHO_REPLY then
    let icmpv4_hdr := { icmpv4_hdr with type := ICMP_ECHOREPLY }
    let icmpv4_hdr := { icmpv4_hdr with code := 0 }
    let icmpv4_hdr := icmpv4_hdr.set_hi echo_id
    let icmpv4_hdr := icmpv4_hdr.set_lo icmpv6_hdr.icmp6_sequence
    finish (post_icmp4info env icmpv6_hdr icmpv4_hdr)
  else if icmpv6_hdr.icmp6_type = ICMPV6_DEST_UNREACH then
    let r := icmp6_to_icmp4_dest_unreach icmpv6_hdr icmpv4_hdr
    if r.1 ≠ 0 then (VERDICT_DROP, r.2)
    else post_icmp4error env icmpv6_hdr r.2
  else if icmpv6_hdr.icmp6_type = ICMPV6_PKT_TOOBIG then
    let icmpv4_hdr := { icmpv4_hdr with type := ICMP_DEST_UNREACH }
    let icmpv4_hdr := { icmpv4_hdr with code := ICMP_FRAG_NEEDED }
    let icmpv4_hdr := icmpv4_hdr.set_hi 0
    let r := compute_mtu4 env icmpv6_hdr icmpv4_hdr
    if r.1 ≠ 0 then (VERDICT_DROP, r.2)
    else post_icmp4error env icmpv6_hdr r.2
  else if icmpv6_hdr.icmp6_type = ICMPV6_TIME_EXCEED then
    let icmpv4_hdr := { icmpv4_hdr with type := ICMP_TIME_EXCEEDED }
    let icmpv4_hdr := { icmpv4_hdr with code := icmpv6_hdr.icmp6_code }
    let icmpv4_hdr := { icmpv4_hdr with un := 0 }
    post_icmp4error env icmpv6_hdr icmpv4_hdr
  else if icmpv6_hdr.icmp6_type = ICMPV6_PARAMPROB then
    let r := icmp6_to_icmp4_param_prob icmpv6_hdr icmpv4_hdr
    if r.1 ≠ 0 then (VERDICT_DROP, r.2)
    else post_icmp4error env icmpv6_hdr r.2
  else
    (VERDICT_DROP, icmpv4_hdr)

/-! ## ICMPv4 to ICMPv6 (`4to6.c`) -/

/-- The configured MTU plateaus (`globals.plateaus`): the array and the
number of its entries in use. -/
structure mtu_plateaus where
  values : List Nat
  count : Nat
  deriving DecidableEq, Repr

/-- What `ttp46_icmp` and its helpers get from their surroundings. -/
structure icmp46_env where
  /-- The value of `xlation_is_nat64(state)`. -/
  nat64 : Bool
  /-- The tuple of the outgoing packet (`state->out.tuple`). -/
  tuple6 : tuple6
  /-- The outgoing IPv6 header. -/
  out_ip6 : ipv6hdr
  /-- The value of `pkt_datagram_len(&state->in)`. -/
  datagram_len : Nat
  /-- The incoming payload, as 16-bit words. -/
  payload : List Nat
  /-- Whether `in->skb->ip_summed` is `CHECKSUM_NONE`. -/
  ip_summed_none : Bool
  /-- The MTU of the device of `route6`; `none` when there is no route. -/
  route6 : Option Nat
  /-- The MTU of `state->in.skb->dev`; `none` when the device is NULL. -/
  in_dev : Option Nat
  /-- The configured plateaus. -/
  plateaus : mtu_plateaus
  /-- The Total Length of the IPv4 header embedded in the payload. -/
  inner_tot_len : Nat
  /-- The verdict of `ttpcomm_translate_inner_packet`. -/
  translate_inner : verdict
  /-- The outgoing payload `ttpcomm_translate_inner_packet` wrote. -/
  inner_out : List Nat
  /-- The value of `pkt_datagram_len(out)`. -/
  out_datagram_len : Nat

/-- The function `icmp6_minimum_mtu`.  The parameters `packet_mtu`,
`nexthop6_mtu` and `nexthop4_mtu` are `unsigned int`, the sums are computed
in 32 bits. -/
def icmp6_minimum_mtu (plateaus : mtu_plateaus)
    (packet_mtu nexthop6_mtu nexthop4_mtu tot_len_field : Nat) : Nat :=
  let packet_mtu :=
    if packet_mtu = 0 then
      -- The first plateau below the Total Length, if there is one.
      match (plateaus.values.take plateaus.count).find?
          (fun p => decide (p < tot_len_field)) with
      | some p => p
      | none => packet_mtu
    else packet_mtu
  let result := min ((packet_mtu + 20) % 4294967296)
    (min nexthop6_mtu ((nexthop4_mtu + 20) % 4294967296))
  let result := if result < IPV6_MIN_MTU then IPV6_MIN_MTU else result
  cpu_to_be32 result

/-- The function `compute_mtu6` (the branch without `UNIT_TESTING`). -/
def compute_mtu6 (env : icmp46_env) (in_icmp : icmphdr) (out_icmp : icmp6hdr) :
    step_result icmp6hdr :=
  match env.route6 with
  | none => drop out_icmp
  | some out_dev_mtu =>
    let in_mtu := match env.in_dev with
      | some mtu => mtu
      | none => 268435455
    let mtu := icmp6_minimum_mtu env.plateaus in_icmp.frag_mtu out_dev_mtu
      in_mtu env.inner_tot_len
    { result := VERDICT_CONTINUE, sent := [],
      out := { out_icmp with icmp6_dataun := mtu } }

/-- The function `icmp4_to_icmp6_dest_unreach`. -/
def icmp4_to_icmp6_dest_unreach (env : icmp46_env) (icmp4_hdr : icmphdr)
    (icmp6_hdr : icmp6hdr) : step_result icmp6hdr :=
  let icmp6_hdr := { icmp6_hdr with icmp6_type := ICMPV6_DEST_UNREACH }
  let icmp6_hdr := { icmp6_hdr with icmp6_dataun := 0 }
  let code := icmp4_hdr.code
  if code = ICMP_NET_UNREACH ∨ code = ICMP_HOST_UNREACH
      ∨ code = ICMP_SR_FAILED ∨ code = ICMP_NET_UNKNOWN
      ∨ code = ICMP_HOST_UNKNOWN ∨ code = ICMP_HOST_ISOLATED
      ∨ code = ICMP_NET_UNR_TOS ∨ code = ICMP_HOST_UNR_TOS then
    { result := VERDICT_CONTINUE, sent := [],
      out := { icmp6_hdr with icmp6_code := ICMPV6_NOROUTE } }
  else if code = ICMP_PROT_UNREACH then
    let icmp6_hdr := { icmp6_hdr with icmp6_type := ICMPV6_PARAMPROB }
    let icmp6_hdr := { icmp6_hdr with icmp6_code := ICMPV6_UNK_NEXTHDR }
    -- offsetof(struct ipv6hdr, nexthdr) is 6
    { result := VERDICT_CONTINUE, sent := [],
      out := { icmp6_hdr with icmp6_dataun := cpu_to_be32 6 } }
  else if code = ICMP_PORT_UNREACH then
    { result := VERDICT_CONTINUE, sent := [],
      out := { icmp6_hdr with icmp6_code := ICMPV6_PORT_UNREACH } }
  else if code = ICMP_FRAG_NEEDED then
    let icmp6_hdr := { icmp6_hdr with icmp6_type := ICMPV6_PKT_TOOBIG }
    let icmp6_hdr := { icmp6_hdr with icmp6_code := 0 }
    compute_mtu6 env icmp4_hdr icmp6_hdr
  else if code = ICMP_NET_ANO ∨ code = ICMP_HOST_ANO
      ∨ code = ICMP_PKT_FILTERED ∨ code = ICMP_PREC_CUTOFF then
    { result := VERDICT_CONTINUE, sent := [],
      out := { icmp6_hdr with icmp6_code := ICMPV6_ADM_PROHIBITED } }
  else
    drop icmp6_hdr

/-- The marker `DROP` of the pointer table. -/
def PTR_DROP : Nat := 255

/-- The table `ptrs` of `icmp4_to_icmp6_param_prob`. -/
def ptrs : List Nat :=
  [0,        1,        4,        4,
   PTR_DROP, PTR_DROP, PTR_DROP, PTR_DROP,
   7,        6,        PTR_DROP, PTR_DROP,
   8,        8,        8,        8,
   24,       24,       24,       24]

/-- The function `icmp4_to_icmp6_param_prob`. -/
def icmp4_to_icmp6_param_prob (icmp4_hdr : icmphdr) (icmp6_hdr : icmp6hdr) :
    step_result icmp6hdr :=
  let icmp6_hdr := { icmp6_hdr with icmp6_type := ICMPV6_PARAMPROB }
  if icmp4_hdr.code = ICMP_PTR_INDICATES_ERROR
      ∨ icmp4_hdr.code = ICMP_BAD_LENGTH then
    -- ptr is a __u8
    let ptr := icmp4_hdr.un % 4294967296 / 16777216 % 256
    if 19 < ptr ∨ ptrs.getD ptr 0 = PTR_DROP then
      drop icmp6_hdr
    else
      let icmp6_hdr := { icmp6_hdr with icmp6_code := ICMPV6_HDR_FIELD }
      { result := VERDICT_CONTINUE, sent := [],
        out := { icmp6_hdr with icmp6_dataun := cpu_to_be32 (ptrs.getD ptr 0) } }
  else
    drop icmp6_hdr

/-- The function `update_icmp6_csum`. -/
def update_icmp6_csum (env : icmp46_env) (in_icmp : icmphdr)
    (out_icmp : icmp6hdr) : icmp6hdr :=
  let out_icmp := { out_icmp with icmp6_cksum := 0 }
  let csum := not32 (csum_unfold in_icmp.checksum)
  let copy_hdr := { in_icmp with checksum := 0 }
  let csum := csum_sub csum ( csum_partial copy_hdr.words 0)
  let csum := csum_add csum ( csum_partial out_icmp.words 0)
  let check := csum_ipv6_magic env.out_ip6.saddr env.out_ip6.daddr
    env.datagram_len NEXTHDR_ICMP csum
  { out_icmp with icmp6_cksum := check }

/-- The function `compute_icmp6_csum`. -/
def compute_icmp6_csum (env : icmp46_env) (out_icmp : icmp6hdr) : icmp6hdr :=
  let out_icmp := { out_icmp with icmp6_cksum := 0 }
  let csum := csum_partial (out_icmp.words ++ env.inner_out) 0
  let check := csum_ipv6_magic env.out_ip6.saddr env.out_ip6.daddr
    env.out_datagram_len NEXTHDR_ICMP csum
  { out_icmp with icmp6_cksum := check }

/-- The function `validate_icmp4_csum`. -/
def validate_icmp4_csum (env : icmp46_env) (in_icmp : icmphdr) : verdict :=
  if !env.ip_summed_none then VERDICT_CONTINUE
  else
    let csum := csum_fold ( csum_partial (in_icmp.words ++ env.payload) 0)
    if csum ≠ 0 then VERDICT_DROP else VERDICT_CONTINUE

/-- The function `post_icmp6error`. -/
def post_icmp6error (env : icmp46_env) (in_icmp : icmphdr)
    (out_icmp : icmp6hdr) : step_result icmp6hdr :=
  let result := validate_icmp4_csum env in_icmp
  if result ≠ VERDICT_CONTINUE then
    { result := result, sent := [], out := out_icmp }
  else
    let result := env.translate_inner
    if result ≠ VERDICT_CONTINUE then
      { result := result, sent := [], out := out_icmp }
    else
      { result := VERDICT_CONTINUE, sent := [],
        out := compute_icmp6_csum env out_icmp }

/-- The function `ttp46_icmp` of `4to6.c`: the verdict and the outgoing
ICMPv6 header, whose previous content is `out0`. -/
def ttp46_icmp (env : icmp46_env) (icmpv4_hdr : icmphdr) (out0 : icmp6hdr) :
    step_result icmp6hdr :=
  let icmpv6_hdr := { out0 with icmp6_cksum := icmpv4_hdr.checksum }
  let echo_id :=
    if env.nat64 then cpu_to_be16 env.tuple6.icmp6_id
    else icmpv4_hdr.echo_id
  if icmpv4_hdr.type = ICMP_ECHO then
    let icmpv6_hdr := { icmpv6_hdr with icmp6_type := ICMPV6_ECHO_REQUEST }
    let icmpv6_hdr := { icmpv6_hdr with icmp6_code := 0 }
    let icmpv6_hdr := icmpv6_hdr.set_hi echo_id
    let icmpv6_hdr := icmpv6_hdr.set_lo icmpv4_hdr.echo_sequence
    { result := VERDICT_CONTINUE, sent := [],
      out := update_icmp6_csum env icmpv4_hdr icmpv6_hdr }
  else if icmpv4_hdr.type = ICMP_ECHOREPLY then
    let icmpv6_hdr := { icmpv6_hdr with icmp6_type := ICMPV6_ECHO_REPLY }
    let icmpv6_hdr := { icmpv6_hdr with icmp6_code := 0 }
    let icmpv6_hdr := icmpv6_hdr.set_hi echo_id
    let icmpv6_hdr := icmpv6_hdr.set_lo icmpv4_hdr.echo_sequence
    { result := VERDICT_CONTINUE, sent := [],
      out := update_icmp6_csum env icmpv4_hdr icmpv6_hdr }
  else if icmpv4_hdr.type = ICMP_DEST_UNREACH then
    let r := icmp4_to_icmp6_dest_unreach env icmpv4_hdr icmpv6_hdr
    if r.result ≠ VERDICT_CONTINUE then r
    else post_icmp6error env icmpv4_hdr r.out
  else if icmpv4_hdr.type = ICMP_TIME_EXCEEDED then
    let icmpv6_hdr := { icmpv6_hdr with icmp6_type := ICMPV6_TIME_EXCEED }
    let icmpv6_hdr := { icmpv6_hdr with icmp6_code := icmpv4_hdr.code }
    let icmpv6_hdr := { icmpv6_hdr with icmp6_dataun := 0 }
    post_icmp6error env icmpv4_hdr icmpv6_hdr
  else if icmpv4_hdr.type = ICMP_PARAMETERPROB then
    let r := icmp4_to_icmp6_param_prob icmpv4_hdr icmpv6_hdr
    if r.result ≠ VERDICT_CONTINUE then r
    else post_icmp6error env icmpv4_hdr r.out
  else
    drop icmpv6_hdr

/-! ## Packets -/

/-- The part of `struct packet` (and of its `sk_buff`) that the layer-3
translators read, whatever the family. -/
structure packet where
  /-- The value of `skb->len` (also `pkt_len`). -/
  skb_len : Nat
  /-- Whether `skb_shinfo(skb)->frag_list` is set. -/
  frag_list : Bool
  /-- The value of `pkt_is_inner`; `pkt_is_outer` is its negation. -/
  is_inner : Bool
  /-- The value of `pkt_is_fragment`. -/
  is_fragment : Bool
  /-- The value of `pkt_is_icmp6_error` resp. `pkt_is_icmp4_error`. -/
  is_icmp_error : Bool
  /-- The value of `pkt_hdrs_len`. -/
  hdrs_len : Nat
  /-- The member `is_hairpin` (`pkt_is_intrinsic_hairpin`). -/
  is_hairpin : Bool
  deriving DecidableEq, Repr

/-- The value of `pkt_is_outer`. -/
def packet.is_outer (pkt : packet) : Bool := !pkt.is_inner

/-- An incoming IPv6 packet, as `ttp64_ipv4` sees it. -/
structure packet6 where
  pkt : packet
  /-- The IPv6 header (`pkt_ip6_hdr`). -/
  hdr : ipv6hdr
  /-- The fragment header (`pkt_frag_hdr`), if there is one. -/
  hdr_frag : Option frag_hdr
  /-- The header type `hdr_iterator_last` stops at. -/
  last_hdr_type : Nat
  /-- The outcome of `hdr_iterator_find(hdr, NEXTHDR_ROUTING)`: the byte
  offset of the first routing header from the start of the IPv6 header and
  its Segments Left field. -/
  rt_hdr : Option (Nat × Nat)
  /-- The value of `get_tot_len_ipv6(skb)`. -/
  tot_len_ipv6 : Nat
  deriving DecidableEq, Repr

/-- An incoming IPv4 packet, as `ttp46_ipv6` sees it. -/
structure packet4 where
  pkt : packet
  /-- The IPv4 header (`pkt_ip4_hdr`). -/
  hdr : iphdr
  /-- The bytes that follow the 20 fixed bytes of the header in memory (the
  options first). -/
  opts : List Nat
  /-- The destination address of the IPv4 header at `pkt_payload(in)`. -/
  inner_daddr : Nat
  deriving DecidableEq, Repr

/-! ## IPv6 to IPv4, layer 3 (`6to4.c`) -/

/-- The result type `addrxlat_verdict`. -/
inductive addrxlat_verdict where
  | ADDRXLAT_CONTINUE
  | ADDRXLAT_TRY_SOMETHING_ELSE
  | ADDRXLAT_ACCEPT
  | ADDRXLAT_DROP
  deriving DecidableEq, Repr

open addrxlat_verdict

/-- The error number `ESRCH`. -/
def ESRCH : Int := 3

/-- An IPv6 prefix: address and length. -/
structure prefix6 where
  address : in6_addr
  len : Nat
  deriving DecidableEq, Repr

/-- The EAM hairpinning modes (`EAM_HAIRPIN_*` in `6to4.c`, `EHM_*` in
`4to6.c`). -/
inductive eam_hairpinning_mode where
  | EAM_HAIRPIN_OFF
  | EAM_HAIRPIN_SIMPLE
  | EAM_HAIRPIN_INTRINSIC
  deriving DecidableEq, Repr

open eam_hairpinning_mode

/-- The tables and the configuration the SIIT address translation of
`6to4.c` consults; each function returns the error code of the call and the
value it wrote. -/
structure siit64_env where
  eamt_xlat_6to4 : in6_addr → Int × Nat
  pool6_get : in6_addr → Int × prefix6
  addr_6to4 : in6_addr → prefix6 → Int × Nat
  blacklist_contains : Nat → Bool
  must_not_translate : Nat → Bool
  /-- The call `rfc6791_get(in, out, &hdr4->saddr)`. -/
  rfc6791_get : Int × Nat
  /-- The value of `config_eam_hairpin_mode()`. -/
  eam_hairpin_mode : eam_hairpinning_mode
  eamt_contains4 : Nat → Bool

/-- The function `generate_addr4_siit`: the verdict, the content of
`*addr4` afterwards (`addr4` before the call) and `*was_6052`. -/
def generate_addr4_siit (env : siit64_env) (addr6 : in6_addr) (addr4 : Nat) :
    addrxlat_verdict × Nat × Bool :=
  let success (tmp : Nat) (was_6052 : Bool) : addrxlat_verdict × Nat × Bool :=
    if env.must_not_translate tmp then (ADDRXLAT_ACCEPT, addr4, was_6052)
    else (ADDRXLAT_CONTINUE, tmp, was_6052)
  let e := env.eamt_xlat_6to4 addr6
  if e.1 = 0 then success e.2 false
  else if e.1 ≠ -ESRCH then (ADDRXLAT_DROP, addr4, false)
  else
    let p := env.pool6_get addr6
    if p.1 = -ESRCH then (ADDRXLAT_TRY_SOMETHING_ELSE, addr4, false)
    else if p.1 ≠ 0 then (ADDRXLAT_DROP, addr4, false)
    else
      let a := env.addr_6to4 addr6 p.2
      if a.1 ≠ 0 then (ADDRXLAT_DROP, addr4, false)
      else if env.blacklist_contains a.2 then (ADDRXLAT_ACCEPT, addr4, false)
      else success a.2 true

/-- The function `translate_addrs64_siit`: the verdict, the outgoing header
and the flag `out->is_hairpin` (`hairpin0` before the call).  The cast
`(verdict)result` takes `ADDRXLAT_ACCEPT` and `ADDRXLAT_DROP` to the
verdicts of the same name. -/
def translate_addrs64_siit (env : siit64_env) (inp : packet6) (hdr4 : iphdr)
    (hairpin0 : Bool) : verdict × iphdr × Bool :=
  let hdr6 := inp.hdr
  -- Destination address first.
  let d := generate_addr4_siit env hdr6.daddr hdr4.daddr
  let hdr4 := { hdr4 with daddr := d.2.1 }
  let dst_was_6052 := d.2.2
  match d.1 with
  | ADDRXLAT_TRY_SOMETHING_ELSE => (VERDICT_ACCEPT, hdr4, hairpin0)
  | ADDRXLAT_ACCEPT => (VERDICT_ACCEPT, hdr4, hairpin0)
  | ADDRXLAT_DROP => (VERDICT_DROP, hdr4, hairpin0)
  | ADDRXLAT_CONTINUE =>
    -- Source address.
    let s := generate_addr4_siit env hdr6.saddr hdr4.saddr
    let hdr4 := { hdr4 with saddr := s.2.1 }
    let src_was_6052 := s.2.2
    let mark (hdr4 : iphdr) : verdict × iphdr × Bool :=
      if env.eam_hairpin_mode = EAM_HAIRPIN_INTRINSIC then
        if inp.pkt.is_outer && !inp.pkt.is_icmp_error && dst_was_6052
            && env.eamt_contains4 hdr4.daddr then
          (VERDICT_CONTINUE, hdr4, true)
        else if inp.pkt.is_inner && src_was_6052
            && env.eamt_contains4 hdr4.saddr then
          (VERDICT_CONTINUE, hdr4, true)
        else (VERDICT_CONTINUE, hdr4, hairpin0)
      else (VERDICT_CONTINUE, hdr4, hairpin0)
    match s.1 with
    | ADDRXLAT_CONTINUE => mark hdr4
    | ADDRXLAT_TRY_SOMETHING_ELSE =>
      if inp.pkt.is_icmp_error then
        -- rfc6791_get writes the address only when it succeeds.
        if env.rfc6791_get.1 = 0 then
          mark { hdr4 with saddr := env.rfc6791_get.2 }
        else (VERDICT_ACCEPT, hdr4, hairpin0)
      else (VERDICT_ACCEPT, hdr4, hairpin0)
    | ADDRXLAT_ACCEPT => (VERDICT_ACCEPT, hdr4, hairpin0)
    | ADDRXLAT_DROP => (VERDICT_DROP, hdr4, hairpin0)

/-- The configuration `config_get_hdr4_config` hands out. -/
structure hdr4_config where
  reset_tos : Bool
  new_tos : Nat
  build_ipv4_id : Bool
  df_always_on : Bool
  deriving DecidableEq, Repr

/-- Modelled from the spec: the helper get_traffic_class is not among the
sources; the IPv6 traffic class, made of the priority nibble and the high
nibble of `flow_lbl[0]`. -/
def get_traffic_class (hdr : ipv6hdr) : Nat :=
  hdr.priority % 16 * 16 + hdr.flow_lbl0 % 256 / 16

/-- The function `__xlat_tos`. -/
def __xlat_tos (reset_tos : Bool) (new_tos : Nat) (hdr : ipv6hdr) : Nat :=
  if reset_tos then new_tos else get_traffic_class hdr

/-- The function `ttp64_xlat_proto`; the iterator's final header type is a
member of the packet. -/
def ttp64_xlat_proto (inp : packet6) : Nat :=
  if inp.last_hdr_type = NEXTHDR_ICMP then IPPROTO_ICMP else inp.last_hdr_type

/-- The function `build_tot_len`.  `uninit` is the indeterminate value of
the local `total_len` on the path that assigns nothing to it. -/
def build_tot_len (inp : packet6) (out : packet) (uninit : Nat) : Nat :=
  let total_len :=
    if out.is_inner then
      (inp.tot_len_ipv6 + 65536 - inp.pkt.hdrs_len % 65536 + out.hdrs_len)
        % 65536
    else if !out.is_fragment then
      let total_len := out.skb_len % 65536
      if out.is_icmp_error && decide (total_len > 576) then 576 else total_len
    else if out.frag_list then
      (inp.pkt.skb_len + 65536 - inp.pkt.hdrs_len % 65536 + out.hdrs_len)
        % 65536
    else uninit % 65536
  cpu_to_be16 total_len

/-- The function `generate_ipv4_id_nofrag`; `random` are the two bytes
`get_random_bytes` delivers. -/
def generate_ipv4_id_nofrag (out : packet) (random : Nat) : Nat :=
  if out.skb_len ≤ 1260 then random % 65536 else 0

/-- The function `generate_df_flag`. -/
def generate_df_flag (out : packet) : Bool := decide (out.skb_len > 1260)

/-- Modelled from the spec: the helper build_ipv4_frag_off_field is not
among the sources; the IPv4 `frag_off` word made of DF (bit 14), MF (bit 13)
and the fragment offset in bytes divided by 8.  The three parts do not
overlap, so the bitwise or is a sum. -/
def build_ipv4_frag_off_field (df mf : Bool) (frag_offset : Nat) : Nat :=
  cpu_to_be16 ((if df then 16384 else 0) + (if mf then 8192 else 0)
    + frag_offset % 65536 / 8)

/-- Modelled from the spec: the helper is_more_fragments_set_ipv6 is not
among the sources; the M flag (lowest bit) of the fragment header's
`frag_off`. -/
def is_more_fragments_set_ipv6 (hdr : frag_hdr) : Bool :=
  decide (hdr.frag_off % 2 = 1)

/-- Modelled from the spec: the helper get_fragment_offset_ipv6 is not among
the sources; the fragment offset in bytes, `frag_off & 0xFFF8`. -/
def get_fragment_offset_ipv6 (hdr : frag_hdr) : Nat :=
  hdr.frag_off % 65536 / 8 * 8

/-- The function `has_nonzero_segments_left`: whether the first routing
header has a nonzero Segments Left, and the content of `*field_location`
afterwards.  The member `segments_left` is at offset 3 of
`struct ipv6_rt_hdr`. -/
def has_nonzero_segments_left (inp : packet6) (field_location : Nat) :
    Bool × Nat :=
  match inp.rt_hdr with
  | none => (false, field_location)
  | some (offset, segments_left) =>
    if segments_left = 0 then (false, field_location)
    else (true, (offset + 3) % 4294967296)

/-- The function `generate_ipv4_id_dofrag` on the numbers the fields stand
for: `ipv6_frag_hdr.identification` is what `be32_to_cpu` makes of the
field.  `wire.generate_ipv4_id_dofrag` below has the function on the
content of the field, with both conversions. -/
def generate_ipv4_id_dofrag (ipv6_frag_hdr : frag_hdr) : Nat :=
  cpu_to_be16 ipv6_frag_hdr.identification

/-- The 16-bit words of the IPv4 header, in wire order. -/
def iphdr.words (h : iphdr) : List Nat :=
  [(h.version * 16 + h.ihl) * 256 + h.tos, h.tot_len, h.id, h.frag_off,
   h.ttl * 256 + h.protocol, h.check, h.saddr / 65536, h.saddr % 65536,
   h.daddr / 65536, h.daddr % 65536]

/-- Modelled from the spec: the kernel helper ip_fast_csum is not among the
sources; the folded, complemented sum of the `ihl` 32-bit words of the
header ("Compute IPv4 header checksum"). -/
def ip_fast_csum (hdr : iphdr) (ihl : Nat) : Nat :=
  csum_fold ( csum_partial (hdr.words.take (2 * ihl)) 0)

/-- The address block of `ttp64_ipv4` ("Translate the address before TTL
because of issue #167"): in NAT64 mode the addresses of the outgoing tuple,
otherwise the outcome of `translate_addrs64_siit`.  The result is the
verdict, the outgoing header and `out->is_hairpin`. -/
def ttp64_ipv4_addrs (nat64 : Bool) (siit : siit64_env) (tuple4 : tuple4)
    (inp : packet6) (ip4_hdr : iphdr) (hairpin0 : Bool) :
    verdict × iphdr × Bool :=
  if nat64 then
    (VERDICT_CONTINUE,
     { ip4_hdr with saddr := tuple4.src.l3, daddr := tuple4.dst.l3 },
     hairpin0)
  else translate_addrs64_siit siit inp ip4_hdr hairpin0

/-- The function `ttp64_ipv4` of `6to4.c`.  `hdr0` and `hairpin0` are the
previous content of the outgoing header and of `out->is_hairpin`; the
result carries the outgoing header and `out->is_hairpin`. -/
def ttp64_ipv4 (cfg : hdr4_config) (nat64 : Bool) (siit : siit64_env)
    (tuple4 : tuple4) (random uninit : Nat) (inp : packet6) (out : packet)
    (hdr0 : iphdr) (hairpin0 : Bool) : step_result (iphdr × Bool) :=
  let ip6_hdr := inp.hdr
  let ip4_hdr := { hdr0 with tos := __xlat_tos cfg.reset_tos cfg.new_tos ip6_hdr }
  let ip4_hdr := { ip4_hdr with protocol := ttp64_xlat_proto inp }
  -- Translate the address before TTL because of issue #167.
  let a := ttp64_ipv4_addrs nat64 siit tuple4 inp ip4_hdr hairpin0
  if a.1 ≠ VERDICT_CONTINUE then
    { result := a.1, sent := [], out := (a.2.1, a.2.2) }
  else
    let ip4_hdr := a.2.1
    let hairpin := a.2.2
    let ip4_hdr := { ip4_hdr with version := 4 }
    let ip4_hdr := { ip4_hdr with ihl := 5 }
    let ip4_hdr := { ip4_hdr with tot_len := build_tot_len inp out uninit }
    let id := if cfg.build_ipv4_id then generate_ipv4_id_nofrag out random else 0
    let ip4_hdr := { ip4_hdr with id := id }
    let dont_fragment := if cfg.df_always_on then true else generate_df_flag out
    let ip4_hdr :=
      { ip4_hdr with frag_off := build_ipv4_frag_off_field dont_fragment false 0 }
    if inp.pkt.is_outer && decide (ip6_hdr.hop_limit ≤ 1) then
      { result := VERDICT_DROP, sent := [{ code := ICMPERR_HOP_LIMIT, info := 0 }],
        out := (ip4_hdr, hairpin) }
    else
      let ttl :=
        if inp.pkt.is_outer then (ip6_hdr.hop_limit + 256 - 1) % 256
        else ip6_hdr.hop_limit
      let ip4_hdr := { ip4_hdr with ttl := ttl }
      let seg := has_nonzero_segments_left inp 0
      if inp.pkt.is_outer && seg.1 then
        { result := VERDICT_DROP,
          sent := [{ code := ICMPERR_HDR_FIELD, info := seg.2 }],
          out := (ip4_hdr, hairpin) }
      else
        let ip4_hdr :=
          match inp.hdr_frag with
          | some ip6_frag_hdr =>
            let ip4_hdr :=
              { ip4_hdr with id := generate_ipv4_id_dofrag ip6_frag_hdr }
            let frag_off := build_ipv4_frag_off_field false
              (is_more_fragments_set_ipv6 ip6_frag_hdr)
              (get_fragment_offset_ipv6 ip6_frag_hdr)
            { ip4_hdr with frag_off := frag_off }
          | none => ip4_hdr
        let ip4_hdr := { ip4_hdr with check := 0 }
        let ip4_hdr := { ip4_hdr with check := ip_fast_csum ip4_hdr ip4_hdr.ihl }
        -- Adapt to kernel hacks: frag_off &= cpu_to_be16(~IP_MF).
        let ip4_hdr :=
          if inp.pkt.frag_list then
            { ip4_hdr with
              frag_off := ip4_hdr.frag_off - ip4_hdr.frag_off / 8192 % 2 * 8192 }
          else ip4_hdr
        { result := VERDICT_CONTINUE, sent := [], out := (ip4_hdr, hairpin) }

/-! ## IPv4 to IPv6, layer 3 (`4to6.c`) -/

/-- The IPv4 option type End of Option List. -/
def IPOPT_END : Nat := 0
/-- The IPv4 option type No Operation. -/
def IPOPT_NOOP : Nat := 1
/-- The IPv4 option type Loose Source and Record Route. -/
def IPOPT_LSRR : Nat := 131
/-- The IPv4 option type Strict Source and Record Route. -/
def IPOPT_SSRR : Nat := 137

/-- Modelled from the spec: the helper is_df_set is not among the sources;
the Don't Fragment bit (0x4000) of the IPv4 `frag_off` field. -/
def is_df_set (hdr : iphdr) : Bool := decide (hdr.frag_off / 16384 % 2 = 1)

/-- Modelled from the spec: the helper get_fragment_offset_ipv4 is not among
the sources; the fragment offset in bytes, `(frag_off & 0x1FFF) << 3`. -/
def get_fragment_offset_ipv4 (hdr : iphdr) : Nat := hdr.frag_off % 8192 * 8

/-- Modelled from the spec: the helper is_fragmented_ipv4 is not among the
sources; the packet is a fragment when its offset is nonzero or MF is set. -/
def is_fragmented_ipv4 (hdr : iphdr) : Bool :=
  decide (get_fragment_offset_ipv4 hdr ≠ 0) || is_mf_set_ipv4 hdr

/-- Modelled from the spec: the helper will_need_frag_hdr is not among the
sources; "if the input is fragmented or DF=0, prepend an IPv6 fragment
header". -/
def will_need_frag_hdr (hdr : iphdr) : Bool :=
  is_fragmented_ipv4 hdr || !is_df_set hdr

/-- Modelled from the spec: the helper build_ipv6_frag_off_field is not
among the sources; the fragment header's `frag_off` word made of the offset
in bytes (`& 0xFFF8`) and the M flag (lowest bit). -/
def build_ipv6_frag_off_field (frag_offset : Nat) (mf : Bool) : Nat :=
  cpu_to_be16 (frag_offset % 65536 / 8 * 8 + (if mf then 1 else 0))

/-- The loop of `has_unexpired_src_route`: `mem` are the bytes after the
fixed header, `cur` and `stop` the offsets of `current_opt` and
`end_of_opts` from there.  Each unit of `fuel` pays for one test of the loop
condition; `none` means that the fuel ran out.  A byte beyond `mem` reads
as 0. -/
def has_unexpired_src_route_loop (mem : List Nat) (stop : Nat) :
    Nat → Nat → Option Bool
  | 0, _ => none
  | fuel + 1, cur =>
    if mem.getD cur 0 ≠ IPOPT_LSRR ∧ mem.getD cur 0 ≠ IPOPT_SSRR then
      if mem.getD cur 0 = IPOPT_END then some false
      else
        let next :=
          if mem.getD cur 0 = IPOPT_NOOP then cur + 1
          else cur + mem.getD (cur + 1) 0
        if next ≥ stop then some false
        else has_unexpired_src_route_loop mem stop fuel next
    else
      -- Finally test.
      let src_route_len := mem.getD (cur + 1) 0
      let src_route_ptr := mem.getD (cur + 2) 0
      some (decide (src_route_len ≥ src_route_ptr))

/-- The function `has_unexpired_src_route`; `none` means that the scan did
not return within `fuel` iterations. -/
def has_unexpired_src_route (fuel : Nat) (hdr : iphdr) (mem : List Nat) :
    Option Bool :=
  -- current_opt = hdr + 1, end_of_opts = hdr + 4 * ihl
  if 20 ≥ 4 * hdr.ihl then some false
  else has_unexpired_src_route_loop mem (4 * hdr.ihl - 20) fuel 0

/-- The function `build_id_field` on the numbers the fields stand for:
`hdr4.id` is what `be16_to_cpu` makes of the field.
`wire.build_id_field` below has the function on the content of the field,
with both conversions. -/
def build_id_field (hdr4 : iphdr) : Nat := cpu_to_be32 hdr4.id

/-- The function `build_payload_len`. -/
def build_payload_len (inp : packet4) (out : packet) : Nat :=
  let total_len :=
    if out.is_inner then
      (inp.hdr.tot_len + 65536 - inp.pkt.hdrs_len % 65536 + out.hdrs_len)
        % 65536
    else if inp.pkt.frag_list then
      (inp.pkt.skb_len + 65536 - inp.pkt.hdrs_len % 65536 + out.hdrs_len)
        % 65536
    else
      let total_len := out.skb_len % 65536
      if out.is_icmp_error && decide (total_len > IPV6_MIN_MTU) then IPV6_MIN_MTU
      else total_len
  cpu_to_be16 (total_len + 65536 - 40)

/-- The configuration and the tables the address translation of `4to6.c`
consults. -/
structure xlat46_env where
  /-- The value of `xlation_is_nat64(state)`. -/
  nat64 : Bool
  /-- The configuration value `reset_traffic_class`. -/
  reset_traffic_class : Bool
  /-- The configuration value `nat64.src_icmp6errs_better`. -/
  src_icmp6errs_better : Bool
  /-- The configuration value `siit.eam_hairpin_mode`. -/
  eam_hairpin_mode : eam_hairpinning_mode
  /-- The call `__rfc6052_4to6(&cfg->pool6.prefix, addr, out)`: error code
  and address. -/
  rfc6052_4to6 : Nat → Int × in6_addr
  /-- The call `addrxlat_siit46(jool, addr, &out, enable_eam,
  enable_blacklist)`: verdict and address. -/
  addrxlat_siit46 : Nat → Bool → Bool → addrxlat_verdict × in6_addr
  /-- The call `rfc6791v6_find(state, &out.addr)`: error code and
  address. -/
  rfc6791v6_find : Int × in6_addr
  /-- The tuple of the outgoing packet. -/
  tuple6 : tuple6

/-- The function `generate_saddr6_nat64`: the error code and the outgoing
header. -/
def generate_saddr6_nat64 (env : xlat46_env) (inp : packet4) (hdr6 : ipv6hdr) :
    Int × ipv6hdr :=
  if env.src_icmp6errs_better && inp.pkt.is_icmp_error then
    let r := env.rfc6052_4to6 inp.hdr.saddr
    if r.1 ≠ 0 then (r.1, hdr6) else (0, { hdr6 with saddr := r.2 })
  else
    (0, { hdr6 with saddr := env.tuple6.src.l3 })

/-- The function `disable_src_eam`. -/
def disable_src_eam (inp : packet4) (hairpin : Bool) : Bool :=
  if !hairpin || inp.pkt.is_inner then false
  else if !inp.pkt.is_icmp_error then true
  else decide (inp.hdr.saddr = inp.inner_daddr)

/-- The function `disable_dst_eam`. -/
def disable_dst_eam (inp : packet4) (hairpin : Bool) : Bool :=
  hairpin && inp.pkt.is_inner

/-- The function `translate_addrs46_siit`. -/
def translate_addrs46_siit (env : xlat46_env) (inp : packet4) (hdr6 : ipv6hdr) :
    step_result ipv6hdr :=
  let hdr4 := inp.hdr
  let hairpin :=
    decide (env.eam_hairpin_mode = EAM_HAIRPIN_SIMPLE) || inp.pkt.is_hairpin
  let enable_blacklist := !inp.pkt.is_icmp_error
  -- Destination address, once the source address is settled.
  let dst (hdr6 : ipv6hdr) : step_result ipv6hdr :=
    let r := env.addrxlat_siit46 hdr4.daddr (!disable_dst_eam inp hairpin)
      enable_blacklist
    match r.1 with
    | ADDRXLAT_CONTINUE =>
      { result := VERDICT_CONTINUE, sent := [],
        out := { hdr6 with daddr := r.2 } }
    | ADDRXLAT_TRY_SOMETHING_ELSE => untranslatable hdr6
    | ADDRXLAT_ACCEPT => untranslatable hdr6
    | ADDRXLAT_DROP => drop hdr6
  -- Source address.
  let r := env.addrxlat_siit46 hdr4.saddr (!disable_src_eam inp hairpin)
    enable_blacklist
  match r.1 with
  | ADDRXLAT_CONTINUE => dst { hdr6 with saddr := r.2 }
  | ADDRXLAT_TRY_SOMETHING_ELSE =>
    if inp.pkt.is_icmp_error && decide (env.rfc6791v6_find.1 = 0) then
      dst { hdr6 with saddr := env.rfc6791v6_find.2 }
    else untranslatable hdr6
  | ADDRXLAT_ACCEPT => untranslatable hdr6
  | ADDRXLAT_DROP => drop hdr6

/-- The address block of `ttp46_ipv6` ("Translate the address first
because of issue #167"): in NAT64 mode `generate_saddr6_nat64` and the
destination of the outgoing tuple, otherwise the outcome of
`translate_addrs46_siit`. -/
def ttp46_ipv6_addrs (env : xlat46_env) (inp : packet4) (hdr0 : ipv6hdr) :
    step_result ipv6hdr :=
  if env.nat64 then
    let g := generate_saddr6_nat64 env inp hdr0
    if g.1 ≠ 0 then drop g.2
    else
      { result := VERDICT_CONTINUE, sent := [],
        out := { g.2 with daddr := env.tuple6.dst.l3 } }
  else translate_addrs46_siit env inp hdr0

/-- The function `ttp46_ipv6` of `4to6.c`.  `hdr0` is the previous content
of the outgoing header; the result carries the outgoing header and the
fragment header, when one was written.  `none` means that the scan of the
IPv4 options (`has_unexpired_src_route`) did not return within `fuel`
iterations. -/
def ttp46_ipv6 (fuel : Nat) (env : xlat46_env) (inp : packet4) (out : packet)
    (hdr0 : ipv6hdr) : Option (step_result (ipv6hdr × Option frag_hdr)) :=
  let hdr4 := inp.hdr
  -- Translate the address first because of issue #167.
  let a := ttp46_ipv6_addrs env inp hdr0
  if a.result ≠ VERDICT_CONTINUE then
    some { result := a.result, sent := a.sent, out := (a.out, none) }
  else
    let hdr6 := a.out
    let hdr6 := { hdr6 with version := 6 }
    let hdr6 :=
      if env.reset_traffic_class then
        { hdr6 with priority := 0, flow_lbl0 := 0 }
      else
        { hdr6 with priority := hdr4.tos % 256 / 16,
                    flow_lbl0 := hdr4.tos * 16 % 256 }
    let hdr6 := { hdr6 with flow_lbl1 := 0 }
    let hdr6 := { hdr6 with flow_lbl2 := 0 }
    let hdr6 := { hdr6 with payload_len := build_payload_len inp out }
    let nexthdr :=
      if hdr4.protocol = IPPROTO_ICMP then NEXTHDR_ICMP else hdr4.protocol
    let hdr6 := { hdr6 with nexthdr := nexthdr }
    if inp.pkt.is_outer && !inp.pkt.is_hairpin && decide (hdr4.ttl ≤ 1) then
      some (drop_icmp (hdr6, none) ICMPERR_TTL 0)
    else
      let hop_limit :=
        if inp.pkt.is_outer && !inp.pkt.is_hairpin then
          (hdr4.ttl + 256 - 1) % 256
        else hdr4.ttl
      let hdr6 := { hdr6 with hop_limit := hop_limit }
      let src_route : Option Bool :=
        if inp.pkt.is_outer then has_unexpired_src_route fuel hdr4 inp.opts
        else some false
      match src_route with
      | none => none
      | some true => some (drop_icmp (hdr6, none) ICMPERR_SRC_ROUTE 0)
      | some false =>
        if will_need_frag_hdr hdr4 then
          let hdr6 := { hdr6 with nexthdr := NEXTHDR_FRAGMENT }
          let frag_header : frag_hdr :=
            { nexthdr := nexthdr,
              reserved := 0,
              frag_off := build_ipv6_frag_off_field
                (get_fragment_offset_ipv4 hdr4) (is_mf_set_ipv4 hdr4),
              identification := build_id_field hdr4 }
          some { result := VERDICT_CONTINUE, sent := [],
                 out := (hdr6, some frag_header) }
        else
          some { result := VERDICT_CONTINUE, sent := [], out := (hdr6, none) }

/-! ## The tables of the specification

Definitions that follow the words of the specification, to be compared with
the functions above. -/

/-- The ICMPv6 to ICMPv4 type and code table of the specification: the
ICMPv4 type and code for an ICMPv6 type and code, `none` where the message
is dropped. -/
def spec_icmp64_table (type code : Nat) : Option (Nat × Nat) :=
  if type = 128 then some (8, 0)
  else if type = 129 then some (0, 0)
  else if type = 1 then
    if code = 0 ∨ code = 2 ∨ code = 3 then some (3, 1)
    else if code = 1 then some (3, 10)
    else if code = 4 then some (3, 3)
    else none
  else if type = 2 then some (3, 4)
  else if type = 3 then some (11, code)
  else if type = 4 then
    if code = 0 then some (12, 0)
    else if code = 1 then some (3, 2)
    else none
  else none

/-- The ICMPv6 to ICMPv4 pointer table of the specification: 0 to 0, 1 to
1, 4 and 5 to 2, 6 to 9, 7 to 8, 8..23 to 12, 24..39 to 16; 2, 3 and every
value above 39 have no counterpart. -/
def spec_param_prob_ptr64 (p : Nat) : Option Nat :=
  if p ≤ 39 ∧ p ≠ 2 ∧ p ≠ 3 then
    some (if p = 0 then 0
      else if p = 1 then 1
      else if p = 4 ∨ p = 5 then 2
      else if p = 6 then 9
      else if p = 7 then 8
      else if 8 ≤ p ∧ p < 24 then 12
      else 16)
  else none

/-- The ICMPv4 to ICMPv6 pointer table as the specification words it: 0 to
0, 1 to 1, 2 and 3 to 4, 6 to 7, 7 to 6, 8..11 to 8, 12..16 to 24; 4, 5 and
every other value have no counterpart. -/
def spec_param_prob_ptr46 (p : Nat) : Option Nat :=
  if p = 0 then some 0
  else if p = 1 then some 1
  else if p = 2 ∨ p = 3 then some 4
  else if p = 6 then some 7
  else if p = 7 then some 6
  else if 8 ≤ p ∧ p ≤ 11 then some 8
  else if 12 ≤ p ∧ p ≤ 16 then some 24
  else none

/-- The ICMPv4 to ICMPv6 pointer table, amended: 0 to 0, 1 to 1, 2 and 3
to 4, 8 to 7, 9 to 6, 12..15 to 8, 16..19 to 24; 4..7, 10, 11 and every
value above 19 have no counterpart. -/
def amended_param_prob_ptr46 (p : Nat) : Option Nat :=
  if p = 0 then some 0
  else if p = 1 then some 1
  else if p = 2 ∨ p = 3 then some 4
  else if p = 8 then some 7
  else if p = 9 then some 6
  else if 12 ≤ p ∧ p ≤ 15 then some 8
  else if 16 ≤ p ∧ p ≤ 19 then some 24
  else none

/-- The ICMPv6 code that comes back after ICMPv6 to ICMPv4 to ICMPv6, as
the specification words it: the original code, except that NOT_NEIGHBOUR and
ADDR_UNREACH come back as NOROUTE and any Packet Too Big code comes back
as 0. -/
def spec_icmp6_code_back (type code : Nat) : Nat :=
  if type = 1 ∧ (code = 2 ∨ code = 3) then 0
  else if type = 2 then 0
  else code

/-- The ICMPv6 code that comes back, amended: the code of an Echo Request
or Echo Reply comes back as 0 as well. -/
def amended_icmp6_code_back (type code : Nat) : Nat :=
  if type = 128 ∨ type = 129 then 0 else spec_icmp6_code_back type code

/-- One's-complement addition of two 16-bit values: the carry out of bit 15
is added back in. -/
def spec_ones_complement_add (a b : Nat) : Nat :=
  (a + b) % 65536 + (a + b) / 65536

/-- The one's-complement sum of a list of 16-bit words, as the
specification's "correct IP header checksum" takes it over the ten words of
the header. -/
def spec_ones_complement_sum (l : List Nat) : Nat :=
  l.foldl spec_ones_complement_add 0

/-- An IPv4 option as RFC 791 lays it out: the type octet, the length octet
and the octets behind them.  A No Operation option is the type octet
alone. -/
structure ip_option where
  type : Nat
  length : Nat
  data : List Nat
  deriving DecidableEq, Repr

/-- The octets an option occupies in the header. -/
def ip_option.bytes (o : ip_option) : List Nat :=
  if o.type = IPOPT_NOOP then [o.type] else o.type :: o.length :: o.data

/-- A well-formed option ahead of the first End of Option List: unless it is
No Operation, its length octet is at least 2 and counts the octets it
occupies. -/
abbrev ip_option.wf (o : ip_option) : Prop :=
  o.type ≠ IPOPT_END
    ∧ (o.type ≠ IPOPT_NOOP → 2 ≤ o.length ∧ o.data.length + 2 = o.length)

/-- The octets of a sequence of options, one behind the other. -/
def spec_opts_bytes : List ip_option → List Nat
  | [] => []
  | o :: os => o.bytes ++ spec_opts_bytes os

/-- The words of the specification for `has_unexpired_src_route`: the
options ahead of the first End of Option List, in order, contain a loose
(131) or strict (137) source route, and the first such option has a length
that is at least its pointer.  The pointer is the third octet counted from
the type octet; `behind` are the octets that follow the options in memory,
where the third octet lies when the option is only two octets long. -/
def spec_has_unexpired_src_route : List ip_option → List Nat → Bool
  | [], _ => false
  | o :: os, behind =>
    if o.type = IPOPT_LSRR ∨ o.type = IPOPT_SSRR then
      decide (o.length ≥ (o.data ++ spec_opts_bytes os ++ behind).headD 0)
    else spec_has_unexpired_src_route os behind

/-! ## Sample packets

Concrete inputs on which the theorems below are exercised. -/

/-- An IPv6 header from 2001:db8::1 to 64:ff9b::192.0.2.1. -/
def sample_ip6 : ipv6hdr :=
  { version := 6, priority := 0, flow_lbl0 := 0, flow_lbl1 := 0,
    flow_lbl2 := 0, payload_len := 30, nexthdr := 6, hop_limit := 64,
    saddr := { a0 := 0x20010db8, a1 := 0, a2 := 0, a3 := 1 },
    daddr := { a0 := 0x0064ff9b, a1 := 0, a2 := 0, a3 := 0xc0000201 } }

/-- An IPv4 header from 198.51.100.7 to 192.0.2.1. -/
def sample_ip4 : iphdr :=
  { ihl := 5, version := 4, tos := 0, tot_len := 50, id := 0,
    frag_off := 16384, ttl := 64, protocol := 6, check := 0,
    saddr := 0xc6336407, daddr := 0xc0000201 }

/-- A TCP header (SYN, ports 5000 to 6000) with the checksum `check`. -/
def sample_tcp (check : Nat) : tcphdr :=
  { source := 5000, dest := 6000, seq := 0x12345678, ack_seq := 0,
    doff_flags := 0x6002, window := 8192, check := check, urg_ptr := 0 }

/-- A UDP header (ports 5000 to 6000, length 14) with the checksum
`check`. -/
def sample_udp (check : Nat) : udphdr :=
  { source := 5000, dest := 6000, len := 14, check := check }

/-- The TCP option words (maximum segment size 1460). -/
def sample_opts : List Nat := [0x0204, 0x05b4]

/-- Six payload bytes. -/
def sample_payload : List Nat := [0x4865, 0x6c6c, 0x6f00]

/-- The transport addresses 192.0.2.7#1024 and 192.0.2.1#6000. -/
def sample_tuple4 : tuple4 :=
  { src := { l3 := 0xc0000207, l4 := 1024 },
    dst := { l3 := 0xc0000201, l4 := 6000 } }

/-- The transport addresses 64:ff9b::192.0.2.1#6000 and 2001:db8::1#5000. -/
def sample_tuple6 : tuple6 :=
  { src := { l3 := { a0 := 0x0064ff9b, a1 := 0, a2 := 0, a3 := 0xc0000201 },
             l4 := 6000 },
    dst := { l3 := { a0 := 0x20010db8, a1 := 0, a2 := 0, a3 := 1 },
             l4 := 5000 } }

/-- Surroundings of `ttp64_icmp` in which nothing fails: SIIT mode, routes
and devices with MTU 1500, hardware-verified checksum. -/
def sample_env64 : icmp64_env :=
  { nat64 := false, tuple4 := sample_tuple4, in_ip6 := sample_ip6,
    datagram_len := 14, payload := sample_payload, ip_summed_none := false,
    copy_payload_error := false, route4 := some 1500, in_dev := some 1500,
    translate_inner := VERDICT_CONTINUE, inner_out := sample_payload }

/-- Surroundings of `ttp46_icmp` in which nothing fails. -/
def sample_env46 : icmp46_env :=
  { nat64 := false, tuple6 := sample_tuple6, out_ip6 := sample_ip6,
    datagram_len := 14, payload := sample_payload, ip_summed_none := false,
    route6 := some 1500, in_dev := some 1500,
    plateaus := { values := [65535, 32000, 17914, 8166, 4352, 2002, 1492,
                             1006, 508, 296, 68], count := 11 },
    inner_tot_len := 1500, translate_inner := VERDICT_CONTINUE,
    inner_out := sample_payload, out_datagram_len := 14 }

/-- The configuration of `ttp64_ipv4`: the traffic class is copied, the
identification is generated, DF follows the size. -/
def sample_hdr4_config : hdr4_config :=
  { reset_tos := false, new_tos := 0, build_ipv4_id := true,
    df_always_on := false }

/-- The tables of an SIIT translator with one EAM entry (2001:db8::1 to
198.51.100.7) and the prefix 64:ff9b::/96; nothing is blacklisted. -/
def sample_siit64 : siit64_env :=
  { eamt_xlat_6to4 := fun addr6 =>
      if addr6 = { a0 := 0x20010db8, a1 := 0, a2 := 0, a3 := 1 } then
        (0, 0xc6336407)
      else (-ESRCH, 0),
    pool6_get := fun addr6 =>
      if addr6.a0 = 0x0064ff9b ∧ addr6.a1 = 0 ∧ addr6.a2 = 0 then
        (0, { address := { a0 := 0x0064ff9b, a1 := 0, a2 := 0, a3 := 0 },
              len := 96 })
      else
        (-ESRCH, { address := { a0 := 0, a1 := 0, a2 := 0, a3 := 0 },
                   len := 0 }),
    addr_6to4 := fun addr6 _ => (0, addr6.a3),
    blacklist_contains := fun _ => false,
    must_not_translate := fun _ => false,
    rfc6791_get := (0, 0xc0000207),
    eam_hairpin_mode := EAM_HAIRPIN_OFF,
    eamt_contains4 := fun _ => false }

/-- The tables of an SIIT translator that has no mapping at all: neither
an EAM entry nor a prefix. -/
def sample_siit64_empty : siit64_env :=
  { sample_siit64 with
    eamt_xlat_6to4 := fun _ => (-ESRCH, 0),
    pool6_get := fun _ =>
      (-ESRCH, { address := { a0 := 0, a1 := 0, a2 := 0, a3 := 0 },
                 len := 0 }) }

/-- An unfragmented IPv6 packet of 70 bytes (TCP), the header `sample_ip6`
with the given hop limit. -/
def sample_in6 (hop_limit : Nat) (inner : Bool) : packet6 :=
  { pkt := { skb_len := 70, frag_list := false, is_inner := inner,
             is_fragment := false, is_icmp_error := false, hdrs_len := 60,
             is_hairpin := false },
    hdr := { sample_ip6 with hop_limit := hop_limit },
    hdr_frag := none, last_hdr_type := 6, rt_hdr := none, tot_len_ipv6 := 70 }

/-- The outgoing IPv4 packet of 50 bytes that belongs to `sample_in6`. -/
def sample_out4 : packet :=
  { skb_len := 50, frag_list := false, is_inner := false, is_fragment := false,
    is_icmp_error := false, hdrs_len := 40, is_hairpin := false }

/-- The configuration and tables of an SIIT translator that maps every IPv4
address into 64:ff9b::/96, with intrinsic EAM hairpinning. -/
def sample_xlat46 : xlat46_env :=
  { nat64 := false, reset_traffic_class := false,
    src_icmp6errs_better := false,
    eam_hairpin_mode := EAM_HAIRPIN_INTRINSIC,
    rfc6052_4to6 := fun addr =>
      (0, { a0 := 0x0064ff9b, a1 := 0, a2 := 0, a3 := addr }),
    addrxlat_siit46 := fun addr _ _ =>
      (ADDRXLAT_CONTINUE, { a0 := 0x0064ff9b, a1 := 0, a2 := 0, a3 := addr }),
    rfc6791v6_find := (0, { a0 := 0x0064ff9b, a1 := 0, a2 := 0, a3 := 1 }),
    tuple6 := sample_tuple6 }

/-- An unfragmented IPv4 packet of 50 bytes (TCP, no options), the header
`sample_ip4` with the given TTL; `hairpin` says whether the packet is an
intrinsic hairpin, that is, whether the translator produced it itself from
an IPv6 packet a moment ago. -/
def sample_in4 (ttl : Nat) (hairpin inner : Bool) : packet4 :=
  { pkt := { skb_len := 50, frag_list := false, is_inner := inner,
             is_fragment := false, is_icmp_error := false, hdrs_len := 40,
             is_hairpin := hairpin },
    hdr := { sample_ip4 with ttl := ttl }, opts := [], inner_daddr := 0 }

/-- The outgoing IPv6 packet of 70 bytes that belongs to `sample_in4`. -/
def sample_out6 : packet :=
  { skb_len := 70, frag_list := false, is_inner := false, is_fragment := false,
    is_icmp_error := false, hdrs_len := 60, is_hairpin := false }

/-- An IPv6 fragment header for the fragment at byte offset `offset` (a
multiple of 8) with the M flag `m`, identification 0x12345678, TCP behind
it. -/
def sample_frag_hdr (offset : Nat) (m : Bool) : frag_hdr :=
  { nexthdr := 6, reserved := 0, frag_off := offset + (if m then 1 else 0),
    identification := 0x12345678 }

/-- An outer IPv6 fragment of 78 bytes (fragment header and TCP), hop limit
64; `frag_list` says whether the `sk_buff` carries the remaining fragments in
its `frag_list`. -/
def sample_in6_frag (frag_list : Bool) (offset : Nat) (m : Bool) : packet6 :=
  { pkt := { skb_len := 78, frag_list := frag_list, is_inner := false,
             is_fragment := true, is_icmp_error := false, hdrs_len := 68,
             is_hairpin := false },
    hdr := { sample_ip6 with nexthdr := 44, payload_len := 38 },
    hdr_frag := some (sample_frag_hdr offset m), last_hdr_type := 6,
    rt_hdr := none, tot_len_ipv6 := 78 }

/-- The outgoing IPv4 fragment of 50 bytes that belongs to
`sample_in6_frag`. -/
def sample_out4_frag (frag_list : Bool) : packet :=
  { skb_len := 50, frag_list := frag_list, is_inner := false,
    is_fragment := true, is_icmp_error := false, hdrs_len := 40,
    is_hairpin := false }

/-- An outer IPv6 packet of 78 bytes, hop limit 64, with a routing header
right behind the fixed header (byte offset 40) whose Segments Left is
`segments_left`. -/
def sample_in6_rt (segments_left : Nat) : packet6 :=
  { pkt := { skb_len := 78, frag_list := false, is_inner := false,
             is_fragment := false, is_icmp_error := false, hdrs_len := 68,
             is_hairpin := false },
    hdr := { sample_ip6 with nexthdr := 43, payload_len := 38 },
    hdr_frag := none, last_hdr_type := 6,
    rt_hdr := some (40, segments_left), tot_len_ipv6 := 78 }

/-- A loose source route of 7 octets whose pointer (4) is still inside the
option: the route has not been used up. -/
def sample_lsrr : ip_option :=
  { type := 131, length := 7, data := [4, 192, 0, 2, 99] }

/-- An outer IPv4 packet of 58 bytes (TCP) with TTL 64 whose header has the
options `sample_lsrr` and End of Option List (IHL 7). -/
def sample_in4_lsrr : packet4 :=
  { pkt := { skb_len := 58, frag_list := false, is_inner := false,
             is_fragment := false, is_icmp_error := false, hdrs_len := 48,
             is_hairpin := false },
    hdr := { sample_ip4 with ihl := 7, tot_len := 58 },
    opts := [131, 7, 4, 192, 0, 2, 99, 0], inner_daddr := 0 }

/-- The configuration and tables of an SIIT translator that has no mapping
for any IPv4 address. -/
def sample_xlat46_empty : xlat46_env :=
  { sample_xlat46 with
    addrxlat_siit46 := fun _ _ _ =>
      (ADDRXLAT_TRY_SOMETHING_ELSE, { a0 := 0, a1 := 0, a2 := 0, a3 := 0 }) }

/-- An outer IPv4 fragment of 50 bytes (TCP, no options) with TTL 64, TOS
0xb8, Identification 0x4321, MF set and fragment offset 1480. -/
def sample_in4_frag : packet4 :=
  { pkt := { skb_len := 50, frag_list := false, is_inner := false,
             is_fragment := true, is_icmp_error := false, hdrs_len := 40,
             is_hairpin := false },
    hdr := { sample_ip4 with tos := 0xb8, id := 0x4321,
                             frag_off := 0x2000 + 185 },
    opts := [], inner_daddr := 0 }

/-- Surroundings of `ttp64_icmp` for an ICMPv6 message without payload: the
datagram is the eight octets of the ICMPv6 header. -/
def sample_env64_bare : icmp64_env :=
  { sample_env64 with datagram_len := 8, payload := [] }

/-- An ICMPv6 Echo Reply from `sample_ip6.saddr` to `sample_ip6.daddr` with
identifier 0, sequence number 0 and no payload; `icmp6_cksum` is the
checksum that verifies. -/
def sample_echo_reply6 : icmp6hdr :=
  { icmp6_type := ICMPV6_ECHO_REPLY, icmp6_code := 0, icmp6_cksum := 0x8F01,
    icmp6_dataun := 0 }

/-- An ICMPv6 Echo Request like `sample_echo_reply6`, with its own
checksum. -/
def sample_echo_request6 : icmp6hdr :=
  { icmp6_type := ICMPV6_ECHO_REQUEST, icmp6_code := 0, icmp6_cksum := 0x9001,
    icmp6_dataun := 0 }

/-- An IPv4 header of a UDP packet from 192.0.2.1 to 198.51.100.7 with the
`frag_off` field `frag_off`. -/
def sample_udp_ip4 (frag_off : Nat) : iphdr :=
  { ihl := 5, version := 4, tos := 0, tot_len := 34, id := 0,
    frag_off := frag_off, ttl := 64, protocol := 17, check := 0,
    saddr := 0xc0000201, daddr := 0xc6336407 }

/-- The IPv6 header `sample_udp_ip4` translates to under the prefix
64:ff9b::/96: from 64:ff9b::192.0.2.1 to 64:ff9b::198.51.100.7. -/
def sample_udp_ip6 : ipv6hdr :=
  { version := 6, priority := 0, flow_lbl0 := 0, flow_lbl1 := 0,
    flow_lbl2 := 0, payload_len := 14, nexthdr := 17, hop_limit := 63,
    saddr := { a0 := 0x0064ff9b, a1 := 0, a2 := 0, a3 := 0xc0000201 },
    daddr := { a0 := 0x0064ff9b, a1 := 0, a2 := 0, a3 := 0xc6336407 } }

/-- Six payload bytes for which the UDP checksum of the datagram
`sample_udp` between the addresses of `sample_udp_ip4` computes to zero, so
that the sender transmits 0xFFFF. -/
def sample_payload_ffff : List Nat := [0x4865, 0x6c6c, 0x33cc]

/-- The candidate of the 6 to 4 resolution came from the prefix: the EAM
table has no entry for the address (-ESRCH), pool6 holds a prefix for it
and the RFC 6052 extraction succeeds. -/
def spec_via_pool6 (env : siit64_env) (addr6 : in6_addr) : Bool :=
  decide ((env.eamt_xlat_6to4 addr6).1 = -ESRCH
    ∧ (env.pool6_get addr6).1 = 0
    ∧ (env.addr_6to4 addr6 (env.pool6_get addr6).2).1 = 0)

/-- The tables of an SIIT translator whose EAM entry lies inside its
prefix: 64:ff9b::192.0.2.1 is mapped to 198.51.100.7 by the EAM table and
belongs to 64:ff9b::/96; 192.0.2.66 and 198.51.100.7 are blacklisted, and
192.0.2.255 must not be translated. -/
def sample_siit64_overlap : siit64_env :=
  { sample_siit64 with
    eamt_xlat_6to4 := fun addr6 =>
      if addr6 = { a0 := 0x0064ff9b, a1 := 0, a2 := 0, a3 := 0xc0000201 } then
        (0, 0xc6336407)
      else (-ESRCH, 0),
    blacklist_contains := fun addr4 =>
      decide (addr4 = 0xc0000242 ∨ addr4 = 0xc6336407),
    must_not_translate := fun addr4 => decide (addr4 = 0xc00002ff) }

/-- The tables of `sample_siit64` with intrinsic EAM hairpinning; the
address 192.0.2.1 lies in an EAM entry. -/
def sample_siit64_hairpin : siit64_env :=
  { sample_siit64 with
    eam_hairpin_mode := EAM_HAIRPIN_INTRINSIC,
    eamt_contains4 := fun addr4 => decide (addr4 = 0xc0000201) }

/-! ## The MTU plateaus of the configuration (`nl/global.c`) -/

/-- The part of `struct global_config_usr` that `update_plateaus` writes:
the array `mtu_plateaus` (its length is `ARRAY_SIZE(config->mtu_plateaus)`)
and `mtu_plateau_count`. -/
structure global_config_usr where
  mtu_plateaus : List Nat
  mtu_plateau_count : Nat
  deriving DecidableEq, Repr

/-- The function `be16_compare` of `global.c`. -/
def be16_compare (a b : Nat) : Int := (b : Int) - (a : Int)

/-- Modelled from the spec: the kernel helper sort is not among the
sources; it orders the array so that `cmp_func` is not positive between an
element and a later one ("Sort descending" with `be16_compare`). -/
def sort (base : List Nat) (cmp_func : Nat → Nat → Int) : List Nat :=
  base.insertionSort (fun a b => cmp_func a b ≤ 0)

/-- The loop `for (i = 0, j = 1; j < list_length; j++)` of
`update_plateaus`, with `n = list_length - j` iterations to go: the array
and `i` when the loop is left. -/
def update_plateaus_loop : Nat → List Nat → Nat → Nat → List Nat × Nat
  | 0, list, i, _ => (list, i)
  | n + 1, list, i, j =>
    if list.getD j 0 = 0 then (list, i)
    else if list.getD i 0 ≠ list.getD j 0 then
      update_plateaus_loop n (list.set (i + 1) (list.getD j 0)) (i + 1) (j + 1)
    else update_plateaus_loop n list i (j + 1)

/-- The function `update_plateaus` of `global.c`: the error code and the
configuration afterwards. `list` is the array of `list_length` values
behind the header of the request (`list_length = (hdr->len - sizeof(*hdr))
/ sizeof(__u16)`), `room` is `max_size - sizeof(*hdr)`, the number of bytes
the request holds behind the header. -/
def update_plateaus (config : global_config_usr) (list : List Nat)
    (room : Nat) : Int × global_config_usr :=
  let list_length := list.length
  if list_length < 1 then (-EINVAL, config)
  else if list_length > config.mtu_plateaus.length then (-EINVAL, config)
  else if list_length * 2 > room then (-EINVAL, config)
  else
    -- Sort descending.
    let list := sort list be16_compare
    -- Remove zeroes and duplicates.
    let r := update_plateaus_loop (list_length - 1) list 0 1
    let list := r.1
    let i := r.2
    if list.getD 0 0 = 0 then (-EINVAL, config)
    else
      -- memcpy(config->mtu_plateaus, list, (i + 1) * sizeof(*list))
      (0, { mtu_plateaus :=
              list.take (i + 1) ++ config.mtu_plateaus.drop (i + 1),
            mtu_plateau_count := i + 1 })

/-- The plateaus a configuration holds: the first `mtu_plateau_count`
entries of the array. -/
def global_config_usr.plateaus (config : global_config_usr) : List Nat :=
  config.mtu_plateaus.take config.mtu_plateau_count

/-- What the loop of `update_plateaus` keeps of the values behind position
`j`, when the value kept last is `last`. -/
def spec_compress : Nat → List Nat → List Nat
  | _, [] => []
  | last, x :: xs =>
    if x = 0 then []
    else if last ≠ x then x :: spec_compress x xs
    else spec_compress last xs

/-- A configuration with room for eight plateaus, holding 1500 and 68. -/
def sample_global_config : global_config_usr :=
  { mtu_plateaus := [1500, 68, 0, 0, 0, 0, 0, 0], mtu_plateau_count := 2 }

/-- A plateau list as it may arrive: unsorted, with zeroes and
duplicates. -/
def sample_plateau_list : List Nat := [1500, 0, 1000, 1500, 0, 9000, 1000]

/-! ## The packet inside an ICMPv6 error (`mod/ttp/6to4.c`) -/

/-- The next-header value `NEXTHDR_TCP`. -/
def NEXTHDR_TCP : Nat := 6

/-- The next-header value `NEXTHDR_UDP`. -/
def NEXTHDR_UDP : Nat := 17

/-- The network protocols (`l3_protocol`). -/
inductive l3_protocol where
  | L3PROTO_IPV6
  | L3PROTO_IPV4
  deriving DecidableEq, Repr

/-- The transport protocols (`l4_protocol`). -/
inductive l4_protocol where
  | L4PROTO_TCP
  | L4PROTO_UDP
  | L4PROTO_ICMP
  deriving DecidableEq, Repr

open l3_protocol l4_protocol

/-- The counters (`IPSTATS_MIB_*`) that `buffer6_to_parts` and the functions
it calls report through `field`. -/
inductive ipstats_mib where
  | IPSTATS_MIB_INHDRERRORS
  | IPSTATS_MIB_INUNKNOWNPROTOS
  | IPSTATS_MIB_INTRUNCATEDPKTS
  | IPSTATS_MIB_INDISCARDS
  deriving DecidableEq, Repr

open ipstats_mib

/-- The state of a `struct hdr_iterator`: `data` as the byte offset from
the start of the IPv6 header it was initialised with, and `hdr_type`. -/
structure hdr_iterator where
  data : Nat
  hdr_type : Nat
  deriving DecidableEq, Repr

/-- The member `l3_hdr` of `struct pkt_parts`; `ptr` is a byte offset. -/
structure pkt_parts_l3 where
  proto : l3_protocol
  len : Nat
  ptr : Nat
  deriving DecidableEq, Repr

/-- The member `l4_hdr` of `struct pkt_parts`. -/
structure pkt_parts_l4 where
  proto : l4_protocol
  len : Nat
  ptr : Nat
  deriving DecidableEq, Repr

/-- The member `payload` of `struct pkt_parts`. -/
structure pkt_parts_payload where
  len : Nat
  ptr : Nat
  deriving DecidableEq, Repr

/-- The structure `struct pkt_parts`; `skb` tells whether the pointer of
that name is set. -/
structure pkt_parts where
  l3_hdr : pkt_parts_l3
  l4_hdr : pkt_parts_l4
  payload : pkt_parts_payload
  skb : Bool
  deriving DecidableEq, Repr

/-- What `buffer6_to_parts` reads of the buffer at `hdr6`, which is byte
offset 0 of the model. -/
structure buffer6 where
  /-- The call `validate_ipv6_integrity(hdr6, len, true, &iterator, field)`
  as a function of `len`: the error code, the iterator afterwards and the
  counter written to `*field` on error. -/
  validate_ipv6_integrity : Nat → Int × hdr_iterator × ipstats_mib
  /-- The data offset field of the TCP header at `iterator.data`. -/
  tcp_doff : Nat
  /-- The type field of the ICMPv6 header at `iterator.data`. -/
  icmp6_type : Nat

/-- The constant `MIN_TCP_HDR_LEN`. -/
def MIN_TCP_HDR_LEN : Nat := 20

/-- Modelled from the spec: the helper tcp_hdr_len is not among the
sources; the length of a TCP header in bytes, four times its data offset. -/
def tcp_hdr_len (doff : Nat) : Nat := doff % 16 * 4

/-- Modelled from the spec: the helper validate_lengths_tcp is not among
the sources; it rejects a buffer too short ("truncated") to hold the layer-3
headers and the TCP header, the basic one or the one its data offset
announces. -/
def validate_lengths_tcp (len l3_hdr_len doff : Nat) : Int :=
  if len < l3_hdr_len + MIN_TCP_HDR_LEN then -EINVAL
  else if len < l3_hdr_len + tcp_hdr_len doff then -EINVAL
  else 0

/-- Modelled from the spec: the helper validate_lengths_udp is not among
the sources; it rejects a buffer too short to hold the layer-3 headers and
the UDP header. -/
def validate_lengths_udp (len l3_hdr_len : Nat) : Int :=
  if len < l3_hdr_len + 8 then -EINVAL else 0

/-- Modelled from the spec: the helper validate_lengths_icmp6 is not among
the sources; it rejects a buffer too short to hold the layer-3 headers and
the ICMPv6 header. -/
def validate_lengths_icmp6 (len l3_hdr_len : Nat) : Int :=
  if len < l3_hdr_len + 8 then -EINVAL else 0

/-- Modelled from the spec: the helper icmpv6_has_inner_packet is not among
the sources; the ICMPv6 errors, which carry the packet that caused them:
Destination Unreachable, Packet Too Big, Time Exceeded and Parameter
Problem. -/
def icmpv6_has_inner_packet (icmp6_type : Nat) : Bool :=
  decide (icmp6_type = ICMPV6_DEST_UNREACH ∨ icmp6_type = ICMPV6_PKT_TOOBIG
    ∨ icmp6_type = ICMPV6_TIME_EXCEED ∨ icmp6_type = ICMPV6_PARAMPROB)

/-- The function `buffer6_to_parts` of `mod/ttp/6to4.c`: the error code,
`*parts` and `*field` afterwards. The lengths of `struct pkt_parts` are
`unsigned int`. -/
def buffer6_to_parts (hdr6 : buffer6) (len : Nat) (parts : pkt_parts)
    (field : Option ipstats_mib) : Int × pkt_parts × Option ipstats_mib :=
  let v := hdr6.validate_ipv6_integrity len
  let iterator := v.2.1
  if v.1 ≠ 0 then (v.1, parts, some v.2.2)
  else
    let parts := { parts with l3_hdr := { parts.l3_hdr with proto := L3PROTO_IPV6 } }
    let parts := { parts with l3_hdr := { parts.l3_hdr with len := iterator.data % 4294967296 } }
    let parts := { parts with l3_hdr := { parts.l3_hdr with ptr := 0 } }
    let parts := { parts with l4_hdr := { parts.l4_hdr with ptr := iterator.data } }
    let finish (parts : pkt_parts) : Int × pkt_parts × Option ipstats_mib :=
      let payload_len := (len + 4294967296 - parts.l3_hdr.len % 4294967296
        + 4294967296 - parts.l4_hdr.len % 4294967296) % 4294967296
      let parts := { parts with payload := { parts.payload with len := payload_len } }
      let parts := { parts with
        payload := { parts.payload with ptr := parts.l4_hdr.ptr + parts.l4_hdr.len } }
      let parts := { parts with skb := false }
      (0, parts, field)
    if iterator.hdr_type = NEXTHDR_TCP then
      let error := validate_lengths_tcp len parts.l3_hdr.len hdr6.tcp_doff
      if error ≠ 0 then (error, parts, some IPSTATS_MIB_INTRUNCATEDPKTS)
      else
        let parts := { parts with l4_hdr := { parts.l4_hdr with proto := L4PROTO_TCP } }
        let parts :=
          { parts with l4_hdr := { parts.l4_hdr with len := tcp_hdr_len hdr6.tcp_doff } }
        finish parts
    else if iterator.hdr_type = NEXTHDR_UDP then
      let error := validate_lengths_udp len parts.l3_hdr.len
      if error ≠ 0 then (error, parts, some IPSTATS_MIB_INTRUNCATEDPKTS)
      else
        let parts := { parts with l4_hdr := { parts.l4_hdr with proto := L4PROTO_UDP } }
        let parts := { parts with l4_hdr := { parts.l4_hdr with len := 8 } }
        finish parts
    else if iterator.hdr_type = NEXTHDR_ICMP then
      let error := validate_lengths_icmp6 len parts.l3_hdr.len
      if error ≠ 0 then (error, parts, some IPSTATS_MIB_INTRUNCATEDPKTS)
      else if icmpv6_has_inner_packet hdr6.icmp6_type then
        -- packet inside packet inside packet
        (-EINVAL, parts, some IPSTATS_MIB_INHDRERRORS)
      else
        let parts := { parts with l4_hdr := { parts.l4_hdr with proto := L4PROTO_ICMP } }
        let parts := { parts with l4_hdr := { parts.l4_hdr with len := 8 } }
        finish parts
    else
      (-EINVAL, parts, some IPSTATS_MIB_INUNKNOWNPROTOS)

/-- The function `post_icmp4error` of `mod/ttp/6to4.c`: the error code and
`*field` afterwards. `payload` and `payload_len` are `in_outer->payload`,
`in_inner0` is the zeroed `in_inner`, `translate_inner` is the call of
`ttpcomm_translate_inner_packet` on the parts found; `compute_icmp4_csum`
returns 0. -/
def ttp.post_icmp4error (payload : buffer6) (payload_len : Nat)
    (in_inner0 : pkt_parts) (translate_inner : pkt_parts → Int)
    (field : Option ipstats_mib) : Int × Option ipstats_mib :=
  let r := buffer6_to_parts payload payload_len in_inner0 field
  if r.1 ≠ 0 then (r.1, r.2.2)
  else
    let error := translate_inner r.2.1
    if error ≠ 0 then (error, r.2.2)
    else (0, r.2.2)

/-- A buffer of 48 bytes whose IPv6 header is followed at once by an
ICMPv6 header of the given type. -/
def sample_buffer6_icmp (icmp6_type : Nat) : buffer6 :=
  { validate_ipv6_integrity := fun _ =>
      (0, { data := 40, hdr_type := NEXTHDR_ICMP }, IPSTATS_MIB_INHDRERRORS),
    tcp_doff := 0, icmp6_type := icmp6_type }

/-- A buffer whose IPv6 header is followed by a TCP header with data
offset 6 (24 bytes). -/
def sample_buffer6_tcp : buffer6 :=
  { validate_ipv6_integrity := fun _ =>
      (0, { data := 40, hdr_type := NEXTHDR_TCP }, IPSTATS_MIB_INHDRERRORS),
    tcp_doff := 6, icmp6_type := 0 }

/-- A zeroed `struct pkt_parts`. -/
def sample_parts0 : pkt_parts :=
  { l3_hdr := { proto := L3PROTO_IPV6, len := 0, ptr := 0 },
    l4_hdr := { proto := L4PROTO_TCP, len := 0, ptr := 0 },
    payload := { len := 0, ptr := 0 }, skb := false }

/-! ## The IPv4 pool (`mod/pool4.c`) -/

/-- The error number `ENOENT`. -/
def ENOENT : Int := 2

/-- The error number `ENOMEM`. -/
def ENOMEM : Int := 12

/-- Modelled from the spec: the structure poolnum is not among the sources;
a set of ports ("per-class port set"): the free numbers in the order in
which they are handed out, and how many numbers the set was created
with. -/
structure poolnum where
  free : List Nat
  count : Nat
  deriving DecidableEq, Repr

/-- Modelled from the spec: the helper poolnum_init is not among the
sources; the set of the numbers from `min` to `max` in steps of `step`, all
of them free. -/
def poolnum_init (min max step : Nat) : poolnum :=
  { free := (List.range ((max - min) / step + 1)).map
      (fun k => min + k * step),
    count := (max - min) / step + 1 }

/-- Modelled from the spec: the helper poolnum_get_any is not among the
sources; it hands out "the first free value" of the set, or fails with
-ESRCH when nothing is free. The result is the error code, the set and the
value written to `*result` (`result` itself on failure). -/
def poolnum_get_any (pool : poolnum) (result : Nat) : Int × poolnum × Nat :=
  match pool.free with
  | [] => (-ESRCH, pool, result)
  | v :: rest => (0, { pool with free := rest }, v)

/-- Modelled from the spec: the helper poolnum_get is not among the
sources; it borrows the value `value` from the set, or fails with -ESRCH
when that value is not free. -/
def poolnum_get (pool : poolnum) (value : Nat) : Int × poolnum :=
  if value ∈ pool.free then (0, { pool with free := pool.free.erase value })
  else (-ESRCH, pool)

/-- Modelled from the spec: the helper poolnum_return is not among the
sources; it puts `value` back behind the free values, or fails with -EINVAL
when nothing is missing from the set. -/
def poolnum_return (pool : poolnum) (value : Nat) : Int × poolnum :=
  if pool.count ≤ pool.free.length then (-EINVAL, pool)
  else (0, { pool with free := pool.free ++ [value] })

/-- Modelled from the spec: the helper poolnum_is_full is not among the
sources; nothing is missing from the set. -/
def poolnum_is_full (pool : poolnum) : Bool :=
  decide (pool.count ≤ pool.free.length)

/-- A pointer to the key of a table entry (`struct in_addr *`, the type of
`last_used_addr` and of `original_addr`): `entry` is the table entry it
points into, by the place the allocator gave it, which is what a comparison
of two pointers compares; `addr` is the address read through it.  The code
does not clear `last_used_addr` when it destroys the entry it points into;
such a pointer keeps reading the address the entry held, until the
allocator gives the place to a new entry. -/
structure in_addr_ptr where
  entry : Nat
  addr : Nat
  deriving DecidableEq, Repr

/-- The structure `struct pool4_node`: an address of the pool, whether it
is active, and its seven port sets (`udp_ports.low_even` ... `icmp_ids`);
`entry` is the table entry (`struct pool4_table_key_value`) that holds the
node and the copy of its address, by the place the allocator gave it. -/
structure pool4_node where
  addr : Nat
  entry : Nat
  active : Bool
  udp_low_even : poolnum
  udp_low_odd : poolnum
  udp_high_even : poolnum
  udp_high_odd : poolnum
  tcp_low : poolnum
  tcp_high : poolnum
  icmp_ids : poolnum
  deriving DecidableEq, Repr

/-- The seven port sets of a node; a value of this type stands for the
pointer `get_poolnum_from_pool4_node` returns. -/
inductive poolnum_ref where
  | udp_low_even
  | udp_low_odd
  | udp_high_even
  | udp_high_odd
  | tcp_low
  | tcp_high
  | icmp_ids
  deriving DecidableEq, Repr

/-- The port set a reference points to. -/
def pool4_node.get (node : pool4_node) : poolnum_ref → poolnum
  | .udp_low_even => node.udp_low_even
  | .udp_low_odd => node.udp_low_odd
  | .udp_high_even => node.udp_high_even
  | .udp_high_odd => node.udp_high_odd
  | .tcp_low => node.tcp_low
  | .tcp_high => node.tcp_high
  | .icmp_ids => node.icmp_ids

/-- The node after a store through a reference. -/
def pool4_node.set (node : pool4_node) (ref : poolnum_ref) (p : poolnum) :
    pool4_node :=
  match ref with
  | .udp_low_even => { node with udp_low_even := p }
  | .udp_low_odd => { node with udp_low_odd := p }
  | .udp_high_even => { node with udp_high_even := p }
  | .udp_high_odd => { node with udp_high_odd := p }
  | .tcp_low => { node with tcp_low := p }
  | .tcp_high => { node with tcp_high := p }
  | .icmp_ids => { node with icmp_ids := p }

/-- The pointer `&keyval->key` to the key of the entry that holds a
node. -/
def pool4_node.key_ptr (node : pool4_node) : in_addr_ptr :=
  { entry := node.entry, addr := node.addr }

/-- The state of `pool4.c`: the table `pool` as the list of its nodes in
list order (`pool.list`), and the pointer `last_used_addr` (`none` is
NULL). -/
structure pool4_state where
  pool : List pool4_node
  last_used_addr : Option in_addr_ptr
  deriving DecidableEq, Repr

/-- The function `pool4_is_full`. -/
def pool4_is_full (node : pool4_node) : Bool :=
  if !poolnum_is_full node.icmp_ids then false
  else if !poolnum_is_full node.tcp_high then false
  else if !poolnum_is_full node.tcp_low then false
  else if !poolnum_is_full node.udp_low_even then false
  else if !poolnum_is_full node.udp_low_odd then false
  else if !poolnum_is_full node.udp_high_even then false
  else if !poolnum_is_full node.udp_high_odd then false
  else true

/-- The function `get_poolnum_from_pool4_node`; `id` is a `__u16`. The
final `return NULL` of the source is for values outside `l4_protocol`. -/
def get_poolnum_from_pool4_node (l4_proto : l4_protocol) (id : Nat) :
    poolnum_ref :=
  match l4_proto with
  | L4PROTO_UDP =>
    if id < 1024 then
      if id % 2 = 0 then .udp_low_even else .udp_low_odd
    else
      if id % 2 = 0 then .udp_high_even else .udp_high_odd
  | L4PROTO_TCP => if id < 1024 then .tcp_low else .tcp_high
  | L4PROTO_ICMP => .icmp_ids

/-- Modelled from the spec: the helper pool4_table_get_aux of
`hash_table.c` is not among the sources; it looks the key up and returns
its entry, here the position of the entry in the list. -/
def pool4_table_get_aux (pool : List pool4_node) (addr : Nat) : Option Nat :=
  if (pool.map pool4_node.addr).indexOf addr < pool.length then
    some ((pool.map pool4_node.addr).indexOf addr)
  else none

/-- Modelled from the spec: the helper pool4_table_get of `hash_table.c` is
not among the sources; the node stored for the key. -/
def pool4_table_get (pool : List pool4_node) (addr : Nat) :
    Option pool4_node :=
  match pool4_table_get_aux pool addr with
  | some i => pool[i]?
  | none => none

/-- Modelled from the spec: the helper pool4_table_put of `hash_table.c` is
not among the sources; it adds the entry behind the others. -/
def pool4_table_put (pool : List pool4_node) (node : pool4_node) :
    List pool4_node :=
  pool ++ [node]

/-- Modelled from the spec: the helper pool4_table_remove of `hash_table.c`
is not among the sources; it takes the entry of the key out and tells
whether there was one. -/
def pool4_table_remove (pool : List pool4_node) (addr : Nat) :
    Bool × List pool4_node :=
  match pool4_table_get_aux pool addr with
  | some i => (true, pool.eraseIdx i)
  | none => (false, pool)

/-- The node of the key replaced: the effect of a write through the
pointer `pool4_table_get` returned. -/
def pool4_table_update (pool : List pool4_node) (addr : Nat)
    (node : pool4_node) : List pool4_node :=
  match pool4_table_get_aux pool addr with
  | some i => pool.set i node
  | none => pool

/-- The function `initialize_last_used_addr`. -/
def initialize_last_used_addr (st : pool4_state) : pool4_state :=
  { st with last_used_addr := st.pool.head?.map pool4_node.key_ptr }

/-- The function `increment_last_used_addr`. -/
def increment_last_used_addr (st : pool4_state) : pool4_state :=
  match st.last_used_addr with
  | none => initialize_last_used_addr st
  | some last =>
    -- keyval = pool4_table_get_aux(&pool, last_used_addr)
    match pool4_table_get_aux st.pool last.addr with
    | none => initialize_last_used_addr st
    | some i =>
      -- list_is_last(&keyval->list_hook, &pool.list)
      if i + 1 = st.pool.length then initialize_last_used_addr st
      else
        { st with
          last_used_addr := (st.pool[i + 1]?).map pool4_node.key_ptr }

/-- The function `pool4_is_emtpy`. -/
def pool4_is_emtpy (st : pool4_state) : Bool := st.pool.isEmpty

/-- The function `deactivate_or_destroy_pool4_node`, for a node that is in
the table. -/
def deactivate_or_destroy_pool4_node (st : pool4_state) (node : pool4_node) :
    Int × pool4_state :=
  if !pool4_is_full node then
    (0, { st with
      pool := pool4_table_update st.pool node.addr
        { node with active := false } })
  else
    let r := pool4_table_remove st.pool node.addr
    (if !r.1 then -EINVAL else 0, { st with pool := r.2 })

/-- The function `pool4_register`; `alloc` is what the allocations of a
new node end in: `none` when one of them fails, otherwise the place of the
new table entry.  That place holds `addr` from then on, also for a pointer
that was left on it when an earlier entry was destroyed. -/
def pool4_register (addr : Nat) (alloc : Option Nat) (st : pool4_state) :
    Int × pool4_state :=
  match pool4_table_get st.pool addr with
  | some node =>
    if node.active then (-EINVAL, st)
    else
      (0, { st with
        pool := pool4_table_update st.pool addr { node with active := true } })
  | none =>
    match alloc with
    | none => (-ENOMEM, st)
    | some entry =>
      let new_node : pool4_node :=
        { addr := addr, entry := entry, active := true,
          udp_low_even := poolnum_init 0 1022 2,
          udp_low_odd := poolnum_init 1 1023 2,
          udp_high_even := poolnum_init 1024 65534 2,
          udp_high_odd := poolnum_init 1025 65535 2,
          tcp_low := poolnum_init 0 1023 1,
          tcp_high := poolnum_init 1024 65535 1,
          icmp_ids := poolnum_init 0 65535 1 }
      (0, { pool := pool4_table_put st.pool new_node,
            last_used_addr := st.last_used_addr.map fun c =>
              if c.entry = entry then new_node.key_ptr else c })

/-- The function `pool4_remove`. -/
def pool4_remove (addr : Nat) (st : pool4_state) : Int × pool4_state :=
  match pool4_table_get st.pool addr with
  | none => (-ENOENT, st)
  | some node =>
    if !node.active then (-ENOENT, st)
    else
      let r := deactivate_or_destroy_pool4_node st node
      if r.1 ≠ 0 then (-ENOENT, r.2) else (0, r.2)

/-- The function `pool4_get`. -/
def pool4_get (l4_proto : l4_protocol) (addr : ipv4_transport_addr)
    (st : pool4_state) : Int × pool4_state :=
  match pool4_table_get st.pool addr.l3 with
  | none => (-EINVAL, st)
  | some node =>
    if !node.active then (-EINVAL, st)
    else
      let ids := get_poolnum_from_pool4_node l4_proto addr.l4
      let r := poolnum_get (node.get ids) addr.l4
      (r.1, { st with
        pool := pool4_table_update st.pool addr.l3 (node.set ids r.2) })

/-- The function `pool4_get_match`: the error code, the state and
`*result`. -/
def pool4_get_match (proto : l4_protocol) (addr : ipv4_transport_addr)
    (result : Nat) (st : pool4_state) : Int × pool4_state × Nat :=
  match pool4_table_get st.pool addr.l3 with
  | none => (-EINVAL, st, result)
  | some node =>
    if !node.active then (-EINVAL, st, result)
    else
      let ids := get_poolnum_from_pool4_node proto addr.l4
      let r := poolnum_get_any (node.get ids) result
      (r.1, { st with
        pool := pool4_table_update st.pool addr.l3 (node.set ids r.2.1) },
        r.2.2)

/-- The function `get_any_port`: the error code, the node and `*result`. -/
def get_any_port (node : pool4_node) (proto : l4_protocol) (result : Nat) :
    Int × pool4_node × Nat :=
  match proto with
  | L4PROTO_UDP =>
    let r := poolnum_get_any node.udp_high_even result
    if r.1 = 0 then (0, { node with udp_high_even := r.2.1 }, r.2.2)
    else
      let r := poolnum_get_any node.udp_high_odd r.2.2
      if r.1 = 0 then (0, { node with udp_high_odd := r.2.1 }, r.2.2)
      else
        let r := poolnum_get_any node.udp_low_even r.2.2
        if r.1 = 0 then (0, { node with udp_low_even := r.2.1 }, r.2.2)
        else
          let r := poolnum_get_any node.udp_low_odd r.2.2
          (r.1, { node with udp_low_odd := r.2.1 }, r.2.2)
  | L4PROTO_TCP =>
    let r := poolnum_get_any node.tcp_high result
    if r.1 = 0 then (0, { node with tcp_high := r.2.1 }, r.2.2)
    else
      let r := poolnum_get_any node.tcp_low r.2.2
      (r.1, { node with tcp_low := r.2.1 }, r.2.2)
  | L4PROTO_ICMP =>
    let r := poolnum_get_any node.icmp_ids result
    (r.1, { node with icmp_ids := r.2.1 }, r.2.2)

/-- The function `pool4_get_any_port`. -/
def pool4_get_any_port (proto : l4_protocol) (addr : Nat) (result : Nat)
    (st : pool4_state) : Int × pool4_state × Nat :=
  match pool4_table_get st.pool addr with
  | none => (-EINVAL, st, result)
  | some node =>
    if !node.active then (-EINVAL, st, result)
    else
      let r := get_any_port node proto result
      (r.1, { st with pool := pool4_table_update st.pool addr r.2.1 }, r.2.2)

/-- One of the two `do ... while (original_addr != last_used_addr)` loops
of `pool4_get_any_addr`, which differ in the attempt made on an active
node (`attempt` returns the error code, the node and the port).  The result
is `none` when `fuel` iterations do not end the loop; otherwise the state,
the port written last, and the address `*last_used_addr` on success (`goto
success`) or `none` when the loop is left through its condition.  The
condition compares the two pointers, that is the entries they point
into. -/
def pool4_get_any_addr_loop
    (attempt : pool4_node → Nat → Int × pool4_node × Nat) :
    Nat → Option in_addr_ptr → pool4_state → Nat →
      Option (pool4_state × Nat × Option Nat)
  | 0, _, _, _ => none
  | fuel + 1, original_addr, st, l4 =>
    let st := increment_last_used_addr st
    -- the address read through last_used_addr
    let last := (st.last_used_addr.map in_addr_ptr.addr).getD 0
    let again (st : pool4_state) (l4 : Nat) :=
      if original_addr.map in_addr_ptr.entry
          ≠ st.last_used_addr.map in_addr_ptr.entry then
        pool4_get_any_addr_loop attempt fuel original_addr st l4
      else some (st, l4, none)
    match pool4_table_get st.pool last with
    | none => again st l4
    | some node =>
      if !node.active then again st l4
      else
        let r := attempt node l4
        let st := { st with pool := pool4_table_update st.pool last r.2.1 }
        if r.1 = 0 then some (st, r.2.2, some last)
        else again st r.2.2

/-- The function `pool4_get_any_addr`: `none` when `fuel` iterations do not
end one of its loops, otherwise the error code, the state and `*result`. -/
def pool4_get_any_addr (fuel : Nat) (proto : l4_protocol) (l4_id : Nat)
    (result : ipv4_transport_addr) (st : pool4_state) :
    Option (Int × pool4_state × ipv4_transport_addr) :=
  if pool4_is_emtpy st then some (-EINVAL, st, result)
  else
    -- Iterate through all of the addresses until we find one that has a
    -- compatible port.
    let ids := get_poolnum_from_pool4_node proto l4_id
    match pool4_get_any_addr_loop
        (fun node l4 =>
          let r := poolnum_get_any (node.get ids) l4
          (r.1, node.set ids r.2.1, r.2.2))
        fuel st.last_used_addr st result.l4 with
    | none => none
    | some (st, l4, some l3) => some (0, st, { l3 := l3, l4 := l4 })
    | some (st, l4, none) =>
      -- We have NO addresses with compatible ports. Fall back to using any
      -- address.
      match pool4_get_any_addr_loop (fun node l4 => get_any_port node proto l4)
          fuel st.last_used_addr st l4 with
      | none => none
      | some (st, l4, some l3) => some (0, st, { l3 := l3, l4 := l4 })
      | some (st, l4, none) =>
        some (-ESRCH, st, { result with l4 := l4 })

/-- The function `pool4_return`. -/
def pool4_return (l4_proto : l4_protocol) (addr : ipv4_transport_addr)
    (st : pool4_state) : Int × pool4_state :=
  match pool4_table_get st.pool addr.l3 with
  | none => (-EINVAL, st)
  | some node =>
    let ids := get_poolnum_from_pool4_node l4_proto addr.l4
    let r := poolnum_return (node.get ids) addr.l4
    if r.1 ≠ 0 then (r.1, st)
    else
      let node := node.set ids r.2
      let st := { st with pool := pool4_table_update st.pool addr.l3 node }
      if !node.active then
        let d := deactivate_or_destroy_pool4_node st node
        if d.1 ≠ 0 then (d.1, d.2) else (0, d.2)
      else (0, st)

/-- The protocol a port set belongs to. -/
def poolnum_ref.proto : poolnum_ref → l4_protocol
  | .udp_low_even => L4PROTO_UDP
  | .udp_low_odd => L4PROTO_UDP
  | .udp_high_even => L4PROTO_UDP
  | .udp_high_odd => L4PROTO_UDP
  | .tcp_low => L4PROTO_TCP
  | .tcp_high => L4PROTO_TCP
  | .icmp_ids => L4PROTO_ICMP

/-- Every free port of a node lies in the set of its own class. -/
def pool4_node.wf (node : pool4_node) : Prop :=
  ∀ (ref : poolnum_ref) (v : Nat), v ∈ (node.get ref).free →
    get_poolnum_from_pool4_node ref.proto v = ref

/-- The table holds every address once, every node keeps its ports in the
sets of their classes, no two nodes share a table entry, and when
`last_used_addr` points into an entry of the table it reads the address of
that entry. -/
def pool4_state.wf (st : pool4_state) : Prop :=
  (st.pool.map pool4_node.addr).Nodup ∧ (∀ x ∈ st.pool, x.wf)
    ∧ (st.pool.map pool4_node.entry).Nodup
    ∧ ∀ c, st.last_used_addr = some c →
      ∀ x ∈ st.pool, x.entry = c.entry → x.addr = c.addr

/-- The states of the pool that the functions of `pool4.c` reach from the
empty pool (`pool4_init` registers its addresses and leaves
`last_used_addr` NULL).  The allocator gives a new table entry a place that
no entry of the table occupies. -/
inductive pool4_reachable : pool4_state → Prop where
  | init : pool4_reachable { pool := [], last_used_addr := none }
  | register (addr : Nat) (alloc : Option Nat) (st : pool4_state) :
    pool4_reachable st →
    (∀ p, alloc = some p → p ∉ st.pool.map pool4_node.entry) →
    pool4_reachable (pool4_register addr alloc st).2
  | remove (addr : Nat) (st : pool4_state) :
    pool4_reachable st → pool4_reachable (pool4_remove addr st).2
  | get (proto : l4_protocol) (addr : ipv4_transport_addr)
    (st : pool4_state) :
    pool4_reachable st → pool4_reachable (pool4_get proto addr st).2
  | get_match (proto : l4_protocol) (addr : ipv4_transport_addr)
    (result : Nat) (st : pool4_state) :
    pool4_reachable st →
    pool4_reachable (pool4_get_match proto addr result st).2.1
  | get_any_port (proto : l4_protocol) (addr result : Nat)
    (st : pool4_state) :
    pool4_reachable st →
    pool4_reachable (pool4_get_any_port proto addr result st).2.1
  | get_any_addr (fuel : Nat) (proto : l4_protocol) (l4_id : Nat)
    (result : ipv4_transport_addr) (st : pool4_state)
    (r : Int × pool4_state × ipv4_transport_addr) :
    pool4_reachable st →
    pool4_get_any_addr fuel proto l4_id result st = some r →
    pool4_reachable r.2.1
  | ret (proto : l4_protocol) (addr : ipv4_transport_addr)
    (st : pool4_state) :
    pool4_reachable st → pool4_reachable (pool4_return proto addr st).2

/-- The number of steps of `increment_last_used_addr` that take a cursor
that reads the address `c` to the node at position `g` of the list. -/
def spec_pool4_dist (pool : List pool4_node) (g : Nat) (c : Option Nat) :
    Nat :=
  match c with
  | none => g + 1
  | some a =>
    match pool4_table_get_aux pool a with
    | none => g + 1
    | some k => if k < g then g - k else pool.length - k + g

/-- The pool after `pool4_init` with the single address 192.0.2.7. -/
def sample_pool4 : pool4_state :=
  (pool4_register 0xc0000207 (some 1)
    { pool := [], last_used_addr := none }).2

/-- The state after `n` further requests for the UDP port 80 to
`sample_pool4`. -/
def sample_pool4_requests : Nat → pool4_state
  | 0 => sample_pool4
  | n + 1 =>
    match pool4_get_any_addr 1 L4PROTO_UDP 80 { l3 := 0, l4 := 0 }
        (sample_pool4_requests n) with
    | some r => r.2.1
    | none => sample_pool4_requests n

/-- The node of 192.0.2.7 with the UDP port 80 borrowed. -/
def sample_pool4_node80 : pool4_node :=
  { addr := 0xc0000207, entry := 1, active := true,
    udp_low_even := (poolnum_get (poolnum_init 0 1022 2) 80).2,
    udp_low_odd := poolnum_init 1 1023 2,
    udp_high_even := poolnum_init 1024 65534 2,
    udp_high_odd := poolnum_init 1025 65535 2,
    tcp_low := poolnum_init 0 1023 1,
    tcp_high := poolnum_init 1024 65535 1,
    icmp_ids := poolnum_init 0 65535 1 }

/-- The pool of `sample_pool4` after `pool4_get` has borrowed the UDP port
80 of 192.0.2.7 and `pool4_remove` has then removed the address: the node
stays in the table, inactive, and `last_used_addr` is still NULL. -/
def sample_pool4_removed : pool4_state :=
  { pool := [{ sample_pool4_node80 with active := false }],
    last_used_addr := none }

/-! ## The configuration requests (`nl/global.c`) -/

/-- The octet `s6_addr[8]` of an address, the "u-bit octet": the most
significant octet of the third 32-bit word. -/
def in6_addr.s6_addr8 (a : in6_addr) : Nat := a.a2 % 4294967296 / 16777216

/-- Modelled from the spec: `struct optional_prefix6` is not among the
sources; the "pool6 prefix (unset or ...)": the flag `set` and the prefix,
the member `prefix` of the structure. -/
structure optional_prefix6 where
  set : Bool
  prefix6 : prefix6
  deriving DecidableEq, Repr

/-- Modelled from the spec: `enum global_type` is not among the sources;
its members are the options `massive_switch` names, and `GT_OTHER` stands
for every other value of `chunk->type`. -/
inductive global_type where
  | GT_ENABLE
  | GT_DISABLE
  | GT_ENABLE_BOOL
  | GT_POOL6
  | GT_RESET_TCLASS
  | GT_RESET_TOS
  | GT_NEW_TOS
  | GT_MTU_PLATEAUS
  | GT_COMPUTE_UDP_CSUM_ZERO
  | GT_RANDOMIZE_RFC6791
  | GT_EAM_HAIRPINNING_MODE
  | GT_RFC6791V6_PREFIX
  | GT_DROP_BY_ADDR
  | GT_DROP_ICMP6_INFO
  | GT_DROP_EXTERNAL_TCP
  | GT_SRC_ICMP6ERRS_BETTER
  | GT_F_ARGS
  | GT_HANDLE_RST_DURING_FIN_RCV
  | GT_UDP_TIMEOUT
  | GT_ICMP_TIMEOUT
  | GT_TCP_EST_TIMEOUT
  | GT_TCP_TRANS_TIMEOUT
  | GT_BIB_LOGGING
  | GT_SESSION_LOGGING
  | GT_MAX_PKTS
  | GT_SS_ENABLED
  | GT_SS_FLUSH_ASAP
  | GT_SS_FLUSH_DEADLINE
  | GT_SS_CAPACITY
  | GT_SS_MAX_PAYLOAD
  | GT_OTHER
  deriving DecidableEq, Repr

open global_type

/-- Modelled from the spec: `struct global_value` is not among the sources;
the header of a configuration chunk, with the members `massive_switch` and
`config_parse` read: the option, the force flag and the length of the chunk
("includes header and payload"). -/
structure global_value where
  type : global_type
  force : Nat
  len : Nat
  deriving DecidableEq, Repr

/-- The payload of a configuration request, as the code reads it: the
chunk header at an offset and the values of the widths in use at an
offset. -/
structure config_payload where
  chunk : Nat → global_value
  u8 : Nat → Nat
  u16 : Nat → Nat
  u32 : Nat → Nat
  prefix6 : Nat → prefix6

/-- What `global.c` takes from outside: the mode of the module, the helpers
`prefix6_validate` and `msecs_to_jiffies`, the sizes of `struct
global_value` and `struct ipv6_prefix`, and the constants of
`constants.h`. -/
structure config_env where
  xlat_is_siit : Bool
  xlat_is_nat64 : Bool
  prefix6_validate : prefix6 → Int
  msecs_to_jiffies : Nat → Nat
  sizeof_global_value : Nat
  sizeof_prefix6 : Nat
  UDP_MIN : Nat
  TCP_EST : Nat
  TCP_TRANS : Nat
  JOOLD_MAX_PAYLOAD : Nat

/-- The configuration `massive_switch` writes (`struct full_config`):
`global` holds the plateaus of `cfg->global`, the fields `global_*` its
other members (`global_siit_*` those of `cfg->global.siit`, `global_nat64_*`
those of `cfg->global.nat64`), `bib_*` the members of `cfg->bib` and
`joold_*` those of `cfg->joold`. -/
structure full_config where
  global : global_config_usr
  global_enabled : Nat
  global_pool6 : optional_prefix6
  global_reset_traffic_class : Nat
  global_reset_tos : Nat
  global_new_tos : Nat
  global_siit_compute_udp_csum_zero : Nat
  global_siit_randomize_error_addresses : Nat
  global_siit_eam_hairpin_mode : Nat
  global_siit_rfc6791v6_prefix : optional_prefix6
  global_nat64_drop_icmp6_info : Nat
  global_nat64_src_icmp6errs_better : Nat
  global_nat64_f_args : Nat
  global_nat64_handle_rst_during_fin_rcv : Nat
  bib_drop_by_addr : Nat
  bib_drop_external_tcp : Nat
  bib_ttl_udp : Nat
  bib_ttl_icmp : Nat
  bib_ttl_tcp_est : Nat
  bib_ttl_tcp_trans : Nat
  bib_bib_logging : Nat
  bib_session_logging : Nat
  bib_max_stored_pkts : Nat
  joold_enabled : Nat
  joold_flush_asap : Nat
  joold_flush_deadline : Nat
  joold_capacity : Nat
  joold_max_payload : Nat
  deriving DecidableEq, Repr

/-- The function `ensure_siit`. -/
def ensure_siit (env : config_env) : Int :=
  if !env.xlat_is_siit then -EINVAL else 0

/-- The function `ensure_nat64`. -/
def ensure_nat64 (env : config_env) : Int :=
  if !env.xlat_is_nat64 then -EINVAL else 0

/-- The function `ensure_bytes`. -/
def ensure_bytes (actual expected : Nat) : Bool :=
  if actual < expected then false else true

/-- The function `parse_ipv6_prefix`: the error code and `*dst`; `chunk` is
the offset of the chunk in the payload. -/
def parse_ipv6_prefix (env : config_env) (dst : optional_prefix6)
    (payload : config_payload) (chunk : Nat) (size : Nat) :
    Int × optional_prefix6 :=
  let actual : Int := (size : Int) - (env.sizeof_global_value : Int)
  -- If the chunk lacks payload, the user is trying to unset the value.
  if actual ≤ 0 then (0, { dst with set := false })
  else if actual ≥ (env.sizeof_prefix6 : Int) then
    (0, { prefix6 := payload.prefix6 (chunk + env.sizeof_global_value),
          set := true })
  else (-EINVAL, dst)

/-- The function `validate_pool6_len`; `len` is a `__u8`. -/
def validate_pool6_len (len : Nat) : Int :=
  if len % 256 = 32 ∨ len % 256 = 40 ∨ len % 256 = 48 then 0
  else if len % 256 = 56 ∨ len % 256 = 64 ∨ len % 256 = 96 then 0
  else -EINVAL

/-- The function `validate_ubit`; `force` is a `config_bool`. -/
def validate_ubit (pfx : prefix6) (force : Nat) : Int :=
  if force ≠ 0 ∨ pfx.address.s6_addr8 = 0 then 0
  else -EINVAL

/-- The function `validate_pool6`. -/
def validate_pool6 (env : config_env) (pfx : optional_prefix6) (force : Nat) :
    Int :=
  if !pfx.set then 0
  else
    let error := validate_pool6_len pfx.prefix6.len
    if error ≠ 0 then error
    else
      let error := env.prefix6_validate pfx.prefix6
      if error ≠ 0 then error
      else validate_ubit pfx.prefix6 force

/-- The function `parse_u32`: the error code and `*field`. -/
def parse_u32 (env : config_env) (field : Nat) (payload : config_payload)
    (chunk : Nat) (size : Nat) : Int × Nat :=
  if !ensure_bytes size 4 then (-EINVAL, field)
  else (0, payload.u32 (chunk + env.sizeof_global_value))

/-- The function `parse_u16`: the error code and `*field`. -/
def parse_u16 (env : config_env) (field : Nat) (payload : config_payload)
    (chunk : Nat) (size : Nat) (max : Nat) : Int × Nat :=
  if !ensure_bytes size 2 then (-EINVAL, field)
  else
    let value := payload.u16 (chunk + env.sizeof_global_value)
    if value > max then (-EINVAL, field)
    else (0, value)

/-- The function `parse_u8`: the error code and `*field`. -/
def parse_u8 (env : config_env) (field : Nat) (payload : config_payload)
    (chunk : Nat) (size : Nat) : Int × Nat :=
  if !ensure_bytes size 1 then (-EINVAL, field)
  else (0, payload.u8 (chunk + env.sizeof_global_value))

/-- The function `parse_bool`. -/
def parse_bool (env : config_env) (field : Nat) (payload : config_payload)
    (chunk : Nat) (size : Nat) : Int × Nat :=
  parse_u8 env field payload chunk size

/-- The function `parse_timeout`: the error code and `*field`; the product
`1000 * min` is an `unsigned int`. -/
def parse_timeout (env : config_env) (field : Nat) (payload : config_payload)
    (chunk : Nat) (size : Nat) (min : Nat) : Int × Nat :=
  if !ensure_bytes size 4 then (-EINVAL, field)
  else
    let value := payload.u32 (chunk + env.sizeof_global_value)
    if value < 1000 * min % 4294967296 then (-EINVAL, field)
    else (0, env.msecs_to_jiffies value)

/-- The array behind the header of a `GT_MTU_PLATEAUS` chunk, as
`update_plateaus` takes it from the request: `list_length = (hdr->len -
sizeof(*hdr)) / sizeof(__u16)` values (the difference is a `size_t`, so a
`hdr->len` below the size of the header makes the `int list_length`
negative, and the list is refused like an empty one). -/
def plateaus_of_chunk (env : config_env) (payload : config_payload)
    (chunk : Nat) : List Nat :=
  if (payload.chunk chunk).len < env.sizeof_global_value then []
  else
    (List.range (((payload.chunk chunk).len - env.sizeof_global_value) / 2)).map
      (fun k => payload.u16 (chunk + env.sizeof_global_value + 2 * k))

/-- The function `massive_switch`: the error code and `*cfg`; `chunk` is
the offset of the chunk in the payload. -/
def massive_switch (env : config_env) (cfg : full_config)
    (payload : config_payload) (chunk : Nat) (size : Nat) :
    Int × full_config :=
  if !ensure_bytes size (payload.chunk chunk).len then (-EINVAL, cfg)
  else
    match (payload.chunk chunk).type with
    | GT_ENABLE => (0, { cfg with global_enabled := 1 })
    | GT_DISABLE => (0, { cfg with global_enabled := 0 })
    | GT_ENABLE_BOOL =>
      let r := parse_bool env cfg.global_enabled payload chunk size
      (r.1, { cfg with global_enabled := r.2 })
    | GT_POOL6 =>
      let r := parse_ipv6_prefix env cfg.global_pool6 payload chunk size
      if r.1 ≠ 0 then (r.1, { cfg with global_pool6 := r.2 })
      else
        (validate_pool6 env r.2 (payload.chunk chunk).force,
          { cfg with global_pool6 := r.2 })
    | GT_RESET_TCLASS =>
      let r := parse_bool env cfg.global_reset_traffic_class payload chunk size
      (r.1, { cfg with global_reset_traffic_class := r.2 })
    | GT_RESET_TOS =>
      let r := parse_bool env cfg.global_reset_tos payload chunk size
      (r.1, { cfg with global_reset_tos := r.2 })
    | GT_NEW_TOS =>
      let r := parse_u8 env cfg.global_new_tos payload chunk size
      (r.1, { cfg with global_new_tos := r.2 })
    | GT_MTU_PLATEAUS =>
      -- max_size - sizeof(*hdr) is a size_t
      let r := update_plateaus cfg.global (plateaus_of_chunk env payload chunk)
        ((size + 18446744073709551616 - env.sizeof_global_value)
          % 18446744073709551616)
      (r.1, { cfg with global := r.2 })
    | GT_COMPUTE_UDP_CSUM_ZERO =>
      if ensure_siit env ≠ 0 then (ensure_siit env, cfg)
      else
        let r := parse_bool env cfg.global_siit_compute_udp_csum_zero payload
          chunk size
        (r.1, { cfg with global_siit_compute_udp_csum_zero := r.2 })
    | GT_RANDOMIZE_RFC6791 =>
      if ensure_siit env ≠ 0 then (ensure_siit env, cfg)
      else
        let r := parse_bool env cfg.global_siit_randomize_error_addresses
          payload chunk size
        (r.1, { cfg with global_siit_randomize_error_addresses := r.2 })
    | GT_EAM_HAIRPINNING_MODE =>
      if ensure_siit env ≠ 0 then (ensure_siit env, cfg)
      else
        let r := parse_bool env cfg.global_siit_eam_hairpin_mode payload chunk
          size
        (r.1, { cfg with global_siit_eam_hairpin_mode := r.2 })
    | GT_RFC6791V6_PREFIX =>
      if ensure_siit env ≠ 0 then (ensure_siit env, cfg)
      else
        let r := parse_ipv6_prefix env
          ( full_config.global_siit_rfc6791v6_prefix cfg) payload chunk size
        (r.1, { cfg with global_siit_rfc6791v6_prefix := r.2 })
    | GT_DROP_BY_ADDR =>
      if ensure_nat64 env ≠ 0 then (ensure_nat64 env, cfg)
      else
        let r := parse_bool env cfg.bib_drop_by_addr payload chunk size
        (r.1, { cfg with bib_drop_by_addr := r.2 })
    | GT_DROP_ICMP6_INFO =>
      if ensure_nat64 env ≠ 0 then (ensure_nat64 env, cfg)
      else
        let r := parse_bool env cfg.global_nat64_drop_icmp6_info payload chunk
          size
        (r.1, { cfg with global_nat64_drop_icmp6_info := r.2 })
    | GT_DROP_EXTERNAL_TCP =>
      if ensure_nat64 env ≠ 0 then (ensure_nat64 env, cfg)
      else
        let r := parse_bool env cfg.bib_drop_external_tcp payload chunk size
        (r.1, { cfg with bib_drop_external_tcp := r.2 })
    | GT_SRC_ICMP6ERRS_BETTER =>
      if ensure_nat64 env ≠ 0 then (ensure_nat64 env, cfg)
      else
        let r := parse_bool env cfg.global_nat64_src_icmp6errs_better payload
          chunk size
        (r.1, { cfg with global_nat64_src_icmp6errs_better := r.2 })
    | GT_F_ARGS =>
      if ensure_nat64 env ≠ 0 then (ensure_nat64 env, cfg)
      else
        let r := parse_u8 env cfg.global_nat64_f_args payload chunk size
        (r.1, { cfg with global_nat64_f_args := r.2 })
    | GT_HANDLE_RST_DURING_FIN_RCV =>
      if ensure_nat64 env ≠ 0 then (ensure_nat64 env, cfg)
      else
        let r := parse_bool env cfg.global_nat64_handle_rst_during_fin_rcv
          payload chunk size
        (r.1, { cfg with global_nat64_handle_rst_during_fin_rcv := r.2 })
    | GT_UDP_TIMEOUT =>
      if ensure_nat64 env ≠ 0 then (ensure_nat64 env, cfg)
      else
        let r := parse_timeout env cfg.bib_ttl_udp payload chunk size
          env.UDP_MIN
        (r.1, { cfg with bib_ttl_udp := r.2 })
    | GT_ICMP_TIMEOUT =>
      if ensure_nat64 env ≠ 0 then (ensure_nat64 env, cfg)
      else
        let r := parse_timeout env cfg.bib_ttl_icmp payload chunk size 0
        (r.1, { cfg with bib_ttl_icmp := r.2 })
    | GT_TCP_EST_TIMEOUT =>
      if ensure_nat64 env ≠ 0 then (ensure_nat64 env, cfg)
      else
        let r := parse_timeout env cfg.bib_ttl_tcp_est payload chunk size
          env.TCP_EST
        (r.1, { cfg with bib_ttl_tcp_est := r.2 })
    | GT_TCP_TRANS_TIMEOUT =>
      if ensure_nat64 env ≠ 0 then (ensure_nat64 env, cfg)
      else
        let r := parse_timeout env cfg.bib_ttl_tcp_trans payload chunk size
          env.TCP_TRANS
        (r.1, { cfg with bib_ttl_tcp_trans := r.2 })
    | GT_BIB_LOGGING =>
      if ensure_nat64 env ≠ 0 then (ensure_nat64 env, cfg)
      else
        let r := parse_bool env cfg.bib_bib_logging payload chunk size
        (r.1, { cfg with bib_bib_logging := r.2 })
    | GT_SESSION_LOGGING =>
      if ensure_nat64 env ≠ 0 then (ensure_nat64 env, cfg)
      else
        let r := parse_bool env cfg.bib_session_logging payload chunk size
        (r.1, { cfg with bib_session_logging := r.2 })
    | GT_MAX_PKTS =>
      if ensure_nat64 env ≠ 0 then (ensure_nat64 env, cfg)
      else
        let r := parse_u32 env cfg.bib_max_stored_pkts payload chunk size
        (r.1, { cfg with bib_max_stored_pkts := r.2 })
    | GT_SS_ENABLED =>
      if ensure_nat64 env ≠ 0 then (ensure_nat64 env, cfg)
      else
        let r := parse_bool env cfg.joold_enabled payload chunk size
        (r.1, { cfg with joold_enabled := r.2 })
    | GT_SS_FLUSH_ASAP =>
      if ensure_nat64 env ≠ 0 then (ensure_nat64 env, cfg)
      else
        let r := parse_bool env cfg.joold_flush_asap payload chunk size
        (r.1, { cfg with joold_flush_asap := r.2 })
    | GT_SS_FLUSH_DEADLINE =>
      if ensure_nat64 env ≠ 0 then (ensure_nat64 env, cfg)
      else
        let r := parse_timeout env cfg.joold_flush_deadline payload chunk size 0
        (r.1, { cfg with joold_flush_deadline := r.2 })
    | GT_SS_CAPACITY =>
      if ensure_nat64 env ≠ 0 then (ensure_nat64 env, cfg)
      else
        let r := parse_u32 env cfg.joold_capacity payload chunk size
        (r.1, { cfg with joold_capacity := r.2 })
    | GT_SS_MAX_PAYLOAD =>
      if ensure_nat64 env ≠ 0 then (ensure_nat64 env, cfg)
      else
        let r := parse_u16 env cfg.joold_max_payload payload chunk size
          env.JOOLD_MAX_PAYLOAD
        (r.1, { cfg with joold_max_payload := r.2 })
    | GT_OTHER => (-EINVAL, cfg)

/-- The value of a `size_t` returned as an `int`. -/
def size_t_to_int (x : Nat) : Int :=
  if x % 4294967296 < 2147483648 then (x % 4294967296 : Nat)
  else (x % 4294967296 : Nat) - 4294967296

/-- The loop of `config_parse`; `payload` is the offset of the next chunk.
Each unit of `fuel` pays for one test of `payload_len > 0`; `none` means
that the fuel ran out.  After `massive_switch` has returned 0,
`chunk->len` is at most `payload_len`, so the subtraction does not wrap. -/
def config_parse_loop (env : config_env) (buf : config_payload) :
    Nat → full_config → Nat → Nat → Nat → Option (Int × full_config)
  | 0, _, _, _, _ => none
  | fuel + 1, config, payload, payload_len, bytes_read =>
    if payload_len > 0 then
      if !ensure_bytes payload_len env.sizeof_global_value then
        some (-EINVAL, config)
      else
        let r := massive_switch env config buf payload payload_len
        if r.1 ≠ 0 then some (r.1, r.2)
        else
          config_parse_loop env buf fuel r.2
            (payload + (buf.chunk payload).len)
            (payload_len - (buf.chunk payload).len)
            ((bytes_read + (buf.chunk payload).len) % 18446744073709551616)
    else some (size_t_to_int bytes_read, config)

/-- The function `config_parse`: `none` when `fuel` iterations do not end
its loop, otherwise the value returned and `*config`. -/
def config_parse (fuel : Nat) (env : config_env) (config : full_config)
    (payload : config_payload) (payload_len : Nat) :
    Option (Int × full_config) :=
  config_parse_loop env payload fuel config 0 payload_len 0

/-- A sample environment of `global.c`: a SIIT or a NAT64 module, a
`prefix6_validate` that accepts every prefix, jiffies of one millisecond,
and sample sizes and constants. -/
def sample_config_env (siit : Bool) : config_env :=
  { xlat_is_siit := siit, xlat_is_nat64 := !siit,
    prefix6_validate := fun _ => 0,
    msecs_to_jiffies := fun ms => ms,
    sizeof_global_value := 8, sizeof_prefix6 := 20,
    UDP_MIN := 120, TCP_EST := 7200, TCP_TRANS := 240,
    JOOLD_MAX_PAYLOAD := 2048 }

/-- The prefix 64:ff9b::/96. -/
def sample_pool6 : optional_prefix6 :=
  { set := true,
    prefix6 := { address := { a0 := 0x0064ff9b, a1 := 0, a2 := 0, a3 := 0 },
                 len := 96 } }

/-- The prefix 2001:db8:0:0:ff00::/64, whose ninth octet is 0xFF. -/
def sample_pool6_ubit : optional_prefix6 :=
  { set := true,
    prefix6 := { address := { a0 := 0x20010db8, a1 := 0, a2 := 0xff000000,
                              a3 := 0 },
                 len := 64 } }

/-- A configuration with everything switched off and no prefix set. -/
def sample_full_config : full_config :=
  { global := sample_global_config,
    global_enabled := 0,
    global_pool6 := { sample_pool6 with set := false },
    global_reset_traffic_class := 0,
    global_reset_tos := 0,
    global_new_tos := 0,
    global_siit_compute_udp_csum_zero := 0,
    global_siit_randomize_error_addresses := 0,
    global_siit_eam_hairpin_mode := 0,
    global_siit_rfc6791v6_prefix := { sample_pool6 with set := false },
    global_nat64_drop_icmp6_info := 0,
    global_nat64_src_icmp6errs_better := 0,
    global_nat64_f_args := 0,
    global_nat64_handle_rst_during_fin_rcv := 0,
    bib_drop_by_addr := 0,
    bib_drop_external_tcp := 0,
    bib_ttl_udp := 0,
    bib_ttl_icmp := 0,
    bib_ttl_tcp_est := 0,
    bib_ttl_tcp_trans := 0,
    bib_bib_logging := 0,
    bib_session_logging := 0,
    bib_max_stored_pkts := 0,
    joold_enabled := 0,
    joold_flush_asap := 0,
    joold_flush_deadline := 0,
    joold_capacity := 0,
    joold_max_payload := 0 }

/-- A payload whose every chunk header reads option `type`, force flag 0
and length `len`, and whose every value reads `value`. -/
def sample_config_payload (type : global_type) (len value : Nat) :
    config_payload :=
  { chunk := fun _ => { type := type, force := 0, len := len },
    u8 := fun _ => value % 256,
    u16 := fun _ => value % 65536,
    u32 := fun _ => value % 4294967296,
    prefix6 := fun _ => sample_pool6.prefix6 }

/-! ## The translator instances (`mod/common/xlator.c`) -/

/-- The error number `EEXIST`. -/
def EEXIST : Int := 17

/-- The components of a translator: the members of `struct xlator` that
`init_siit` and `init_nat64` fill (`global`, `pool6`, `siit.eamt` ...
`nat64.joold`, `newcfg`). -/
inductive xlator_part where
  | global
  | pool6
  | siit_eamt
  | siit_blacklist
  | siit_pool6791
  | siit_mapt_bmr_table
  | siit_mapt_enduprefix6_table
  | nat64_frag
  | nat64_pool4
  | nat64_bib
  | nat64_session
  | nat64_joold
  | newcfg
  deriving DecidableEq, Repr

/-- A translator (`struct xlator`): its namespace, the components that are
initialised and not released, in the order of their initialisation, and
the components released so far, in the order of their release. -/
structure xlator where
  ns : Nat
  live : List xlator_part
  released : List xlator_part
  deriving DecidableEq, Repr

/-- Modelled from the spec: the initialisation helpers (`config_init` ...
`cfgcandidate_create`) are not among the sources; one that succeeds leaves
its component initialised. -/
def xlator.init (jool : xlator) (part : xlator_part) : xlator :=
  { jool with live := jool.live ++ [part] }

/-- Modelled from the spec: the release helpers (`config_put` ...
`joold_put`) are not among the sources; each releases its component. -/
def xlator.put (jool : xlator) (part : xlator_part) : xlator :=
  { jool with
    live := jool.live.erase part, released := jool.released ++ [part] }

/-- What `xlator.c` takes from outside: the value every initialisation
step returns (an error code, or for `fragdb_create`, `joold_create` and
`cfgcandidate_create` whether the pointer is not NULL), the mode of the
module, the result of `get_net_ns_by_pid` (the code of an error pointer,
or 0 and the namespace) and whether `wkmalloc` returns memory. -/
structure xlator_env where
  config_init : Int
  pool6_init : Int
  eamt_init : Int
  blacklist_init : Int
  rfc6791_init : Int
  mapt_init : Int
  mapt_init_enduser_prefix6_table : Int
  fragdb_create : Bool
  pool4db_init : Int
  bibdb_init : Int
  sessiondb_init : Int
  joold_create : Bool
  cfgcandidate_create : Bool
  xlat_is_siit : Bool
  get_net_ns_by_pid : Int × Nat
  wkmalloc : Bool

/-- The label `config_fail` of `init_siit`. -/
def init_siit.config_fail (jool : xlator) (error : Int) : Int × xlator :=
  (error, jool)

/-- The label `pool6_fail` of `init_siit`. -/
def init_siit.pool6_fail (jool : xlator) (error : Int) : Int × xlator :=
  init_siit.config_fail (jool.put .global) error

/-- The label `eamt_fail` of `init_siit`. -/
def init_siit.eamt_fail (jool : xlator) (error : Int) : Int × xlator :=
  init_siit.pool6_fail (jool.put .pool6) error

/-- The label `blacklist_fail` of `init_siit`. -/
def init_siit.blacklist_fail (jool : xlator) (error : Int) : Int × xlator :=
  init_siit.eamt_fail (jool.put .siit_eamt) error

/-- The label `rfc6791_fail` of `init_siit`. -/
def init_siit.rfc6791_fail (jool : xlator) (error : Int) : Int × xlator :=
  init_siit.blacklist_fail (jool.put .siit_blacklist) error

/-- The label `mapt_fail` of `init_siit`. -/
def init_siit.mapt_fail (jool : xlator) (error : Int) : Int × xlator :=
  init_siit.rfc6791_fail (jool.put .siit_pool6791) error

/-- The label `mapt_enduser_fail` of `init_siit`. -/
def init_siit.mapt_enduser_fail (jool : xlator) (error : Int) :
    Int × xlator :=
  init_siit.mapt_fail (jool.put .siit_mapt_bmr_table) error

/-- The label `newcfg_fail` of `init_siit`. -/
def init_siit.newcfg_fail (jool : xlator) (error : Int) : Int × xlator :=
  init_siit.mapt_enduser_fail (jool.put .siit_mapt_enduprefix6_table) error

/-- The function `init_siit`: the value returned and `*jool`. -/
def init_siit (env : xlator_env) (jool : xlator) : Int × xlator :=
  let error := env.config_init
  if error ≠ 0 then init_siit.config_fail jool error
  else
    let jool := jool.init .global
    let error := env.pool6_init
    if error ≠ 0 then init_siit.pool6_fail jool error
    else
      let jool := jool.init .pool6
      let error := env.eamt_init
      if error ≠ 0 then init_siit.eamt_fail jool error
      else
        let jool := jool.init .siit_eamt
        let error := env.blacklist_init
        if error ≠ 0 then init_siit.blacklist_fail jool error
        else
          let jool := jool.init .siit_blacklist
          let error := env.rfc6791_init
          if error ≠ 0 then init_siit.rfc6791_fail jool error
          else
            let jool := jool.init .siit_pool6791
            let error := env.mapt_init
            if error ≠ 0 then init_siit.mapt_fail jool error
            else
              let jool := jool.init .siit_mapt_bmr_table
              let error := env.mapt_init_enduser_prefix6_table
              if error ≠ 0 then init_siit.mapt_enduser_fail jool error
              else
                let jool := jool.init .siit_mapt_enduprefix6_table
                -- jool->newcfg = cfgcandidate_create();
                if !env.cfgcandidate_create then
                  init_siit.newcfg_fail jool error
                else (0, jool.init .newcfg)

/-- The label `config_fail` of `init_nat64`. -/
def init_nat64.config_fail (jool : xlator) (error : Int) : Int × xlator :=
  (error, jool)

/-- The label `pool6_fail` of `init_nat64`. -/
def init_nat64.pool6_fail (jool : xlator) (error : Int) : Int × xlator :=
  init_nat64.config_fail (jool.put .global) error

/-- The label `fragdb_fail` of `init_nat64`. -/
def init_nat64.fragdb_fail (jool : xlator) (error : Int) : Int × xlator :=
  init_nat64.pool6_fail (jool.put .pool6) error

/-- The label `pool4_fail` of `init_nat64`. -/
def init_nat64.pool4_fail (jool : xlator) (error : Int) : Int × xlator :=
  init_nat64.fragdb_fail (jool.put .nat64_frag) error

/-- The label `bibdb_fail` of `init_nat64`. -/
def init_nat64.bibdb_fail (jool : xlator) (error : Int) : Int × xlator :=
  init_nat64.pool4_fail (jool.put .nat64_pool4) error

/-- The label `sessiondb_fail` of `init_nat64`. -/
def init_nat64.sessiondb_fail (jool : xlator) (error : Int) : Int × xlator :=
  init_nat64.bibdb_fail (jool.put .nat64_bib) error

/-- The label `joold_fail` of `init_nat64`. -/
def init_nat64.joold_fail (jool : xlator) (error : Int) : Int × xlator :=
  init_nat64.sessiondb_fail (jool.put .nat64_session) error

/-- The label `newcfg_fail` of `init_nat64`. -/
def init_nat64.newcfg_fail (jool : xlator) (error : Int) : Int × xlator :=
  init_nat64.joold_fail (jool.put .nat64_joold) error

/-- The function `init_nat64`: the value returned and `*jool`. -/
def init_nat64 (env : xlator_env) (jool : xlator) : Int × xlator :=
  let error := env.config_init
  if error ≠ 0 then init_nat64.config_fail jool error
  else
    let jool := jool.init .global
    let error := env.pool6_init
    if error ≠ 0 then init_nat64.pool6_fail jool error
    else
      let jool := jool.init .pool6
      -- jool->nat64.frag = fragdb_create();
      if !env.fragdb_create then init_nat64.fragdb_fail jool error
      else
        let jool := jool.init .nat64_frag
        let error := env.pool4db_init
        if error ≠ 0 then init_nat64.pool4_fail jool error
        else
          let jool := jool.init .nat64_pool4
          let error := env.bibdb_init
          if error ≠ 0 then init_nat64.bibdb_fail jool error
          else
            let jool := jool.init .nat64_bib
            let error := env.sessiondb_init
            if error ≠ 0 then init_nat64.sessiondb_fail jool error
            else
              let jool := jool.init .nat64_session
              -- jool->nat64.joold = joold_create(ns);
              if !env.joold_create then init_nat64.joold_fail jool error
              else
                let jool := jool.init .nat64_joold
                -- jool->newcfg = cfgcandidate_create();
                if !env.cfgcandidate_create then
                  init_nat64.newcfg_fail jool error
                else (0, jool.init .newcfg)

/-- The function `xlator_find` on the list `pool` of the instances: the
value returned and the translator copied to `*result`. -/
def xlator_find (ns : Nat) : List xlator → Int × Option xlator
  | [] => (-ESRCH, none)
  | instance_ :: rest =>
    if instance_.ns = ns then (0, some instance_)
    else xlator_find ns rest

/-- The function `xlator_add`: the value returned, the list of the
instances and the translator copied to `*result` (`result` tells whether
the pointer is not NULL). -/
def xlator_add (env : xlator_env) (result : Bool) (pool : List xlator) :
    Int × List xlator × Option xlator :=
  -- IS_ERR(ns)
  if env.get_net_ns_by_pid.1 ≠ 0 then (env.get_net_ns_by_pid.1, pool, none)
  else
    let ns := env.get_net_ns_by_pid.2
    if !env.wkmalloc then (-ENOMEM, pool, none)
    else
      let jool : xlator := { ns := ns, live := [], released := [] }
      let r := if env.xlat_is_siit then init_siit env jool
        else init_nat64 env jool
      if r.1 ≠ 0 then (r.1, pool, none)
      else
        let error := (xlator_find ns pool).1
        if error = 0 then (-EEXIST, pool, none)
        else if error = -ESRCH then
          -- Happy path.
          (0, pool ++ [r.2], if result then some r.2 else none)
        else (error, pool, none)

/-- An environment of `xlator.c` in which every step succeeds except
`cfgcandidate_create`, which returns what `newcfg` says, in the namespace
`ns`. -/
def sample_xlator_env (siit : Bool) (ns : Nat) (newcfg : Bool) : xlator_env :=
  { config_init := 0, pool6_init := 0, eamt_init := 0, blacklist_init := 0,
    rfc6791_init := 0, mapt_init := 0, mapt_init_enduser_prefix6_table := 0,
    fragdb_create := true, pool4db_init := 0, bibdb_init := 0,
    sessiondb_init := 0, joold_create := true,
    cfgcandidate_create := newcfg,
    xlat_is_siit := siit, get_net_ns_by_pid := (0, ns), wkmalloc := true }

/-! ## Byte order: the fragment identification as octets

The two functions that copy the Identification between the IPv4 header and
the IPv6 fragment header consist of byte-order conversions only.  This
section has them on the values a CPU of either byte order holds in its
registers, next to the octets of the fields in memory, which are the octets
on the wire. -/

/-- Modelled from the spec: the kernel helper swab16 is not among the
sources; it exchanges the two octets of a 16-bit value. -/
def swab16 (x : Nat) : Nat := x % 256 * 256 + x / 256 % 256

/-- Modelled from the spec: the kernel helper swab32 is not among the
sources; it reverses the four octets of a 32-bit value. -/
def swab32 (x : Nat) : Nat :=
  x % 256 * 16777216 + x / 256 % 256 * 65536 + x / 65536 % 256 * 256
    + x / 16777216 % 256

/-- The value a CPU reads from a 16-bit field whose octets are `b0` and
`b1`, in the order of their addresses. -/
def wire.load16 (little_endian : Bool) (b0 b1 : Nat) : Nat :=
  if little_endian then b1 * 256 + b0 else b0 * 256 + b1

/-- The value a CPU reads from a 32-bit field whose octets are `b0`, `b1`,
`b2` and `b3`, in the order of their addresses. -/
def wire.load32 (little_endian : Bool) (b0 b1 b2 b3 : Nat) : Nat :=
  if little_endian then b3 * 16777216 + b2 * 65536 + b1 * 256 + b0
  else b0 * 16777216 + b1 * 65536 + b2 * 256 + b3

/-- The octets a CPU writes to a 16-bit field, in the order of their
addresses. -/
def wire.store16 (little_endian : Bool) (x : Nat) : List Nat :=
  if little_endian then [x % 256, x / 256 % 256]
  else [x / 256 % 256, x % 256]

/-- The octets a CPU writes to a 32-bit field, in the order of their
addresses. -/
def wire.store32 (little_endian : Bool) (x : Nat) : List Nat :=
  if little_endian then
    [x % 256, x / 256 % 256, x / 65536 % 256, x / 16777216 % 256]
  else [x / 16777216 % 256, x / 65536 % 256, x / 256 % 256, x % 256]

/-- Modelled from the spec: the conversion be16_to_cpu is not among the
sources; on a little-endian CPU it is `swab16`, on a big-endian CPU it
returns its argument. -/
def wire.be16_to_cpu (little_endian : Bool) (x : Nat) : Nat :=
  if little_endian then swab16 (x % 65536) else x % 65536

/-- Modelled from the spec: the conversion cpu_to_be16 is not among the
sources; its argument is narrowed to 16 bits, and on a little-endian CPU
the two octets are exchanged. -/
def wire.cpu_to_be16 (little_endian : Bool) (x : Nat) : Nat :=
  if little_endian then swab16 (x % 65536) else x % 65536

/-- Modelled from the spec: the conversion be32_to_cpu is not among the
sources; on a little-endian CPU it is `swab32`, on a big-endian CPU it
returns its argument. -/
def wire.be32_to_cpu (little_endian : Bool) (x : Nat) : Nat :=
  if little_endian then swab32 (x % 4294967296) else x % 4294967296

/-- Modelled from the spec: the conversion cpu_to_be32 is not among the
sources; its argument is narrowed to 32 bits, and on a little-endian CPU
the four octets are reversed. -/
def wire.cpu_to_be32 (little_endian : Bool) (x : Nat) : Nat :=
  if little_endian then swab32 (x % 4294967296) else x % 4294967296

/-- The function `build_id_field` of `4to6.c` on the value the CPU reads
from the field `hdr4->id`. -/
def wire.build_id_field (little_endian : Bool) (hdr4_id : Nat) : Nat :=
  wire.cpu_to_be32 little_endian (wire.be16_to_cpu little_endian hdr4_id)

/-- The function `generate_ipv4_id_dofrag` of `6to4.c` on the value the CPU
reads from the field `ipv6_frag_hdr->identification`. -/
def wire.generate_ipv4_id_dofrag (little_endian : Bool)
    (identification : Nat) : Nat :=
  wire.cpu_to_be16 little_endian
    (wire.be32_to_cpu little_endian identification)

/-! # Theorems -/

/-! ## Arithmetic of the checksum engine -/

theorem not32_lt (x : Nat) : not32 x < 4294967296 := by
  unfold not32; omega

theorem not32_mod (x : Nat) (hx : x < 4294967296) :
    (not32 x + x) % 65535 = 0 := by
  unfold not32; omega

theorem csum_add_lt {a b : Nat} (_ : a < 4294967296) (hb : b < 4294967296) :
    csum_add a b < 4294967296 := by
  unfold csum_add; dsimp only; split <;> omega

theorem csum_add_mod {a b : Nat} (ha : a < 4294967296) (hb : b < 4294967296) :
    csum_add a b % 65535 = (a + b) % 65535 := by
  unfold csum_add; dsimp only; split <;> omega

theorem csum_add_eq_zero {a b : Nat} (ha : a < 4294967296)
    (hb : b < 4294967296) : csum_add a b = 0 ↔ a = 0 ∧ b = 0 := by
  unfold csum_add; dsimp only; split <;> omega

theorem csum_sub_lt {a : Nat} (b : Nat) (ha : a < 4294967296) :
    csum_sub a b < 4294967296 :=
  csum_add_lt ha (not32_lt b)

theorem csum_sub_mod {a b : Nat} (ha : a < 4294967296) (hb : b < 4294967296) :
    (csum_sub a b + b) % 65535 = a % 65535 := by
  have h1 := csum_add_mod ha (not32_lt b)
  have h2 := not32_mod b hb
  unfold csum_sub
  omega

theorem csum_fold_lt (x : Nat) : csum_fold x < 65536 := by
  unfold csum_fold; dsimp only; omega

theorem csum_fold_eq {x : Nat} (hx : x < 4294967296) :
    ∃ s : Nat, csum_fold x = 65535 - s ∧ s ≤ 65535 ∧ s % 65535 = x % 65535
      ∧ (s = 0 ↔ x = 0) := by
  refine ⟨(x % 65536 + x / 65536) % 65536 + (x % 65536 + x / 65536) / 65536,
    ?_, ?_, ?_, ?_⟩
  · unfold csum_fold not32; dsimp only
    have h1 : x % 65536 + x / 65536 ≤ 131070 := by omega
    generalize x % 65536 + x / 65536 = s1 at h1 ⊢
    have h2 : s1 % 65536 + s1 / 65536 ≤ 65535 := by omega
    generalize s1 % 65536 + s1 / 65536 = s2 at h2 ⊢
    omega
  · have h1 : x % 65536 + x / 65536 ≤ 131070 := by omega
    generalize x % 65536 + x / 65536 = s1 at h1 ⊢
    omega
  · have h1 : (x % 65536 + x / 65536) % 65535 = x % 65535 := by omega
    generalize x % 65536 + x / 65536 = s1 at h1 ⊢
    omega
  · have h1 : x % 65536 + x / 65536 = 0 ↔ x = 0 := by omega
    generalize x % 65536 + x / 65536 = s1 at h1 ⊢
    omega

theorem csum_fold_mod {x : Nat} (hx : x < 4294967296) :
    (csum_fold x + x) % 65535 = 0 := by
  obtain ⟨s, h1, h2, h3, _⟩ := csum_fold_eq hx
  omega

theorem csum_fold_eq_zero {x : Nat} (hx : x < 4294967296) :
    csum_fold x = 0 ↔ x % 65535 = 0 ∧ x ≠ 0 := by
  obtain ⟨s, h1, h2, h3, h4⟩ := csum_fold_eq hx
  omega

theorem csum_partial_nil (s : Nat) : csum_partial [] s = s := rfl

theorem csum_partial_cons (w : Nat) (l : List Nat) (s : Nat) :
    csum_partial (w :: l) s = csum_partial l (csum_add s w) := rfl

theorem csum_partial_append (l1 l2 : List Nat) (s : Nat) :
    csum_partial (l1 ++ l2) s = csum_partial l2 ( csum_partial l1 s) := by
  unfold csum_partial; rw [List.foldl_append]

theorem csum_partial_lt (l : List Nat) :
    ∀ s : Nat, s < 4294967296 → (∀ w ∈ l, w < 4294967296) →
      csum_partial l s < 4294967296 := by
  induction l with
  | nil => intro s hs _; simpa [csum_partial_nil] using hs
  | cons w l ih =>
    intro s hs hl
    rw [csum_partial_cons]
    exact ih _ (csum_add_lt hs (hl w (List.mem_cons_self w l)))
      (fun v hv => hl v (List.mem_cons_of_mem w hv))

theorem csum_partial_mod (l : List Nat) :
    ∀ s : Nat, s < 4294967296 → (∀ w ∈ l, w < 4294967296) →
      csum_partial l s % 65535 = (s + l.sum) % 65535 := by
  induction l with
  | nil => intro s _ _; simp [csum_partial_nil]
  | cons w l ih =>
    intro s hs hl
    have hw := hl w (List.mem_cons_self w l)
    rw [csum_partial_cons,
      ih _ (csum_add_lt hs hw) (fun v hv => hl v (List.mem_cons_of_mem w hv)),
      List.sum_cons]
    have := csum_add_mod hs hw
    omega

theorem words16_lt32 {l : List Nat} (h : words16 l) :
    ∀ w ∈ l, w < 4294967296 := fun w hw => by
  have := h w hw; omega

theorem from64to32_lt (x : Nat) : from64to32 x < 4294967296 := by
  unfold from64to32; dsimp only; omega

theorem from64to32_mod {x : Nat} (hx : x < 18446744073709551616) :
    from64to32 x % 65535 = x % 65535 := by
  unfold from64to32; dsimp only
  have h1 : (x % 4294967296 + x / 4294967296) % 65535 = x % 65535 := by omega
  have h2 : x % 4294967296 + x / 4294967296 ≤ 8589934590 := by omega
  generalize x % 4294967296 + x / 4294967296 = s1 at h1 h2 ⊢
  have h3 : (s1 % 4294967296 + s1 / 4294967296) % 65535 = s1 % 65535 := by
    omega
  have h4 : s1 % 4294967296 + s1 / 4294967296 < 4294967296 := by omega
  generalize s1 % 4294967296 + s1 / 4294967296 = s2 at h3 h4 ⊢
  omega

theorem from64to32_eq_zero {x : Nat} (hx : x < 18446744073709551616) :
    from64to32 x = 0 ↔ x = 0 := by
  unfold from64to32; dsimp only; omega

theorem csum_tcpudp_nofold_lt (s d len proto sum : Nat) :
    csum_tcpudp_nofold s d len proto sum < 4294967296 :=
  from64to32_lt _

theorem csum_tcpudp_nofold_mod {s d len proto sum : Nat}
    (hs : s < 4294967296) (hd : d < 4294967296) (hl : len < 4294967296)
    (hp : proto < 4294967296) (hsum : sum < 4294967296) :
    csum_tcpudp_nofold s d len proto sum % 65535
      = (sum + s + d + proto + len) % 65535 := by
  unfold csum_tcpudp_nofold
  rw [from64to32_mod (by omega)]
  omega

theorem csum_tcpudp_nofold_ne_zero {s d len proto sum : Nat}
    (hs : s < 4294967296) (hd : d < 4294967296) (hl : len < 4294967296)
    (hp : proto < 4294967296) (hsum : sum < 4294967296) (hpos : 0 < proto) :
    csum_tcpudp_nofold s d len proto sum ≠ 0 := by
  unfold csum_tcpudp_nofold
  rw [Ne, from64to32_eq_zero (by omega)]
  omega

theorem csum_ipv6_magic_eq (s d : in6_addr) (len proto csum : Nat) :
    csum_ipv6_magic s d len proto csum
      = csum_fold (csum_add
          ( csum_partial [s.a0, s.a1, s.a2, s.a3, d.a0, d.a1, d.a2, d.a3, len]
            csum) proto) := rfl

theorem csum_ipv6_magic_lt (s d : in6_addr) (len proto csum : Nat) :
    csum_ipv6_magic s d len proto csum < 65536 := csum_fold_lt _

theorem pseudo6_words_lt {s d : in6_addr} {len : Nat} (hs : s.wf) (hd : d.wf)
    (hl : len < 4294967296) :
    ∀ w ∈ [s.a0, s.a1, s.a2, s.a3, d.a0, d.a1, d.a2, d.a3, len],
      w < 4294967296 := by
  obtain ⟨h0, h1, h2, h3⟩ := hs
  obtain ⟨g0, g1, g2, g3⟩ := hd
  intro w hw
  simp only [List.mem_cons, List.mem_singleton, List.not_mem_nil, or_false]
    at hw
  rcases hw with h | h | h | h | h | h | h | h | h <;> omega

theorem csum_ipv6_magic_mod {s d : in6_addr} {len proto csum : Nat}
    (hs : s.wf) (hd : d.wf) (hl : len < 4294967296)
    (hp : proto < 4294967296) (hc : csum < 4294967296) :
    (csum_ipv6_magic s d len proto csum + csum + s.total + d.total + len
      + proto) % 65535 = 0 := by
  rw [csum_ipv6_magic_eq]
  have hw := pseudo6_words_lt hs hd hl
  have h1 := csum_partial_lt _ csum hc hw
  have h2 := csum_partial_mod _ csum hc hw
  have h3 := csum_add_lt h1 hp
  have h4 := csum_add_mod h1 hp
  have h5 := csum_fold_mod h3
  simp only [List.sum_cons, List.sum_nil] at h2
  unfold in6_addr.total
  omega

theorem csum_ipv6_magic_eq_zero {s d : in6_addr} {len proto csum : Nat}
    (hs : s.wf) (hd : d.wf) (hl : len < 4294967296)
    (hp : proto < 4294967296) (hc : csum < 4294967296) (hpos : 0 < proto) :
    csum_ipv6_magic s d len proto csum = 0
      ↔ (csum + s.total + d.total + len + proto) % 65535 = 0 := by
  rw [csum_ipv6_magic_eq]
  have hw := pseudo6_words_lt hs hd hl
  have h1 := csum_partial_lt _ csum hc hw
  have h2 := csum_partial_mod _ csum hc hw
  have h3 := csum_add_lt h1 hp
  have h4 := csum_add_mod h1 hp
  have h5 := csum_add_eq_zero h1 hp
  have h6 := csum_fold_eq_zero h3
  simp only [List.sum_cons, List.sum_nil] at h2
  unfold in6_addr.total
  omega

/-- The congruence behind `update_csum_6to4`: the new checksum plus what was
added equals the old checksum plus what was removed, modulo 0xFFFF. -/
theorem update_csum_6to4_mod (c : Nat) (ip6 : ipv6hdr) (ip4 : iphdr)
    {inw outw : List Nat} (hc : c < 65536) (hs6 : ip6.saddr.wf)
    (hd6 : ip6.daddr.wf) (hs4 : ip4.saddr < 4294967296)
    (hd4 : ip4.daddr < 4294967296) (hin : words16 inw) (hout : words16 outw) :
    (update_csum_6to4 c ip6 inw ip4 outw + ip4.saddr + ip4.daddr + outw.sum)
        % 65535
      = (c + ip6.saddr.total + ip6.daddr.total + inw.sum) % 65535 := by
  unfold update_csum_6to4 csum_unfold
  dsimp only
  -- the IPv6 pseudo-header
  have m1 := csum_ipv6_magic_lt ip6.saddr ip6.daddr 0 0 0
  have m2 := csum_ipv6_magic_mod hs6 hd6 (by omega : 0 < 4294967296)
    (by omega : 0 < 4294967296) (by omega : 0 < 4294967296)
  generalize csum_ipv6_magic ip6.saddr ip6.daddr 0 0 0 = m at m1 m2 ⊢
  have p1 := not32_lt m
  have p2 := not32_mod m (by omega)
  generalize not32 m = p6 at p1 p2 ⊢
  have p3 : p6 % 65535 = (ip6.saddr.total + ip6.daddr.total) % 65535 := by
    omega
  clear m1 m2 p2 hs6 hd6
  -- the old checksum
  have a1 := not32_lt c
  have a2 := not32_mod c (by omega)
  generalize not32 c = c0 at a1 a2 ⊢
  have b1 := csum_sub_lt p6 a1
  have b2 := csum_sub_mod a1 p1
  generalize csum_sub c0 p6 = c1 at b1 b2 ⊢
  have r1 : (c1 + ip6.saddr.total + ip6.daddr.total + c) % 65535 = 0 := by
    omega
  clear a1 a2 b2 p1 p3
  -- the old L4 header
  have i1 := csum_partial_lt inw 0 (by omega) (words16_lt32 hin)
  have i2 := csum_partial_mod inw 0 (by omega) (words16_lt32 hin)
  generalize csum_partial inw 0 = iw at i1 i2 ⊢
  have d1 := csum_sub_lt iw b1
  have d2 := csum_sub_mod b1 i1
  generalize csum_sub c1 iw = c2 at d1 d2 ⊢
  have r2 : (c2 + inw.sum + ip6.saddr.total + ip6.daddr.total + c) % 65535
      = 0 := by
    omega
  clear r1 d2 i1 i2 b1
  -- the IPv4 pseudo-header
  have q1 := csum_tcpudp_nofold_lt ip4.saddr ip4.daddr 0 0 0
  have q2 := csum_tcpudp_nofold_mod hs4 hd4 (by omega : 0 < 4294967296)
    (by omega : 0 < 4294967296) (by omega : 0 < 4294967296)
  generalize csum_tcpudp_nofold ip4.saddr ip4.daddr 0 0 0 = p4 at q1 q2 ⊢
  have e1 := csum_add_lt d1 q1
  have e2 := csum_add_mod d1 q1
  generalize csum_add c2 p4 = c3 at e1 e2 ⊢
  have r3 : (c3 + inw.sum + ip6.saddr.total + ip6.daddr.total + c) % 65535
      = (ip4.saddr + ip4.daddr) % 65535 := by
    omega
  clear r2 e2 q1 q2 d1
  -- the new L4 header
  have o1 := csum_partial_lt outw 0 (by omega) (words16_lt32 hout)
  have o2 := csum_partial_mod outw 0 (by omega) (words16_lt32 hout)
  generalize csum_partial outw 0 = ow at o1 o2 ⊢
  have f1 := csum_add_lt e1 o1
  have f2 := csum_add_mod e1 o1
  generalize csum_add c3 ow = c4 at f1 f2 ⊢
  have r4 : (c4 + inw.sum + ip6.saddr.total + ip6.daddr.total + c) % 65535
      = (ip4.saddr + ip4.daddr + outw.sum) % 65535 := by
    omega
  clear r3 f2 o1 o2 e1
  have g := csum_fold_mod f1
  omega

/-- The congruence behind `update_csum_4to6`. -/
theorem update_csum_4to6_mod (c : Nat) (ip4 : iphdr) (ip6 : ipv6hdr)
    {inw outw : List Nat} (hc : c < 65536) (hs6 : ip6.saddr.wf)
    (hd6 : ip6.daddr.wf) (hs4 : ip4.saddr < 4294967296)
    (hd4 : ip4.daddr < 4294967296) (hin : words16 inw) (hout : words16 outw) :
    (update_csum_4to6 c ip4 inw ip6 outw + ip6.saddr.total + ip6.daddr.total
        + outw.sum) % 65535
      = (c + ip4.saddr + ip4.daddr + inw.sum) % 65535 := by
  unfold update_csum_4to6 csum_unfold
  dsimp only
  -- the old checksum and the IPv4 pseudo-header
  have a1 := not32_lt c
  have a2 := not32_mod c (by omega)
  generalize not32 c = c0 at a1 a2 ⊢
  have q1 := csum_tcpudp_nofold_lt ip4.saddr ip4.daddr 0 0 0
  have q2 := csum_tcpudp_nofold_mod hs4 hd4 (by omega : 0 < 4294967296)
    (by omega : 0 < 4294967296) (by omega : 0 < 4294967296)
  generalize csum_tcpudp_nofold ip4.saddr ip4.daddr 0 0 0 = p4 at q1 q2 ⊢
  have b1 := csum_sub_lt p4 a1
  have b2 := csum_sub_mod a1 q1
  generalize csum_sub c0 p4 = c1 at b1 b2 ⊢
  have r1 : (c1 + ip4.saddr + ip4.daddr + c) % 65535 = 0 := by
    omega
  clear a1 a2 b2 q1 q2
  -- the old L4 header
  have i1 := csum_partial_lt inw 0 (by omega) (words16_lt32 hin)
  have i2 := csum_partial_mod inw 0 (by omega) (words16_lt32 hin)
  generalize csum_partial inw 0 = iw at i1 i2 ⊢
  have d1 := csum_sub_lt iw b1
  have d2 := csum_sub_mod b1 i1
  generalize csum_sub c1 iw = c2 at d1 d2 ⊢
  have r2 : (c2 + inw.sum + ip4.saddr + ip4.daddr + c) % 65535 = 0 := by
    omega
  clear r1 d2 i1 i2 b1
  -- the IPv6 pseudo-header
  have m1 := csum_ipv6_magic_lt ip6.saddr ip6.daddr 0 0 0
  have m2 := csum_ipv6_magic_mod hs6 hd6 (by omega : 0 < 4294967296)
    (by omega : 0 < 4294967296) (by omega : 0 < 4294967296)
  generalize csum_ipv6_magic ip6.saddr ip6.daddr 0 0 0 = m at m1 m2 ⊢
  have p1 := not32_lt m
  have p2 := not32_mod m (by omega)
  generalize not32 m = p6 at p1 p2 ⊢
  have p3 : p6 % 65535 = (ip6.saddr.total + ip6.daddr.total) % 65535 := by
    omega
  clear m1 m2 p2 hs6 hd6
  have e1 := csum_add_lt d1 p1
  have e2 := csum_add_mod d1 p1
  generalize csum_add c2 p6 = c3 at e1 e2 ⊢
  have r3 : (c3 + inw.sum + ip4.saddr + ip4.daddr + c) % 65535
      = (ip6.saddr.total + ip6.daddr.total) % 65535 := by
    omega
  clear r2 e2 p1 p3 d1
  -- the new L4 header
  have o1 := csum_partial_lt outw 0 (by omega) (words16_lt32 hout)
  have o2 := csum_partial_mod outw 0 (by omega) (words16_lt32 hout)
  generalize csum_partial outw 0 = ow at o1 o2 ⊢
  have f1 := csum_add_lt e1 o1
  have f2 := csum_add_mod e1 o1
  generalize csum_add c3 ow = c4 at f1 f2 ⊢
  have r4 : (c4 + inw.sum + ip4.saddr + ip4.daddr + c) % 65535
      = (ip6.saddr.total + ip6.daddr.total + outw.sum) % 65535 := by
    omega
  clear r3 f2 o1 o2 e1
  have g := csum_fold_mod f1
  omega

theorem update_csum_6to4_lt (c : Nat) (ip6 : ipv6hdr) (inw : List Nat)
    (ip4 : iphdr) (outw : List Nat) :
    update_csum_6to4 c ip6 inw ip4 outw < 65536 := csum_fold_lt _

theorem update_csum_4to6_lt (c : Nat) (ip4 : iphdr) (inw : List Nat)
    (ip6 : ipv6hdr) (outw : List Nat) :
    update_csum_4to6 c ip4 inw ip6 outw < 65536 := csum_fold_lt _

/-! ## Validity of a datagram as a congruence -/

theorem l4_csum_ok6_iff {s d : in6_addr} {len proto : Nat} {dg : List Nat}
    (hs : s.wf) (hd : d.wf) (hl : len < 4294967296) (hp : proto < 4294967296)
    (hpos : 0 < proto) (hdg : words16 dg) :
    l4_csum_ok6 s d len proto dg
      ↔ (dg.sum + s.total + d.total + len + proto) % 65535 = 0 := by
  have h1 := csum_partial_lt dg 0 (by omega) (words16_lt32 hdg)
  have h2 := csum_partial_mod dg 0 (by omega) (words16_lt32 hdg)
  unfold l4_csum_ok6
  rw [csum_ipv6_magic_eq_zero hs hd hl hp h1 hpos]
  generalize csum_partial dg 0 = x at h1 h2 ⊢
  omega

theorem l4_csum_ok4_iff {s d : Nat} {len proto : Nat} {dg : List Nat}
    (hs : s < 4294967296) (hd : d < 4294967296) (hl : len < 4294967296)
    (hp : proto < 4294967296) (hpos : 0 < proto) (hdg : words16 dg) :
    l4_csum_ok4 s d len proto dg
      ↔ (dg.sum + s + d + len + proto) % 65535 = 0 := by
  have h1 := csum_partial_lt dg 0 (by omega) (words16_lt32 hdg)
  have h2 := csum_partial_mod dg 0 (by omega) (words16_lt32 hdg)
  have h3 := csum_tcpudp_nofold_lt s d len proto ( csum_partial dg 0)
  have h4 := csum_tcpudp_nofold_mod hs hd hl hp h1
  have h5 := csum_tcpudp_nofold_ne_zero hs hd hl hp h1 hpos
  unfold l4_csum_ok4
  rw [csum_fold_eq_zero h3]
  generalize csum_partial dg 0 = x at h1 h2 h3 h4 h5 ⊢
  generalize csum_tcpudp_nofold s d len proto x = y at h3 h4 h5 ⊢
  omega

theorem words16_append {l1 l2 : List Nat} (h1 : words16 l1) (h2 : words16 l2) :
    words16 (l1 ++ l2) := by
  intro w hw
  rcases List.mem_append.mp hw with h | h
  · exact h1 w h
  · exact h2 w h

theorem tcphdr_words16 {h : tcphdr} (hwf : h.wf) : words16 h.words := by
  obtain ⟨h1, h2, h3, h4, h5, h6, h7, h8⟩ := hwf
  intro w hw
  simp only [tcphdr.words, List.mem_cons, List.mem_singleton,
    List.not_mem_nil, or_false] at hw
  rcases hw with h | h | h | h | h | h | h | h | h | h <;> omega

theorem udphdr_words16 {h : udphdr} (hwf : h.wf) : words16 h.words := by
  obtain ⟨h1, h2, h3, h4⟩ := hwf
  intro w hw
  simp only [udphdr.words, List.mem_cons, List.mem_singleton,
    List.not_mem_nil, or_false] at hw
  rcases hw with h | h | h | h <;> omega

theorem tcphdr_words_sum (h : tcphdr) :
    h.words.sum = h.source + h.dest + h.seq / 65536 + h.seq % 65536
      + h.ack_seq / 65536 + h.ack_seq % 65536 + h.doff_flags + h.window
      + h.check + h.urg_ptr := by
  simp only [tcphdr.words, List.sum_cons, List.sum_nil]; omega

theorem udphdr_words_sum (h : udphdr) :
    h.words.sum = h.source + h.dest + h.len + h.check := by
  simp only [udphdr.words, List.sum_cons, List.sum_nil]; omega

theorem cpu_to_be16_lt (x : Nat) : cpu_to_be16 x < 65536 := by
  unfold cpu_to_be16; omega

/-- The header `ttp64_tcp` builds, for a packet that is not
`CHECKSUM_PARTIAL`, verifies when the incoming one does. -/
theorem ttp64_tcp_csum_ok (nat64 : Bool) (t4 : tuple4) (cpe : Bool)
    (ip6 : ipv6hdr) (ip4 : iphdr) (tcp_in : tcphdr) (opts payload : List Nat)
    (len : Nat) (hs6 : ip6.saddr.wf) (hd6 : ip6.daddr.wf)
    (hs4 : ip4.saddr < 4294967296) (hd4 : ip4.daddr < 4294967296)
    (hwf : tcp_in.wf) (hopts : words16 opts) (hpay : words16 payload)
    (hlen : len < 4294967296)
    (hin : l4_csum_ok6 ip6.saddr ip6.daddr len IPPROTO_TCP
      (tcp_in.words ++ opts ++ payload)) :
    l4_csum_ok4 ip4.saddr ip4.daddr len IPPROTO_TCP
      ((ttp64_tcp nat64 t4 false cpe ip6 ip4 tcp_in opts).out.1.words
        ++ (ttp64_tcp nat64 t4 false cpe ip6 ip4 tcp_in opts).out.2
        ++ payload) := by
  have hwf0 := hwf
  obtain ⟨h1, h2, h3, h4, h5, h6, h7, h8⟩ := hwf
  rw [l4_csum_ok6_iff hs6 hd6 hlen (by decide) (by decide)
    (words16_append (words16_append (tcphdr_words16 hwf0) hopts) hpay)] at hin
  simp only [List.sum_append, tcphdr_words_sum] at hin
  -- the header before the checksum is stored
  obtain ⟨out0, c, hout0, hc, hsrc, hdst, hrest⟩ :
      ∃ (out0 : tcphdr) (c : Nat),
        (ttp64_tcp nat64 t4 false cpe ip6 ip4 tcp_in opts).out
          = ({ out0 with check := c }, opts)
        ∧ c = update_csum_6to4 tcp_in.check ip6
            ({ tcp_in with check := 0 } : tcphdr).words ip4 out0.words
        ∧ out0.source < 65536 ∧ out0.dest < 65536
        ∧ out0.seq = tcp_in.seq ∧ out0.ack_seq = tcp_in.ack_seq
        ∧ out0.doff_flags = tcp_in.doff_flags ∧ out0.window = tcp_in.window
        ∧ out0.check = 0 ∧ out0.urg_ptr = tcp_in.urg_ptr := by
    cases nat64
    · exact ⟨{ tcp_in with check := 0 }, _, rfl, rfl, h1, h2, rfl, rfl, rfl,
        rfl, rfl, rfl⟩
    · exact ⟨{ tcp_in with source := cpu_to_be16 t4.src.l4,
                           dest := cpu_to_be16 t4.dst.l4, check := 0 },
        _, rfl, rfl, cpu_to_be16_lt _, cpu_to_be16_lt _, rfl, rfl, rfl, rfl,
        rfl, rfl⟩
  obtain ⟨e1, e2, e3, e4, e5, e6⟩ := hrest
  have hwfc : ({ tcp_in with check := 0 } : tcphdr).wf :=
    ⟨h1, h2, h3, h4, h5, h6, Nat.succ_pos _, h8⟩
  have hwfo : out0.wf := by
    refine ⟨hsrc, hdst, ?_, ?_, ?_, ?_, ?_, ?_⟩ <;> omega
  have hmod := update_csum_6to4_mod tcp_in.check ip6 ip4 h7 hs6 hd6 hs4 hd4 (tcphdr_words16 hwfc)
    (tcphdr_words16 hwfo)
  have hlt := update_csum_6to4_lt tcp_in.check ip6
    ({ tcp_in with check := 0 } : tcphdr).words ip4 out0.words
  rw [← hc] at hmod hlt
  rw [hout0]
  have hwfn : ({ out0 with check := c } : tcphdr).wf := by
    refine ⟨hsrc, hdst, ?_, ?_, ?_, ?_, hlt, ?_⟩ <;> simp only <;> omega
  rw [l4_csum_ok4_iff hs4 hd4 hlen (by decide) (by decide)
    (words16_append (words16_append (tcphdr_words16 hwfn) hopts) hpay)]
  simp only [List.sum_append, tcphdr_words_sum] at hmod ⊢
  simp only [IPPROTO_TCP] at hin ⊢
  omega


/-- The header `ttp64_udp` builds, for a packet that is not
`CHECKSUM_PARTIAL`, verifies when the incoming one does. -/
theorem ttp64_udp_csum_ok (nat64 : Bool) (t4 : tuple4) (cpe : Bool)
    (ip6 : ipv6hdr) (ip4 : iphdr) (udp_in : udphdr) (payload : List Nat)
    (len : Nat) (hs6 : ip6.saddr.wf) (hd6 : ip6.daddr.wf)
    (hs4 : ip4.saddr < 4294967296) (hd4 : ip4.daddr < 4294967296)
    (hwf : udp_in.wf) (hpay : words16 payload) (hlen : len < 4294967296)
    (hin : l4_csum_ok6 ip6.saddr ip6.daddr len IPPROTO_UDP
      (udp_in.words ++ payload)) :
    l4_csum_ok4 ip4.saddr ip4.daddr len IPPROTO_UDP
      ((ttp64_udp nat64 t4 false cpe ip6 ip4 udp_in).out.words ++ payload) := by
  have hwf0 := hwf
  obtain ⟨h1, h2, h3, h4⟩ := hwf
  rw [l4_csum_ok6_iff hs6 hd6 hlen (by decide) (by decide)
    (words16_append (udphdr_words16 hwf0) hpay)] at hin
  simp only [List.sum_append, udphdr_words_sum, IPPROTO_UDP] at hin
  have hwfc : ({ udp_in with check := 0 } : udphdr).wf :=
    ⟨h1, h2, h3, Nat.succ_pos _⟩
  -- whatever the ports are, and whether or not the zero was mangled
  have key : ∀ (sp dp c : Nat), sp < 65536 → dp < 65536 →
      (c = update_csum_6to4 udp_in.check ip6
            ({ udp_in with check := 0 } : udphdr).words ip4
            (udphdr.mk sp dp udp_in.len 0).words
        ∨ (update_csum_6to4 udp_in.check ip6
            ({ udp_in with check := 0 } : udphdr).words ip4
            (udphdr.mk sp dp udp_in.len 0).words = 0 ∧ c = 65535)) →
      l4_csum_ok4 ip4.saddr ip4.daddr len IPPROTO_UDP
        ((udphdr.mk sp dp udp_in.len c).words ++ payload) := by
    intro sp dp c hsp hdp hc
    have hwfo : (udphdr.mk sp dp udp_in.len 0).wf :=
      ⟨hsp, hdp, h3, Nat.succ_pos _⟩
    have hmod := update_csum_6to4_mod udp_in.check ip6 ip4 h4 hs6 hd6 hs4 hd4 (udphdr_words16 hwfc)
      (udphdr_words16 hwfo)
    have hlt := update_csum_6to4_lt udp_in.check ip6
      ({ udp_in with check := 0 } : udphdr).words ip4
      (udphdr.mk sp dp udp_in.len 0).words
    generalize update_csum_6to4 udp_in.check ip6
      ({ udp_in with check := 0 } : udphdr).words ip4
      (udphdr.mk sp dp udp_in.len 0).words = u at hmod hlt hc
    have hwfn : (udphdr.mk sp dp udp_in.len c).wf := by
      refine ⟨hsp, hdp, h3, ?_⟩
      show c < 65536
      omega
    rw [l4_csum_ok4_iff hs4 hd4 hlen (by decide) (by decide)
      (words16_append (udphdr_words16 hwfn) hpay)]
    simp only [List.sum_append, udphdr_words_sum, IPPROTO_UDP] at hmod ⊢
    omega
  cases nat64
  · simp only [ttp64_udp, Bool.not_false, if_true, Bool.false_eq_true,
      if_false]
    split
    · exact key _ _ _ h1 h2 (Or.inr ⟨by assumption, rfl⟩)
    · exact key _ _ _ h1 h2 (Or.inl rfl)
  · simp only [ttp64_udp, Bool.not_false, if_true]
    split
    · exact key _ _ _ (cpu_to_be16_lt _) (cpu_to_be16_lt _)
        (Or.inr ⟨by assumption, rfl⟩)
    · exact key _ _ _ (cpu_to_be16_lt _) (cpu_to_be16_lt _) (Or.inl rfl)

/-- The header `ttp46_tcp` builds, for a packet that is not
`CHECKSUM_PARTIAL`, verifies when the incoming one does. -/
theorem ttp46_tcp_csum_ok (nat64 : Bool) (t6 : tuple6) (ip4 : iphdr)
    (ip6 : ipv6hdr) (tcp_in : tcphdr) (opts payload : List Nat)
    (len : Nat) (hs6 : ip6.saddr.wf) (hd6 : ip6.daddr.wf)
    (hs4 : ip4.saddr < 4294967296) (hd4 : ip4.daddr < 4294967296)
    (hwf : tcp_in.wf) (hopts : words16 opts) (hpay : words16 payload)
    (hlen : len < 4294967296)
    (hin : l4_csum_ok4 ip4.saddr ip4.daddr len IPPROTO_TCP
      (tcp_in.words ++ opts ++ payload)) :
    l4_csum_ok6 ip6.saddr ip6.daddr len IPPROTO_TCP
      ((ttp46_tcp nat64 t6 false ip4 ip6 tcp_in opts).out.1.words
        ++ (ttp46_tcp nat64 t6 false ip4 ip6 tcp_in opts).out.2
        ++ payload) := by
  have hwf0 := hwf
  obtain ⟨h1, h2, h3, h4, h5, h6, h7, h8⟩ := hwf
  rw [l4_csum_ok4_iff hs4 hd4 hlen (by decide) (by decide)
    (words16_append (words16_append (tcphdr_words16 hwf0) hopts) hpay)] at hin
  simp only [List.sum_append, tcphdr_words_sum, IPPROTO_TCP] at hin
  have hwfc : ({ tcp_in with check := 0 } : tcphdr).wf :=
    ⟨h1, h2, h3, h4, h5, h6, Nat.succ_pos _, h8⟩
  have key : ∀ (sp dp : Nat), sp < 65536 → dp < 65536 →
      l4_csum_ok6 ip6.saddr ip6.daddr len IPPROTO_TCP
        ((tcphdr.mk sp dp tcp_in.seq tcp_in.ack_seq tcp_in.doff_flags
            tcp_in.window
            (update_csum_4to6 tcp_in.check ip4
              ({ tcp_in with check := 0 } : tcphdr).words ip6
              (tcphdr.mk sp dp tcp_in.seq tcp_in.ack_seq tcp_in.doff_flags
                tcp_in.window 0 tcp_in.urg_ptr).words)
            tcp_in.urg_ptr).words ++ opts ++ payload) := by
    intro sp dp hsp hdp
    have hwfo : (tcphdr.mk sp dp tcp_in.seq tcp_in.ack_seq tcp_in.doff_flags
        tcp_in.window 0 tcp_in.urg_ptr).wf :=
      ⟨hsp, hdp, h3, h4, h5, h6, Nat.succ_pos _, h8⟩
    have hmod := update_csum_4to6_mod tcp_in.check ip4 ip6 h7 hs6 hd6 hs4 hd4 (tcphdr_words16 hwfc)
      (tcphdr_words16 hwfo)
    have hlt := update_csum_4to6_lt tcp_in.check ip4
      ({ tcp_in with check := 0 } : tcphdr).words ip6
      (tcphdr.mk sp dp tcp_in.seq tcp_in.ack_seq tcp_in.doff_flags
        tcp_in.window 0 tcp_in.urg_ptr).words
    generalize update_csum_4to6 tcp_in.check ip4
      ({ tcp_in with check := 0 } : tcphdr).words ip6
      (tcphdr.mk sp dp tcp_in.seq tcp_in.ack_seq tcp_in.doff_flags
        tcp_in.window 0 tcp_in.urg_ptr).words = u at hmod hlt ⊢
    have hwfn : (tcphdr.mk sp dp tcp_in.seq tcp_in.ack_seq tcp_in.doff_flags
        tcp_in.window u tcp_in.urg_ptr).wf :=
      ⟨hsp, hdp, h3, h4, h5, h6, hlt, h8⟩
    rw [l4_csum_ok6_iff hs6 hd6 hlen (by decide) (by decide)
      (words16_append (words16_append (tcphdr_words16 hwfn) hopts) hpay)]
    simp only [List.sum_append, tcphdr_words_sum, IPPROTO_TCP] at hmod ⊢
    omega
  cases nat64
  · exact key _ _ h1 h2
  · exact key _ _ (cpu_to_be16_lt _) (cpu_to_be16_lt _)

/-- The header `ttp46_udp` builds, for a packet that carries a checksum and
is not `CHECKSUM_PARTIAL`, verifies when the incoming one does. -/
theorem ttp46_udp_csum_ok (nat64 : Bool) (t6 : tuple6) (amend : Bool)
    (ip4 : iphdr) (ip6 : ipv6hdr) (udp_in : udphdr) (payload : List Nat)
    (len : Nat) (hs6 : ip6.saddr.wf) (hd6 : ip6.daddr.wf)
    (hs4 : ip4.saddr < 4294967296) (hd4 : ip4.daddr < 4294967296)
    (hwf : udp_in.wf) (hpay : words16 payload) (hlen : len < 4294967296)
    (hnz : udp_in.check ≠ 0)
    (hin : l4_csum_ok4 ip4.saddr ip4.daddr len IPPROTO_UDP
      (udp_in.words ++ payload)) :
    (ttp46_udp nat64 t6 false amend ip4 ip6 udp_in payload len).result
        = VERDICT_CONTINUE
      ∧ l4_csum_ok6 ip6.saddr ip6.daddr len IPPROTO_UDP
          ((ttp46_udp nat64 t6 false amend ip4 ip6 udp_in payload len).out.words
            ++ payload) := by
  have hwf0 := hwf
  obtain ⟨h1, h2, h3, h4⟩ := hwf
  rw [l4_csum_ok4_iff hs4 hd4 hlen (by decide) (by decide)
    (words16_append (udphdr_words16 hwf0) hpay)] at hin
  simp only [List.sum_append, udphdr_words_sum, IPPROTO_UDP] at hin
  have hwfc : ({ udp_in with check := 0 } : udphdr).wf :=
    ⟨h1, h2, h3, Nat.succ_pos _⟩
  have key : ∀ (sp dp : Nat), sp < 65536 → dp < 65536 →
      l4_csum_ok6 ip6.saddr ip6.daddr len IPPROTO_UDP
        ((udphdr.mk sp dp udp_in.len
            (update_csum_4to6 udp_in.check ip4
              ({ udp_in with check := 0 } : udphdr).words ip6
              (udphdr.mk sp dp udp_in.len 0).words)).words ++ payload) := by
    intro sp dp hsp hdp
    have hwfo : (udphdr.mk sp dp udp_in.len 0).wf :=
      ⟨hsp, hdp, h3, Nat.succ_pos _⟩
    have hmod := update_csum_4to6_mod udp_in.check ip4 ip6 h4 hs6 hd6 hs4 hd4 (udphdr_words16 hwfc)
      (udphdr_words16 hwfo)
    have hlt := update_csum_4to6_lt udp_in.check ip4
      ({ udp_in with check := 0 } : udphdr).words ip6
      (udphdr.mk sp dp udp_in.len 0).words
    generalize update_csum_4to6 udp_in.check ip4
      ({ udp_in with check := 0 } : udphdr).words ip6
      (udphdr.mk sp dp udp_in.len 0).words = u at hmod hlt ⊢
    have hwfn : (udphdr.mk sp dp udp_in.len u).wf := ⟨hsp, hdp, h3, hlt⟩
    rw [l4_csum_ok6_iff hs6 hd6 hlen (by decide) (by decide)
      (words16_append (udphdr_words16 hwfn) hpay)]
    simp only [List.sum_append, udphdr_words_sum, IPPROTO_UDP] at hmod ⊢
    omega
  cases nat64
  · simp only [ttp46_udp, hnz, ne_eq, not_false_eq_true, if_true,
      Bool.not_false, Bool.false_eq_true, if_false, true_and]
    exact key _ _ h1 h2
  · simp only [ttp46_udp, hnz, ne_eq, not_false_eq_true, if_true,
      Bool.not_false, true_and]
    exact key _ _ (cpu_to_be16_lt _) (cpu_to_be16_lt _)

/-! ## C1 and C2: the incremental checksum update -/

/-- C1: in each direction the incremental L4 checksum update preserves
validity.  For a TCP or UDP packet that is not `CHECKSUM_PARTIAL` and whose
checksum verifies over the incoming pseudo-header (addresses, length,
protocol), its L4 header and its payload, the checksum that `ttp64_tcp`,
`ttp64_udp` (through `update_csum_6to4`) and `ttp46_tcp`, `ttp46_udp`
(through `update_csum_4to6`, which `ttp46_udp` uses when the incoming
checksum field is not zero) store verifies over the outgoing pseudo-header
(any new addresses, same length and protocol), the outgoing L4 header (any
ports) and the unchanged options and payload. -/
theorem l4_csum_update_preserves_validity (nat64 : Bool) (t4 : tuple4)
    (t6 : tuple6) (cpe amend : Bool) (ip6 : ipv6hdr) (ip4 : iphdr)
    (tcp_in : tcphdr) (udp_in : udphdr) (opts payload : List Nat) (len : Nat)
    (hs6 : ip6.saddr.wf) (hd6 : ip6.daddr.wf)
    (hs4 : ip4.saddr < 4294967296) (hd4 : ip4.daddr < 4294967296)
    (htcp : tcp_in.wf) (hudp : udp_in.wf) (hopts : words16 opts)
    (hpay : words16 payload) (hlen : len < 4294967296) :
    (l4_csum_ok6 ip6.saddr ip6.daddr len IPPROTO_TCP
        (tcp_in.words ++ opts ++ payload) →
      l4_csum_ok4 ip4.saddr ip4.daddr len IPPROTO_TCP
        ((ttp64_tcp nat64 t4 false cpe ip6 ip4 tcp_in opts).out.1.words
          ++ (ttp64_tcp nat64 t4 false cpe ip6 ip4 tcp_in opts).out.2
          ++ payload))
    ∧ (l4_csum_ok6 ip6.saddr ip6.daddr len IPPROTO_UDP
        (udp_in.words ++ payload) →
      l4_csum_ok4 ip4.saddr ip4.daddr len IPPROTO_UDP
        ((ttp64_udp nat64 t4 false cpe ip6 ip4 udp_in).out.words ++ payload))
    ∧ (l4_csum_ok4 ip4.saddr ip4.daddr len IPPROTO_TCP
        (tcp_in.words ++ opts ++ payload) →
      l4_csum_ok6 ip6.saddr ip6.daddr len IPPROTO_TCP
        ((ttp46_tcp nat64 t6 false ip4 ip6 tcp_in opts).out.1.words
          ++ (ttp46_tcp nat64 t6 false ip4 ip6 tcp_in opts).out.2
          ++ payload))
    ∧ (udp_in.check ≠ 0 →
      l4_csum_ok4 ip4.saddr ip4.daddr len IPPROTO_UDP
        (udp_in.words ++ payload) →
      (ttp46_udp nat64 t6 false amend ip4 ip6 udp_in payload len).result
          = VERDICT_CONTINUE
        ∧ l4_csum_ok6 ip6.saddr ip6.daddr len IPPROTO_UDP
          ((ttp46_udp nat64 t6 false amend ip4 ip6 udp_in payload len).out.words
            ++ payload)) :=
  ⟨ttp64_tcp_csum_ok nat64 t4 cpe ip6 ip4 tcp_in opts payload len hs6 hd6 hs4
      hd4 htcp hopts hpay hlen,
   ttp64_udp_csum_ok nat64 t4 cpe ip6 ip4 udp_in payload len hs6 hd6 hs4 hd4
      hudp hpay hlen,
   ttp46_tcp_csum_ok nat64 t6 ip4 ip6 tcp_in opts payload len hs6 hd6 hs4 hd4
      htcp hopts hpay hlen,
   ttp46_udp_csum_ok nat64 t6 amend ip4 ip6 udp_in payload len hs6 hd6 hs4
      hd4 hudp hpay hlen⟩

/-- C1 on the sample packets: a NAT64 translation of a valid IPv6 TCP
segment and UDP datagram, and of a valid IPv4 TCP segment and UDP datagram,
leaves valid checksums. -/
theorem l4_csum_update_preserves_validity_witness :
    l4_csum_ok4 sample_ip4.saddr sample_ip4.daddr 30 IPPROTO_TCP
        ((ttp64_tcp true sample_tuple4 false false sample_ip6 sample_ip4
            (sample_tcp 53486) sample_opts).out.1.words
          ++ (ttp64_tcp true sample_tuple4 false false sample_ip6 sample_ip4
            (sample_tcp 53486) sample_opts).out.2 ++ sample_payload)
    ∧ l4_csum_ok4 sample_ip4.saddr sample_ip4.daddr 14 IPPROTO_UDP
        ((ttp64_udp true sample_tuple4 false false sample_ip6 sample_ip4
            (sample_udp 49484)).out.words ++ sample_payload)
    ∧ l4_csum_ok6 sample_ip6.saddr sample_ip6.daddr 30 IPPROTO_TCP
        ((ttp46_tcp true sample_tuple6 false sample_ip4 sample_ip6
            (sample_tcp 54381) sample_opts).out.1.words
          ++ (ttp46_tcp true sample_tuple6 false sample_ip4 sample_ip6
            (sample_tcp 54381) sample_opts).out.2 ++ sample_payload)
    ∧ l4_csum_ok6 sample_ip6.saddr sample_ip6.daddr 14 IPPROTO_UDP
        ((ttp46_udp true sample_tuple6 false false sample_ip4 sample_ip6
            (sample_udp 50379) sample_payload 14).out.words
          ++ sample_payload) :=
  ⟨(l4_csum_update_preserves_validity true sample_tuple4 sample_tuple6 false
      false sample_ip6 sample_ip4 (sample_tcp 53486) (sample_udp 49484)
      sample_opts sample_payload 30 (by decide) (by decide) (by decide)
      (by decide) (by decide) (by decide) (by decide) (by decide)
      (by decide)).1 (by decide),
   (l4_csum_update_preserves_validity true sample_tuple4 sample_tuple6 false
      false sample_ip6 sample_ip4 (sample_tcp 53486) (sample_udp 49484)
      sample_opts sample_payload 14 (by decide) (by decide) (by decide)
      (by decide) (by decide) (by decide) (by decide) (by decide)
      (by decide)).2.1 (by decide),
   (l4_csum_update_preserves_validity true sample_tuple4 sample_tuple6 false
      false sample_ip6 sample_ip4 (sample_tcp 54381) (sample_udp 50379)
      sample_opts sample_payload 30 (by decide) (by decide) (by decide)
      (by decide) (by decide) (by decide) (by decide) (by decide)
      (by decide)).2.2.1 (by decide),
   ((l4_csum_update_preserves_validity true sample_tuple4 sample_tuple6 false
      false sample_ip6 sample_ip4 (sample_tcp 54381) (sample_udp 50379)
      sample_opts sample_payload 14 (by decide) (by decide) (by decide)
      (by decide) (by decide) (by decide) (by decide) (by decide)
      (by decide)).2.2.2 (by decide) (by decide)).2⟩

/-- C2: the checksum round trip.  For every 16-bit checksum `c`, all
addresses and all L4 header buffers `h6`, `h4`, applying `update_csum_4to6`
to the result of `update_csum_6to4`, with the same addresses and headers
swapped back, returns a value equal to `c` modulo 0xFFFF: it is `c`, except
that 0x0000 and 0xFFFF may be exchanged. -/
theorem update_csum_round_trip (c : Nat) (ip6 : ipv6hdr) (ip4 : iphdr)
    (h6 h4 : List Nat) (hc : c < 65536) (hs6 : ip6.saddr.wf)
    (hd6 : ip6.daddr.wf) (hs4 : ip4.saddr < 4294967296)
    (hd4 : ip4.daddr < 4294967296) (hh6 : words16 h6) (hh4 : words16 h4) :
    update_csum_4to6 (update_csum_6to4 c ip6 h6 ip4 h4) ip4 h4 ip6 h6 % 65535
        = c % 65535
      ∧ (update_csum_4to6 (update_csum_6to4 c ip6 h6 ip4 h4) ip4 h4 ip6 h6 = c
        ∨ (update_csum_4to6 (update_csum_6to4 c ip6 h6 ip4 h4) ip4 h4 ip6 h6
              = 0 ∧ c = 65535)
        ∨ (update_csum_4to6 (update_csum_6to4 c ip6 h6 ip4 h4) ip4 h4 ip6 h6
              = 65535 ∧ c = 0)) := by
  have a1 := update_csum_6to4_lt c ip6 h6 ip4 h4
  have a2 := update_csum_6to4_mod c ip6 ip4 hc hs6
    hd6 hs4 hd4 hh6 hh4
  have b1 := update_csum_4to6_lt (update_csum_6to4 c ip6 h6 ip4 h4) ip4 h4
    ip6 h6
  have b2 := update_csum_4to6_mod (update_csum_6to4 c ip6 h6 ip4 h4) ip4 ip6 a1 hs6 hd6 hs4 hd4 hh4 hh6
  generalize update_csum_6to4 c ip6 h6 ip4 h4 = m at a1 a2 b1 b2 ⊢
  generalize update_csum_4to6 m ip4 h4 ip6 h6 = r at b1 b2 ⊢
  have key : r % 65535 = c % 65535 := by omega
  clear a2 b2
  omega

/-- C2 on the sample packet: the checksum 53486 of the sample TCP segment,
taken to IPv4 and back, is 53486 again. -/
theorem update_csum_round_trip_witness :
    update_csum_4to6
        (update_csum_6to4 53486 sample_ip6 (sample_tcp 0).words sample_ip4
          (sample_tcp 0).words)
        sample_ip4 (sample_tcp 0).words sample_ip6 (sample_tcp 0).words
      = 53486 := by
  have h := update_csum_round_trip 53486 sample_ip6 sample_ip4
    (sample_tcp 0).words (sample_tcp 0).words (by decide) (by decide)
    (by decide) (by decide) (by decide) (by decide) (by decide)
  omega

/-! ## C3 and C4: ICMPv6 to ICMPv4, types, codes and pointers -/

theorem update_icmp4_csum_fields (env : icmp64_env) (i : icmp6hdr)
    (o : icmphdr) :
    (update_icmp4_csum env i o).2.type = o.type
      ∧ (update_icmp4_csum env i o).2.code = o.code
      ∧ (update_icmp4_csum env i o).2.un = o.un :=
  ⟨rfl, rfl, rfl⟩

theorem post_icmp4info_fields (env : icmp64_env) (i : icmp6hdr)
    (o : icmphdr) :
    (post_icmp4info env i o).2.type = o.type
      ∧ (post_icmp4info env i o).2.code = o.code
      ∧ (post_icmp4info env i o).2.un = o.un := by
  unfold post_icmp4info
  split
  · exact ⟨rfl, rfl, rfl⟩
  · exact update_icmp4_csum_fields env i o

theorem post_icmp4error_fields (env : icmp64_env) (i : icmp6hdr)
    (o : icmphdr) :
    (post_icmp4error env i o).2.type = o.type
      ∧ (post_icmp4error env i o).2.code = o.code
      ∧ (post_icmp4error env i o).2.un = o.un := by
  unfold post_icmp4error
  dsimp only
  split
  · exact ⟨rfl, rfl, rfl⟩
  · split
    · exact ⟨rfl, rfl, rfl⟩
    · exact ⟨rfl, rfl, rfl⟩

/-- C4: `icmp6_to_icmp4_param_prob_ptr` follows the pointer table of the
specification.  It succeeds exactly when the ICMPv6 pointer `p` is at most
39 and is not 2 or 3; the ICMPv4 pointer is then 0 for 0, 1 for 1, 2 for 4
and 5, 9 for 6, 8 for 7, 12 for 8..23 and 16 for 24..39, stored in the most
significant byte of the rest of the header with the other three bytes zero.
For 2, 3 and every value above 39 it returns `-EINVAL` and leaves the
outgoing header as it was, and `ttp64_icmp` drops the Parameter Problem
message (code 0) that carries such a pointer. -/
theorem icmp6_to_icmp4_param_prob_ptr_table (env : icmp64_env)
    (icmpv6_hdr : icmp6hdr) (icmpv4_hdr : icmphdr) :
    icmp6_to_icmp4_param_prob_ptr icmpv6_hdr icmpv4_hdr
        = (match spec_param_prob_ptr64 icmpv6_hdr.icmp6_dataun with
          | some q => (0, { icmpv4_hdr with un := q * 16777216 })
          | none => (-EINVAL, icmpv4_hdr))
      ∧ (icmpv6_hdr.icmp6_type = ICMPV6_PARAMPROB →
        icmpv6_hdr.icmp6_code = ICMPV6_HDR_FIELD →
        spec_param_prob_ptr64 icmpv6_hdr.icmp6_dataun = none →
        (ttp64_icmp env icmpv6_hdr icmpv4_hdr).1 = VERDICT_DROP) := by
  have main : ∀ o : icmphdr, icmp6_to_icmp4_param_prob_ptr icmpv6_hdr o
      = (match spec_param_prob_ptr64 icmpv6_hdr.icmp6_dataun with
        | some q => (0, { o with un := q * 16777216 })
        | none => (-EINVAL, o)) := by
    intro o
    unfold icmp6_to_icmp4_param_prob_ptr spec_param_prob_ptr64 cpu_to_be32
    dsimp only
    generalize icmpv6_hdr.icmp6_dataun = p
    by_cases h39 : 39 < p
    · have : ¬ (p ≤ 39 ∧ p ≠ 2 ∧ p ≠ 3) := by omega
      simp only [h39, if_true, this, if_false]
    · have hle : p ≤ 39 := by omega
      clear h39
      interval_cases p <;> rfl
  refine ⟨main icmpv4_hdr, ?_⟩
  intro ht hc hn
  have ht4 : icmpv6_hdr.icmp6_type = 4 := ht
  simp only [ttp64_icmp, ht4, ICMPV6_ECHO_REQUEST, ICMPV6_ECHO_REPLY,
    ICMPV6_DEST_UNREACH, ICMPV6_PKT_TOOBIG, ICMPV6_TIME_EXCEED,
    ICMPV6_PARAMPROB, Nat.reduceEqDiff, OfNat.ofNat_ne_one, if_false,
    if_true, icmp6_to_icmp4_param_prob, hc, main, hn, EINVAL]
  simp

/-- C4 on a sample: an ICMPv6 Parameter Problem whose pointer is 2 (the
payload length) is dropped. -/
theorem icmp6_to_icmp4_param_prob_ptr_table_witness :
    (ttp64_icmp sample_env64
        { icmp6_type := 4, icmp6_code := 0, icmp6_cksum := 0,
          icmp6_dataun := 2 }
        { type := 0, code := 0, checksum := 0, un := 0 }).1 = VERDICT_DROP :=
  (icmp6_to_icmp4_param_prob_ptr_table sample_env64
    { icmp6_type := 4, icmp6_code := 0, icmp6_cksum := 0, icmp6_dataun := 2 }
    { type := 0, code := 0, checksum := 0, un := 0 }).2 rfl rfl rfl

theorem ttp64_icmp_echo_request (env : icmp64_env) (hdr : icmp6hdr)
    (out0 : icmphdr) (h : hdr.icmp6_type = 128) :
    (ttp64_icmp env hdr out0).2.type = 8
      ∧ (ttp64_icmp env hdr out0).2.code = 0 := by
  simp only [ttp64_icmp, h, ICMPV6_ECHO_REQUEST, if_true]
  exact ⟨(post_icmp4info_fields _ _ _).1, (post_icmp4info_fields _ _ _).2.1⟩

theorem ttp64_icmp_echo_reply (env : icmp64_env) (hdr : icmp6hdr)
    (out0 : icmphdr) (h : hdr.icmp6_type = 129) :
    (ttp64_icmp env hdr out0).2.type = 0
      ∧ (ttp64_icmp env hdr out0).2.code = 0 := by
  simp only [ttp64_icmp, h, ICMPV6_ECHO_REQUEST, ICMPV6_ECHO_REPLY,
    Nat.reduceEqDiff, if_false, if_true]
  exact ⟨(post_icmp4info_fields _ _ _).1, (post_icmp4info_fields _ _ _).2.1⟩

theorem ttp64_icmp_dest_unreach (env : icmp64_env) (hdr : icmp6hdr)
    (out0 : icmphdr) (h : hdr.icmp6_type = 1) :
    ((hdr.icmp6_code = 0 ∨ hdr.icmp6_code = 2 ∨ hdr.icmp6_code = 3) →
        (ttp64_icmp env hdr out0).2.type = 3
          ∧ (ttp64_icmp env hdr out0).2.code = 1)
      ∧ (hdr.icmp6_code = 1 →
        (ttp64_icmp env hdr out0).2.type = 3
          ∧ (ttp64_icmp env hdr out0).2.code = 10)
      ∧ (hdr.icmp6_code = 4 →
        (ttp64_icmp env hdr out0).2.type = 3
          ∧ (ttp64_icmp env hdr out0).2.code = 3)
      ∧ (4 < hdr.icmp6_code → (ttp64_icmp env hdr out0).1 = VERDICT_DROP) := by
  refine ⟨?_, ?_, ?_, ?_⟩
  · intro hc
    simp only [ttp64_icmp, h, ICMPV6_ECHO_REQUEST, ICMPV6_ECHO_REPLY,
      ICMPV6_DEST_UNREACH, Nat.reduceEqDiff, OfNat.ofNat_ne_one, if_false,
      if_true, icmp6_to_icmp4_dest_unreach, ICMPV6_NOROUTE,
      ICMPV6_NOT_NEIGHBOUR, ICMPV6_ADDR_UNREACH, hc, ne_eq,
      not_true_eq_false]
    exact ⟨(post_icmp4error_fields _ _ _).1, (post_icmp4error_fields _ _ _).2.1⟩
  · intro hc
    simp only [ttp64_icmp, h, ICMPV6_ECHO_REQUEST, ICMPV6_ECHO_REPLY,
      ICMPV6_DEST_UNREACH, Nat.reduceEqDiff, OfNat.ofNat_ne_one, if_false,
      if_true, icmp6_to_icmp4_dest_unreach, ICMPV6_NOROUTE,
      ICMPV6_NOT_NEIGHBOUR, ICMPV6_ADDR_UNREACH, ICMPV6_ADM_PROHIBITED, hc,
      ne_eq, not_true_eq_false, OfNat.one_ne_ofNat, one_ne_zero, or_self]
    exact ⟨(post_icmp4error_fields _ _ _).1, (post_icmp4error_fields _ _ _).2.1⟩
  · intro hc
    simp only [ttp64_icmp, h, ICMPV6_ECHO_REQUEST, ICMPV6_ECHO_REPLY,
      ICMPV6_DEST_UNREACH, Nat.reduceEqDiff, OfNat.ofNat_ne_one, if_false,
      if_true, icmp6_to_icmp4_dest_unreach, ICMPV6_NOROUTE,
      ICMPV6_NOT_NEIGHBOUR, ICMPV6_ADDR_UNREACH, ICMPV6_ADM_PROHIBITED,
      ICMPV6_PORT_UNREACH, hc, ne_eq, not_true_eq_false, OfNat.ofNat_ne_zero,
      or_self]
    exact ⟨(post_icmp4error_fields _ _ _).1, (post_icmp4error_fields _ _ _).2.1⟩
  · intro hc
    have c0 : ¬ hdr.icmp6_code = 0 := by omega
    have c1 : ¬ hdr.icmp6_code = 1 := by omega
    have c2 : ¬ hdr.icmp6_code = 2 := by omega
    have c3 : ¬ hdr.icmp6_code = 3 := by omega
    have c4 : ¬ hdr.icmp6_code = 4 := by omega
    simp only [ttp64_icmp, h, ICMPV6_ECHO_REQUEST, ICMPV6_ECHO_REPLY,
      ICMPV6_DEST_UNREACH, Nat.reduceEqDiff, OfNat.ofNat_ne_one, if_false,
      if_true, icmp6_to_icmp4_dest_unreach, ICMPV6_NOROUTE,
      ICMPV6_NOT_NEIGHBOUR, ICMPV6_ADDR_UNREACH, ICMPV6_ADM_PROHIBITED,
      ICMPV6_PORT_UNREACH, c0, c1, c2, c3, c4, or_self, EINVAL, ne_eq]
    simp

theorem icmp6_to_icmp4_param_prob_ptr_fields (i : icmp6hdr) (o : icmphdr) :
    (icmp6_to_icmp4_param_prob_ptr i o).2.type = o.type
      ∧ (icmp6_to_icmp4_param_prob_ptr i o).2.code = o.code := by
  unfold icmp6_to_icmp4_param_prob_ptr
  dsimp only
  split_ifs <;> exact ⟨rfl, rfl⟩

theorem ttp64_icmp_pkt_toobig (env : icmp64_env) (hdr : icmp6hdr)
    (out0 : icmphdr) (h : hdr.icmp6_type = 2) :
    (ttp64_icmp env hdr out0).2.type = 3
      ∧ (ttp64_icmp env hdr out0).2.code = 4 := by
  simp only [ttp64_icmp, h, ICMPV6_ECHO_REQUEST, ICMPV6_ECHO_REPLY,
    ICMPV6_DEST_UNREACH, ICMPV6_PKT_TOOBIG, Nat.reduceEqDiff,
    OfNat.ofNat_ne_one, if_false, if_true, compute_mtu4]
  cases env.route4 with
  | none => simp only [EINVAL]; exact ⟨rfl, rfl⟩
  | some o =>
    cases env.in_dev with
    | none => simp only [EINVAL]; exact ⟨rfl, rfl⟩
    | some i =>
      simp only [ne_eq, not_true_eq_false, if_false]
      exact ⟨(post_icmp4error_fields _ _ _).1,
        (post_icmp4error_fields _ _ _).2.1⟩

theorem ttp64_icmp_time_exceed (env : icmp64_env) (hdr : icmp6hdr)
    (out0 : icmphdr) (h : hdr.icmp6_type = 3) :
    (ttp64_icmp env hdr out0).2.type = 11
      ∧ (ttp64_icmp env hdr out0).2.code = hdr.icmp6_code := by
  simp only [ttp64_icmp, h, ICMPV6_ECHO_REQUEST, ICMPV6_ECHO_REPLY,
    ICMPV6_DEST_UNREACH, ICMPV6_PKT_TOOBIG, ICMPV6_TIME_EXCEED,
    Nat.reduceEqDiff, OfNat.ofNat_ne_one, if_false, if_true]
  exact ⟨(post_icmp4error_fields _ _ _).1, (post_icmp4error_fields _ _ _).2.1⟩

theorem ttp64_icmp_param_prob (env : icmp64_env) (hdr : icmp6hdr)
    (out0 : icmphdr) (h : hdr.icmp6_type = 4) :
    (hdr.icmp6_code = 0 →
        (ttp64_icmp env hdr out0).2.type = 12
          ∧ (ttp64_icmp env hdr out0).2.code = 0)
      ∧ (hdr.icmp6_code = 1 →
        (ttp64_icmp env hdr out0).2.type = 3
          ∧ (ttp64_icmp env hdr out0).2.code = 2
          ∧ (ttp64_icmp env hdr out0).2.un = 0)
      ∧ (1 < hdr.icmp6_code → (ttp64_icmp env hdr out0).1 = VERDICT_DROP) := by
  refine ⟨?_, ?_, ?_⟩
  · intro hc
    simp only [ttp64_icmp, h, ICMPV6_ECHO_REQUEST, ICMPV6_ECHO_REPLY,
      ICMPV6_DEST_UNREACH, ICMPV6_PKT_TOOBIG, ICMPV6_TIME_EXCEED,
      ICMPV6_PARAMPROB, Nat.reduceEqDiff, OfNat.ofNat_ne_one, if_false,
      if_true, icmp6_to_icmp4_param_prob, ICMPV6_HDR_FIELD, hc]
    split
    · exact icmp6_to_icmp4_param_prob_ptr_fields _ _
    · exact ⟨(post_icmp4error_fields _ _ _).1.trans
          (icmp6_to_icmp4_param_prob_ptr_fields _ _).1,
        (post_icmp4error_fields _ _ _).2.1.trans
          (icmp6_to_icmp4_param_prob_ptr_fields _ _).2⟩
  · intro hc
    simp only [ttp64_icmp, h, ICMPV6_ECHO_REQUEST, ICMPV6_ECHO_REPLY,
      ICMPV6_DEST_UNREACH, ICMPV6_PKT_TOOBIG, ICMPV6_TIME_EXCEED,
      ICMPV6_PARAMPROB, Nat.reduceEqDiff, OfNat.ofNat_ne_one, if_false,
      if_true, icmp6_to_icmp4_param_prob, ICMPV6_HDR_FIELD,
      ICMPV6_UNK_NEXTHDR, hc, one_ne_zero, ne_eq, not_true_eq_false]
    exact post_icmp4error_fields _ _ _
  · intro hc
    have c0 : ¬ hdr.icmp6_code = 0 := by omega
    have c1 : ¬ hdr.icmp6_code = 1 := by omega
    simp only [ttp64_icmp, h, ICMPV6_ECHO_REQUEST, ICMPV6_ECHO_REPLY,
      ICMPV6_DEST_UNREACH, ICMPV6_PKT_TOOBIG, ICMPV6_TIME_EXCEED,
      ICMPV6_PARAMPROB, Nat.reduceEqDiff, OfNat.ofNat_ne_one, if_false,
      if_true, icmp6_to_icmp4_param_prob, ICMPV6_HDR_FIELD,
      ICMPV6_UNK_NEXTHDR, c0, c1, EINVAL, ne_eq]
    simp

theorem ttp64_icmp_other (env : icmp64_env) (hdr : icmp6hdr)
    (out0 : icmphdr) (h128 : hdr.icmp6_type ≠ 128)
    (h129 : hdr.icmp6_type ≠ 129) (h1 : hdr.icmp6_type ≠ 1)
    (h2 : hdr.icmp6_type ≠ 2) (h3 : hdr.icmp6_type ≠ 3)
    (h4 : hdr.icmp6_type ≠ 4) :
    (ttp64_icmp env hdr out0).1 = VERDICT_DROP := by
  simp only [ttp64_icmp, ICMPV6_ECHO_REQUEST, ICMPV6_ECHO_REPLY,
    ICMPV6_DEST_UNREACH, ICMPV6_PKT_TOOBIG, ICMPV6_TIME_EXCEED,
    ICMPV6_PARAMPROB, h128, h129, h1, h2, h3, h4, if_false]

/-- C3: the ICMPv4 type and code `ttp64_icmp` writes follow the table of the
specification.  Echo Request (128) gives Echo (8) code 0; Echo Reply (129)
gives Echo Reply (0) code 0; Destination Unreachable (1) with code 0, 2 or 3
gives 3/1, with code 1 gives 3/10, with code 4 gives 3/3; Packet Too Big (2)
gives 3/4; Time Exceeded (3) code c gives 11/c; Parameter Problem (4) code 0
gives 12/0 and code 1 gives 3/2 with the rest of the header zeroed; every
other type, every other Destination Unreachable code and every other
Parameter Problem code yields verdict Drop. -/
theorem ttp64_icmp_type_code_table (env : icmp64_env) (hdr : icmp6hdr)
    (out0 : icmphdr) :
    (match spec_icmp64_table hdr.icmp6_type hdr.icmp6_code with
      | some (t, c) =>
        (ttp64_icmp env hdr out0).2.type = t
          ∧ (ttp64_icmp env hdr out0).2.code = c
      | none => (ttp64_icmp env hdr out0).1 = VERDICT_DROP)
    ∧ (hdr.icmp6_type = 4 ∧ hdr.icmp6_code = 1 →
        (ttp64_icmp env hdr out0).2.un = 0) := by
  refine ⟨?_, fun h => ((ttp64_icmp_param_prob env hdr out0 h.1).2.1 h.2).2.2⟩
  unfold spec_icmp64_table
  by_cases h128 : hdr.icmp6_type = 128
  · simp only [h128, if_true]
    exact ttp64_icmp_echo_request env hdr out0 h128
  by_cases h129 : hdr.icmp6_type = 129
  · simp only [h129, Nat.reduceEqDiff, if_false, if_true]
    exact ttp64_icmp_echo_reply env hdr out0 h129
  by_cases h1 : hdr.icmp6_type = 1
  · have d := ttp64_icmp_dest_unreach env hdr out0 h1
    simp only [h1, OfNat.one_ne_ofNat, if_false, if_true]
    by_cases c023 : hdr.icmp6_code = 0 ∨ hdr.icmp6_code = 2 ∨ hdr.icmp6_code = 3
    · simp only [c023, if_true]
      exact d.1 c023
    by_cases c1 : hdr.icmp6_code = 1
    · simp only [c023, c1, if_false, if_true]
      exact d.2.1 c1
    by_cases c4 : hdr.icmp6_code = 4
    · simp only [c023, c1, c4, if_false, if_true]
      exact d.2.2.1 c4
    simp only [c023, c1, c4, if_false]
    exact d.2.2.2 (by omega)
  by_cases h2 : hdr.icmp6_type = 2
  · simp only [h2, Nat.reduceEqDiff, OfNat.ofNat_ne_one, if_false, if_true]
    exact ttp64_icmp_pkt_toobig env hdr out0 h2
  by_cases h3 : hdr.icmp6_type = 3
  · simp only [h3, Nat.reduceEqDiff, OfNat.ofNat_ne_one, if_false, if_true]
    exact ttp64_icmp_time_exceed env hdr out0 h3
  by_cases h4 : hdr.icmp6_type = 4
  · have d := ttp64_icmp_param_prob env hdr out0 h4
    simp only [h4, Nat.reduceEqDiff, OfNat.ofNat_ne_one, if_false, if_true]
    by_cases c0 : hdr.icmp6_code = 0
    · simp only [c0, if_true]
      exact d.1 c0
    by_cases c1 : hdr.icmp6_code = 1
    · simp only [c1, one_ne_zero, if_false, if_true]
      exact ⟨(d.2.1 c1).1, (d.2.1 c1).2.1⟩
    simp only [c0, c1, if_false]
    exact d.2.2 (by omega)
  simp only [h128, h129, h1, h2, h3, h4, if_false]
  exact ttp64_icmp_other env hdr out0 h128 h129 h1 h2 h3 h4

/-- C3 on a sample: an ICMPv6 Parameter Problem with code 1 (unrecognized
Next Header) leaves an ICMPv4 header whose rest is zero. -/
theorem ttp64_icmp_type_code_table_witness :
    (ttp64_icmp sample_env64
        { icmp6_type := 4, icmp6_code := 1, icmp6_cksum := 0,
          icmp6_dataun := 40 }
        { type := 0, code := 0, checksum := 0, un := 77 }).2.un = 0 :=
  (ttp64_icmp_type_code_table sample_env64 _ _).2 ⟨rfl, rfl⟩

/-! ## C5: ICMPv4 to ICMPv6, pointers -/

/-- C5, as stated, fails on the code: an ICMPv4 Parameter Problem with
pointer 13 is translated with pointer 8 (the source address of the IPv6
header), whereas the table of the specification asks for 24. -/
theorem icmp4_to_icmp6_param_prob_ptr_13 :
    (icmp4_to_icmp6_param_prob
        { type := 12, code := 0, checksum := 0, un := 13 * 16777216 }
        { icmp6_type := 0, icmp6_code := 0, icmp6_cksum := 0,
          icmp6_dataun := 0 }).result = VERDICT_CONTINUE
      ∧ (icmp4_to_icmp6_param_prob
        { type := 12, code := 0, checksum := 0, un := 13 * 16777216 }
        { icmp6_type := 0, icmp6_code := 0, icmp6_cksum := 0,
          icmp6_dataun := 0 }).out.icmp6_dataun = 8
      ∧ spec_param_prob_ptr46 13 = some 24 := by
  decide

/-- C5, amended: for an ICMPv4 Parameter Problem with code 0 or 2 and
pointer `p` (the most significant byte of the rest of the header),
`icmp4_to_icmp6_param_prob` follows the table 0 to 0, 1 to 1, 2 and 3 to 4,
8 to 7, 9 to 6, 12..15 to 8, 16..19 to 24, writing an ICMPv6 Parameter
Problem with code 0 and that pointer; for the pointers 4..7, 10, 11 and
every value above 19 the message is dropped. -/
theorem icmp4_to_icmp6_param_prob_table (icmp4_hdr : icmphdr)
    (icmp6_hdr : icmp6hdr) (p low : Nat)
    (hcode : icmp4_hdr.code = 0 ∨ icmp4_hdr.code = 2) (hp : p < 256)
    (hlow : low < 16777216) (hun : icmp4_hdr.un = p * 16777216 + low) :
    match amended_param_prob_ptr46 p with
    | some q =>
      (icmp4_to_icmp6_param_prob icmp4_hdr icmp6_hdr).result = VERDICT_CONTINUE
        ∧ (icmp4_to_icmp6_param_prob icmp4_hdr icmp6_hdr).out.icmp6_type = 4
        ∧ (icmp4_to_icmp6_param_prob icmp4_hdr icmp6_hdr).out.icmp6_code = 0
        ∧ (icmp4_to_icmp6_param_prob icmp4_hdr icmp6_hdr).out.icmp6_dataun = q
    | none =>
      (icmp4_to_icmp6_param_prob icmp4_hdr icmp6_hdr).result = VERDICT_DROP := by
  have hptr : icmp4_hdr.un % 4294967296 / 16777216 % 256 = p := by omega
  have hc : icmp4_hdr.code = ICMP_PTR_INDICATES_ERROR
      ∨ icmp4_hdr.code = ICMP_BAD_LENGTH := hcode
  unfold icmp4_to_icmp6_param_prob
  simp only [hc, if_true, hptr]
  clear hun hptr hc hcode
  by_cases h19 : 19 < p
  · have e : amended_param_prob_ptr46 p = none := by
      unfold amended_param_prob_ptr46
      have n0 : ¬ p = 0 := by omega
      have n1 : ¬ p = 1 := by omega
      have n2 : ¬ (p = 2 ∨ p = 3) := by omega
      have n8 : ¬ p = 8 := by omega
      have n9 : ¬ p = 9 := by omega
      have n12 : ¬ (12 ≤ p ∧ p ≤ 15) := by omega
      have n16 : ¬ (16 ≤ p ∧ p ≤ 19) := by omega
      simp only [n0, n1, n2, n8, n9, n12, n16, if_false]
    simp only [e, h19, true_or, if_true]
    rfl
  · have hle : p ≤ 19 := by omega
    clear h19 hp
    interval_cases p <;> first | exact ⟨rfl, rfl, rfl, rfl⟩ | rfl

/-- C5, amended, on the pointer 13: it is translated to the pointer 8. -/
theorem icmp4_to_icmp6_param_prob_table_witness :
    (icmp4_to_icmp6_param_prob
        { type := 12, code := 0, checksum := 0, un := 13 * 16777216 + 5 }
        { icmp6_type := 0, icmp6_code := 0, icmp6_cksum := 0,
          icmp6_dataun := 0 }).out.icmp6_dataun = 8 :=
  (icmp4_to_icmp6_param_prob_table
    { type := 12, code := 0, checksum := 0, un := 13 * 16777216 + 5 }
    { icmp6_type := 0, icmp6_code := 0, icmp6_cksum := 0, icmp6_dataun := 0 }
    13 5 (Or.inl rfl) (by decide) (by decide) rfl).2.2.2

/-! ## C6: ICMPv6 to ICMPv4 and back -/

theorem icmp6_to_icmp4_param_prob_ptr_un (i : icmp6hdr) (o : icmphdr)
    (h : (icmp6_to_icmp4_param_prob_ptr i o).1 = 0) :
    (icmp6_to_icmp4_param_prob_ptr i o).2.un = 0
      ∨ (icmp6_to_icmp4_param_prob_ptr i o).2.un = 1 * 16777216
      ∨ (icmp6_to_icmp4_param_prob_ptr i o).2.un = 2 * 16777216
      ∨ (icmp6_to_icmp4_param_prob_ptr i o).2.un = 8 * 16777216
      ∨ (icmp6_to_icmp4_param_prob_ptr i o).2.un = 9 * 16777216
      ∨ (icmp6_to_icmp4_param_prob_ptr i o).2.un = 12 * 16777216
      ∨ (icmp6_to_icmp4_param_prob_ptr i o).2.un = 16 * 16777216 := by
  revert h
  unfold icmp6_to_icmp4_param_prob_ptr cpu_to_be32 EINVAL
  dsimp only
  split_ifs <;> simp

theorem post_icmp6error_ok (env : icmp46_env) (i : icmphdr) (o : icmp6hdr)
    (hv : validate_icmp4_csum env i = VERDICT_CONTINUE)
    (hi : env.translate_inner = VERDICT_CONTINUE) :
    (post_icmp6error env i o).result = VERDICT_CONTINUE
      ∧ (post_icmp6error env i o).out.icmp6_type = o.icmp6_type
      ∧ (post_icmp6error env i o).out.icmp6_code = o.icmp6_code := by
  unfold post_icmp6error
  simp only [hv, hi, ne_eq, not_true_eq_false, if_false]
  refine ⟨?_, ?_, ?_⟩ <;> first | rfl | trivial

theorem ttp46_icmp_echo (env : icmp46_env) (h4 : icmphdr) (out6 : icmp6hdr)
    (h : h4.type = 8) :
    (ttp46_icmp env h4 out6).result = VERDICT_CONTINUE
      ∧ (ttp46_icmp env h4 out6).out.icmp6_type = 128
      ∧ (ttp46_icmp env h4 out6).out.icmp6_code = 0 := by
  simp only [ttp46_icmp, h, ICMP_ECHO, if_true]
  refine ⟨?_, ?_, ?_⟩ <;> first | rfl | trivial

theorem ttp46_icmp_echoreply (env : icmp46_env) (h4 : icmphdr)
    (out6 : icmp6hdr) (h : h4.type = 0) :
    (ttp46_icmp env h4 out6).result = VERDICT_CONTINUE
      ∧ (ttp46_icmp env h4 out6).out.icmp6_type = 129
      ∧ (ttp46_icmp env h4 out6).out.icmp6_code = 0 := by
  simp only [ttp46_icmp, h, ICMP_ECHO, ICMP_ECHOREPLY, OfNat.zero_ne_ofNat,
    if_false, if_true]
  refine ⟨?_, ?_, ?_⟩ <;> first | rfl | trivial

theorem ttp46_icmp_time_exceeded (env : icmp46_env) (h4 : icmphdr)
    (out6 : icmp6hdr) (h : h4.type = 11)
    (hv : validate_icmp4_csum env h4 = VERDICT_CONTINUE)
    (hi : env.translate_inner = VERDICT_CONTINUE) :
    (ttp46_icmp env h4 out6).result = VERDICT_CONTINUE
      ∧ (ttp46_icmp env h4 out6).out.icmp6_type = 3
      ∧ (ttp46_icmp env h4 out6).out.icmp6_code = h4.code := by
  simp only [ttp46_icmp, h, ICMP_ECHO, ICMP_ECHOREPLY, ICMP_DEST_UNREACH,
    ICMP_TIME_EXCEEDED, Nat.reduceEqDiff, OfNat.ofNat_ne_zero, if_false,
    if_true]
  exact post_icmp6error_ok env h4 _ hv hi

theorem ttp46_icmp_dest_unreach (env : icmp46_env) (h4 : icmphdr)
    (out6 : icmp6hdr) (h : h4.type = 3)
    (hv : validate_icmp4_csum env h4 = VERDICT_CONTINUE)
    (hi : env.translate_inner = VERDICT_CONTINUE)
    (hr : env.route6 ≠ none) (t c : Nat)
    (hc : (h4.code = 1 ∧ t = 1 ∧ c = 0) ∨ (h4.code = 10 ∧ t = 1 ∧ c = 1)
      ∨ (h4.code = 3 ∧ t = 1 ∧ c = 4) ∨ (h4.code = 4 ∧ t = 2 ∧ c = 0)
      ∨ (h4.code = 2 ∧ t = 4 ∧ c = 1)) :
    (ttp46_icmp env h4 out6).result = VERDICT_CONTINUE
      ∧ (ttp46_icmp env h4 out6).out.icmp6_type = t
      ∧ (ttp46_icmp env h4 out6).out.icmp6_code = c := by
  obtain ⟨m, hm⟩ := Option.ne_none_iff_exists'.mp hr
  rcases hc with ⟨hc, rfl, rfl⟩ | ⟨hc, rfl, rfl⟩ | ⟨hc, rfl, rfl⟩
      | ⟨hc, rfl, rfl⟩ | ⟨hc, rfl, rfl⟩ <;>
    simp only [ttp46_icmp, h, hc, hm, ICMP_ECHO, ICMP_ECHOREPLY,
      ICMP_DEST_UNREACH, Nat.reduceEqDiff, OfNat.ofNat_ne_zero, if_false,
      if_true, icmp4_to_icmp6_dest_unreach, compute_mtu6, ICMP_NET_UNREACH,
      ICMP_HOST_UNREACH, ICMP_SR_FAILED, ICMP_NET_UNKNOWN, ICMP_HOST_UNKNOWN,
      ICMP_HOST_ISOLATED, ICMP_NET_UNR_TOS, ICMP_HOST_UNR_TOS,
      ICMP_PROT_UNREACH, ICMP_PORT_UNREACH, ICMP_FRAG_NEEDED, ICMP_NET_ANO,
      ICMP_HOST_ANO, ICMP_PKT_FILTERED, ICMP_PREC_CUTOFF, one_ne_zero,
      OfNat.one_ne_ofNat, OfNat.ofNat_ne_one, or_true, true_or, or_false,
      false_or, or_self, ne_eq, not_true_eq_false] <;>
    exact post_icmp6error_ok env h4 _ hv hi

theorem ttp46_icmp_param_prob (env : icmp46_env) (h4 : icmphdr)
    (out6 : icmp6hdr) (h : h4.type = 12) (hc : h4.code = 0)
    (hv : validate_icmp4_csum env h4 = VERDICT_CONTINUE)
    (hi : env.translate_inner = VERDICT_CONTINUE)
    (hun : h4.un = 0 ∨ h4.un = 1 * 16777216 ∨ h4.un = 2 * 16777216
      ∨ h4.un = 8 * 16777216 ∨ h4.un = 9 * 16777216 ∨ h4.un = 12 * 16777216
      ∨ h4.un = 16 * 16777216) :
    (ttp46_icmp env h4 out6).result = VERDICT_CONTINUE
      ∧ (ttp46_icmp env h4 out6).out.icmp6_type = 4
      ∧ (ttp46_icmp env h4 out6).out.icmp6_code = 0 := by
  rcases hun with hu | hu | hu | hu | hu | hu | hu <;>
    simp only [ttp46_icmp, h, hc, hu, ICMP_ECHO, ICMP_ECHOREPLY,
      ICMP_DEST_UNREACH, ICMP_TIME_EXCEEDED, ICMP_PARAMETERPROB,
      Nat.reduceEqDiff, OfNat.ofNat_ne_zero, if_false, if_true,
      icmp4_to_icmp6_param_prob, ICMP_PTR_INDICATES_ERROR, ICMP_BAD_LENGTH,
      true_or, Nat.reduceMul, Nat.reduceMod, Nat.reduceDiv, Nat.zero_mod,
      Nat.zero_div, ptrs, PTR_DROP, List.getD_cons_zero, List.getD_cons_succ,
      Nat.reduceLT, Nat.lt_irrefl, false_or, ne_eq, not_true_eq_false,
      not_false_eq_true] <;>
    exact post_icmp6error_ok env h4 _ hv hi

theorem ttp64_icmp_param_prob_un (env : icmp64_env) (hdr : icmp6hdr)
    (out0 : icmphdr) (h : hdr.icmp6_type = 4) (hc : hdr.icmp6_code = 0)
    (hres : (ttp64_icmp env hdr out0).1 = VERDICT_CONTINUE) :
    (ttp64_icmp env hdr out0).2.un = 0
      ∨ (ttp64_icmp env hdr out0).2.un = 1 * 16777216
      ∨ (ttp64_icmp env hdr out0).2.un = 2 * 16777216
      ∨ (ttp64_icmp env hdr out0).2.un = 8 * 16777216
      ∨ (ttp64_icmp env hdr out0).2.un = 9 * 16777216
      ∨ (ttp64_icmp env hdr out0).2.un = 12 * 16777216
      ∨ (ttp64_icmp env hdr out0).2.un = 16 * 16777216 := by
  have hu := icmp6_to_icmp4_param_prob_ptr_un hdr
    { type := ICMP_PARAMETERPROB, code := 0, checksum := hdr.icmp6_cksum,
      un := out0.un }
  revert hres
  simp only [ttp64_icmp, h, ICMPV6_ECHO_REQUEST, ICMPV6_ECHO_REPLY,
    ICMPV6_DEST_UNREACH, ICMPV6_PKT_TOOBIG, ICMPV6_TIME_EXCEED,
    ICMPV6_PARAMPROB, Nat.reduceEqDiff, OfNat.ofNat_ne_one, if_false,
    if_true, icmp6_to_icmp4_param_prob, ICMPV6_HDR_FIELD, hc]
  generalize icmp6_to_icmp4_param_prob_ptr hdr
    { type := ICMP_PARAMETERPROB, code := 0, checksum := hdr.icmp6_cksum,
      un := out0.un } = r at hu ⊢
  split
  · intro hres
    simp at hres
  · rename_i hz
    intro _
    rw [(post_icmp4error_fields _ _ _).2.2]
    exact hu (by simpa using hz)

/-- C6, as stated, fails on the code: an ICMPv6 Echo Request with code 1 is
translated to an ICMPv4 Echo with code 0, which comes back as an Echo
Request with code 0, not with the original code. -/
theorem icmp_echo_code_not_restored :
    (ttp64_icmp sample_env64
        { icmp6_type := 128, icmp6_code := 1, icmp6_cksum := 0,
          icmp6_dataun := 0x12340001 }
        { type := 0, code := 0, checksum := 0, un := 0 }).1 = VERDICT_CONTINUE
      ∧ (ttp46_icmp sample_env46
          (ttp64_icmp sample_env64
            { icmp6_type := 128, icmp6_code := 1, icmp6_cksum := 0,
              icmp6_dataun := 0x12340001 }
            { type := 0, code := 0, checksum := 0, un := 0 }).2
          { icmp6_type := 0, icmp6_code := 0, icmp6_cksum := 0,
            icmp6_dataun := 0 }).result = VERDICT_CONTINUE
      ∧ (ttp46_icmp sample_env46
          (ttp64_icmp sample_env64
            { icmp6_type := 128, icmp6_code := 1, icmp6_cksum := 0,
              icmp6_dataun := 0x12340001 }
            { type := 0, code := 0, checksum := 0, un := 0 }).2
          { icmp6_type := 0, icmp6_code := 0, icmp6_cksum := 0,
            icmp6_dataun := 0 }).out.icmp6_type = 128
      ∧ (ttp46_icmp sample_env46
          (ttp64_icmp sample_env64
            { icmp6_type := 128, icmp6_code := 1, icmp6_cksum := 0,
              icmp6_dataun := 0x12340001 }
            { type := 0, code := 0, checksum := 0, un := 0 }).2
          { icmp6_type := 0, icmp6_code := 0, icmp6_cksum := 0,
            icmp6_dataun := 0 }).out.icmp6_code = 0
      ∧ spec_icmp6_code_back 128 1 = 1 := by
  decide

/-- C6, amended: for every ICMPv6 type and code that `ttp64_icmp` translates
(verdict Continue), `ttp46_icmp` applied to the resulting ICMPv4 header
continues as well, provided its surroundings do not fail (a route for the
MTU computation, a valid ICMPv4 checksum, a translatable inner packet), and
yields the original ICMPv6 type with a code of the same table row: the
original code, except that NOT_NEIGHBOUR and ADDR_UNREACH come back as
NOROUTE and that every Packet Too Big, Echo Request and Echo Reply code
comes back as 0. -/
theorem icmp_type_code_round_trip (env64 : icmp64_env) (env46 : icmp46_env)
    (hdr : icmp6hdr) (out4 : icmphdr) (out6 : icmp6hdr)
    (h64 : (ttp64_icmp env64 hdr out4).1 = VERDICT_CONTINUE)
    (hr : env46.route6 ≠ none)
    (hv : validate_icmp4_csum env46 (ttp64_icmp env64 hdr out4).2
      = VERDICT_CONTINUE)
    (hi : env46.translate_inner = VERDICT_CONTINUE) :
    (ttp46_icmp env46 (ttp64_icmp env64 hdr out4).2 out6).result
        = VERDICT_CONTINUE
      ∧ (ttp46_icmp env46 (ttp64_icmp env64 hdr out4).2 out6).out.icmp6_type
        = hdr.icmp6_type
      ∧ (ttp46_icmp env46 (ttp64_icmp env64 hdr out4).2 out6).out.icmp6_code
        = amended_icmp6_code_back hdr.icmp6_type hdr.icmp6_code := by
  unfold amended_icmp6_code_back spec_icmp6_code_back
  by_cases h128 : hdr.icmp6_type = 128
  · have a := ttp64_icmp_echo_request env64 hdr out4 h128
    have b := ttp46_icmp_echo env46 _ out6 a.1
    simp only [h128, true_or, if_true]
    exact b
  by_cases h129 : hdr.icmp6_type = 129
  · have a := ttp64_icmp_echo_reply env64 hdr out4 h129
    have b := ttp46_icmp_echoreply env46 _ out6 a.1
    simp only [h129, or_true, if_true]
    exact b
  by_cases h1 : hdr.icmp6_type = 1
  · have d := ttp64_icmp_dest_unreach env64 hdr out4 h1
    simp only [h1, OfNat.one_ne_ofNat, or_self, if_false, true_and]
    by_cases c023 : hdr.icmp6_code = 0 ∨ hdr.icmp6_code = 2 ∨ hdr.icmp6_code = 3
    · have a := d.1 c023
      have e : (if hdr.icmp6_code = 2 ∨ hdr.icmp6_code = 3 then 0
          else hdr.icmp6_code) = 0 := by
        split <;> omega
      rw [e]
      exact ttp46_icmp_dest_unreach env46 _ out6 a.1 hv hi hr 1 0
        (Or.inl ⟨a.2, rfl, rfl⟩)
    have n23 : ¬ (hdr.icmp6_code = 2 ∨ hdr.icmp6_code = 3) := by omega
    simp only [n23, if_false]
    by_cases c1 : hdr.icmp6_code = 1
    · have a := d.2.1 c1
      rw [c1]
      exact ttp46_icmp_dest_unreach env46 _ out6 a.1 hv hi hr 1 1
        (Or.inr (Or.inl ⟨a.2, rfl, rfl⟩))
    by_cases c4 : hdr.icmp6_code = 4
    · have a := d.2.2.1 c4
      rw [c4]
      exact ttp46_icmp_dest_unreach env46 _ out6 a.1 hv hi hr 1 4
        (Or.inr (Or.inr (Or.inl ⟨a.2, rfl, rfl⟩)))
    have hd := d.2.2.2 (by omega)
    rw [h64] at hd
    exact absurd hd (by decide)
  by_cases h2 : hdr.icmp6_type = 2
  · have a := ttp64_icmp_pkt_toobig env64 hdr out4 h2
    simp only [h2, Nat.reduceEqDiff, OfNat.ofNat_ne_one, or_self, if_false,
      false_and, if_true]
    exact ttp46_icmp_dest_unreach env46 _ out6 a.1 hv hi hr 2 0
      (Or.inr (Or.inr (Or.inr (Or.inl ⟨a.2, rfl, rfl⟩))))
  by_cases h3 : hdr.icmp6_type = 3
  · have a := ttp64_icmp_time_exceed env64 hdr out4 h3
    have b := ttp46_icmp_time_exceeded env46 _ out6 a.1 hv hi
    simp only [h3, Nat.reduceEqDiff, OfNat.ofNat_ne_one, or_self, if_false,
      false_and]
    exact ⟨b.1, b.2.1, b.2.2.trans a.2⟩
  by_cases h4 : hdr.icmp6_type = 4
  · have d := ttp64_icmp_param_prob env64 hdr out4 h4
    simp only [h4, Nat.reduceEqDiff, OfNat.ofNat_ne_one, or_self, if_false,
      false_and]
    by_cases c0 : hdr.icmp6_code = 0
    · have a := d.1 c0
      have u := ttp64_icmp_param_prob_un env64 hdr out4 h4 c0 h64
      rw [c0]
      exact ttp46_icmp_param_prob env46 _ out6 a.1 a.2 hv hi u
    by_cases c1 : hdr.icmp6_code = 1
    · have a := d.2.1 c1
      rw [c1]
      exact ttp46_icmp_dest_unreach env46 _ out6 a.1 hv hi hr 4 1
        (Or.inr (Or.inr (Or.inr (Or.inr ⟨a.2.1, rfl, rfl⟩))))
    have hd := d.2.2 (by omega)
    rw [h64] at hd
    exact absurd hd (by decide)
  have hd := ttp64_icmp_other env64 hdr out4 h128 h129 h1 h2 h3 h4
  rw [h64] at hd
  exact absurd hd (by decide)

/-- C6, amended, on a sample: an ICMPv6 Packet Too Big with MTU 1400 is
translated, and comes back as a Packet Too Big with code 0. -/
theorem icmp_type_code_round_trip_witness :
    (ttp46_icmp sample_env46
        (ttp64_icmp sample_env64
          { icmp6_type := 2, icmp6_code := 0, icmp6_cksum := 0,
            icmp6_dataun := 1400 }
          { type := 0, code := 0, checksum := 0, un := 0 }).2
        { icmp6_type := 0, icmp6_code := 0, icmp6_cksum := 0,
          icmp6_dataun := 0 }).out.icmp6_type = 2 :=
  (icmp_type_code_round_trip sample_env64 sample_env46
    { icmp6_type := 2, icmp6_code := 0, icmp6_cksum := 0, icmp6_dataun := 1400 }
    { type := 0, code := 0, checksum := 0, un := 0 }
    { icmp6_type := 0, icmp6_code := 0, icmp6_cksum := 0, icmp6_dataun := 0 }
    (by decide) (by decide) (by decide) (by decide)).2.1

/-! ## C7: the MTU of an ICMPv4 Fragmentation Needed -/

theorem compute_mtu4_eq (env : icmp64_env) (in_icmp : icmp6hdr)
    (out_icmp : icmphdr) (o i : Nat) (ho : env.route4 = some o)
    (hi : env.in_dev = some i) :
    compute_mtu4 env in_icmp out_icmp
      = (0, out_icmp.set_lo (icmp4_minimum_mtu
          ((in_icmp.icmp6_dataun + 4294967296 - 20) % 4294967296) o
          ((i + 4294967296 - 20) % 4294967296))) := by
  unfold compute_mtu4
  rw [ho, hi]

/-- Inside the range where no argument of `icmp4_minimum_mtu` wraps around
or is narrowed, `compute_mtu4` writes min(m - 20, o, i - 20). -/
theorem compute_mtu4_in_range (env : icmp64_env) (in_icmp : icmp6hdr)
    (out_icmp : icmphdr) (o i : Nat) (ho : env.route4 = some o)
    (hi : env.in_dev = some i) (hm20 : 20 ≤ in_icmp.icmp6_dataun)
    (hm : in_icmp.icmp6_dataun < 4294967296) (ho16 : o < 65536)
    (hi20 : 20 ≤ i) (hi16 : i - 20 < 65536) :
    (compute_mtu4 env in_icmp out_icmp).2.frag_mtu
      = min (in_icmp.icmp6_dataun - 20) (min o (i - 20)) := by
  rw [compute_mtu4_eq env in_icmp out_icmp o i ho hi]
  unfold icmphdr.frag_mtu icmphdr.set_lo icmp4_minimum_mtu cpu_to_be16
  dsimp only
  generalize in_icmp.icmp6_dataun = m at hm20 hm ⊢
  generalize out_icmp.un / 65536 = hi16bits
  split <;> split <;> omega

/-- C7 fails on the code: with an outgoing device whose MTU is 65536 (the
loopback device), a Packet Too Big with MTU 1400 and an incoming device MTU
of 1500, `compute_mtu4` writes the MTU 0, because `icmp4_minimum_mtu`
receives the device MTU in a 16-bit parameter; min(1400 - 20, 65536,
1500 - 20) is 1380.  With both device MTUs at 1500 it writes 1380. -/
theorem compute_mtu4_narrows_device_mtu :
    (compute_mtu4 { sample_env64 with route4 := some 65536 }
        { icmp6_type := 2, icmp6_code := 0, icmp6_cksum := 0,
          icmp6_dataun := 1400 }
        { type := 3, code := 4, checksum := 0, un := 0 }).1 = 0
      ∧ (compute_mtu4 { sample_env64 with route4 := some 65536 }
        { icmp6_type := 2, icmp6_code := 0, icmp6_cksum := 0,
          icmp6_dataun := 1400 }
        { type := 3, code := 4, checksum := 0, un := 0 }).2.frag_mtu = 0
      ∧ min (1400 - 20) (min 65536 (1500 - 20)) = 1380
      ∧ (compute_mtu4 sample_env64
        { icmp6_type := 2, icmp6_code := 0, icmp6_cksum := 0,
          icmp6_dataun := 1400 }
        { type := 3, code := 4, checksum := 0, un := 0 }).2.frag_mtu
          = 1380 := by
  decide

/-! ## C8 and C9: the MTU of an ICMPv6 Packet Too Big -/

theorem icmp6_minimum_mtu_ge (pl : mtu_plateaus) (m o i t : Nat) :
    1280 ≤ icmp6_minimum_mtu pl m o i t := by
  unfold icmp6_minimum_mtu cpu_to_be32 IPV6_MIN_MTU
  dsimp only
  generalize (if m = 0 then
      match List.find? (fun p => decide (p < t))
          (List.take pl.count pl.values) with
      | some p => p
      | none => m
    else m) = pm
  split <;> omega

/-- C8: for every nonzero 16-bit ICMPv4 next-hop MTU `m`, every outgoing
IPv6 device MTU `o` and every incoming IPv4 device MTU `i`,
`icmp6_minimum_mtu` returns max(1280, min(m + 20, o, i + 20)); and for
every input whatsoever the returned MTU is at least 1280.  The MTU of a
device leaves room for 20 more in the 32 bits of an `unsigned int`, which
is the hypothesis on `i`: `compute_mtu6` passes `dev->mtu`, or 0xfffffff
when the packet has no device. -/
theorem icmp6_minimum_mtu_formula (pl : mtu_plateaus) (m o i t : Nat)
    (hm0 : m ≠ 0) (hm : m < 65536) (hi : i + 20 < 4294967296) :
    icmp6_minimum_mtu pl m o i t = max 1280 (min (m + 20) (min o (i + 20)))
      ∧ ∀ (pl' : mtu_plateaus) (m' o' i' t' : Nat),
          1280 ≤ icmp6_minimum_mtu pl' m' o' i' t' := by
  refine ⟨?_, icmp6_minimum_mtu_ge⟩
  unfold icmp6_minimum_mtu cpu_to_be32 IPV6_MIN_MTU
  simp only [hm0, if_false]
  split <;> omega

/-- C8 on the sample values: next-hop MTU 1400 and device MTUs 1500 give
1420. -/
theorem icmp6_minimum_mtu_formula_witness :
    icmp6_minimum_mtu sample_env46.plateaus 1400 1500 1500 1500 = 1420 :=
  (icmp6_minimum_mtu_formula sample_env46.plateaus 1400 1500 1500 1500
    (by decide) (by decide) (by decide)).1

theorem find_first_is_largest (t : Nat) :
    ∀ (l : List Nat) (p : Nat), l.Pairwise (fun a b => a > b) → p ∈ l →
      p < t → (∀ q ∈ l, q < t → q ≤ p) →
      l.find? (fun x => decide (x < t)) = some p := by
  intro l
  induction l with
  | nil => intro p _ hp; cases hp
  | cons a l ih =>
    intro p hdesc hp hpt hmax
    rw [List.pairwise_cons] at hdesc
    by_cases hat : a < t
    · have hap : a ≤ p := hmax a (List.mem_cons_self a l) hat
      rcases List.mem_cons.mp hp with rfl | hpl
      · simp [List.find?_cons, hat]
      · have := hdesc.1 p hpl
        omega
    · have hpl : p ∈ l := by
        rcases List.mem_cons.mp hp with rfl | hpl
        · exact absurd hpt hat
        · exact hpl
      have := ih p hdesc.2 hpl hpt
        (fun q hq hqt => hmax q (List.mem_cons_of_mem a hq) hqt)
      simp [List.find?_cons, hat, this]

/-- C9: when the ICMPv4 MTU field is zero and the configured plateaus are
strictly descending 16-bit values, `icmp6_minimum_mtu` uses the largest
configured plateau that is strictly smaller than the Total Length `t`, so
the result is max(1280, min(plateau + 20, o, i + 20)); and when no
configured plateau is smaller than `t` the result is 1280, whatever the
plateaus and the device MTUs are.  The MTU `i` of the incoming device
leaves room for 20 more in the 32 bits of an `unsigned int`, which is the
hypothesis on `i`: `compute_mtu6` passes `dev->mtu`, or 0xfffffff when the
packet has no device. -/
theorem icmp6_minimum_mtu_plateau (pl : mtu_plateaus) (o i t : Nat)
    (hdesc : (pl.values.take pl.count).Pairwise (fun a b => a > b))
    (h16 : ∀ q ∈ pl.values.take pl.count, q < 65536)
    (hi : i + 20 < 4294967296) :
    (∀ p ∈ pl.values.take pl.count, p < t →
        (∀ q ∈ pl.values.take pl.count, q < t → q ≤ p) →
        icmp6_minimum_mtu pl 0 o i t
          = max 1280 (min (p + 20) (min o (i + 20))))
      ∧ ∀ (pl' : mtu_plateaus) (o' i' : Nat),
          (∀ q ∈ pl'.values.take pl'.count, ¬ q < t) →
          icmp6_minimum_mtu pl' 0 o' i' t = 1280 := by
  constructor
  · intro p hp hpt hmax
    have hf := find_first_is_largest t _ p hdesc hp hpt hmax
    have hp16 := h16 p hp
    unfold icmp6_minimum_mtu cpu_to_be32 IPV6_MIN_MTU
    simp only [if_true, hf]
    split <;> omega
  · intro pl' o' i' hnone
    have hf : (pl'.values.take pl'.count).find? (fun x => decide (x < t))
        = none := by
      rw [List.find?_eq_none]
      intro x hx
      simpa using hnone x hx
    unfold icmp6_minimum_mtu cpu_to_be32 IPV6_MIN_MTU
    simp only [if_true, hf]
    split <;> omega

/-- C9 on the sample plateaus: for a Total Length of 1500 the plateau 1492
is used, and device MTUs of 9000 give 1512. -/
theorem icmp6_minimum_mtu_plateau_witness :
    icmp6_minimum_mtu sample_env46.plateaus 0 9000 9000 1500 = 1512 :=
  (icmp6_minimum_mtu_plateau sample_env46.plateaus 9000 9000 1500
    (by decide) (by decide) (by decide)).1 1492 (by decide) (by decide)
    (by decide)

/-! ## C10: hop limit and TTL -/

/-- The SIIT address translation of `6to4.c` ends with Continue, Accept or
Drop. -/
theorem translate_addrs64_siit_verdict (env : siit64_env) (inp : packet6)
    (hdr4 : iphdr) (b : Bool) :
    (translate_addrs64_siit env inp hdr4 b).1 = VERDICT_CONTINUE
      ∨ ((translate_addrs64_siit env inp hdr4 b).1 = VERDICT_ACCEPT
        ∨ (translate_addrs64_siit env inp hdr4 b).1 = VERDICT_DROP) := by
  unfold translate_addrs64_siit
  dsimp only
  split
  · right; left; rfl
  · right; left; rfl
  · right; right; rfl
  · split
    · left
      split_ifs <;> rfl
    · split_ifs
      all_goals first | (left; rfl) | (right; left; rfl)
    · right; left; rfl
    · right; right; rfl

/-- The address block of `ttp64_ipv4` ends with Continue, Accept or Drop,
and always with Continue in NAT64 mode. -/
theorem ttp64_ipv4_addrs_verdict (nat64 : Bool) (siit : siit64_env)
    (t4 : tuple4) (inp : packet6) (hdr4 : iphdr) (b : Bool) :
    ((ttp64_ipv4_addrs nat64 siit t4 inp hdr4 b).1 = VERDICT_CONTINUE
      ∨ (ttp64_ipv4_addrs nat64 siit t4 inp hdr4 b).1 = VERDICT_ACCEPT
      ∨ (ttp64_ipv4_addrs nat64 siit t4 inp hdr4 b).1 = VERDICT_DROP)
    ∧ ((ttp64_ipv4_addrs nat64 siit t4 inp hdr4 b).1 ≠ VERDICT_CONTINUE →
      nat64 = false) := by
  unfold ttp64_ipv4_addrs
  cases nat64
  · exact ⟨translate_addrs64_siit_verdict _ _ _ _, fun _ => rfl⟩
  · exact ⟨Or.inl rfl, fun h => absurd rfl h⟩

/-- What `ttp64_ipv4` does with the hop limit: when it continues, the TTL
is the hop limit minus one for an outer packet (whose hop limit is then
above 1) and the hop limit itself for an inner packet; for an outer packet
with a hop limit of at most 1 it either drops the packet and asks for one
hop-limit-exceeded error, or the address block has ended the step before. -/
theorem ttp64_ipv4_hop_limit (cfg : hdr4_config) (nat64 : Bool)
    (siit : siit64_env) (t4 : tuple4) (random uninit : Nat) (in6 : packet6)
    (out : packet) (hdr0 : iphdr) (hairpin0 : Bool) :
    ((ttp64_ipv4 cfg nat64 siit t4 random uninit in6 out hdr0 hairpin0).result
        = VERDICT_CONTINUE →
      (in6.pkt.is_inner = false → 1 < in6.hdr.hop_limit
        ∧ (ttp64_ipv4 cfg nat64 siit t4 random uninit in6 out hdr0
            hairpin0).out.1.ttl = (in6.hdr.hop_limit + 256 - 1) % 256)
      ∧ (in6.pkt.is_inner = true →
        (ttp64_ipv4 cfg nat64 siit t4 random uninit in6 out hdr0
            hairpin0).out.1.ttl = in6.hdr.hop_limit))
    ∧ (in6.pkt.is_inner = false → in6.hdr.hop_limit ≤ 1 →
      ((ttp64_ipv4 cfg nat64 siit t4 random uninit in6 out hdr0
            hairpin0).result = VERDICT_DROP
          ∧ (ttp64_ipv4 cfg nat64 siit t4 random uninit in6 out hdr0
            hairpin0).sent = [{ code := ICMPERR_HOP_LIMIT, info := 0 }])
        ∨ (nat64 = false
          ∧ (ttp64_ipv4 cfg nat64 siit t4 random uninit in6 out hdr0
            hairpin0).sent = []
          ∧ ((ttp64_ipv4 cfg nat64 siit t4 random uninit in6 out hdr0
              hairpin0).result = VERDICT_ACCEPT
            ∨ (ttp64_ipv4 cfg nat64 siit t4 random uninit in6 out hdr0
              hairpin0).result = VERDICT_DROP))) := by
  obtain ⟨hv1, hv2⟩ := ttp64_ipv4_addrs_verdict nat64 siit t4 in6
    { hdr0 with tos := __xlat_tos cfg.reset_tos cfg.new_tos in6.hdr,
                protocol := ttp64_xlat_proto in6 } hairpin0
  unfold ttp64_ipv4
  dsimp only
  generalize ttp64_ipv4_addrs nat64 siit t4 in6
    { hdr0 with tos := __xlat_tos cfg.reset_tos cfg.new_tos in6.hdr,
                protocol := ttp64_xlat_proto in6 } hairpin0 = a at hv1 hv2 ⊢
  unfold packet.is_outer
  by_cases ha : a.1 = VERDICT_CONTINUE
  · simp only [ha, ne_eq, not_true_eq_false, if_false]
    cases hin : in6.pkt.is_inner
    · by_cases hh : in6.hdr.hop_limit ≤ 1
      · simp only [hh, Bool.not_false, Bool.true_and, decide_True, if_true]
        simp
      · simp only [hh, Bool.not_false, Bool.true_and, decide_False,
          Bool.false_eq_true, if_false, if_true]
        refine ⟨?_, ?_⟩
        · split
          · intro h; cases h
          · intro _
            refine ⟨fun _ => ⟨by omega, ?_⟩, fun h => ?_⟩
            · cases in6.pkt.frag_list <;> cases in6.hdr_frag <;> rfl
            · cases h
        · intro _ h
          cases h
    · simp only [Bool.not_true, Bool.false_and, Bool.false_eq_true, if_false]
      refine ⟨?_, ?_⟩
      · intro _
        refine ⟨fun h => ?_, fun _ => ?_⟩
        · cases h
        · cases in6.pkt.frag_list <;> cases in6.hdr_frag <;> rfl
      · intro h
        cases h
  · simp only [ha, ne_eq, not_false_eq_true, if_true]
    refine ⟨fun h => ?_, fun _ _ => Or.inr ⟨hv2 ha, ?_, ?_⟩⟩
    · exact h.elim
    · first | rfl | trivial
    · rcases hv1 with h | h | h
      · exact absurd h ha
      · exact Or.inl h
      · exact Or.inr h

/-- The SIIT address translation of `4to6.c` requests no ICMP error and ends
with Continue, Drop or Untranslatable. -/
theorem translate_addrs46_siit_verdict (env : xlat46_env) (inp : packet4)
    (hdr6 : ipv6hdr) :
    (translate_addrs46_siit env inp hdr6).sent = []
      ∧ ((translate_addrs46_siit env inp hdr6).result = VERDICT_CONTINUE
        ∨ (translate_addrs46_siit env inp hdr6).result = VERDICT_DROP
        ∨ (translate_addrs46_siit env inp hdr6).result
            = VERDICT_UNTRANSLATABLE) := by
  unfold translate_addrs46_siit drop untranslatable
  dsimp only
  split <;> (try split_ifs) <;> (try split) <;> simp

/-- The address block of `ttp46_ipv6` requests no ICMP error and ends with
Continue, Drop or Untranslatable. -/
theorem ttp46_ipv6_addrs_verdict (env : xlat46_env) (inp : packet4)
    (hdr0 : ipv6hdr) :
    (ttp46_ipv6_addrs env inp hdr0).sent = []
      ∧ ((ttp46_ipv6_addrs env inp hdr0).result = VERDICT_CONTINUE
        ∨ (ttp46_ipv6_addrs env inp hdr0).result = VERDICT_DROP
        ∨ (ttp46_ipv6_addrs env inp hdr0).result = VERDICT_UNTRANSLATABLE) := by
  unfold ttp46_ipv6_addrs
  split
  · unfold drop
    dsimp only
    split <;> simp
  · exact translate_addrs46_siit_verdict env inp hdr0

/-- The hop limit `ttp46_ipv6` writes, what it does with an outer packet
whose TTL is at most 1, and when it returns whatever the fuel. -/
theorem ttp46_ipv6_hop_limit (fuel : Nat) (env : xlat46_env) (in4 : packet4)
    (out : packet) (hdr0 : ipv6hdr) :
    (∀ r, ttp46_ipv6 fuel env in4 out hdr0 = some r →
        r.result = VERDICT_CONTINUE →
        (in4.pkt.is_inner = false → in4.pkt.is_hairpin = false →
          1 < in4.hdr.ttl
            ∧ r.out.1.hop_limit = (in4.hdr.ttl + 256 - 1) % 256)
        ∧ (in4.pkt.is_inner = true ∨ in4.pkt.is_hairpin = true →
          r.out.1.hop_limit = in4.hdr.ttl))
      ∧ (in4.pkt.is_inner = false → in4.pkt.is_hairpin = false →
        in4.hdr.ttl ≤ 1 →
        ∃ r, ttp46_ipv6 fuel env in4 out hdr0 = some r
          ∧ ((r.result = VERDICT_DROP
              ∧ r.sent = [{ code := ICMPERR_TTL, info := 0 }])
            ∨ (r.sent = []
              ∧ (r.result = VERDICT_DROP
                ∨ r.result = VERDICT_UNTRANSLATABLE))))
      ∧ (in4.pkt.is_inner = true ∨ in4.hdr.ihl ≤ 5 →
        (ttp46_ipv6 fuel env in4 out hdr0).isSome = true) := by
  obtain ⟨hs, hv⟩ := ttp46_ipv6_addrs_verdict env in4 hdr0
  have hsr : in4.hdr.ihl ≤ 5 →
      has_unexpired_src_route fuel in4.hdr in4.opts = some false := by
    intro h
    unfold has_unexpired_src_route
    rw [if_pos (by omega)]
  unfold ttp46_ipv6
  dsimp only
  generalize ttp46_ipv6_addrs env in4 hdr0 = a at hs hv ⊢
  generalize has_unexpired_src_route fuel in4.hdr in4.opts = sr at hsr ⊢
  unfold packet.is_outer
  by_cases ha : a.result = VERDICT_CONTINUE
  · simp only [ha, ne_eq, not_true_eq_false, if_false]
    cases hin : in4.pkt.is_inner
    · cases hhp : in4.pkt.is_hairpin
      · by_cases ht : in4.hdr.ttl ≤ 1
        · simp only [ht, Bool.not_false, Bool.true_and, Bool.and_self,
            decide_True, if_true]
          refine ⟨?_, ?_, ?_⟩
          · intro r hr hc
            cases hr
            cases hc
          · intro _ _ _
            exact ⟨_, rfl, Or.inl ⟨rfl, rfl⟩⟩
          · intro _
            rfl
        · simp only [ht, Bool.not_false, Bool.true_and, Bool.and_self,
            decide_False, Bool.false_eq_true, if_false, if_true]
          refine ⟨?_, ?_, ?_⟩
          · intro r hr hc
            rcases sr with _ | _ | _
            · cases hr
            · dsimp only at hr
              split at hr <;> cases hr <;>
                exact ⟨fun _ _ => ⟨by omega, rfl⟩, fun h => by simp at h⟩
            · cases hr
              cases hc
          · intro _ _ h
            exact h.elim
          · intro h
            rcases h with h | h
            · cases h
            · rw [hsr h]
              dsimp only
              split <;> rfl
      · simp only [Bool.not_false, Bool.not_true, Bool.true_and,
          Bool.false_and, Bool.and_false, Bool.false_eq_true, if_false,
          if_true]
        refine ⟨?_, ?_, ?_⟩
        · intro r hr hc
          rcases sr with _ | _ | _
          · cases hr
          · dsimp only at hr
            split at hr <;> cases hr <;>
              exact ⟨fun _ h => (by cases h), fun _ => rfl⟩
          · cases hr
            cases hc
        · intro _ h
          cases h
        · intro h
          rcases h with h | h
          · cases h
          · rw [hsr h]
            dsimp only
            split <;> rfl
    · simp only [Bool.not_true, Bool.false_and, Bool.false_eq_true, if_false]
      refine ⟨?_, ?_, ?_⟩
      · intro r hr hc
        split at hr <;> cases hr <;>
          exact ⟨fun h => (by cases h), fun _ => rfl⟩
      · intro h
        cases h
      · intro _
        split <;> rfl
  · simp only [ha, ne_eq, not_false_eq_true, if_true]
    refine ⟨?_, ?_, ?_⟩
    · intro r hr hc
      cases hr
      exact absurd hc ha
    · intro _ _ _
      refine ⟨_, rfl, Or.inr ⟨hs, ?_⟩⟩
      rcases hv with h | h | h
      · exact absurd h ha
      · exact Or.inl h
      · exact Or.inr h
    · intro _
      rfl

/-- C10, counterexample: an outer IPv4 packet with TTL 1 that is an
intrinsic hairpin is not dropped by `ttp46_ipv6`: the verdict is Continue,
no ICMP error is requested and the hop limit of the outgoing header is 1.
In the other direction an outer IPv6 packet with hop limit 1 whose
destination no table of the SIIT translator maps leaves `ttp64_ipv4` with
verdict Accept and without any ICMP error. -/
theorem hop_limit_check_skipped :
    ((sample_in4 1 true false).pkt.is_outer = true
        ∧ (sample_in4 1 true false).hdr.ttl ≤ 1
        ∧ (ttp46_ipv6 8 sample_xlat46 (sample_in4 1 true false) sample_out6
            sample_ip6).map (fun r => (r.result, r.sent, r.out.1.hop_limit))
          = some (VERDICT_CONTINUE, [], 1))
      ∧ ((sample_in6 1 false).pkt.is_outer = true
        ∧ (sample_in6 1 false).hdr.hop_limit ≤ 1
        ∧ (ttp64_ipv4 sample_hdr4_config false sample_siit64_empty
            sample_tuple4 7 0 (sample_in6 1 false) sample_out4 sample_ip4
            false).result = VERDICT_ACCEPT
        ∧ (ttp64_ipv4 sample_hdr4_config false sample_siit64_empty
            sample_tuple4 7 0 (sample_in6 1 false) sample_out4 sample_ip4
            false).sent = []) := by
  refine ⟨⟨rfl, by decide, rfl⟩, rfl, by decide, rfl, rfl⟩

/-- C10, amended.  IPv6 to IPv4 (`ttp64_ipv4`): an outer packet whose hop
limit is at most 1 never gets verdict Continue; either it is dropped with
exactly one ICMP hop-limit error, or (SIIT mode only) the address
translation, which runs first, has ended the step with Accept or Drop and
without an ICMP error; in NAT64 mode it is always the former.  An outer
packet that is translated has a hop limit h > 1 and gets the TTL h - 1; an
inner packet that is translated gets the TTL h.  IPv4 to IPv6
(`ttp46_ipv6`): the function returns whenever the packet is inner or the
header has no options; an outer packet that is not an intrinsic hairpin and
whose TTL is at most 1 makes it return, whatever the options, without
Continue: dropped with exactly one ICMP TTL error, or ended by the address
translation with Drop or Untranslatable and without an ICMP error; an outer
packet that is not an intrinsic hairpin and is translated has a TTL h > 1
and gets the hop limit h - 1; an inner packet and an intrinsic hairpin get
the hop limit h. -/
theorem hop_limit_translation (cfg : hdr4_config) (nat64 : Bool)
    (siit : siit64_env) (t4 : tuple4) (random uninit : Nat) (in6 : packet6)
    (out4 : packet) (hdr4_0 : iphdr) (hairpin0 : Bool) (fuel : Nat)
    (env : xlat46_env) (in4 : packet4) (out6 : packet) (hdr6_0 : ipv6hdr)
    (h6 : in6.hdr.hop_limit < 256) (h4 : in4.hdr.ttl < 256) :
    ((in6.pkt.is_outer = true → in6.hdr.hop_limit ≤ 1 →
        (ttp64_ipv4 cfg nat64 siit t4 random uninit in6 out4 hdr4_0
            hairpin0).result ≠ VERDICT_CONTINUE
          ∧ (((ttp64_ipv4 cfg nat64 siit t4 random uninit in6 out4 hdr4_0
                  hairpin0).result = VERDICT_DROP
              ∧ (ttp64_ipv4 cfg nat64 siit t4 random uninit in6 out4 hdr4_0
                  hairpin0).sent = [{ code := ICMPERR_HOP_LIMIT, info := 0 }])
            ∨ (nat64 = false
              ∧ (ttp64_ipv4 cfg nat64 siit t4 random uninit in6 out4 hdr4_0
                  hairpin0).sent = []
              ∧ ((ttp64_ipv4 cfg nat64 siit t4 random uninit in6 out4 hdr4_0
                    hairpin0).result = VERDICT_ACCEPT
                ∨ (ttp64_ipv4 cfg nat64 siit t4 random uninit in6 out4 hdr4_0
                    hairpin0).result = VERDICT_DROP))))
      ∧ (in6.pkt.is_outer = true →
        (ttp64_ipv4 cfg nat64 siit t4 random uninit in6 out4 hdr4_0
            hairpin0).result = VERDICT_CONTINUE →
        1 < in6.hdr.hop_limit
          ∧ (ttp64_ipv4 cfg nat64 siit t4 random uninit in6 out4 hdr4_0
              hairpin0).out.1.ttl = in6.hdr.hop_limit - 1)
      ∧ (in6.pkt.is_outer = false →
        (ttp64_ipv4 cfg nat64 siit t4 random uninit in6 out4 hdr4_0
            hairpin0).result = VERDICT_CONTINUE →
        (ttp64_ipv4 cfg nat64 siit t4 random uninit in6 out4 hdr4_0
            hairpin0).out.1.ttl = in6.hdr.hop_limit))
      ∧ ((in4.pkt.is_outer = false ∨ in4.hdr.ihl ≤ 5 →
          (ttp46_ipv6 fuel env in4 out6 hdr6_0).isSome = true)
        ∧ (in4.pkt.is_outer = true → in4.pkt.is_hairpin = false →
          in4.hdr.ttl ≤ 1 →
          ∃ r, ttp46_ipv6 fuel env in4 out6 hdr6_0 = some r
            ∧ r.result ≠ VERDICT_CONTINUE
            ∧ ((r.result = VERDICT_DROP
                ∧ r.sent = [{ code := ICMPERR_TTL, info := 0 }])
              ∨ (r.sent = []
                ∧ (r.result = VERDICT_DROP
                  ∨ r.result = VERDICT_UNTRANSLATABLE))))
        ∧ (∀ r, ttp46_ipv6 fuel env in4 out6 hdr6_0 = some r →
          r.result = VERDICT_CONTINUE →
          (in4.pkt.is_outer = true → in4.pkt.is_hairpin = false →
            1 < in4.hdr.ttl ∧ r.out.1.hop_limit = in4.hdr.ttl - 1)
          ∧ (in4.pkt.is_outer = false ∨ in4.pkt.is_hairpin = true →
            r.out.1.hop_limit = in4.hdr.ttl))) := by
  have o6 : ∀ b : Bool, in6.pkt.is_outer = b → in6.pkt.is_inner = !b := by
    intro b h
    rw [← h]
    unfold packet.is_outer
    cases in6.pkt.is_inner <;> rfl
  have o4 : ∀ b : Bool, in4.pkt.is_outer = b → in4.pkt.is_inner = !b := by
    intro b h
    rw [← h]
    unfold packet.is_outer
    cases in4.pkt.is_inner <;> rfl
  obtain ⟨a1, a2⟩ := ttp64_ipv4_hop_limit cfg nat64 siit t4 random uninit in6
    out4 hdr4_0 hairpin0
  obtain ⟨b1, b2, b3⟩ := ttp46_ipv6_hop_limit fuel env in4 out6 hdr6_0
  refine ⟨⟨?_, ?_, ?_⟩, ?_, ?_, ?_⟩
  · intro ho hh
    have h := a2 (o6 true ho) hh
    refine ⟨?_, h⟩
    rcases h with ⟨h, _⟩ | ⟨_, _, h | h⟩ <;> rw [h] <;> decide
  · intro ho hc
    obtain ⟨h1, h2⟩ := (a1 hc).1 (o6 true ho)
    exact ⟨h1, by rw [h2]; omega⟩
  · intro ho hc
    exact (a1 hc).2 (o6 false ho)
  · intro h
    exact b3 (h.imp (o4 false) id)
  · intro ho hp ht
    obtain ⟨r, hr, h⟩ := b2 (o4 true ho) hp ht
    refine ⟨r, hr, ?_, h⟩
    rcases h with ⟨h, _⟩ | ⟨_, h | h⟩ <;> rw [h] <;> decide
  · intro r hr hc
    obtain ⟨c1, c2⟩ := b1 r hr hc
    refine ⟨fun ho hp => ?_, fun h => c2 (h.imp (o4 false) id)⟩
    obtain ⟨h1, h2⟩ := c1 (o4 true ho) hp
    exact ⟨h1, by rw [h2]; omega⟩

/-- C10, amended, on samples: an outer IPv6 packet with hop limit 64 leaves
`ttp64_ipv4` with TTL 63; an outer IPv4 packet with TTL 64 makes
`ttp46_ipv6` return, with hop limit 63. -/
theorem hop_limit_translation_witness :
    (ttp64_ipv4 sample_hdr4_config false sample_siit64 sample_tuple4 7 0
        (sample_in6 64 false) sample_out4 sample_ip4 false).out.1.ttl = 63
      ∧ (ttp46_ipv6 8 sample_xlat46 (sample_in4 64 false false) sample_out6
          sample_ip6).isSome = true
      ∧ (ttp46_ipv6 8 sample_xlat46 (sample_in4 64 false false) sample_out6
          sample_ip6).map (fun r => r.out.1.hop_limit) = some 63 :=
  have h := hop_limit_translation sample_hdr4_config false sample_siit64
    sample_tuple4 7 0 (sample_in6 64 false) sample_out4 sample_ip4 false 8
    sample_xlat46 (sample_in4 64 false false) sample_out6 sample_ip6
    (by decide) (by decide)
  ⟨(h.1.2.1 rfl rfl).2, h.2.1 (Or.inr (by decide)),
    congrArg some ((h.2.2.2 _ rfl rfl).1 rfl rfl).2⟩

/-! ## C11 to C14 and C16: the IPv4 header `ttp64_ipv4` builds -/

/-- The address block of `ttp64_ipv4` changes nothing but the addresses, and
in NAT64 mode it stores the addresses of the outgoing tuple. -/
theorem ttp64_ipv4_addrs_fields (nat64 : Bool) (siit : siit64_env)
    (t4 : tuple4) (inp : packet6) (h : iphdr) (b : Bool) :
    { (ttp64_ipv4_addrs nat64 siit t4 inp h b).2.1 with
        saddr := h.saddr, daddr := h.daddr } = h
      ∧ (nat64 = true →
        (ttp64_ipv4_addrs nat64 siit t4 inp h b).2.1.saddr = t4.src.l3
          ∧ (ttp64_ipv4_addrs nat64 siit t4 inp h b).2.1.daddr = t4.dst.l3) := by
  unfold ttp64_ipv4_addrs
  cases nat64
  · refine ⟨?_, fun hn => by cases hn⟩
    simp only [Bool.false_eq_true, if_false]
    unfold translate_addrs64_siit
    dsimp only
    split
    · rfl
    · rfl
    · rfl
    · split
      · split_ifs <;> rfl
      · split_ifs <;> rfl
      · rfl
      · rfl
  · exact ⟨rfl, fun _ => ⟨rfl, rfl⟩⟩

/-- The IPv4 header `ttp64_ipv4` leaves when it continues: the address block
has continued, neither the hop limit nor the routing header has stopped the
packet, no ICMP error was requested and every field is as the function
assigned it last.  The checksum is the one of the header as it was before
`frag_off` was adapted to the fragment list. -/
theorem ttp64_ipv4_continue (cfg : hdr4_config) (nat64 : Bool)
    (siit : siit64_env) (t4 : tuple4) (random uninit : Nat) (in6 : packet6)
    (out : packet) (hdr0 : iphdr) (hairpin0 : Bool) (F : Nat)
    (hF : F = match in6.hdr_frag with
      | some fh => build_ipv4_frag_off_field false
          (is_more_fragments_set_ipv6 fh) (get_fragment_offset_ipv6 fh)
      | none => build_ipv4_frag_off_field
          (if cfg.df_always_on then true else generate_df_flag out) false 0)
    (hc : (ttp64_ipv4 cfg nat64 siit t4 random uninit in6 out hdr0
      hairpin0).result = VERDICT_CONTINUE) :
    (ttp64_ipv4_addrs nat64 siit t4 in6
        { hdr0 with tos := __xlat_tos cfg.reset_tos cfg.new_tos in6.hdr,
                    protocol := ttp64_xlat_proto in6 } hairpin0).1
        = VERDICT_CONTINUE
      ∧ (in6.pkt.is_outer = true → 1 < in6.hdr.hop_limit)
      ∧ (in6.pkt.is_outer = true →
        (has_nonzero_segments_left in6 0).1 = false)
      ∧ (ttp64_ipv4 cfg nat64 siit t4 random uninit in6 out hdr0
          hairpin0).sent = []
      ∧ (ttp64_ipv4 cfg nat64 siit t4 random uninit in6 out hdr0
          hairpin0).out.1.version = 4
      ∧ (ttp64_ipv4 cfg nat64 siit t4 random uninit in6 out hdr0
          hairpin0).out.1.ihl = 5
      ∧ (ttp64_ipv4 cfg nat64 siit t4 random uninit in6 out hdr0
          hairpin0).out.1.tos = __xlat_tos cfg.reset_tos cfg.new_tos in6.hdr
      ∧ (ttp64_ipv4 cfg nat64 siit t4 random uninit in6 out hdr0
          hairpin0).out.1.protocol = ttp64_xlat_proto in6
      ∧ (ttp64_ipv4 cfg nat64 siit t4 random uninit in6 out hdr0
          hairpin0).out.1.saddr
        = (ttp64_ipv4_addrs nat64 siit t4 in6
            { hdr0 with tos := __xlat_tos cfg.reset_tos cfg.new_tos in6.hdr,
                        protocol := ttp64_xlat_proto in6 } hairpin0).2.1.saddr
      ∧ (ttp64_ipv4 cfg nat64 siit t4 random uninit in6 out hdr0
          hairpin0).out.1.daddr
        = (ttp64_ipv4_addrs nat64 siit t4 in6
            { hdr0 with tos := __xlat_tos cfg.reset_tos cfg.new_tos in6.hdr,
                        protocol := ttp64_xlat_proto in6 } hairpin0).2.1.daddr
      ∧ (ttp64_ipv4 cfg nat64 siit t4 random uninit in6 out hdr0
          hairpin0).out.1.tot_len = build_tot_len in6 out uninit
      ∧ (ttp64_ipv4 cfg nat64 siit t4 random uninit in6 out hdr0
          hairpin0).out.1.ttl
        = (if in6.pkt.is_outer then (in6.hdr.hop_limit + 256 - 1) % 256
          else in6.hdr.hop_limit)
      ∧ (ttp64_ipv4 cfg nat64 siit t4 random uninit in6 out hdr0
          hairpin0).out.1.id
        = (match in6.hdr_frag with
          | some fh => generate_ipv4_id_dofrag fh
          | none =>
            if cfg.build_ipv4_id then generate_ipv4_id_nofrag out random
            else 0)
      ∧ (ttp64_ipv4 cfg nat64 siit t4 random uninit in6 out hdr0
          hairpin0).out.1.frag_off
        = (if in6.pkt.frag_list then F - F / 8192 % 2 * 8192 else F)
      ∧ (ttp64_ipv4 cfg nat64 siit t4 random uninit in6 out hdr0
          hairpin0).out.1.check
        = ip_fast_csum
            { (ttp64_ipv4 cfg nat64 siit t4 random uninit in6 out hdr0
                hairpin0).out.1 with check := 0, frag_off := F } 5 := by
  have hf := (ttp64_ipv4_addrs_fields nat64 siit t4 in6
    { hdr0 with tos := __xlat_tos cfg.reset_tos cfg.new_tos in6.hdr,
                protocol := ttp64_xlat_proto in6 } hairpin0).1
  revert hc
  unfold ttp64_ipv4
  dsimp only
  generalize ttp64_ipv4_addrs nat64 siit t4 in6
    { hdr0 with tos := __xlat_tos cfg.reset_tos cfg.new_tos in6.hdr,
                protocol := ttp64_xlat_proto in6 } hairpin0 = a at hf ⊢
  have htos : a.2.1.tos = __xlat_tos cfg.reset_tos cfg.new_tos in6.hdr :=
    congrArg iphdr.tos hf
  have hproto : a.2.1.protocol = ttp64_xlat_proto in6 :=
    congrArg iphdr.protocol hf
  by_cases ha : a.1 = VERDICT_CONTINUE
  · simp only [ha, ne_eq, not_true_eq_false, if_false]
    unfold packet.is_outer
    subst hF
    cases hin : in6.pkt.is_inner
    · by_cases hh : in6.hdr.hop_limit ≤ 1
      · simp only [hh, Bool.not_false, Bool.true_and, decide_True, if_true]
        intro h
        cases h
      · simp only [hh, Bool.not_false, Bool.true_and, decide_False,
          Bool.false_eq_true, if_false, if_true]
        cases hseg : (has_nonzero_segments_left in6 0).1
        · simp only [Bool.false_eq_true, if_false]
          intro _
          refine ⟨trivial, fun _ => by omega, fun _ => trivial, ?_⟩
          cases in6.pkt.frag_list <;> cases in6.hdr_frag <;>
            refine ⟨?_, ?_, ?_, ?_, ?_, ?_, ?_, ?_, ?_, ?_, ?_, ?_⟩ <;>
            first | rfl | assumption
        · simp only [if_true]
          intro h
          cases h
    · simp only [Bool.not_true, Bool.false_and, Bool.false_eq_true, if_false]
      intro _
      refine ⟨trivial, fun h => (by cases h), fun h => (by cases h), ?_⟩
      cases in6.pkt.frag_list <;> cases in6.hdr_frag <;>
        refine ⟨?_, ?_, ?_, ?_, ?_, ?_, ?_, ?_, ?_, ?_, ?_, ?_⟩ <;>
        first | rfl | assumption
  · simp only [ha, ne_eq, not_false_eq_true, if_true]
    intro h
    exact h.elim

/-- C11, as stated, fails on the code: the first fragment of an IPv6 packet
(offset 0, M set) whose `sk_buff` carries the other fragments in its
`frag_list` is translated, and the outgoing IPv4 header has MF clear. -/
theorem ttp64_ipv4_clears_mf :
    (ttp64_ipv4 sample_hdr4_config true sample_siit64 sample_tuple4 7 0
        (sample_in6_frag true 0 true) (sample_out4_frag true) sample_ip4
        false).result = VERDICT_CONTINUE
      ∧ (sample_in6_frag true 0 true).hdr_frag = some (sample_frag_hdr 0 true)
      ∧ is_more_fragments_set_ipv6 (sample_frag_hdr 0 true) = true
      ∧ is_mf_set_ipv4 (ttp64_ipv4 sample_hdr4_config true sample_siit64
          sample_tuple4 7 0 (sample_in6_frag true 0 true)
          (sample_out4_frag true) sample_ip4 false).out.1 = false := by
  decide

/-- C11, amended: for every IPv6 packet with a fragment header that
`ttp64_ipv4` translates with verdict Continue, the outgoing IPv4 header has
the low 16 bits of the fragment header's identification as its
Identification, the same fragment offset, DF clear, and MF equal to the M
flag unless the incoming `sk_buff` carries a `frag_list`, in which case MF is
clear. -/
theorem ttp64_ipv4_fragment (cfg : hdr4_config) (nat64 : Bool)
    (siit : siit64_env) (t4 : tuple4) (random uninit : Nat) (in6 : packet6)
    (out : packet) (hdr0 : iphdr) (hairpin0 : Bool) (fh : frag_hdr)
    (hfh : in6.hdr_frag = some fh)
    (hc : (ttp64_ipv4 cfg nat64 siit t4 random uninit in6 out hdr0
      hairpin0).result = VERDICT_CONTINUE) :
    (ttp64_ipv4 cfg nat64 siit t4 random uninit in6 out hdr0 hairpin0).out.1.id
        = fh.identification % 65536
      ∧ (ttp64_ipv4 cfg nat64 siit t4 random uninit in6 out hdr0
          hairpin0).out.1.frag_off % 8192 = fh.frag_off % 65536 / 8
      ∧ get_fragment_offset_ipv4 (ttp64_ipv4 cfg nat64 siit t4 random uninit
          in6 out hdr0 hairpin0).out.1 = get_fragment_offset_ipv6 fh
      ∧ is_df_set (ttp64_ipv4 cfg nat64 siit t4 random uninit in6 out hdr0
          hairpin0).out.1 = false
      ∧ is_mf_set_ipv4 (ttp64_ipv4 cfg nat64 siit t4 random uninit in6 out
          hdr0 hairpin0).out.1
        = (!in6.pkt.frag_list && is_more_fragments_set_ipv6 fh) := by
  obtain ⟨-, -, -, -, -, -, -, -, -, -, -, -, hid, hfo, -⟩ :=
    ttp64_ipv4_continue cfg nat64 siit t4 random uninit in6 out hdr0 hairpin0
      _ rfl hc
  rw [hfh] at hid hfo
  dsimp only at hid hfo
  generalize (ttp64_ipv4 cfg nat64 siit t4 random uninit in6 out hdr0
    hairpin0).out.1 = o at hid hfo ⊢
  unfold get_fragment_offset_ipv4 get_fragment_offset_ipv6 is_df_set
    is_mf_set_ipv4 is_more_fragments_set_ipv6
  unfold build_ipv4_frag_off_field get_fragment_offset_ipv6
    is_more_fragments_set_ipv6 cpu_to_be16 at hfo
  unfold generate_ipv4_id_dofrag cpu_to_be16 at hid
  generalize fh.frag_off = x at hfo ⊢
  generalize o.frag_off = y at hfo ⊢
  refine ⟨hid, ?_⟩
  clear hid hfh hc
  have hq : x % 65536 / 8 * 8 % 65536 / 8 = x % 65536 / 8 := by omega
  rw [hq] at hfo
  clear hq
  generalize hqd : x % 65536 / 8 = q at hfo ⊢
  have hq2 : q < 8192 := by omega
  clear hqd
  simp only [Bool.false_eq_true, if_false, decide_eq_true_eq, Nat.zero_add]
    at hfo
  cases hfl : in6.pkt.frag_list <;> rw [hfl] at hfo <;>
    simp only [Bool.false_eq_true, if_false, if_true] at hfo <;>
    by_cases hm : x % 2 = 1 <;>
    simp only [hm, if_true, if_false, Nat.zero_add] at hfo
  · have hy : y / 8192 % 2 = 1 := by omega
    have hd : ¬ y / 16384 % 2 = 1 := by omega
    simp only [hm, hy, hd, decide_True, decide_False, Bool.not_false,
      Bool.true_and, and_true]
    omega
  · have hy : ¬ y / 8192 % 2 = 1 := by omega
    have hd : ¬ y / 16384 % 2 = 1 := by omega
    simp only [hm, hy, hd, decide_True, decide_False, Bool.not_false,
      Bool.true_and, and_true]
    omega
  · have hy : ¬ y / 8192 % 2 = 1 := by omega
    have hd : ¬ y / 16384 % 2 = 1 := by omega
    simp only [hm, hy, hd, decide_True, decide_False, Bool.not_true,
      Bool.false_and, and_true]
    omega
  · have hy : ¬ y / 8192 % 2 = 1 := by omega
    have hd : ¬ y / 16384 % 2 = 1 := by omega
    simp only [hm, hy, hd, decide_True, decide_False, Bool.not_true,
      Bool.false_and, and_true]
    omega

/-- C11, amended, on a sample: a fragment at offset 1480 with M set and
identification 0x12345678, alone in its `sk_buff`, leaves Identification
0x5678, offset 1480, DF clear and MF set. -/
theorem ttp64_ipv4_fragment_witness :
    (ttp64_ipv4 sample_hdr4_config true sample_siit64 sample_tuple4 7 0
        (sample_in6_frag false 1480 true) (sample_out4_frag false) sample_ip4
        false).out.1.id = 0x5678
      ∧ get_fragment_offset_ipv4 (ttp64_ipv4 sample_hdr4_config true
          sample_siit64 sample_tuple4 7 0 (sample_in6_frag false 1480 true)
          (sample_out4_frag false) sample_ip4 false).out.1 = 1480
      ∧ is_df_set (ttp64_ipv4 sample_hdr4_config true sample_siit64
          sample_tuple4 7 0 (sample_in6_frag false 1480 true)
          (sample_out4_frag false) sample_ip4 false).out.1 = false
      ∧ is_mf_set_ipv4 (ttp64_ipv4 sample_hdr4_config true sample_siit64
          sample_tuple4 7 0 (sample_in6_frag false 1480 true)
          (sample_out4_frag false) sample_ip4 false).out.1 = true :=
  have h := ttp64_ipv4_fragment sample_hdr4_config true sample_siit64
    sample_tuple4 7 0 (sample_in6_frag false 1480 true)
    (sample_out4_frag false) sample_ip4 false (sample_frag_hdr 1480 true) rfl
    (by decide)
  ⟨h.1, h.2.2.1, h.2.2.2.1, h.2.2.2.2⟩

/-- C12, as stated, fails on the code: with "DF always on" configured, an
outer IPv6 packet that carries a fragment header is translated, and the
outgoing IPv4 header has DF clear. -/
theorem ttp64_ipv4_df_clear_on_fragment :
    (sample_in6_frag false 1480 true).pkt.is_outer = true
      ∧ (ttp64_ipv4 { sample_hdr4_config with df_always_on := true } true
          sample_siit64 sample_tuple4 7 0 (sample_in6_frag false 1480 true)
          (sample_out4_frag false) sample_ip4 false).result = VERDICT_CONTINUE
      ∧ is_df_set (ttp64_ipv4 { sample_hdr4_config with df_always_on := true }
          true sample_siit64 sample_tuple4 7 0
          (sample_in6_frag false 1480 true) (sample_out4_frag false)
          sample_ip4 false).out.1 = false := by
  decide

/-- C12, amended: for every IPv6 packet without a fragment header that
`ttp64_ipv4` translates with verdict Continue, the DF bit of the outgoing
IPv4 header is set exactly when the outgoing packet is longer than 1260
bytes or `df_always_on` is configured; for every packet with a fragment
header it is clear. -/
theorem ttp64_ipv4_df (cfg : hdr4_config) (nat64 : Bool)
    (siit : siit64_env) (t4 : tuple4) (random uninit : Nat) (in6 : packet6)
    (out : packet) (hdr0 : iphdr) (hairpin0 : Bool)
    (hc : (ttp64_ipv4 cfg nat64 siit t4 random uninit in6 out hdr0
      hairpin0).result = VERDICT_CONTINUE) :
    (in6.hdr_frag = none →
        (is_df_set (ttp64_ipv4 cfg nat64 siit t4 random uninit in6 out hdr0
            hairpin0).out.1 = true
          ↔ 1260 < out.skb_len ∨ cfg.df_always_on = true))
      ∧ (in6.hdr_frag ≠ none →
        is_df_set (ttp64_ipv4 cfg nat64 siit t4 random uninit in6 out hdr0
          hairpin0).out.1 = false) := by
  obtain ⟨-, -, -, -, -, -, -, -, -, -, -, -, -, hfo, -⟩ :=
    ttp64_ipv4_continue cfg nat64 siit t4 random uninit in6 out hdr0 hairpin0
      _ rfl hc
  generalize (ttp64_ipv4 cfg nat64 siit t4 random uninit in6 out hdr0
    hairpin0).out.1 = o at hfo ⊢
  unfold is_df_set
  generalize o.frag_off = y at hfo ⊢
  constructor
  · intro hn
    rw [hn] at hfo
    unfold build_ipv4_frag_off_field generate_df_flag cpu_to_be16 at hfo
    simp only [Bool.false_eq_true, if_false, decide_eq_true_eq] at hfo
    cases hfl : in6.pkt.frag_list <;> rw [hfl] at hfo <;>
      cases hdf : cfg.df_always_on <;>
      by_cases hl : out.skb_len > 1260 <;>
      simp [hdf, hl] at hfo <;> subst hfo <;> simp [hl]
  · intro hn
    obtain ⟨fh, hfh⟩ := Option.ne_none_iff_exists.mp hn
    rw [← hfh] at hfo
    unfold build_ipv4_frag_off_field cpu_to_be16 at hfo
    simp only [Bool.false_eq_true, if_false, Nat.zero_add] at hfo
    have hq : get_fragment_offset_ipv6 fh % 65536 / 8 < 8192 := by omega
    generalize get_fragment_offset_ipv6 fh % 65536 / 8 = q at hfo hq
    have hy : ¬ y / 16384 % 2 = 1 := by
      cases hfl : in6.pkt.frag_list <;> rw [hfl] at hfo <;>
        cases hm : is_more_fragments_set_ipv6 fh <;> rw [hm] at hfo <;>
        simp only [Bool.false_eq_true, if_false, if_true, Nat.zero_add]
          at hfo <;> omega
    simp only [hy, decide_False]

/-- C12, amended, on a sample: with "DF always on" a packet of 50 bytes
without a fragment header leaves with DF set. -/
theorem ttp64_ipv4_df_witness :
    is_df_set (ttp64_ipv4 { sample_hdr4_config with df_always_on := true }
      true sample_siit64 sample_tuple4 7 0 (sample_in6 64 false) sample_out4
      sample_ip4 false).out.1 = true :=
  ((ttp64_ipv4_df { sample_hdr4_config with df_always_on := true } true
    sample_siit64 sample_tuple4 7 0 (sample_in6 64 false) sample_out4
    sample_ip4 false (by decide)).1 rfl).mpr (Or.inr rfl)

theorem spec_ones_complement_add_spec {a b : Nat} (ha : a ≤ 65535)
    (hb : b ≤ 65535) :
    spec_ones_complement_add a b ≤ 65535
      ∧ spec_ones_complement_add a b % 65535 = (a + b) % 65535
      ∧ (spec_ones_complement_add a b = 0 ↔ a + b = 0) := by
  unfold spec_ones_complement_add
  omega

theorem spec_ones_complement_fold (l : List Nat) :
    ∀ s : Nat, s ≤ 65535 → words16 l →
      l.foldl spec_ones_complement_add s ≤ 65535
        ∧ l.foldl spec_ones_complement_add s % 65535 = (s + l.sum) % 65535
        ∧ (l.foldl spec_ones_complement_add s = 0 ↔ s + l.sum = 0) := by
  induction l with
  | nil => intro s hs _; simpa using hs
  | cons w l ih =>
    intro s hs hl
    have hw : w ≤ 65535 := by
      have := hl w (List.mem_cons_self w l); omega
    obtain ⟨h1, h2, h3⟩ := spec_ones_complement_add_spec hs hw
    obtain ⟨i1, i2, i3⟩ := ih _ h1 (fun v hv => hl v (List.mem_cons_of_mem w hv))
    rw [List.foldl_cons, List.sum_cons]
    refine ⟨i1, ?_, ?_⟩
    · omega
    · omega

/-- The one's-complement sum of a buffer of 16-bit words is 0xFFFF exactly
when the plain sum is a nonzero multiple of 0xFFFF. -/
theorem spec_ones_complement_sum_eq (l : List Nat) (hl : words16 l) :
    spec_ones_complement_sum l = 65535 ↔ l.sum % 65535 = 0 ∧ l.sum ≠ 0 := by
  obtain ⟨h1, h2, h3⟩ := spec_ones_complement_fold l 0 (by omega) hl
  unfold spec_ones_complement_sum
  omega

theorem iphdr_words16 {h : iphdr} (hwf : h.wf) : words16 h.words := by
  obtain ⟨h1, h2, h3, h4, h5, h6, h7, h8, h9, h10, h11⟩ := hwf
  intro w hw
  simp only [iphdr.words, List.mem_cons, List.mem_singleton,
    List.not_mem_nil, or_false] at hw
  rcases hw with h | h | h | h | h | h | h | h | h | h <;> omega

theorem iphdr_words_sum (h : iphdr) :
    h.words.sum = (h.version * 16 + h.ihl) * 256 + h.tos + h.tot_len + h.id
      + h.frag_off + (h.ttl * 256 + h.protocol) + h.check
      + h.saddr / 65536 + h.saddr % 65536 + h.daddr / 65536
      + h.daddr % 65536 := by
  simp only [iphdr.words, List.sum_cons, List.sum_nil]; omega

/-- A header of five words whose checksum field holds what `ip_fast_csum`
computes over it with the field zeroed verifies: the one's-complement sum
of its ten 16-bit words is 0xFFFF. -/
theorem ip_fast_csum_verifies (h : iphdr) (hwf : h.wf) (hv : h.version = 4)
    (hi : h.ihl = 5)
    (hck : h.check = ip_fast_csum { h with check := 0 } 5) :
    spec_ones_complement_sum h.words = 65535 := by
  rw [spec_ones_complement_sum_eq _ (iphdr_words16 hwf)]
  have hwf0 : ({ h with check := 0 } : iphdr).wf := by
    obtain ⟨h1, h2, h3, h4, h5, h6, h7, h8, h9, h10, h11⟩ := hwf
    exact ⟨h1, h2, h3, h4, h5, h6, h7, h8, Nat.succ_pos _, h10, h11⟩
  have hw0 := iphdr_words16 hwf0
  have htake : ({ h with check := 0 } : iphdr).words.take (2 * 5)
      = ({ h with check := 0 } : iphdr).words := rfl
  unfold ip_fast_csum at hck
  rw [htake] at hck
  have c1 := csum_partial_lt _ 0 (by omega) (words16_lt32 hw0)
  have c2 := csum_partial_mod _ 0 (by omega) (words16_lt32 hw0)
  have c3 := csum_fold_mod c1
  have c4 := csum_fold_lt ( csum_partial ({ h with check := 0 } : iphdr).words 0)
  rw [← hck] at c3 c4
  rw [iphdr_words_sum] at c2 ⊢
  dsimp only at c2
  generalize csum_partial ({ h with check := 0 } : iphdr).words 0 = x at c1 c2 c3
  rw [hv, hi] at c2 ⊢
  omega

theorem get_traffic_class_lt (hdr : ipv6hdr) : get_traffic_class hdr < 256 := by
  unfold get_traffic_class; omega

theorem build_ipv4_frag_off_field_lt (df mf : Bool) (off : Nat) :
    build_ipv4_frag_off_field df mf off < 65536 := by
  unfold build_ipv4_frag_off_field cpu_to_be16; omega

/-- The header checksum `ttp64_ipv4` leaves is correct whenever `frag_off`
is not changed after the checksum was computed: when the incoming `sk_buff`
has no `frag_list`, or the packet has no fragment header, or the fragment
header's M flag is clear. -/
theorem ttp64_ipv4_check_ok (cfg : hdr4_config) (nat64 : Bool)
    (siit : siit64_env) (t4 : tuple4) (random uninit : Nat) (in6 : packet6)
    (out : packet) (hdr0 : iphdr) (hairpin0 : Bool)
    (hc : (ttp64_ipv4 cfg nat64 siit t4 random uninit in6 out hdr0
      hairpin0).result = VERDICT_CONTINUE)
    (htos : cfg.new_tos < 256) (hhop : in6.hdr.hop_limit < 256)
    (hlast : in6.last_hdr_type < 256)
    (hs : (ttp64_ipv4 cfg nat64 siit t4 random uninit in6 out hdr0
      hairpin0).out.1.saddr < 4294967296)
    (hd : (ttp64_ipv4 cfg nat64 siit t4 random uninit in6 out hdr0
      hairpin0).out.1.daddr < 4294967296)
    (hmf : in6.pkt.frag_list = true → ∀ fh, in6.hdr_frag = some fh →
      is_more_fragments_set_ipv6 fh = false) :
    spec_ones_complement_sum (ttp64_ipv4 cfg nat64 siit t4 random uninit in6
      out hdr0 hairpin0).out.1.words = 65535 := by
  obtain ⟨-, ho, -, -, hv, hi, ht, hp, -, -, hl, httl, hid, hfo, hck⟩ :=
    ttp64_ipv4_continue cfg nat64 siit t4 random uninit in6 out hdr0 hairpin0
      _ rfl hc
  generalize (ttp64_ipv4 cfg nat64 siit t4 random uninit in6 out hdr0
    hairpin0).out.1 = o at hs hd hv hi ht hp hl httl hid hfo hck ⊢
  -- `frag_off` is the value the checksum was computed with
  have hF : o.frag_off = (match in6.hdr_frag with
      | some fh => build_ipv4_frag_off_field false
          (is_more_fragments_set_ipv6 fh) (get_fragment_offset_ipv6 fh)
      | none => build_ipv4_frag_off_field
          (if cfg.df_always_on then true else generate_df_flag out) false 0) := by
    rw [hfo]
    cases hfl : in6.pkt.frag_list
    · rfl
    · simp only [if_true]
      cases hfr : in6.hdr_frag with
      | none =>
        dsimp only
        generalize (if cfg.df_always_on = true then true
          else generate_df_flag out) = df
        cases df <;> rfl
      | some fh =>
        dsimp only
        rw [hmf hfl fh hfr]
        unfold build_ipv4_frag_off_field cpu_to_be16 get_fragment_offset_ipv6
        simp only [Bool.false_eq_true, if_false, Nat.zero_add]
        omega
  rw [← hF] at hck
  refine ip_fast_csum_verifies o ?_ hv hi hck
  refine ⟨by omega, by omega, ?_, ?_, ?_, ?_, ?_, ?_, ?_, hs, hd⟩
  · rw [ht]
    unfold __xlat_tos
    split
    · exact htos
    · exact get_traffic_class_lt _
  · rw [hl]
    exact cpu_to_be16_lt _
  · rw [hid]
    cases in6.hdr_frag with
    | none =>
      dsimp only
      unfold generate_ipv4_id_nofrag
      split_ifs <;> omega
    | some fh => exact cpu_to_be16_lt _
  · rw [hF]
    cases in6.hdr_frag with
    | none => exact build_ipv4_frag_off_field_lt _ _ _
    | some fh => exact build_ipv4_frag_off_field_lt _ _ _
  · rw [httl]
    split <;> omega
  · rw [hp]
    unfold ttp64_xlat_proto IPPROTO_ICMP
    split <;> omega
  · rw [hck]
    exact csum_fold_lt _

/-- C13 fails on the code: for the first fragment of an IPv6 packet (offset
0, M set) whose `sk_buff` carries the other fragments in its `frag_list`,
`ttp64_ipv4` returns Continue, but it clears MF after it has computed the
checksum over the header with MF set.  The header it leaves has `frag_off`
0 and the checksum 0x8145; the one's-complement sum of its ten words is
0xDFFF, not 0xFFFF, and the checksum of the header as it is would be
0xA145. -/
theorem ttp64_ipv4_check_stale :
    (ttp64_ipv4 sample_hdr4_config true sample_siit64 sample_tuple4 7 0
        (sample_in6_frag true 0 true) (sample_out4_frag true) sample_ip4
        false).result = VERDICT_CONTINUE
      ∧ (ttp64_ipv4 sample_hdr4_config true sample_siit64 sample_tuple4 7 0
          (sample_in6_frag true 0 true) (sample_out4_frag true) sample_ip4
          false).out.1.frag_off = 0
      ∧ (ttp64_ipv4 sample_hdr4_config true sample_siit64 sample_tuple4 7 0
          (sample_in6_frag true 0 true) (sample_out4_frag true) sample_ip4
          false).out.1.check = 0x8145
      ∧ spec_ones_complement_sum (ttp64_ipv4 sample_hdr4_config true
          sample_siit64 sample_tuple4 7 0 (sample_in6_frag true 0 true)
          (sample_out4_frag true) sample_ip4 false).out.1.words = 0xDFFF
      ∧ ip_fast_csum
          { (ttp64_ipv4 sample_hdr4_config true sample_siit64 sample_tuple4 7
              0 (sample_in6_frag true 0 true) (sample_out4_frag true)
              sample_ip4 false).out.1 with check := 0 } 5 = 0xA145 := by
  decide

/-- C14: an outer IPv6 packet with a hop limit above 1 and translatable
addresses whose first routing header has a nonzero Segments Left is dropped
by `ttp64_ipv4`, with one request for an ICMPv6 Parameter Problem
(erroneous header field) whose pointer is the byte offset of the routing
header plus 3, the offset of the Segments Left field.  When there is no
routing header or Segments Left is 0, such a packet is translated.  An
inner packet with translatable addresses is translated whatever its routing
header says. -/
theorem ttp64_ipv4_segments_left (cfg : hdr4_config) (nat64 : Bool)
    (siit : siit64_env) (t4 : tuple4) (random uninit : Nat) (in6 : packet6)
    (out : packet) (hdr0 : iphdr) (hairpin0 : Bool)
    (ha : (ttp64_ipv4_addrs nat64 siit t4 in6
      { hdr0 with tos := __xlat_tos cfg.reset_tos cfg.new_tos in6.hdr,
                  protocol := ttp64_xlat_proto in6 } hairpin0).1
      = VERDICT_CONTINUE) :
    (in6.pkt.is_outer = true → 1 < in6.hdr.hop_limit →
        (∀ offset segments_left : Nat,
          in6.rt_hdr = some (offset, segments_left) → segments_left ≠ 0 →
          offset + 3 < 4294967296 →
          (ttp64_ipv4 cfg nat64 siit t4 random uninit in6 out hdr0
              hairpin0).result = VERDICT_DROP
            ∧ (ttp64_ipv4 cfg nat64 siit t4 random uninit in6 out hdr0
                hairpin0).sent
              = [{ code := ICMPERR_HDR_FIELD, info := offset + 3 }])
        ∧ ((in6.rt_hdr = none ∨ ∃ offset, in6.rt_hdr = some (offset, 0)) →
          (ttp64_ipv4 cfg nat64 siit t4 random uninit in6 out hdr0
              hairpin0).result = VERDICT_CONTINUE
            ∧ (ttp64_ipv4 cfg nat64 siit t4 random uninit in6 out hdr0
                hairpin0).sent = []))
      ∧ (in6.pkt.is_outer = false →
        (ttp64_ipv4 cfg nat64 siit t4 random uninit in6 out hdr0
            hairpin0).result = VERDICT_CONTINUE
          ∧ (ttp64_ipv4 cfg nat64 siit t4 random uninit in6 out hdr0
              hairpin0).sent = []) := by
  revert ha
  unfold ttp64_ipv4
  dsimp only
  generalize ttp64_ipv4_addrs nat64 siit t4 in6
    { hdr0 with tos := __xlat_tos cfg.reset_tos cfg.new_tos in6.hdr,
                protocol := ttp64_xlat_proto in6 } hairpin0 = a
  intro ha
  simp only [ha, ne_eq, not_true_eq_false, if_false]
  unfold packet.is_outer has_nonzero_segments_left
  cases hin : in6.pkt.is_inner
  · refine ⟨fun _ hh => ?_, fun h => by cases h⟩
    have hh' : ¬ in6.hdr.hop_limit ≤ 1 := by omega
    simp only [hh', Bool.not_false, Bool.true_and, decide_False,
      Bool.false_eq_true, if_false, if_true]
    refine ⟨?_, ?_⟩
    · intro offset sl hrt hsl hoff
      rw [hrt]
      simp only [hsl, if_false, if_true, Nat.mod_eq_of_lt hoff]
      refine ⟨?_, ?_⟩ <;> first | rfl | trivial
    · rintro (hrt | ⟨offset, hrt⟩) <;> rw [hrt] <;>
        simp only [Bool.false_eq_true, if_false, if_true] <;>
        refine ⟨?_, ?_⟩ <;> first | rfl | trivial
  · refine ⟨fun h => (by cases h), fun _ => ?_⟩
    simp only [Bool.not_true, Bool.false_and, Bool.false_eq_true, if_false]
    refine ⟨?_, ?_⟩ <;> first | rfl | trivial

/-- C14 on a sample: a routing header at byte offset 40 with Segments Left 1
makes `ttp64_ipv4` ask for a Parameter Problem with pointer 43. -/
theorem ttp64_ipv4_segments_left_witness :
    (ttp64_ipv4 sample_hdr4_config true sample_siit64 sample_tuple4 7 0
        (sample_in6_rt 1) sample_out4 sample_ip4 false).result = VERDICT_DROP
      ∧ (ttp64_ipv4 sample_hdr4_config true sample_siit64 sample_tuple4 7 0
          (sample_in6_rt 1) sample_out4 sample_ip4 false).sent
        = [{ code := ICMPERR_HDR_FIELD, info := 43 }] :=
  ((ttp64_ipv4_segments_left sample_hdr4_config true sample_siit64
    sample_tuple4 7 0 (sample_in6_rt 1) sample_out4 sample_ip4 false rfl).1
    rfl (by decide)).1 40 1 rfl (by decide) (by decide)

/-- C16: whenever `ttp64_ipv4` returns Continue, the outgoing IPv4 header
has version 4 and IHL 5; its TOS is the configured `new_tos` when
`reset_tos` is set and the IPv6 traffic class otherwise; its Protocol is 1
(ICMP) when the last header of the IPv6 next-header chain is 58 (ICMPv6) and
that last next-header value otherwise; and in NAT64 mode its addresses are
the IPv4 addresses of the outgoing tuple. -/
theorem ttp64_ipv4_header_fields (cfg : hdr4_config) (nat64 : Bool)
    (siit : siit64_env) (t4 : tuple4) (random uninit : Nat) (in6 : packet6)
    (out : packet) (hdr0 : iphdr) (hairpin0 : Bool)
    (hc : (ttp64_ipv4 cfg nat64 siit t4 random uninit in6 out hdr0
      hairpin0).result = VERDICT_CONTINUE) :
    (ttp64_ipv4 cfg nat64 siit t4 random uninit in6 out hdr0
        hairpin0).out.1.version = 4
      ∧ (ttp64_ipv4 cfg nat64 siit t4 random uninit in6 out hdr0
          hairpin0).out.1.ihl = 5
      ∧ (ttp64_ipv4 cfg nat64 siit t4 random uninit in6 out hdr0
          hairpin0).out.1.tos
        = (if cfg.reset_tos = true then cfg.new_tos
          else get_traffic_class in6.hdr)
      ∧ (ttp64_ipv4 cfg nat64 siit t4 random uninit in6 out hdr0
          hairpin0).out.1.protocol
        = (if in6.last_hdr_type = 58 then 1 else in6.last_hdr_type)
      ∧ (nat64 = true →
        (ttp64_ipv4 cfg nat64 siit t4 random uninit in6 out hdr0
            hairpin0).out.1.saddr = t4.src.l3
          ∧ (ttp64_ipv4 cfg nat64 siit t4 random uninit in6 out hdr0
              hairpin0).out.1.daddr = t4.dst.l3) := by
  obtain ⟨-, -, -, -, hv, hi, ht, hp, hs, hd, -⟩ :=
    ttp64_ipv4_continue cfg nat64 siit t4 random uninit in6 out hdr0 hairpin0
      _ rfl hc
  refine ⟨hv, hi, ht, hp, fun hn => ?_⟩
  have h := (ttp64_ipv4_addrs_fields nat64 siit t4 in6
    { hdr0 with tos := __xlat_tos cfg.reset_tos cfg.new_tos in6.hdr,
                protocol := ttp64_xlat_proto in6 } hairpin0).2 hn
  exact ⟨hs.trans h.1, hd.trans h.2⟩

/-- C16 on a sample: a TCP packet from 2001:db8::1, translated in NAT64
mode, leaves with version 4, IHL 5, TOS 0, Protocol 6 and the addresses of
the tuple. -/
theorem ttp64_ipv4_header_fields_witness :
    (ttp64_ipv4 sample_hdr4_config true sample_siit64 sample_tuple4 7 0
        (sample_in6 64 false) sample_out4 sample_ip4 false).out.1.protocol = 6
      ∧ (ttp64_ipv4 sample_hdr4_config true sample_siit64 sample_tuple4 7 0
          (sample_in6 64 false) sample_out4 sample_ip4 false).out.1.saddr
        = 0xc0000207 :=
  have h := ttp64_ipv4_header_fields sample_hdr4_config true sample_siit64
    sample_tuple4 7 0 (sample_in6 64 false) sample_out4 sample_ip4 false
    (by decide)
  ⟨h.2.2.2.1, (h.2.2.2.2 rfl).1⟩

/-! ## C15: the source route of an IPv4 packet -/

theorem getD_drop_add (l : List Nat) (n k : Nat) :
    l.getD (n + k) 0 = (l.drop n).getD k 0 := by
  simp [List.getD_eq_getElem?_getD, List.getElem?_drop]

theorem spec_opts_bytes_eq_nil (os : List ip_option)
    (h : spec_opts_bytes os = []) : os = [] := by
  cases os with
  | nil => rfl
  | cons o os =>
    exfalso
    unfold spec_opts_bytes ip_option.bytes at h
    split at h <;> simp at h

/-- The loop of `has_unexpired_src_route`, started at the offset of an
option, returns what the specification says about the options from there
on. -/
theorem has_unexpired_src_route_loop_spec (mem : List Nat) (stop : Nat)
    (os : List ip_option) :
    ∀ (fuel cur : Nat) (tail rest : List Nat), (∀ o ∈ os, o.wf) →
      (tail = [] ∨ tail.head? = some IPOPT_END) →
      mem.drop cur = spec_opts_bytes os ++ (tail ++ rest) →
      stop = cur + ((spec_opts_bytes os).length + tail.length) →
      cur < stop → os.length < fuel →
      has_unexpired_src_route_loop mem stop fuel cur
        = some (spec_has_unexpired_src_route os (tail ++ rest)) := by
  induction os with
  | nil =>
    intro fuel cur tail rest _ htail hdrop hstop hlt hfuel
    obtain ⟨fuel, rfl⟩ : ∃ f, fuel = f + 1 := ⟨fuel - 1, by omega⟩
    have ht : tail ≠ [] := by
      intro h
      rw [h] at hstop
      simp [spec_opts_bytes] at hstop
      omega
    obtain ⟨t, rfl⟩ : ∃ t, tail = IPOPT_END :: t := by
      rcases htail with h | h
      · exact absurd h ht
      · cases tail with
        | nil => exact absurd rfl ht
        | cons a t =>
          simp only [List.head?_cons, Option.some.injEq] at h
          exact ⟨t, by rw [h]⟩
    have g0 : mem.getD cur 0 = IPOPT_END := by
      have := getD_drop_add mem cur 0
      rw [hdrop] at this
      simpa [spec_opts_bytes] using this
    unfold has_unexpired_src_route_loop
    rw [g0]
    simp [IPOPT_END, IPOPT_LSRR, IPOPT_SSRR, spec_has_unexpired_src_route]
  | cons o os ih =>
    intro fuel cur tail rest hwf htail hdrop hstop hlt hfuel
    obtain ⟨fuel, rfl⟩ : ∃ f, fuel = f + 1 := ⟨fuel - 1, by omega⟩
    have hwo := hwf o (List.mem_cons_self o os)
    have hwos : ∀ o' ∈ os, o'.wf :=
      fun o' h => hwf o' (List.mem_cons_of_mem o h)
    have hfuel' : os.length < fuel := by
      simp only [List.length_cons] at hfuel
      omega
    have hb : spec_opts_bytes (o :: os) = o.bytes ++ spec_opts_bytes os := rfl
    rw [hb, List.append_assoc] at hdrop
    rw [hb, List.length_append] at hstop
    -- what happens once the scan has stepped over `o`
    have step : ∀ n, o.bytes.length = n →
        (if cur + n ≥ stop then some false
          else has_unexpired_src_route_loop mem stop fuel (cur + n))
        = some (spec_has_unexpired_src_route os (tail ++ rest)) := by
      intro n hn
      have hd : mem.drop (cur + n) = spec_opts_bytes os ++ (tail ++ rest) := by
        rw [← List.drop_drop, hdrop, ← hn, List.drop_left]
      by_cases hge : cur + n ≥ stop
      · rw [if_pos hge]
        have h0 : spec_opts_bytes os = [] :=
          List.eq_nil_of_length_eq_zero (by omega)
        rw [spec_opts_bytes_eq_nil os h0]
        rfl
      · rw [if_neg hge]
        exact ih fuel (cur + n) tail rest hwos htail hd (by omega) (by omega)
          hfuel'
    have g : ∀ k, mem.getD (cur + k) 0
        = (o.bytes ++ (spec_opts_bytes os ++ (tail ++ rest))).getD k 0 := by
      intro k
      rw [getD_drop_add, hdrop]
    by_cases hnoop : o.type = IPOPT_NOOP
    · have hbytes : o.bytes = [IPOPT_NOOP] := by
        unfold ip_option.bytes
        rw [if_pos hnoop, hnoop]
      have g0 : mem.getD cur 0 = IPOPT_NOOP := by
        have := g 0
        rw [hbytes] at this
        simpa using this
      have hspec : spec_has_unexpired_src_route (o :: os) (tail ++ rest)
          = spec_has_unexpired_src_route os (tail ++ rest) := by
        conv => lhs; unfold spec_has_unexpired_src_route
        rw [if_neg (by rw [hnoop]; decide)]
      unfold has_unexpired_src_route_loop
      rw [g0, hspec]
      have := step 1 (by rw [hbytes]; rfl)
      simpa [IPOPT_NOOP, IPOPT_END, IPOPT_LSRR, IPOPT_SSRR] using this
    · have hbytes : o.bytes = o.type :: o.length :: o.data := by
        unfold ip_option.bytes
        rw [if_neg hnoop]
      obtain ⟨hend, hlen⟩ := hwo
      obtain ⟨hl2, hdl⟩ := hlen hnoop
      have g0 : mem.getD cur 0 = o.type := by
        have := g 0
        rw [hbytes] at this
        simpa using this
      have g1 : mem.getD (cur + 1) 0 = o.length := by
        have := g 1
        rw [hbytes] at this
        simpa using this
      have g2 : mem.getD (cur + 2) 0
          = (o.data ++ spec_opts_bytes os ++ (tail ++ rest)).headD 0 := by
        have := g 2
        rw [hbytes] at this
        rw [this, List.append_assoc]
        simp only [List.cons_append, List.getD_cons_succ]
        cases (o.data ++ (spec_opts_bytes os ++ (tail ++ rest))) <;> rfl
      unfold has_unexpired_src_route_loop
      rw [g0, g1, g2]
      by_cases hsr : o.type = IPOPT_LSRR ∨ o.type = IPOPT_SSRR
      · have hc : ¬ (o.type ≠ IPOPT_LSRR ∧ o.type ≠ IPOPT_SSRR) := by
          rcases hsr with h | h
          · exact fun hh => hh.1 h
          · exact fun hh => hh.2 h
        rw [if_neg hc]
        unfold spec_has_unexpired_src_route
        rw [if_pos hsr]
      · have hc : o.type ≠ IPOPT_LSRR ∧ o.type ≠ IPOPT_SSRR :=
          ⟨fun h => hsr (Or.inl h), fun h => hsr (Or.inr h)⟩
        rw [if_pos hc, if_neg hend]
        have hspec : spec_has_unexpired_src_route (o :: os) (tail ++ rest)
            = spec_has_unexpired_src_route os (tail ++ rest) := by
          conv => lhs; unfold spec_has_unexpired_src_route
          rw [if_neg hsr]
        rw [hspec]
        dsimp only
        rw [if_neg hnoop]
        exact step o.length (by rw [hbytes]; simp only [List.length_cons]; omega)

/-- The function `has_unexpired_src_route` returns what the specification
says, for a header whose options area is made of well-formed options
followed by nothing or by End of Option List and anything. -/
theorem has_unexpired_src_route_spec (fuel : Nat) (hdr : iphdr)
    (os : List ip_option) (tail rest : List Nat) (hwf : ∀ o ∈ os, o.wf)
    (htail : tail = [] ∨ tail.head? = some IPOPT_END)
    (hihl : 4 * hdr.ihl = 20 + ((spec_opts_bytes os).length + tail.length))
    (hfuel : os.length < fuel) :
    has_unexpired_src_route fuel hdr (spec_opts_bytes os ++ (tail ++ rest))
      = some (spec_has_unexpired_src_route os (tail ++ rest)) := by
  unfold has_unexpired_src_route
  by_cases h0 : (spec_opts_bytes os).length + tail.length = 0
  · rw [if_pos (by omega)]
    have h1 : spec_opts_bytes os = [] :=
      List.eq_nil_of_length_eq_zero (by omega)
    rw [spec_opts_bytes_eq_nil os h1]
    rfl
  · rw [if_neg (by omega)]
    exact has_unexpired_src_route_loop_spec _ _ os fuel 0 tail rest hwf htail
      rfl (by omega) (by omega) hfuel

/-- What `ttp46_ipv6` does with an outer packet whose addresses are
translated and whose TTL is above 1, once `has_unexpired_src_route` has
returned. -/
theorem ttp46_ipv6_src_route (fuel : Nat) (env : xlat46_env) (in4 : packet4)
    (out : packet) (hdr0 : ipv6hdr) (b : Bool)
    (ha : (ttp46_ipv6_addrs env in4 hdr0).result = VERDICT_CONTINUE)
    (ho : in4.pkt.is_outer = true) (ht : 1 < in4.hdr.ttl)
    (hsr : has_unexpired_src_route fuel in4.hdr in4.opts = some b) :
    ∃ r, ttp46_ipv6 fuel env in4 out hdr0 = some r
      ∧ (b = true → r.result = VERDICT_DROP
        ∧ r.sent = [{ code := ICMPERR_SRC_ROUTE, info := 0 }])
      ∧ (b = false → r.result = VERDICT_CONTINUE ∧ r.sent = []) := by
  have ht' : ¬ in4.hdr.ttl ≤ 1 := by omega
  unfold ttp46_ipv6
  dsimp only
  rw [hsr]
  simp only [ha, ne_eq, not_true_eq_false, if_false, ho, ht', decide_False,
    Bool.and_false, Bool.false_eq_true, if_true]
  cases b
  · dsimp only
    split
    · exact ⟨_, rfl, fun h => (by cases h), fun _ => ⟨rfl, rfl⟩⟩
    · exact ⟨_, rfl, fun h => (by cases h), fun _ => ⟨rfl, rfl⟩⟩
  · exact ⟨_, rfl, fun _ => ⟨rfl, rfl⟩, fun h => (by cases h)⟩

/-- C15, as stated, fails on the code: an outer IPv4 packet with TTL 64 and
an unexpired loose source route whose addresses no table of the SIIT
translator maps leaves `ttp46_ipv6` with verdict Untranslatable and without
any ICMP error, although `has_unexpired_src_route` returns true. -/
theorem ttp46_ipv6_src_route_unreported :
    sample_in4_lsrr.pkt.is_outer = true
      ∧ 1 < sample_in4_lsrr.hdr.ttl
      ∧ has_unexpired_src_route 8 sample_in4_lsrr.hdr sample_in4_lsrr.opts
        = some true
      ∧ (ttp46_ipv6 8 sample_xlat46_empty sample_in4_lsrr sample_out6
          sample_ip6).map (fun r => (r.result, r.sent))
        = some (VERDICT_UNTRANSLATABLE, []) := by
  decide

/-- C15, amended.  For every IPv4 header whose options area consists of
well-formed options (none of them End of Option List; each one other than
No Operation has a length octet of at least 2 and occupies that many
octets), followed by nothing or by an End of Option List octet and anything
up to the end of the header, `has_unexpired_src_route` returns (with one
unit of fuel per option and one more) true if and only if the options
contain a loose (131) or strict (137) source route and the first such
option has length >= pointer; it returns false when IHL is 5.  For an outer
packet with TTL > 1 whose addresses are translated, `ttp46_ipv6` drops the
packet and requests one ICMP "source route failed" error exactly when
`has_unexpired_src_route` returns true, and continues without any request
when it returns false. -/
theorem has_unexpired_src_route_refines (fuel : Nat) (hdr : iphdr)
    (os : List ip_option) (tail rest : List Nat) (env : xlat46_env)
    (in4 : packet4) (out : packet) (hdr0 : ipv6hdr) (b : Bool)
    (hwf : ∀ o ∈ os, o.wf)
    (htail : tail = [] ∨ tail.head? = some IPOPT_END)
    (hihl : 4 * hdr.ihl = 20 + ((spec_opts_bytes os).length + tail.length))
    (hfuel : os.length < fuel)
    (ha : (ttp46_ipv6_addrs env in4 hdr0).result = VERDICT_CONTINUE)
    (ho : in4.pkt.is_outer = true) (ht : 1 < in4.hdr.ttl)
    (hsr : has_unexpired_src_route fuel in4.hdr in4.opts = some b) :
    has_unexpired_src_route fuel hdr (spec_opts_bytes os ++ (tail ++ rest))
        = some (spec_has_unexpired_src_route os (tail ++ rest))
      ∧ (∀ (fuel' : Nat) (hdr' : iphdr) (mem : List Nat), hdr'.ihl = 5 →
        has_unexpired_src_route fuel' hdr' mem = some false)
      ∧ ∃ r, ttp46_ipv6 fuel env in4 out hdr0 = some r
        ∧ ((r.result = VERDICT_DROP
            ∧ r.sent = [{ code := ICMPERR_SRC_ROUTE, info := 0 }])
          ↔ b = true)
        ∧ (b = false → r.result = VERDICT_CONTINUE ∧ r.sent = []) := by
  refine ⟨has_unexpired_src_route_spec fuel hdr os tail rest hwf htail hihl
    hfuel, ?_, ?_⟩
  · intro fuel' hdr' mem h5
    unfold has_unexpired_src_route
    rw [if_pos (by omega)]
  · obtain ⟨r, hr, h1, h2⟩ :=
      ttp46_ipv6_src_route fuel env in4 out hdr0 b ha ho ht hsr
    refine ⟨r, hr, ⟨fun h => ?_, h1⟩, h2⟩
    cases b
    · have := (h2 rfl).1
      rw [h.1] at this
      cases this
    · rfl

/-- C15, amended, on a sample: the header with the options `sample_lsrr`
and End of Option List has an unexpired source route, and the packet that
carries it is dropped with a request for "source route failed". -/
theorem has_unexpired_src_route_refines_witness :
    has_unexpired_src_route 8 sample_in4_lsrr.hdr
        (spec_opts_bytes [sample_lsrr] ++ ([0] ++ [])) = some true
      ∧ (ttp46_ipv6 8 sample_xlat46 sample_in4_lsrr sample_out6
          sample_ip6).map (fun r => (r.result, r.sent))
        = some (VERDICT_DROP, [{ code := ICMPERR_SRC_ROUTE, info := 0 }]) :=
  have h := has_unexpired_src_route_refines 8 sample_in4_lsrr.hdr
    [sample_lsrr] [0] [] sample_xlat46 sample_in4_lsrr sample_out6 sample_ip6
    true (by decide) (by decide) (by decide) (by decide) (by decide)
    (by decide) (by decide) (by decide)
  ⟨h.1, by decide⟩

/-! ## C17: the IPv6 header `ttp46_ipv6` builds -/

/-- C17: whenever `ttp46_ipv6` returns Continue, the outgoing IPv6 header
has version 6; its traffic class (the priority nibble followed by the high
nibble of `flow_lbl[0]`) is the IPv4 TOS octet, or 0 when
`reset_traffic_class` is set; its 20-bit flow label is 0; its next header
is 58 when the IPv4 protocol is 1 (ICMP) and the IPv4 protocol otherwise,
unless a fragment header is added (which happens exactly when
`will_need_frag_hdr` says so): then the next header is 44 and the fragment
header carries the mapped value as its next header, a zero reserved octet,
the fragment offset and MF flag of the IPv4 header, and the IPv4
Identification zero-extended to 32 bits. -/
theorem ttp46_ipv6_header_fields (fuel : Nat) (env : xlat46_env)
    (in4 : packet4) (out : packet) (hdr0 : ipv6hdr)
    (r : step_result (ipv6hdr × Option frag_hdr))
    (hr : ttp46_ipv6 fuel env in4 out hdr0 = some r)
    (hc : r.result = VERDICT_CONTINUE) (htos : in4.hdr.tos < 256)
    (hid : in4.hdr.id < 65536) :
    r.out.1.version = 6
      ∧ get_traffic_class r.out.1
        = (if env.reset_traffic_class = true then 0 else in4.hdr.tos)
      ∧ r.out.1.flow_lbl0 % 16 * 65536 + r.out.1.flow_lbl1 * 256
          + r.out.1.flow_lbl2 = 0
      ∧ r.out.2.isSome = will_need_frag_hdr in4.hdr
      ∧ (r.out.2 = none →
        r.out.1.nexthdr
          = (if in4.hdr.protocol = 1 then 58 else in4.hdr.protocol))
      ∧ (∀ fh, r.out.2 = some fh →
        r.out.1.nexthdr = 44
          ∧ fh.nexthdr
            = (if in4.hdr.protocol = 1 then 58 else in4.hdr.protocol)
          ∧ fh.reserved = 0
          ∧ get_fragment_offset_ipv6 fh = get_fragment_offset_ipv4 in4.hdr
          ∧ is_more_fragments_set_ipv6 fh = is_mf_set_ipv4 in4.hdr
          ∧ fh.identification = in4.hdr.id) := by
  revert hr
  unfold ttp46_ipv6
  dsimp only
  generalize ttp46_ipv6_addrs env in4 hdr0 = a
  generalize (if in4.pkt.is_outer = true then
    has_unexpired_src_route fuel in4.hdr in4.opts else some false) = sr
  -- the header after the traffic class was stored
  have hg : ∀ g : ipv6hdr,
      g = (if env.reset_traffic_class = true then
            ({ a.out with version := 6, priority := 0, flow_lbl0 := 0 }
              : ipv6hdr)
          else
            { a.out with version := 6, priority := in4.hdr.tos % 256 / 16,
                         flow_lbl0 := in4.hdr.tos * 16 % 256 }) →
      g.version = 6
        ∧ g.priority % 16 * 16 + g.flow_lbl0 % 256 / 16
          = (if env.reset_traffic_class = true then 0 else in4.hdr.tos)
        ∧ g.flow_lbl0 % 16 = 0 := by
    intro g hg
    subst hg
    split <;> refine ⟨rfl, ?_, ?_⟩ <;>
      first | (dsimp only; omega) | dsimp only
  generalize (if env.reset_traffic_class = true then
            ({ a.out with version := 6, priority := 0, flow_lbl0 := 0 }
              : ipv6hdr)
          else
            { a.out with version := 6, priority := in4.hdr.tos % 256 / 16,
                         flow_lbl0 := in4.hdr.tos * 16 % 256 }) = g at hg ⊢
  obtain ⟨gv, gtc, gfl⟩ := hg g rfl
  by_cases ha : a.result = VERDICT_CONTINUE
  · simp only [ha, ne_eq, not_true_eq_false, if_false]
    split
    · intro hr
      cases hr
      cases hc
    · rcases sr with _ | _ | _
      · intro hr
        cases hr
      · dsimp only
        by_cases hw : will_need_frag_hdr in4.hdr = true
        · rw [if_pos hw]
          intro hr
          cases hr
          refine ⟨gv, gtc, ?_, hw.symm, fun h => (by cases h), ?_⟩
          · dsimp only
            omega
          · intro fh hfh
            cases hfh
            refine ⟨rfl, rfl, rfl, ?_, ?_, ?_⟩
            · unfold get_fragment_offset_ipv6 get_fragment_offset_ipv4
                build_ipv6_frag_off_field cpu_to_be16
              dsimp only
              split <;> omega
            · unfold is_more_fragments_set_ipv6 build_ipv6_frag_off_field
                cpu_to_be16 get_fragment_offset_ipv4
              dsimp only
              cases is_mf_set_ipv4 in4.hdr
              · simp only [Bool.false_eq_true, if_false, decide_eq_false_iff_not]
                omega
              · simp only [if_true, decide_eq_true_eq]
                omega
            · unfold build_id_field cpu_to_be32
              dsimp only
              omega
        · rw [if_neg hw]
          intro hr
          cases hr
          refine ⟨gv, gtc, ?_, ?_, fun _ => rfl, fun fh h => (by cases h)⟩
          · dsimp only
            omega
          · simp only [Bool.not_eq_true] at hw
            rw [hw]
            rfl
      · intro hr
        cases hr
        cases hc
  · simp only [ha, ne_eq, not_false_eq_true, if_true]
    intro hr
    cases hr
    exact absurd hc ha

/-- C17 on a sample: an IPv4 fragment (MF set, offset 1480) with TOS 0xb8
and Identification 0x4321 leaves `ttp46_ipv6` with traffic class 0xb8, next
header 44 and a fragment header that names TCP, offset 1480, M set and
identification 0x4321. -/
theorem ttp46_ipv6_header_fields_witness :
    (ttp46_ipv6 8 sample_xlat46 sample_in4_frag sample_out6 sample_ip6).map
        (fun r => get_traffic_class r.out.1) = some 0xb8
      ∧ (ttp46_ipv6 8 sample_xlat46 sample_in4_frag sample_out6
          sample_ip6).map (fun r => (r.out.1.nexthdr, r.out.2))
        = some (44, some { nexthdr := 6, reserved := 0, frag_off := 1481,
                           identification := 0x4321 }) :=
  have h := ttp46_ipv6_header_fields 8 sample_xlat46 sample_in4_frag
    sample_out6 sample_ip6 _ rfl rfl (by decide) (by decide)
  ⟨congrArg some h.2.1, by decide⟩

/-! ## C18: what `ttp64_tcp` and `ttp64_udp` leave alone -/

/-- C18: `ttp64_tcp` and `ttp64_udp` change nothing but ports and checksum.
Every field of the outgoing L4 header other than source port, destination
port and checksum is the incoming one, and so are the TCP options; in NAT64
mode the ports are those of the outgoing tuple, in SIIT mode those of the
incoming header; and whenever the function continues the payload is the
incoming payload.  The same holds for the functions of `mod/ttp/6to4.c`,
which always take the ports of the tuple and copy the payload
themselves. -/
theorem ttp64_l4_frame (nat64 : Bool) (t4 : tuple4)
    (partial_csum fails csum4_computable : Bool) (ip6 : ipv6hdr)
    (ip4 : iphdr) (tcp_in : tcphdr) (udp_in udp_out0 : udphdr)
    (opts payload out_payload : List Nat) (hs : t4.src.l4 < 65536)
    (hd : t4.dst.l4 < 65536) :
    ({ (ttp64_tcp nat64 t4 partial_csum
            (copy_payload fails payload out_payload).1 ip6 ip4 tcp_in
            opts).out.1 with
          source := tcp_in.source, dest := tcp_in.dest,
          check := tcp_in.check } = tcp_in
        ∧ (ttp64_tcp nat64 t4 partial_csum
            (copy_payload fails payload out_payload).1 ip6 ip4 tcp_in
            opts).out.2 = opts
        ∧ (ttp64_tcp nat64 t4 partial_csum
            (copy_payload fails payload out_payload).1 ip6 ip4 tcp_in
            opts).out.1.source
          = (if nat64 = true then t4.src.l4 else tcp_in.source)
        ∧ (ttp64_tcp nat64 t4 partial_csum
            (copy_payload fails payload out_payload).1 ip6 ip4 tcp_in
            opts).out.1.dest
          = (if nat64 = true then t4.dst.l4 else tcp_in.dest)
        ∧ ((ttp64_tcp nat64 t4 partial_csum
              (copy_payload fails payload out_payload).1 ip6 ip4 tcp_in
              opts).result = VERDICT_CONTINUE →
          (copy_payload fails payload out_payload).2 = payload))
      ∧ ({ (ttp64_udp nat64 t4 partial_csum
            (copy_payload fails payload out_payload).1 ip6 ip4 udp_in).out with
          source := udp_in.source, dest := udp_in.dest,
          check := udp_in.check } = udp_in
        ∧ (ttp64_udp nat64 t4 partial_csum
            (copy_payload fails payload out_payload).1 ip6 ip4
            udp_in).out.source
          = (if nat64 = true then t4.src.l4 else udp_in.source)
        ∧ (ttp64_udp nat64 t4 partial_csum
            (copy_payload fails payload out_payload).1 ip6 ip4
            udp_in).out.dest
          = (if nat64 = true then t4.dst.l4 else udp_in.dest)
        ∧ ((ttp64_udp nat64 t4 partial_csum
              (copy_payload fails payload out_payload).1 ip6 ip4
              udp_in).result = VERDICT_CONTINUE →
          (copy_payload fails payload out_payload).2 = payload))
      ∧ ({ (ttp.ttp64_tcp t4 csum4_computable ip6 ip4 tcp_in opts
            payload).2.1.1 with
          source := tcp_in.source, dest := tcp_in.dest,
          check := tcp_in.check } = tcp_in
        ∧ (ttp.ttp64_tcp t4 csum4_computable ip6 ip4 tcp_in opts
            payload).2.1.2 = opts
        ∧ (ttp.ttp64_tcp t4 csum4_computable ip6 ip4 tcp_in opts
            payload).2.1.1.source = t4.src.l4
        ∧ (ttp.ttp64_tcp t4 csum4_computable ip6 ip4 tcp_in opts
            payload).2.1.1.dest = t4.dst.l4
        ∧ (ttp.ttp64_tcp t4 csum4_computable ip6 ip4 tcp_in opts
            payload).2.2 = payload)
      ∧ ({ (ttp.ttp64_udp t4 csum4_computable ip6 ip4 udp_in udp_out0
            payload).2.1 with
          source := udp_in.source, dest := udp_in.dest,
          check := udp_in.check } = udp_in
        ∧ (ttp.ttp64_udp t4 csum4_computable ip6 ip4 udp_in udp_out0
            payload).2.1.source = t4.src.l4
        ∧ (ttp.ttp64_udp t4 csum4_computable ip6 ip4 udp_in udp_out0
            payload).2.1.dest = t4.dst.l4
        ∧ (ttp.ttp64_udp t4 csum4_computable ip6 ip4 udp_in udp_out0
            payload).2.2 = payload) := by
  have e1 : cpu_to_be16 t4.src.l4 = t4.src.l4 := Nat.mod_eq_of_lt hs
  have e2 : cpu_to_be16 t4.dst.l4 = t4.dst.l4 := Nat.mod_eq_of_lt hd
  refine ⟨⟨?_, ?_, ?_, ?_, ?_⟩, ⟨?_, ?_, ?_, ?_⟩, ⟨?_, ?_, ?_, ?_, ?_⟩,
    ⟨?_, ?_, ?_, ?_⟩⟩
  -- `ttp64_tcp`
  · cases nat64 <;> cases partial_csum <;> rfl
  · rfl
  · cases nat64 <;> cases partial_csum <;> first | rfl | exact e1
  · cases nat64 <;> cases partial_csum <;> first | rfl | exact e2
  · cases fails
    · intro _; rfl
    · intro h; cases h
  -- `ttp64_udp`
  · unfold ttp64_udp
    cases nat64 <;> cases partial_csum <;>
      simp only [Bool.false_eq_true, if_false, if_true, Bool.not_false,
        Bool.not_true] <;>
      first | rfl | (split <;> rfl)
  · unfold ttp64_udp
    cases nat64 <;> cases partial_csum <;>
      simp only [Bool.false_eq_true, if_false, if_true, Bool.not_false,
        Bool.not_true] <;>
      first | rfl | exact e1 | (split <;> first | rfl | exact e1)
  · unfold ttp64_udp
    cases nat64 <;> cases partial_csum <;>
      simp only [Bool.false_eq_true, if_false, if_true, Bool.not_false,
        Bool.not_true] <;>
      first | rfl | exact e2 | (split <;> first | rfl | exact e2)
  · cases fails
    · intro _; rfl
    · intro h; cases h
  -- `mod/ttp/6to4.c`
  · cases csum4_computable <;> rfl
  · rfl
  · cases csum4_computable <;> exact e1
  · cases csum4_computable <;> exact e2
  · rfl
  · unfold ttp.ttp64_udp
    cases csum4_computable <;>
      simp only [Bool.false_eq_true, if_false, if_true] <;>
      first | rfl | (split <;> rfl)
  · unfold ttp.ttp64_udp
    cases csum4_computable <;>
      simp only [Bool.false_eq_true, if_false, if_true] <;>
      first | exact e1 | (split <;> exact e1)
  · unfold ttp.ttp64_udp
    cases csum4_computable <;>
      simp only [Bool.false_eq_true, if_false, if_true] <;>
      first | exact e2 | (split <;> exact e2)
  · rfl

/-- C18 on the sample packet: in NAT64 mode the TCP header leaves with the
source port of the tuple and the sequence number it came with. -/
theorem ttp64_l4_frame_witness :
    (ttp64_tcp true sample_tuple4 false false sample_ip6 sample_ip4
        (sample_tcp 53486) sample_opts).out.1.source = 1024
      ∧ (ttp64_tcp true sample_tuple4 false false sample_ip6 sample_ip4
          (sample_tcp 53486) sample_opts).out.1.seq = 0x12345678 :=
  have h := ttp64_l4_frame true sample_tuple4 false false true sample_ip6
    sample_ip4 (sample_tcp 53486) (sample_udp 49484) (sample_udp 0)
    sample_opts sample_payload [] (by decide) (by decide)
  ⟨h.1.2.2.1, congrArg tcphdr.seq h.1.1⟩

/-! ## C19: identifier and sequence number of an echo message -/

theorem ttp64_icmp_echo_un (env : icmp64_env) (hdr : icmp6hdr)
    (out0 : icmphdr)
    (ht : hdr.icmp6_type = ICMPV6_ECHO_REQUEST
      ∨ hdr.icmp6_type = ICMPV6_ECHO_REPLY) :
    (ttp64_icmp env hdr out0).2.un
      = (if env.nat64 = true then cpu_to_be16 env.tuple4.icmp4_id
          else hdr.icmp6_identifier) % 65536 * 65536
        + hdr.icmp6_sequence % 65536 := by
  rcases ht with h | h
  · have h128 : hdr.icmp6_type = 128 := h
    simp only [ttp64_icmp, h128, ICMPV6_ECHO_REQUEST, if_true]
    rw [(post_icmp4info_fields _ _ _).2.2]
    unfold icmphdr.set_lo icmphdr.set_hi
    dsimp only
    omega
  · have h129 : hdr.icmp6_type = 129 := h
    simp only [ttp64_icmp, h129, ICMPV6_ECHO_REQUEST, ICMPV6_ECHO_REPLY,
      Nat.reduceEqDiff, if_false, if_true]
    rw [(post_icmp4info_fields _ _ _).2.2]
    unfold icmphdr.set_lo icmphdr.set_hi
    dsimp only
    omega

/-- C19: for an ICMPv6 Echo Request (128) or Echo Reply (129), `ttp64_icmp`
writes the ICMPv4 type Echo (8) resp. Echo Reply (0) with code 0, copies
the sequence number, and sets the identifier to the `icmp4_id` of the
outgoing tuple in NAT64 mode and to the identifier of the incoming header
in SIIT mode. -/
theorem ttp64_icmp_echo_id_seq (env : icmp64_env) (hdr : icmp6hdr)
    (out0 : icmphdr)
    (ht : hdr.icmp6_type = 128 ∨ hdr.icmp6_type = 129)
    (hun : hdr.icmp6_dataun < 4294967296)
    (hid : env.tuple4.icmp4_id < 65536) :
    (ttp64_icmp env hdr out0).2.type = (if hdr.icmp6_type = 128 then 8 else 0)
      ∧ (ttp64_icmp env hdr out0).2.code = 0
      ∧ (ttp64_icmp env hdr out0).2.echo_sequence = hdr.icmp6_sequence
      ∧ (ttp64_icmp env hdr out0).2.echo_id
        = (if env.nat64 = true then env.tuple4.icmp4_id
          else hdr.icmp6_identifier) := by
  have hu := ttp64_icmp_echo_un env hdr out0 ht
  have hseq : hdr.icmp6_sequence < 65536 := by
    unfold icmp6hdr.icmp6_sequence; omega
  have hident : hdr.icmp6_identifier < 65536 := by
    unfold icmp6hdr.icmp6_identifier; omega
  have hi : (if env.nat64 = true then cpu_to_be16 env.tuple4.icmp4_id
      else hdr.icmp6_identifier)
      = (if env.nat64 = true then env.tuple4.icmp4_id
        else hdr.icmp6_identifier) := by
    split
    · exact Nat.mod_eq_of_lt hid
    · rfl
  have hilt : (if env.nat64 = true then env.tuple4.icmp4_id
      else hdr.icmp6_identifier) < 65536 := by
    split <;> assumption
  rw [hi] at hu
  unfold icmphdr.echo_sequence icmphdr.echo_id
  rw [hu]
  generalize (if env.nat64 = true then env.tuple4.icmp4_id
    else hdr.icmp6_identifier) = i at hilt ⊢
  refine ⟨?_, ?_, by omega, by omega⟩
  · rcases ht with h | h
    · rw [if_pos h]
      exact (ttp64_icmp_echo_request env hdr out0 h).1
    · rw [if_neg (by omega)]
      exact (ttp64_icmp_echo_reply env hdr out0 h).1
  · rcases ht with h | h
    · exact (ttp64_icmp_echo_request env hdr out0 h).2
    · exact (ttp64_icmp_echo_reply env hdr out0 h).2

/-- C19 on the example of the specification: in NAT64 mode an Echo Request
with identifier 0x1234 and sequence number 7, for a tuple whose `icmp4_id`
is 0xABCD, leaves with identifier 0xABCD and sequence number 7. -/
theorem ttp64_icmp_echo_id_seq_witness :
    (ttp64_icmp
        { sample_env64 with
          nat64 := true,
          tuple4 := { src := { l3 := 0xc0000207, l4 := 0xABCD },
                      dst := { l3 := 0xc0000201, l4 := 0xABCD } } }
        { icmp6_type := 128, icmp6_code := 0, icmp6_cksum := 0,
          icmp6_dataun := 0x12340007 }
        { type := 0, code := 0, checksum := 0, un := 0 }).2.echo_id = 0xABCD
      ∧ (ttp64_icmp
        { sample_env64 with
          nat64 := true,
          tuple4 := { src := { l3 := 0xc0000207, l4 := 0xABCD },
                      dst := { l3 := 0xc0000201, l4 := 0xABCD } } }
        { icmp6_type := 128, icmp6_code := 0, icmp6_cksum := 0,
          icmp6_dataun := 0x12340007 }
        { type := 0, code := 0, checksum := 0, un := 0 }).2.echo_sequence
          = 7 :=
  have h := ttp64_icmp_echo_id_seq
    { sample_env64 with
      nat64 := true,
      tuple4 := { src := { l3 := 0xc0000207, l4 := 0xABCD },
                  dst := { l3 := 0xc0000201, l4 := 0xABCD } } }
    { icmp6_type := 128, icmp6_code := 0, icmp6_cksum := 0,
      icmp6_dataun := 0x12340007 }
    { type := 0, code := 0, checksum := 0, un := 0 } (Or.inl rfl)
    (by decide) (by decide)
  ⟨h.2.2.2, h.2.2.1⟩

/-! ## C20: the checksum of an echo message -/

theorem csum_partial_eq_zero (l : List Nat) :
    ∀ s : Nat, s < 4294967296 → (∀ w ∈ l, w < 4294967296) →
      ( csum_partial l s = 0 ↔ s + l.sum = 0) := by
  induction l with
  | nil => intro s _ _; simp [csum_partial_nil]
  | cons w l ih =>
    intro s hs hl
    have hw := hl w (List.mem_cons_self w l)
    rw [csum_partial_cons,
      ih _ (csum_add_lt hs hw) (fun v hv => hl v (List.mem_cons_of_mem w hv)),
      List.sum_cons]
    have := csum_add_eq_zero hs hw
    omega

theorem icmp4_csum_ok_iff {dg : List Nat} (hdg : words16 dg) :
    icmp4_csum_ok dg ↔ dg.sum % 65535 = 0 ∧ dg.sum ≠ 0 := by
  have h1 := csum_partial_lt dg 0 (by omega) (words16_lt32 hdg)
  have h2 := csum_partial_mod dg 0 (by omega) (words16_lt32 hdg)
  have h3 := csum_partial_eq_zero dg 0 (by omega) (words16_lt32 hdg)
  unfold icmp4_csum_ok
  rw [csum_fold_eq_zero h1]
  generalize csum_partial dg 0 = x at h1 h2 h3 ⊢
  omega

theorem icmp6hdr_words16 {h : icmp6hdr} (hwf : h.wf) : words16 h.words := by
  obtain ⟨h1, h2, h3, h4⟩ := hwf
  intro w hw
  simp only [icmp6hdr.words, List.mem_cons, List.mem_singleton,
    List.not_mem_nil, or_false] at hw
  rcases hw with h | h | h | h <;> omega

theorem icmphdr_words16 {h : icmphdr} (hwf : h.wf) : words16 h.words := by
  obtain ⟨h1, h2, h3, h4⟩ := hwf
  intro w hw
  simp only [icmphdr.words, List.mem_cons, List.mem_singleton,
    List.not_mem_nil, or_false] at hw
  rcases hw with h | h | h | h <;> omega

theorem icmp6hdr_words_sum (h : icmp6hdr) :
    h.words.sum = h.icmp6_type * 256 + h.icmp6_code + h.icmp6_cksum
      + h.icmp6_dataun / 65536 + h.icmp6_dataun % 65536 := by
  simp only [icmp6hdr.words, List.sum_cons, List.sum_nil]; omega

theorem icmphdr_words_sum (h : icmphdr) :
    h.words.sum = h.type * 256 + h.code + h.checksum + h.un / 65536
      + h.un % 65536 := by
  simp only [icmphdr.words, List.sum_cons, List.sum_nil]; omega

/-- The congruence behind `update_icmp4_csum`: the new checksum plus the new
header equals the old checksum plus the pseudo-header and the old header,
modulo 0xFFFF. -/
theorem update_icmp4_csum_mod (env : icmp64_env) (i : icmp6hdr) (o : icmphdr)
    (hi : i.wf) (ho : o.wf) (hs : env.in_ip6.saddr.wf)
    (hd : env.in_ip6.daddr.wf) (hl : env.datagram_len < 4294967296) :
    ((update_icmp4_csum env i o).2.checksum + o.type * 256 + o.code
        + o.un / 65536 + o.un % 65536) % 65535
      = (i.icmp6_cksum + env.in_ip6.saddr.total + env.in_ip6.daddr.total
          + env.datagram_len + 58 + i.icmp6_type * 256 + i.icmp6_code
          + i.icmp6_dataun / 65536 + i.icmp6_dataun % 65536) % 65535
      ∧ (update_icmp4_csum env i o).2.checksum < 65536 := by
  obtain ⟨i1, i2, i3, i4⟩ := hi
  obtain ⟨o1, o2, o3, o4⟩ := ho
  have hwi : ({ i with icmp6_cksum := 0 } : icmp6hdr).wf :=
    ⟨i1, i2, Nat.succ_pos _, i4⟩
  have hwo : ({ o with checksum := 0 } : icmphdr).wf :=
    ⟨o1, o2, Nat.succ_pos _, o4⟩
  have si := icmp6hdr_words_sum { i with icmp6_cksum := 0 }
  have so := icmphdr_words_sum { o with checksum := 0 }
  dsimp only at si so
  have wi1 := csum_partial_lt _ 0 (by omega)
    (words16_lt32 (icmp6hdr_words16 hwi))
  have wi2 := csum_partial_mod _ 0 (by omega)
    (words16_lt32 (icmp6hdr_words16 hwi))
  have wo1 := csum_partial_lt _ 0 (by omega)
    (words16_lt32 (icmphdr_words16 hwo))
  have wo2 := csum_partial_mod _ 0 (by omega)
    (words16_lt32 (icmphdr_words16 hwo))
  rw [si] at wi2
  rw [so] at wo2
  clear si so hwi hwo
  unfold update_icmp4_csum csum_unfold NEXTHDR_ICMP
  dsimp only
  generalize csum_partial ({ i with icmp6_cksum := 0 } : icmp6hdr).words 0
    = iw at wi1 wi2 ⊢
  generalize csum_partial ({ o with checksum := 0 } : icmphdr).words 0
    = ow at wo1 wo2 ⊢
  -- the pseudo-header
  have m1 := csum_ipv6_magic_lt env.in_ip6.saddr env.in_ip6.daddr
    env.datagram_len 58 0
  have m2 := csum_ipv6_magic_mod hs hd hl (by omega : 58 < 4294967296)
    (by omega : 0 < 4294967296)
  generalize csum_ipv6_magic env.in_ip6.saddr env.in_ip6.daddr
    env.datagram_len 58 0 = m at m1 m2 ⊢
  have p1 := not32_lt m
  have p2 := not32_mod m (by omega)
  generalize not32 m = p6 at p1 p2 ⊢
  have p3 : p6 % 65535 = (env.in_ip6.saddr.total + env.in_ip6.daddr.total
      + env.datagram_len + 58) % 65535 := by
    omega
  clear m1 m2 p2 hs hd
  -- the old checksum
  have a1 := not32_lt i.icmp6_cksum
  have a2 := not32_mod i.icmp6_cksum (by omega)
  generalize not32 i.icmp6_cksum = c0 at a1 a2 ⊢
  have b1 := csum_sub_lt p6 a1
  have b2 := csum_sub_mod a1 p1
  generalize csum_sub c0 p6 = c1 at b1 b2 ⊢
  have r1 : (c1 + env.in_ip6.saddr.total + env.in_ip6.daddr.total
      + env.datagram_len + 58 + i.icmp6_cksum) % 65535 = 0 := by
    omega
  clear a1 a2 b2 p1 p3
  -- the old header
  have d1 := csum_sub_lt iw b1
  have d2 := csum_sub_mod b1 wi1
  generalize csum_sub c1 iw = c2 at d1 d2 ⊢
  have r2 : (c2 + iw + env.in_ip6.saddr.total + env.in_ip6.daddr.total
      + env.datagram_len + 58 + i.icmp6_cksum) % 65535 = 0 := by
    omega
  clear r1 d2 b1
  -- the new header
  have f1 := csum_add_lt d1 wo1
  have f2 := csum_add_mod d1 wo1
  generalize csum_add c2 ow = c4 at f1 f2 ⊢
  have g := csum_fold_mod f1
  have g2 := csum_fold_lt c4
  generalize csum_fold c4 = c at g g2 ⊢
  omega

/-- Away from the all-zero message `update_icmp4_csum` preserves validity:
when the ICMPv6 message verifies and the outgoing ICMPv4 message has a
nonzero octet outside its checksum field, the stored checksum verifies over
the ICMPv4 header and the same payload. -/
theorem update_icmp4_csum_ok (env : icmp64_env) (i : icmp6hdr) (o : icmphdr)
    (hi : i.wf) (ho : o.wf) (hs : env.in_ip6.saddr.wf)
    (hd : env.in_ip6.daddr.wf) (hl : env.datagram_len < 4294967296)
    (hp : words16 env.payload)
    (hin : l4_csum_ok6 env.in_ip6.saddr env.in_ip6.daddr env.datagram_len
      NEXTHDR_ICMP (i.words ++ env.payload))
    (hnz : o.type ≠ 0 ∨ o.code ≠ 0 ∨ o.un ≠ 0 ∨ env.payload.sum ≠ 0) :
    icmp4_csum_ok ((update_icmp4_csum env i o).2.words ++ env.payload) := by
  obtain ⟨hm, hc⟩ := update_icmp4_csum_mod env i o hi ho hs hd hl
  have hwi : words16 (i.words ++ env.payload) := by
    intro w hw
    rcases List.mem_append.1 hw with h | h
    · exact icmp6hdr_words16 hi w h
    · exact hp w h
  rw [l4_csum_ok6_iff hs hd hl (by decide) (by decide) hwi,
    List.sum_append, icmp6hdr_words_sum] at hin
  have e1 : (update_icmp4_csum env i o).2.type = o.type := rfl
  have e2 : (update_icmp4_csum env i o).2.code = o.code := rfl
  have e3 : (update_icmp4_csum env i o).2.un = o.un := rfl
  have hwf : (update_icmp4_csum env i o).2.wf := by
    refine ⟨?_, ?_, hc, ?_⟩
    · rw [e1]; exact ho.1
    · rw [e2]; exact ho.2.1
    · rw [e3]; exact ho.2.2.2
  have hwo : words16 ((update_icmp4_csum env i o).2.words ++ env.payload) := by
    intro w hw
    rcases List.mem_append.1 hw with h | h
    · exact icmphdr_words16 hwf w h
    · exact hp w h
  rw [icmp4_csum_ok_iff hwo, List.sum_append, icmphdr_words_sum, e1, e2, e3]
  unfold NEXTHDR_ICMP at hin
  generalize (update_icmp4_csum env i o).2.checksum = c at hm hc ⊢
  omega

theorem update_icmp6_csum_arith {c c1 c2 iw ow T C A B T6 C6 A6 B6 P Q k : Nat}
    (wi2 : iw % 65535 = (0 + (T * 256 + C + 0 + A + B)) % 65535)
    (wo2 : ow % 65535 = (0 + (T6 * 256 + C6 + 0 + A6 + B6)) % 65535)
    (r1 : (c1 + iw + k) % 65535 = 0)
    (f2 : c2 % 65535 = (c1 + ow) % 65535)
    (m2 : (c + c2 + Q) % 65535 = 0)
    (hin : (T * 256 + C + k + A + B + P) % 65535 = 0) :
    (T6 * 256 + C6 + c + A6 + B6 + P + Q) % 65535 = 0 := by
  omega

/-- The other direction holds without exception: `update_icmp6_csum` stores
a checksum that verifies over the IPv6 pseudo-header, the ICMPv6 header and
the same payload whenever the ICMPv4 message verified. -/
theorem update_icmp6_csum_ok (env : icmp46_env) (i : icmphdr) (o : icmp6hdr)
    (hi : i.wf) (ho : o.wf) (hs : env.out_ip6.saddr.wf)
    (hd : env.out_ip6.daddr.wf) (hl : env.datagram_len < 4294967296)
    (hp : words16 env.payload)
    (hin : icmp4_csum_ok (i.words ++ env.payload)) :
    l4_csum_ok6 env.out_ip6.saddr env.out_ip6.daddr env.datagram_len
      NEXTHDR_ICMP ((update_icmp6_csum env i o).words ++ env.payload) := by
  obtain ⟨i1, i2, i3, i4⟩ := hi
  obtain ⟨o1, o2, o3, o4⟩ := ho
  have hwi : words16 (i.words ++ env.payload) := by
    intro w hw
    rcases List.mem_append.1 hw with h | h
    · exact icmphdr_words16 ⟨i1, i2, i3, i4⟩ w h
    · exact hp w h
  rw [icmp4_csum_ok_iff hwi, List.sum_append, icmphdr_words_sum] at hin
  have hin1 := hin.1
  clear hin
  have hwi0 : ({ i with checksum := 0 } : icmphdr).wf :=
    ⟨i1, i2, Nat.succ_pos _, i4⟩
  have hwo0 : ({ o with icmp6_cksum := 0 } : icmp6hdr).wf :=
    ⟨o1, o2, Nat.succ_pos _, o4⟩
  have si := icmphdr_words_sum { i with checksum := 0 }
  have so := icmp6hdr_words_sum { o with icmp6_cksum := 0 }
  dsimp only at si so
  have wi1 := csum_partial_lt _ 0 (by omega)
    (words16_lt32 (icmphdr_words16 hwi0))
  have wi2 := csum_partial_mod _ 0 (by omega)
    (words16_lt32 (icmphdr_words16 hwi0))
  have wo1 := csum_partial_lt _ 0 (by omega)
    (words16_lt32 (icmp6hdr_words16 hwo0))
  have wo2 := csum_partial_mod _ 0 (by omega)
    (words16_lt32 (icmp6hdr_words16 hwo0))
  rw [si] at wi2
  rw [so] at wo2
  clear si so hwi0 hwo0 hwi
  have e1 : (update_icmp6_csum env i o).icmp6_type = o.icmp6_type := rfl
  have e2 : (update_icmp6_csum env i o).icmp6_code = o.icmp6_code := rfl
  have e3 : (update_icmp6_csum env i o).icmp6_dataun = o.icmp6_dataun := rfl
  have hck : (update_icmp6_csum env i o).icmp6_cksum
      = csum_ipv6_magic env.out_ip6.saddr env.out_ip6.daddr env.datagram_len
          58 (csum_add (csum_sub (not32 i.checksum)
            ( csum_partial ({ i with checksum := 0 } : icmphdr).words 0))
            ( csum_partial ({ o with icmp6_cksum := 0 } : icmp6hdr).words 0))
      := by
    unfold update_icmp6_csum csum_unfold NEXTHDR_ICMP
    rfl
  generalize csum_partial ({ i with checksum := 0 } : icmphdr).words 0
    = iw at wi1 wi2 hck
  generalize csum_partial ({ o with icmp6_cksum := 0 } : icmp6hdr).words 0
    = ow at wo1 wo2 hck
  have a1 := not32_lt i.checksum
  have a2 := not32_mod i.checksum (by omega)
  generalize not32 i.checksum = c0 at a1 a2 hck
  have b1 := csum_sub_lt iw a1
  have b2 := csum_sub_mod a1 wi1
  generalize csum_sub c0 iw = c1 at b1 b2 hck
  have r1 : (c1 + iw + i.checksum) % 65535 = 0 := by omega
  clear a1 a2 b2
  have f1 := csum_add_lt b1 wo1
  have f2 := csum_add_mod b1 wo1
  generalize csum_add c1 ow = c2 at f1 f2 hck
  have m1 := csum_ipv6_magic_lt env.out_ip6.saddr env.out_ip6.daddr
    env.datagram_len 58 c2
  have m2 := csum_ipv6_magic_mod hs hd hl (by omega : 58 < 4294967296) f1
  rw [← hck] at m1 m2
  have hwf : (update_icmp6_csum env i o).wf := by
    refine ⟨?_, ?_, m1, ?_⟩
    · rw [e1]; exact o1
    · rw [e2]; exact o2
    · rw [e3]; exact o4
  have hwo : words16 ((update_icmp6_csum env i o).words ++ env.payload) := by
    intro w hw
    rcases List.mem_append.1 hw with h | h
    · exact icmp6hdr_words16 hwf w h
    · exact hp w h
  rw [l4_csum_ok6_iff hs hd hl (by decide) (by decide) hwo,
    List.sum_append, icmp6hdr_words_sum, e1, e2, e3]
  unfold NEXTHDR_ICMP
  clear hck hwf hwo e1 e2 e3
  generalize (update_icmp6_csum env i o).icmp6_cksum = c at m1 m2 ⊢
  have m3 : (c + c2 + (env.out_ip6.saddr.total + env.out_ip6.daddr.total
      + env.datagram_len + 58)) % 65535 = 0 := by
    rw [← Nat.add_assoc, ← Nat.add_assoc, ← Nat.add_assoc]
    exact m2
  have key := update_icmp6_csum_arith wi2 wo2 r1 f2 m3 hin1
  rw [← Nat.add_assoc, ← Nat.add_assoc, ← Nat.add_assoc] at key
  exact key

/-- C20 (the code at the failing input): the ICMPv6 Echo Reply
`sample_echo_reply6` (identifier 0, sequence number 0, no payload) verifies
over its pseudo-header and header, `ttp64_icmp` continues in SIIT mode, and
the checksum `update_icmp4_csum` stores is 0x0000, which does not verify
over the outgoing ICMPv4 message: its sum folds to 0xFFFF, not to 0. The
checksum that verifies is 0xFFFF. The Echo Request with the same fields
keeps a verifying checksum, 0xF7FF. -/
theorem update_icmp4_csum_zero_reply :
    l4_csum_ok6 sample_env64_bare.in_ip6.saddr sample_env64_bare.in_ip6.daddr
        sample_env64_bare.datagram_len NEXTHDR_ICMP
        (sample_echo_reply6.words ++ sample_env64_bare.payload)
      ∧ ttp64_icmp sample_env64_bare sample_echo_reply6
          { type := 0, code := 0, checksum := 0, un := 0 }
        = (VERDICT_CONTINUE,
            { type := ICMP_ECHOREPLY, code := 0, checksum := 0, un := 0 })
      ∧ update_icmp4_csum sample_env64_bare sample_echo_reply6
          { type := ICMP_ECHOREPLY, code := 0, checksum := 0x8F01, un := 0 }
        = (0, { type := ICMP_ECHOREPLY, code := 0, checksum := 0, un := 0 })
      ∧ ¬ icmp4_csum_ok
          ((ttp64_icmp sample_env64_bare sample_echo_reply6
              { type := 0, code := 0, checksum := 0, un := 0 }).2.words
            ++ sample_env64_bare.payload)
      ∧ csum_fold ( csum_partial
          ((ttp64_icmp sample_env64_bare sample_echo_reply6
              { type := 0, code := 0, checksum := 0, un := 0 }).2.words
            ++ sample_env64_bare.payload) 0) = 0xFFFF
      ∧ icmp4_csum_ok
          (({ type := ICMP_ECHOREPLY, code := 0, checksum := 0xFFFF,
              un := 0 } : icmphdr).words ++ sample_env64_bare.payload)
      ∧ l4_csum_ok6 sample_env64_bare.in_ip6.saddr
          sample_env64_bare.in_ip6.daddr sample_env64_bare.datagram_len
          NEXTHDR_ICMP
          (sample_echo_request6.words ++ sample_env64_bare.payload)
      ∧ ttp64_icmp sample_env64_bare sample_echo_request6
          { type := 0, code := 0, checksum := 0, un := 0 }
        = (VERDICT_CONTINUE,
            { type := ICMP_ECHO, code := 0, checksum := 0xF7FF, un := 0 })
      ∧ icmp4_csum_ok
          ((ttp64_icmp sample_env64_bare sample_echo_request6
              { type := 0, code := 0, checksum := 0, un := 0 }).2.words
            ++ sample_env64_bare.payload) := by
  decide

/-! ## C21 and C22: the checksum `ttp46_udp` stores -/

/-- The outgoing UDP header before its checksum is settled: the copy of the
incoming one, with the ports of the tuple in NAT64 mode. -/
theorem ttp46_udp_zero_eq (nat64 : Bool) (t6 : tuple6) (partial_csum amend : Bool)
    (in_ip4 : iphdr) (out_ip6 : ipv6hdr) (udp_in : udphdr)
    (payload : List Nat) (datagram_len : Nat) (h0 : udp_in.check = 0) :
    ttp46_udp nat64 t6 partial_csum amend in_ip4 out_ip6 udp_in payload
        datagram_len
      = match handle_zero_csum nat64 amend in_ip4 out_ip6
          (if nat64 then
            { udp_in with source := cpu_to_be16 t6.src.l4,
                          dest := cpu_to_be16 t6.dst.l4 }
           else udp_in) payload datagram_len with
        | none =>
          drop_icmp
            (if nat64 then
              { udp_in with source := cpu_to_be16 t6.src.l4,
                            dest := cpu_to_be16 t6.dst.l4 }
             else udp_in) ICMPERR_FILTER 0
        | some udp_out =>
          { result := VERDICT_CONTINUE, sent := [], out := udp_out } := by
  unfold ttp46_udp
  dsimp only
  exact (if_neg (not_not.mpr h0)).trans rfl

/-- A counterexample to C21 as stated: in NAT64 mode a UDP packet with a
zero checksum and MF set is amended although compute-udp-csum-zero is off;
`ttp46_udp` continues with the computed checksum 0xC4CB. -/
theorem ttp46_udp_nat64_amends_fragment :
    is_mf_set_ipv4 (sample_udp_ip4 0x2000) = true
      ∧ (ttp46_udp true sample_tuple6 false false (sample_udp_ip4 0x2000)
          sample_udp_ip6 (sample_udp 0) sample_payload 14).result
        = VERDICT_CONTINUE
      ∧ (ttp46_udp true sample_tuple6 false false (sample_udp_ip4 0x2000)
          sample_udp_ip6 (sample_udp 0) sample_payload 14).sent = []
      ∧ (ttp46_udp true sample_tuple6 false false (sample_udp_ip4 0x2000)
          sample_udp_ip6 (sample_udp 0) sample_payload 14).out
        = { source := 6000, dest := 5000, len := 14, check := 0xC4CB } := by
  decide

/-- C21 (amended): for an IPv4 UDP packet whose checksum field is zero, a
SIIT translator drops the packet, asking for one ICMP error, when MF is set
(whatever compute-udp-csum-zero says) and when MF is clear and
compute-udp-csum-zero is off; when MF is clear and compute-udp-csum-zero is
on, and always in NAT64 mode, `ttp46_udp` continues without an ICMP error
and stores the checksum computed over the new IPv6 pseudo-header, the new
UDP header (checksum field zero) and the payload of the packet; for fields
that fit their widths the stored checksum verifies. -/
theorem ttp46_udp_zero_csum (nat64 : Bool) (t6 : tuple6)
    (partial_csum amend : Bool) (in_ip4 : iphdr) (out_ip6 : ipv6hdr)
    (udp_in : udphdr) (payload : List Nat) (datagram_len : Nat)
    (h0 : udp_in.check = 0) :
    (nat64 = false → is_mf_set_ipv4 in_ip4 = true →
        ttp46_udp nat64 t6 partial_csum amend in_ip4 out_ip6 udp_in payload
            datagram_len
          = drop_icmp udp_in ICMPERR_FILTER 0)
      ∧ (nat64 = false → is_mf_set_ipv4 in_ip4 = false → amend = false →
        ttp46_udp nat64 t6 partial_csum amend in_ip4 out_ip6 udp_in payload
            datagram_len
          = drop_icmp udp_in ICMPERR_FILTER 0)
      ∧ (nat64 = true ∨ (is_mf_set_ipv4 in_ip4 = false ∧ amend = true) →
        (ttp46_udp nat64 t6 partial_csum amend in_ip4 out_ip6 udp_in payload
            datagram_len).result = VERDICT_CONTINUE
          ∧ (ttp46_udp nat64 t6 partial_csum amend in_ip4 out_ip6 udp_in
              payload datagram_len).sent = []
          ∧ (ttp46_udp nat64 t6 partial_csum amend in_ip4 out_ip6 udp_in
              payload datagram_len).out
            = { source := if nat64 then cpu_to_be16 t6.src.l4
                          else udp_in.source,
                dest := if nat64 then cpu_to_be16 t6.dst.l4 else udp_in.dest,
                len := udp_in.len,
                check := csum_ipv6_magic out_ip6.saddr out_ip6.daddr
                  datagram_len IPPROTO_UDP
                  ( csum_partial
                    ([if nat64 then cpu_to_be16 t6.src.l4 else udp_in.source,
                      if nat64 then cpu_to_be16 t6.dst.l4 else udp_in.dest,
                      udp_in.len, 0] ++ payload) 0) }
          ∧ (udp_in.wf → out_ip6.saddr.wf → out_ip6.daddr.wf →
              datagram_len < 4294967296 → words16 payload →
              l4_csum_ok6 out_ip6.saddr out_ip6.daddr datagram_len
                IPPROTO_UDP
                ((ttp46_udp nat64 t6 partial_csum amend in_ip4 out_ip6
                    udp_in payload datagram_len).out.words ++ payload))) := by
  rw [ttp46_udp_zero_eq nat64 t6 partial_csum amend in_ip4 out_ip6 udp_in
    payload datagram_len h0]
  refine ⟨?_, ?_, ?_⟩
  · intro hn hmf
    subst hn
    simp [handle_zero_csum, can_compute_csum, hmf]
  · intro hn hmf ham
    subst hn; subst ham
    simp [handle_zero_csum, can_compute_csum, hmf]
  · intro hc
    have hcc : can_compute_csum nat64 amend in_ip4 = true := by
      unfold can_compute_csum
      rcases hc with h | ⟨h1, h2⟩
      · simp [h]
      · simp [h1, h2]
    have hz : ∀ hdr : udphdr, handle_zero_csum nat64 amend in_ip4 out_ip6 hdr
        payload datagram_len
        = some { hdr with check := (csum_ipv6_magic out_ip6.saddr
            out_ip6.daddr datagram_len IPPROTO_UDP
            ( csum_partial payload ( csum_partial hdr.words 0))) } := by
      intro hdr
      unfold handle_zero_csum
      simp [hcc]
    rw [hz]
    dsimp only
    refine ⟨rfl, rfl, ?_, ?_⟩
    · rw [csum_partial_append]
      cases nat64 <;> simp [udphdr.words, h0]
    · intro hu hs hd hl hp
      obtain ⟨u1, u2, u3, u4⟩ := hu
      have hw0 : (if nat64 = true then
            ({ udp_in with source := cpu_to_be16 t6.src.l4,
                           dest := cpu_to_be16 t6.dst.l4 } : udphdr)
           else udp_in).wf := by
        have c1 := cpu_to_be16_lt t6.src.l4
        have c2 := cpu_to_be16_lt t6.dst.l4
        cases nat64
        · exact ⟨u1, u2, u3, u4⟩
        · exact ⟨c1, c2, u3, u4⟩
      have hck : (if nat64 = true then
            ({ udp_in with source := cpu_to_be16 t6.src.l4,
                           dest := cpu_to_be16 t6.dst.l4 } : udphdr)
           else udp_in).check = 0 := by
        cases nat64 <;> exact h0
      generalize (if nat64 = true then
            ({ udp_in with source := cpu_to_be16 t6.src.l4,
                           dest := cpu_to_be16 t6.dst.l4 } : udphdr)
           else udp_in) = hdr at hw0 hck ⊢
      obtain ⟨w1, w2, w3, w4⟩ := hw0
      have hX1 := csum_partial_lt (hdr.words ++ payload) 0 (by omega)
        (words16_lt32 (words16_append (udphdr_words16 ⟨w1, w2, w3, w4⟩) hp))
      have hX2 := csum_partial_mod (hdr.words ++ payload) 0 (by omega)
        (words16_lt32 (words16_append (udphdr_words16 ⟨w1, w2, w3, w4⟩) hp))
      rw [csum_partial_append] at hX1 hX2
      rw [List.sum_append, udphdr_words_sum] at hX2
      have hm := csum_ipv6_magic_mod hs hd hl
        (by decide : IPPROTO_UDP < 4294967296) hX1
      have hc := csum_ipv6_magic_lt out_ip6.saddr out_ip6.daddr datagram_len
        IPPROTO_UDP ( csum_partial payload ( csum_partial hdr.words 0))
      have hwf : ({ hdr with check := (csum_ipv6_magic out_ip6.saddr
          out_ip6.daddr datagram_len IPPROTO_UDP
          ( csum_partial payload ( csum_partial hdr.words 0))) } : udphdr).wf :=
        ⟨w1, w2, w3, hc⟩
      rw [l4_csum_ok6_iff hs hd hl (by decide) (by decide)
        (words16_append (udphdr_words16 hwf) hp),
        List.sum_append, udphdr_words_sum]
      dsimp only
      clear hwf
      generalize csum_ipv6_magic out_ip6.saddr out_ip6.daddr datagram_len
        IPPROTO_UDP ( csum_partial payload ( csum_partial hdr.words 0)) = c
        at hm hc ⊢
      generalize csum_partial payload ( csum_partial hdr.words 0) = X
        at hX1 hX2 hm
      unfold IPPROTO_UDP at hm ⊢
      unfold in6_addr.total at hm ⊢
      omega

/-- C21 on an example: a SIIT translator with compute-udp-csum-zero on
continues on an unfragmented UDP packet with a zero checksum, and the
checksum it stores verifies over the IPv6 pseudo-header, the UDP header and
the payload. -/
theorem ttp46_udp_zero_csum_witness :
    (ttp46_udp false sample_tuple6 false true (sample_udp_ip4 0)
        sample_udp_ip6 (sample_udp 0) sample_payload 14).result
      = VERDICT_CONTINUE
      ∧ l4_csum_ok6 sample_udp_ip6.saddr sample_udp_ip6.daddr 14 IPPROTO_UDP
        ((ttp46_udp false sample_tuple6 false true (sample_udp_ip4 0)
            sample_udp_ip6 (sample_udp 0) sample_payload 14).out.words
          ++ sample_payload) :=
  have h := (ttp46_udp_zero_csum false sample_tuple6 false true
    (sample_udp_ip4 0) sample_udp_ip6 (sample_udp 0) sample_payload 14
    rfl).2.2 (Or.inr ⟨by decide, rfl⟩)
  ⟨h.1, h.2.2.2 (by decide) (by decide) (by decide) (by decide)
    (by decide)⟩

theorem csum_fold_eq_ffff {x : Nat} (hx : x < 4294967296) :
    csum_fold x = 65535 ↔ x = 0 := by
  obtain ⟨s, h1, h2, _, h4⟩ := csum_fold_eq hx
  omega

/-- The new `ttp64_udp` never stores a zero checksum for a packet that is
not `CHECKSUM_PARTIAL`: a folded result of zero is replaced by 0xFFFF. -/
theorem ttp64_udp_check_ne_zero (nat64 : Bool) (t4 : tuple4) (cpe : Bool)
    (ip6 : ipv6hdr) (ip4 : iphdr) (udp_in : udphdr) :
    (ttp64_udp nat64 t4 false cpe ip6 ip4 udp_in).out.check ≠ 0 := by
  unfold ttp64_udp
  dsimp only
  cases nat64 <;>
    simp only [Bool.not_false, if_true, Bool.false_eq_true, if_false] <;>
    split <;> first | assumption | simp [CSUM_MANGLED_0]

/-- For a `CHECKSUM_PARTIAL` packet the new `ttp64_udp` stores the
pseudo-header seed, which is nonzero as soon as one of the outgoing
addresses is. -/
theorem ttp64_udp_partial_check_ne_zero (nat64 : Bool) (t4 : tuple4)
    (cpe : Bool) (ip6 : ipv6hdr) (ip4 : iphdr) (udp_in : udphdr)
    (hc : udp_in.check < 65536) (hs : ip4.saddr < 4294967296)
    (hd : ip4.daddr < 4294967296) (hnz : ip4.saddr ≠ 0 ∨ ip4.daddr ≠ 0) :
    (ttp64_udp nat64 t4 true cpe ip6 ip4 udp_in).out.check ≠ 0 := by
  unfold ttp64_udp
  simp only [Bool.not_true, Bool.false_eq_true, if_false]
  unfold update_csum_6to4_partial csum_unfold
  dsimp only
  have p1 := csum_tcpudp_nofold_lt ip4.saddr ip4.daddr 0 0 0
  have p2 : csum_tcpudp_nofold ip4.saddr ip4.daddr 0 0 0 ≠ 0 := by
    unfold csum_tcpudp_nofold
    rw [Ne, from64to32_eq_zero (by omega)]
    omega
  generalize csum_tcpudp_nofold ip4.saddr ip4.daddr 0 0 0 = p at p1 p2 ⊢
  have a1 := csum_sub_lt
    (not32 (csum_ipv6_magic ip6.saddr ip6.daddr 0 0 0))
    (by omega : udp_in.check < 4294967296)
  generalize csum_sub udp_in.check
    (not32 (csum_ipv6_magic ip6.saddr ip6.daddr 0 0 0)) = a at a1 ⊢
  have f1 := csum_add_lt a1 p1
  have f2 := csum_add_eq_zero a1 p1
  have f3 := csum_fold_eq_ffff f1
  have f4 := csum_fold_lt (csum_add a p)
  generalize csum_fold (csum_add a p) = c at f3 f4 ⊢
  have hc0 : c ≠ 65535 := by
    intro h
    exact p2 (f2.mp (f3.mp h)).2
  cases nat64 <;> (unfold not32; omega)

/-- The `ttp64_udp` of `mod/ttp/6to4.c` never stores a zero checksum. -/
theorem ttp_ttp64_udp_check_ne_zero (t4 : tuple4) (computable : Bool)
    (ip6 : ipv6hdr) (ip4 : iphdr) (udp_in udp_out0 : udphdr)
    (payload : List Nat) :
    (ttp.ttp64_udp t4 computable ip6 ip4 udp_in udp_out0 payload).2.1.check
      ≠ 0 := by
  unfold ttp.ttp64_udp
  dsimp only
  cases computable <;>
    simp only [if_true, Bool.false_eq_true, if_false] <;>
    first
    | exact (by decide : CSUM_MANGLED_0 ≠ 0)
    | (split <;> first | assumption | simp [CSUM_MANGLED_0])

/-- C22 (the code at the failing input): the IPv4 UDP datagram `sample_udp`
with payload `sample_payload_ffff` and checksum 0xFFFF verifies between
192.0.2.1 and 198.51.100.7. Translated by a SIIT translator into the
addresses of `sample_udp_ip6`, `ttp46_udp` continues and stores the checksum
0x0000; the folded result of zero is not replaced. The checksum 0xFFFF
would verify. The same datagram sent with a zero checksum, amended by
`handle_zero_csum`, also leaves with the checksum 0x0000. -/
theorem ttp46_udp_zero_check_out :
    l4_csum_ok4 (sample_udp_ip4 0).saddr (sample_udp_ip4 0).daddr 14
        IPPROTO_UDP ((sample_udp 0xFFFF).words ++ sample_payload_ffff)
      ∧ (ttp46_udp false sample_tuple6 false false (sample_udp_ip4 0)
          sample_udp_ip6 (sample_udp 0xFFFF) sample_payload_ffff 14).result
        = VERDICT_CONTINUE
      ∧ (ttp46_udp false sample_tuple6 false false (sample_udp_ip4 0)
          sample_udp_ip6 (sample_udp 0xFFFF) sample_payload_ffff 14).out
        = { source := 5000, dest := 6000, len := 14, check := 0 }
      ∧ l4_csum_ok6 sample_udp_ip6.saddr sample_udp_ip6.daddr 14 IPPROTO_UDP
          ((sample_udp 0xFFFF).words ++ sample_payload_ffff)
      ∧ (ttp46_udp false sample_tuple6 false true (sample_udp_ip4 0)
          sample_udp_ip6 (sample_udp 0) sample_payload_ffff 14).result
        = VERDICT_CONTINUE
      ∧ (ttp46_udp false sample_tuple6 false true (sample_udp_ip4 0)
          sample_udp_ip6 (sample_udp 0) sample_payload_ffff 14).out
        = { source := 5000, dest := 6000, len := 14, check := 0 } := by
  decide

/-! ## C23 to C25: the SIIT address translation of `6to4.c` -/

/-- Every path through `generate_addr4_siit`, by the outcome of the three
lookups. -/
theorem generate_addr4_siit_cases (env : siit64_env) (addr6 : in6_addr)
    (addr4 : Nat) :
    ((env.eamt_xlat_6to4 addr6).1 = 0 →
        generate_addr4_siit env addr6 addr4
          = if env.must_not_translate (env.eamt_xlat_6to4 addr6).2 then
              (ADDRXLAT_ACCEPT, addr4, false)
            else (ADDRXLAT_CONTINUE, (env.eamt_xlat_6to4 addr6).2, false))
      ∧ ((env.eamt_xlat_6to4 addr6).1 ≠ 0 →
        (env.eamt_xlat_6to4 addr6).1 ≠ -ESRCH →
        generate_addr4_siit env addr6 addr4 = (ADDRXLAT_DROP, addr4, false))
      ∧ ((env.eamt_xlat_6to4 addr6).1 = -ESRCH →
        (env.pool6_get addr6).1 = -ESRCH →
        generate_addr4_siit env addr6 addr4
          = (ADDRXLAT_TRY_SOMETHING_ELSE, addr4, false))
      ∧ ((env.eamt_xlat_6to4 addr6).1 = -ESRCH →
        (env.pool6_get addr6).1 ≠ -ESRCH → (env.pool6_get addr6).1 ≠ 0 →
        generate_addr4_siit env addr6 addr4 = (ADDRXLAT_DROP, addr4, false))
      ∧ ((env.eamt_xlat_6to4 addr6).1 = -ESRCH →
        (env.pool6_get addr6).1 = 0 →
        (env.addr_6to4 addr6 (env.pool6_get addr6).2).1 ≠ 0 →
        generate_addr4_siit env addr6 addr4 = (ADDRXLAT_DROP, addr4, false))
      ∧ ((env.eamt_xlat_6to4 addr6).1 = -ESRCH →
        (env.pool6_get addr6).1 = 0 →
        (env.addr_6to4 addr6 (env.pool6_get addr6).2).1 = 0 →
        generate_addr4_siit env addr6 addr4
          = if env.blacklist_contains
                (env.addr_6to4 addr6 (env.pool6_get addr6).2).2 then
              (ADDRXLAT_ACCEPT, addr4, false)
            else if env.must_not_translate
                (env.addr_6to4 addr6 (env.pool6_get addr6).2).2 then
              (ADDRXLAT_ACCEPT, addr4, true)
            else
              (ADDRXLAT_CONTINUE,
                (env.addr_6to4 addr6 (env.pool6_get addr6).2).2, true)) := by
  have hE : (-ESRCH : Int) ≠ 0 := by decide
  refine ⟨?_, ?_, ?_, ?_, ?_, ?_⟩
  · intro h
    unfold generate_addr4_siit
    simp only [h, if_true]
  · intro h1 h2
    unfold generate_addr4_siit
    simp only [h1, h2, if_false, ne_eq, not_false_eq_true, if_true]
  · intro h1 h2
    unfold generate_addr4_siit
    simp only [h1, h2, hE, if_false, ne_eq, not_true_eq_false, if_true]
  · intro h1 h2 h3
    unfold generate_addr4_siit
    simp only [h1, h2, h3, hE, if_false, ne_eq, not_true_eq_false,
      not_false_eq_true, if_true]
  · intro h1 h2 h3
    unfold generate_addr4_siit
    simp only [h1, h2, h3, hE, hE.symm, if_false, ne_eq, not_true_eq_false,
      not_false_eq_true, if_true]
  · intro h1 h2 h3
    unfold generate_addr4_siit
    simp only [h1, h2, h3, hE, hE.symm, if_false, ne_eq, not_true_eq_false,
      not_false_eq_true, if_true]

/-- A counterexample to C23 as stated: 64:ff9b::192.0.2.66 has no EAM entry
and lies in pool6, its embedded address 192.0.2.66 is blacklisted, and
`generate_addr4_siit` returns with `was_6052` false (the verdict is
ACCEPT). -/
theorem generate_addr4_siit_blacklisted_flag :
    spec_via_pool6 sample_siit64_overlap
        { a0 := 0x0064ff9b, a1 := 0, a2 := 0, a3 := 0xc0000242 } = true
      ∧ generate_addr4_siit sample_siit64_overlap
          { a0 := 0x0064ff9b, a1 := 0, a2 := 0, a3 := 0xc0000242 } 0
        = (ADDRXLAT_ACCEPT, 0, false) := by
  decide

/-- C23 (amended): `generate_addr4_siit` follows the 6 to 4 resolution
order. If the EAM table translates the address, that IPv4 address is the
candidate, the prefix, the extraction and the blacklist are not consulted,
and `was_6052` is false. Otherwise, if the address lies in pool6 and the
extraction succeeds, the candidate is the embedded address; `was_6052` is
true unless the blacklist contains the candidate, in which case the result
is ACCEPT with `was_6052` false. If neither table knows the address the
result is TRY_SOMETHING_ELSE; any other lookup failure yields DROP. The
result for a candidate is CONTINUE or ACCEPT, and on CONTINUE the candidate
is written to the output address. -/
theorem generate_addr4_siit_resolution (env : siit64_env) (addr6 : in6_addr)
    (addr4 : Nat) :
    ((env.eamt_xlat_6to4 addr6).1 = 0 →
        (generate_addr4_siit env addr6 addr4).2.2 = false
          ∧ ((generate_addr4_siit env addr6 addr4).1 = ADDRXLAT_CONTINUE
            ∨ (generate_addr4_siit env addr6 addr4).1 = ADDRXLAT_ACCEPT)
          ∧ ((generate_addr4_siit env addr6 addr4).1 = ADDRXLAT_CONTINUE →
            (generate_addr4_siit env addr6 addr4).2.1
              = (env.eamt_xlat_6to4 addr6).2)
          ∧ ∀ (pg : in6_addr → Int × prefix6)
              (ex : in6_addr → prefix6 → Int × Nat) (bl : Nat → Bool),
            generate_addr4_siit
                { env with pool6_get := pg, addr_6to4 := ex,
                           blacklist_contains := bl } addr6 addr4
              = generate_addr4_siit env addr6 addr4)
      ∧ (spec_via_pool6 env addr6 = true →
        (env.blacklist_contains
              (env.addr_6to4 addr6 (env.pool6_get addr6).2).2 = true →
            generate_addr4_siit env addr6 addr4
              = (ADDRXLAT_ACCEPT, addr4, false))
          ∧ (env.blacklist_contains
              (env.addr_6to4 addr6 (env.pool6_get addr6).2).2 = false →
            (generate_addr4_siit env addr6 addr4).2.2 = true
              ∧ ((generate_addr4_siit env addr6 addr4).1 = ADDRXLAT_CONTINUE
                ∨ (generate_addr4_siit env addr6 addr4).1 = ADDRXLAT_ACCEPT)
              ∧ ((generate_addr4_siit env addr6 addr4).1
                  = ADDRXLAT_CONTINUE →
                (generate_addr4_siit env addr6 addr4).2.1
                  = (env.addr_6to4 addr6 (env.pool6_get addr6).2).2)))
      ∧ ((env.eamt_xlat_6to4 addr6).1 = -ESRCH →
        (env.pool6_get addr6).1 = -ESRCH →
        generate_addr4_siit env addr6 addr4
          = (ADDRXLAT_TRY_SOMETHING_ELSE, addr4, false))
      ∧ ((env.eamt_xlat_6to4 addr6).1 ≠ 0 →
        spec_via_pool6 env addr6 = false →
        ¬ ((env.eamt_xlat_6to4 addr6).1 = -ESRCH
          ∧ (env.pool6_get addr6).1 = -ESRCH) →
        generate_addr4_siit env addr6 addr4
          = (ADDRXLAT_DROP, addr4, false)) := by
  obtain ⟨c1, c2, c3, c4, c5, c6⟩ := generate_addr4_siit_cases env addr6 addr4
  refine ⟨?_, ?_, c3, ?_⟩
  · intro h
    refine ⟨?_, ?_, ?_, ?_⟩
    · rw [c1 h]; split <;> rfl
    · rw [c1 h]; split
      · exact Or.inr rfl
      · exact Or.inl rfl
    · rw [c1 h]; split
      · intro hh; cases hh
      · intro _; rfl
    · intro pg ex bl
      rw [c1 h]
      exact (generate_addr4_siit_cases
        { env with pool6_get := pg, addr_6to4 := ex,
                   blacklist_contains := bl } addr6 addr4).1 h
  · intro hv
    unfold spec_via_pool6 at hv
    obtain ⟨h1, h2, h3⟩ := of_decide_eq_true hv
    refine ⟨?_, ?_⟩
    · intro hb
      rw [c6 h1 h2 h3, if_pos hb]
    · intro hb
      rw [c6 h1 h2 h3, if_neg (by rw [hb]; decide)]
      refine ⟨?_, ?_, ?_⟩
      · split <;> rfl
      · split
        · exact Or.inr rfl
        · exact Or.inl rfl
      · split
        · intro hh; cases hh
        · intro _; rfl
  · intro h0 hv hn
    unfold spec_via_pool6 at hv
    have hv' := of_decide_eq_false hv
    by_cases h1 : (env.eamt_xlat_6to4 addr6).1 = -ESRCH
    · by_cases h2 : (env.pool6_get addr6).1 = -ESRCH
      · exact absurd ⟨h1, h2⟩ hn
      · by_cases h3 : (env.pool6_get addr6).1 = 0
        · by_cases h4 : (env.addr_6to4 addr6 (env.pool6_get addr6).2).1 = 0
          · exact absurd ⟨h1, h3, h4⟩ hv'
          · exact c5 h1 h3 h4
        · exact c4 h1 h2 h3
    · exact c2 h0 h1

/-- C23 on examples: 64:ff9b::192.0.2.1 has an EAM entry and lies inside
the prefix, and the EAM entry wins (198.51.100.7, `was_6052` false);
64:ff9b::192.0.2.9 has no EAM entry and yields the embedded address
192.0.2.9 with `was_6052` true. -/
theorem generate_addr4_siit_resolution_witness :
    ((sample_siit64_overlap.pool6_get
          { a0 := 0x0064ff9b, a1 := 0, a2 := 0, a3 := 0xc0000201 }).1 = 0
      ∧ (generate_addr4_siit sample_siit64_overlap
          { a0 := 0x0064ff9b, a1 := 0, a2 := 0, a3 := 0xc0000201 } 0).2.2
        = false)
      ∧ (generate_addr4_siit sample_siit64_overlap
          { a0 := 0x0064ff9b, a1 := 0, a2 := 0, a3 := 0xc0000209 } 0).2.2
        = true :=
  ⟨⟨by decide,
    ((generate_addr4_siit_resolution sample_siit64_overlap
      { a0 := 0x0064ff9b, a1 := 0, a2 := 0, a3 := 0xc0000201 } 0).1
      (by decide)).1⟩,
   (((generate_addr4_siit_resolution sample_siit64_overlap
      { a0 := 0x0064ff9b, a1 := 0, a2 := 0, a3 := 0xc0000209 } 0).2.1
      (by decide)).2 (by decide)).1⟩

/-- A counterexample to C24 as stated: the EAM table maps
64:ff9b::192.0.2.1 to 198.51.100.7, which is blacklisted, and
`generate_addr4_siit` returns CONTINUE and writes 198.51.100.7. -/
theorem generate_addr4_siit_eam_blacklisted :
    sample_siit64_overlap.eamt_xlat_6to4
        { a0 := 0x0064ff9b, a1 := 0, a2 := 0, a3 := 0xc0000201 }
      = (0, 0xc6336407)
      ∧ sample_siit64_overlap.blacklist_contains 0xc6336407 = true
      ∧ generate_addr4_siit sample_siit64_overlap
          { a0 := 0x0064ff9b, a1 := 0, a2 := 0, a3 := 0xc0000201 } 0
        = (ADDRXLAT_CONTINUE, 0xc6336407, false) := by
  decide

/-- C24 (amended): a candidate obtained by stripping the pool6 prefix that
the blacklist contains yields ACCEPT and no output address is written; a
candidate matched by the must-not-translate set, whether it came from an
EAM entry or from a prefix (and then passed the blacklist), yields ACCEPT
and no output address is written; a candidate from an EAM entry is not
looked up in the blacklist: outside the must-not-translate set it yields
CONTINUE and is written, whatever the blacklist contains. -/
theorem generate_addr4_siit_accept (env : siit64_env) (addr6 : in6_addr)
    (addr4 : Nat) :
    (spec_via_pool6 env addr6 = true →
        env.blacklist_contains
          (env.addr_6to4 addr6 (env.pool6_get addr6).2).2 = true →
        (generate_addr4_siit env addr6 addr4).1 = ADDRXLAT_ACCEPT
          ∧ (generate_addr4_siit env addr6 addr4).2.1 = addr4)
      ∧ (spec_via_pool6 env addr6 = true →
        env.must_not_translate
          (env.addr_6to4 addr6 (env.pool6_get addr6).2).2 = true →
        (generate_addr4_siit env addr6 addr4).1 = ADDRXLAT_ACCEPT
          ∧ (generate_addr4_siit env addr6 addr4).2.1 = addr4)
      ∧ ((env.eamt_xlat_6to4 addr6).1 = 0 →
        env.must_not_translate (env.eamt_xlat_6to4 addr6).2 = true →
        (generate_addr4_siit env addr6 addr4).1 = ADDRXLAT_ACCEPT
          ∧ (generate_addr4_siit env addr6 addr4).2.1 = addr4)
      ∧ ((env.eamt_xlat_6to4 addr6).1 = 0 →
        env.must_not_translate (env.eamt_xlat_6to4 addr6).2 = false →
        generate_addr4_siit env addr6 addr4
          = (ADDRXLAT_CONTINUE, (env.eamt_xlat_6to4 addr6).2, false)) := by
  obtain ⟨c1, _, _, _, _, c6⟩ := generate_addr4_siit_cases env addr6 addr4
  refine ⟨?_, ?_, ?_, ?_⟩
  · intro hv hb
    unfold spec_via_pool6 at hv
    obtain ⟨h1, h2, h3⟩ := of_decide_eq_true hv
    rw [c6 h1 h2 h3, if_pos hb]
    exact ⟨rfl, rfl⟩
  · intro hv hm
    unfold spec_via_pool6 at hv
    obtain ⟨h1, h2, h3⟩ := of_decide_eq_true hv
    rw [c6 h1 h2 h3, if_pos hm]
    split <;> exact ⟨rfl, rfl⟩
  · intro h hm
    rw [c1 h, if_pos hm]
    exact ⟨rfl, rfl⟩
  · intro h hm
    rw [c1 h, if_neg (by rw [hm]; decide)]

/-- C24 on examples: the prefix candidate 192.0.2.66 is blacklisted and the
prefix candidate 192.0.2.255 must not be translated; both yield ACCEPT and
the output address keeps its old value 7. -/
theorem generate_addr4_siit_accept_witness :
    ((generate_addr4_siit sample_siit64_overlap
          { a0 := 0x0064ff9b, a1 := 0, a2 := 0, a3 := 0xc0000242 } 7).1
        = ADDRXLAT_ACCEPT
      ∧ (generate_addr4_siit sample_siit64_overlap
          { a0 := 0x0064ff9b, a1 := 0, a2 := 0, a3 := 0xc0000242 } 7).2.1 = 7)
      ∧ ((generate_addr4_siit sample_siit64_overlap
          { a0 := 0x0064ff9b, a1 := 0, a2 := 0, a3 := 0xc00002ff } 7).1
        = ADDRXLAT_ACCEPT
      ∧ (generate_addr4_siit sample_siit64_overlap
          { a0 := 0x0064ff9b, a1 := 0, a2 := 0, a3 := 0xc00002ff } 7).2.1
        = 7) :=
  ⟨(generate_addr4_siit_accept sample_siit64_overlap
      { a0 := 0x0064ff9b, a1 := 0, a2 := 0, a3 := 0xc0000242 } 7).1
      (by decide) (by decide),
   (generate_addr4_siit_accept sample_siit64_overlap
      { a0 := 0x0064ff9b, a1 := 0, a2 := 0, a3 := 0xc00002ff } 7).2.1
      (by decide) (by decide)⟩

/-- Whenever `generate_addr4_siit` lets the caller go on, `was_6052` tells
whether the candidate came from the prefix. -/
theorem generate_addr4_siit_was_6052 (env : siit64_env) (addr6 : in6_addr)
    (addr4 : Nat)
    (h : (generate_addr4_siit env addr6 addr4).1 = ADDRXLAT_CONTINUE
      ∨ (generate_addr4_siit env addr6 addr4).1
          = ADDRXLAT_TRY_SOMETHING_ELSE) :
    (generate_addr4_siit env addr6 addr4).2.2 = spec_via_pool6 env addr6 := by
  obtain ⟨c1, c2, c3, c4, c5, c6⟩ := generate_addr4_siit_cases env addr6 addr4
  have hE : (-ESRCH : Int) ≠ 0 := by decide
  by_cases h0 : (env.eamt_xlat_6to4 addr6).1 = 0
  · have hv : spec_via_pool6 env addr6 = false := by
      unfold spec_via_pool6
      apply decide_eq_false
      rintro ⟨h1, _⟩
      rw [h0] at h1
      exact hE h1.symm
    rw [hv, c1 h0]
    split <;> rfl
  · by_cases h1 : (env.eamt_xlat_6to4 addr6).1 = -ESRCH
    · by_cases h2 : (env.pool6_get addr6).1 = -ESRCH
      · have hv : spec_via_pool6 env addr6 = false := by
          unfold spec_via_pool6
          apply decide_eq_false
          rintro ⟨_, h3, _⟩
          rw [h2] at h3
          exact hE h3
        rw [hv, c3 h1 h2]
      · by_cases h3 : (env.pool6_get addr6).1 = 0
        · by_cases h4 : (env.addr_6to4 addr6 (env.pool6_get addr6).2).1 = 0
          · have hv : spec_via_pool6 env addr6 = true := by
              unfold spec_via_pool6
              exact decide_eq_true ⟨h1, h3, h4⟩
            rw [hv]
            rw [c6 h1 h3 h4] at h ⊢
            by_cases hb : env.blacklist_contains
                (env.addr_6to4 addr6 (env.pool6_get addr6).2).2 = true
            · rw [if_pos hb] at h
              rcases h with h | h <;> cases h
            · rw [if_neg hb] at h ⊢
              by_cases hm : env.must_not_translate
                  (env.addr_6to4 addr6 (env.pool6_get addr6).2).2 = true
              · rw [if_pos hm] at h
                rcases h with h | h <;> cases h
              · rw [if_neg hm]
          · rw [c5 h1 h3 h4] at h
            rcases h with h | h <;> cases h
        · rw [c4 h1 h2 h3] at h
          rcases h with h | h <;> cases h
    · rw [c2 h0 h1] at h
      rcases h with h | h <;> cases h

/-- C25: whenever `translate_addrs64_siit` returns Continue, the flag
`is_hairpin` of the outgoing packet is true if the EAM hairpin mode is
intrinsic and either (A) the packet is outer, is not an ICMPv6 error, its
destination came from pool6 and the translated destination lies in an EAM
entry, or (B) the packet is inner, its source came from pool6 and the
translated source lies in an EAM entry; in every other case the flag keeps
the value it had. -/
theorem translate_addrs64_siit_hairpin (env : siit64_env) (inp : packet6)
    (hdr4 : iphdr) (hairpin0 : Bool)
    (hc : (translate_addrs64_siit env inp hdr4 hairpin0).1
      = VERDICT_CONTINUE) :
    (translate_addrs64_siit env inp hdr4 hairpin0).2.2
      = if env.eam_hairpin_mode = EAM_HAIRPIN_INTRINSIC
          ∧ ((inp.pkt.is_outer = true ∧ inp.pkt.is_icmp_error = false
              ∧ spec_via_pool6 env inp.hdr.daddr = true
              ∧ env.eamt_contains4
                (translate_addrs64_siit env inp hdr4 hairpin0).2.1.daddr
                  = true)
            ∨ (inp.pkt.is_inner = true
              ∧ spec_via_pool6 env inp.hdr.saddr = true
              ∧ env.eamt_contains4
                (translate_addrs64_siit env inp hdr4 hairpin0).2.1.saddr
                  = true))
        then true else hairpin0 := by
  have hd := generate_addr4_siit_was_6052 env inp.hdr.daddr hdr4.daddr
  have hs := generate_addr4_siit_was_6052 env inp.hdr.saddr hdr4.saddr
  unfold translate_addrs64_siit at hc ⊢
  dsimp only at hc ⊢
  generalize generate_addr4_siit env inp.hdr.daddr hdr4.daddr = d
    at hc hd ⊢
  generalize generate_addr4_siit env inp.hdr.saddr hdr4.saddr = s
    at hc hs ⊢
  obtain ⟨d1, d2, d3⟩ := d
  obtain ⟨s1, s2, s3⟩ := s
  dsimp only at hc hd hs ⊢
  generalize spec_via_pool6 env inp.hdr.daddr = vd at hd ⊢
  generalize spec_via_pool6 env inp.hdr.saddr = vs at hs ⊢
  unfold packet.is_outer
  cases d1 <;> try (dsimp only at hc; cases hc)
  have hd' := hd (Or.inl rfl)
  subst hd'
  cases s1
  · have hs' := hs (Or.inl rfl)
    subst hs'
    dsimp only
    clear hc hd hs
    generalize inp.pkt.is_inner = inn
    generalize inp.pkt.is_icmp_error = ie
    by_cases hm : env.eam_hairpin_mode = EAM_HAIRPIN_INTRINSIC <;>
      cases inn <;> cases ie <;> cases d3 <;> cases s3 <;>
      cases hcd : env.eamt_contains4 d2 <;>
      cases hcs : env.eamt_contains4 s2 <;> simp [hm, hcd, hcs]
  · have hs' := hs (Or.inr rfl)
    subst hs'
    dsimp only at hc ⊢
    clear hd hs
    by_cases he : inp.pkt.is_icmp_error = true
    · by_cases hr : env.rfc6791_get.1 = 0
      · simp only [he, hr, if_true]
        clear hc
        generalize inp.pkt.is_inner = inn
        by_cases hm : env.eam_hairpin_mode = EAM_HAIRPIN_INTRINSIC <;>
          cases inn <;> cases d3 <;> cases s3 <;>
          cases hcd : env.eamt_contains4 d2 <;>
          cases hcs : env.eamt_contains4 env.rfc6791_get.2 <;>
          simp [hm, hcd, hcs]
      · simp only [he, hr, if_true, if_false] at hc
        cases hc
    · simp only [he, if_false] at hc
      cases hc
  · dsimp only at hc; cases hc
  · dsimp only at hc; cases hc

/-- C25 on an example (condition set A): an outer packet that is no ICMPv6
error, whose destination 64:ff9b::192.0.2.1 is translated through pool6
into 192.0.2.1, an address inside an EAM entry, leaves
`translate_addrs64_siit` marked as a hairpin. -/
theorem translate_addrs64_siit_hairpin_witness :
    (translate_addrs64_siit sample_siit64_hairpin (sample_in6 64 false)
        sample_ip4 false).1 = VERDICT_CONTINUE
      ∧ (translate_addrs64_siit sample_siit64_hairpin (sample_in6 64 false)
        sample_ip4 false).2.2 = true :=
  ⟨by decide,
   (translate_addrs64_siit_hairpin sample_siit64_hairpin (sample_in6 64 false)
      sample_ip4 false (by decide)).trans (by decide)⟩

/-! ## C29: ICMP errors for inner packets -/

/-- For an inner packet `ttp64_ipv4` asks for no ICMP error. -/
theorem ttp64_ipv4_inner_sent (cfg : hdr4_config) (nat64 : Bool)
    (siit : siit64_env) (t4 : tuple4) (random uninit : Nat) (in6 : packet6)
    (out : packet) (hdr0 : iphdr) (hairpin0 : Bool)
    (hi : in6.pkt.is_inner = true) :
    (ttp64_ipv4 cfg nat64 siit t4 random uninit in6 out hdr0 hairpin0).sent
      = [] := by
  unfold ttp64_ipv4
  simp only [packet.is_outer, hi, Bool.not_true, Bool.false_and,
    Bool.false_eq_true, if_false]
  split <;> rfl

/-- For an inner packet `ttp46_ipv6` returns, whatever the fuel, and asks
for no ICMP error. -/
theorem ttp46_ipv6_inner_sent (fuel : Nat) (env : xlat46_env) (in4 : packet4)
    (out : packet) (hdr0 : ipv6hdr) (hi : in4.pkt.is_inner = true) :
    ∃ r, ttp46_ipv6 fuel env in4 out hdr0 = some r ∧ r.sent = [] := by
  obtain ⟨hs, _⟩ := ttp46_ipv6_addrs_verdict env in4 hdr0
  unfold ttp46_ipv6
  simp only [packet.is_outer, hi, Bool.not_true, Bool.false_and,
    Bool.false_eq_true, if_false]
  split
  · exact ⟨_, rfl, hs⟩
  · split
    · exact ⟨_, rfl, rfl⟩
    · exact ⟨_, rfl, rfl⟩

theorem compute_mtu6_sent (env : icmp46_env) (i : icmphdr) (o : icmp6hdr) :
    (compute_mtu6 env i o).sent = [] := by
  unfold compute_mtu6 drop
  split <;> rfl

theorem icmp4_to_icmp6_dest_unreach_sent (env : icmp46_env) (i : icmphdr)
    (o : icmp6hdr) : (icmp4_to_icmp6_dest_unreach env i o).sent = [] := by
  unfold icmp4_to_icmp6_dest_unreach drop
  dsimp only
  split_ifs <;> first | rfl | exact compute_mtu6_sent _ _ _

theorem icmp4_to_icmp6_param_prob_sent (i : icmphdr) (o : icmp6hdr) :
    (icmp4_to_icmp6_param_prob i o).sent = [] := by
  unfold icmp4_to_icmp6_param_prob drop
  dsimp only
  split_ifs <;> rfl

theorem post_icmp6error_sent (env : icmp46_env) (i : icmphdr) (o : icmp6hdr) :
    (post_icmp6error env i o).sent = [] := by
  unfold post_icmp6error
  dsimp only
  split_ifs <;> rfl

/-- The step `ttp46_icmp` asks for no ICMP error. -/
theorem ttp46_icmp_sent (env : icmp46_env) (i : icmphdr) (o : icmp6hdr) :
    (ttp46_icmp env i o).sent = [] := by
  unfold ttp46_icmp drop
  dsimp only
  split_ifs <;>
    first
    | rfl
    | exact post_icmp6error_sent _ _ _
    | exact icmp4_to_icmp6_dest_unreach_sent _ _ _
    | exact icmp4_to_icmp6_param_prob_sent _ _

/-- The steps `ttp64_tcp`, `ttp64_udp`, `ttp46_tcp` and `ttp46_icmp` ask
for no ICMP error on any packet, and `ttp46_udp` asks for none when the
checksum field of the packet is not zero. -/
theorem l4_steps_sent (nat64 : Bool) (t4 : tuple4) (t6 : tuple6)
    (partial_csum cpe amend : Bool) (ip6 : ipv6hdr) (ip4 : iphdr)
    (tcp_in : tcphdr) (udp_in : udphdr) (opts payload : List Nat)
    (datagram_len : Nat) (env : icmp46_env) (icmpv4_hdr : icmphdr)
    (out0 : icmp6hdr) :
    (ttp64_tcp nat64 t4 partial_csum cpe ip6 ip4 tcp_in opts).sent = []
      ∧ (ttp64_udp nat64 t4 partial_csum cpe ip6 ip4 udp_in).sent = []
      ∧ (ttp46_tcp nat64 t6 partial_csum ip4 ip6 tcp_in opts).sent = []
      ∧ (ttp46_icmp env icmpv4_hdr out0).sent = []
      ∧ (udp_in.check ≠ 0 →
        (ttp46_udp nat64 t6 partial_csum amend ip4 ip6 udp_in payload
          datagram_len).sent = []) := by
  refine ⟨rfl, rfl, rfl, ?_, ?_⟩
  · exact ttp46_icmp_sent env icmpv4_hdr out0
  · intro h
    unfold ttp46_udp
    simp only [h, ne_eq, not_false_eq_true, if_true]

/-- C29 (the code at the failing input): `ttp46_udp` does not read whether
the packet it translates is inner. On the UDP datagram `sample_udp` with a
zero checksum, in SIIT mode with compute-udp-csum-zero off, it returns
through `drop_icmp`: the verdict is Drop and one ICMP error (communication
administratively prohibited, `ICMPERR_FILTER`) is requested. -/
theorem ttp46_udp_inner_drop_icmp :
    (ttp46_udp false sample_tuple6 false false (sample_udp_ip4 0)
        sample_udp_ip6 (sample_udp 0) sample_payload 14).result = VERDICT_DROP
      ∧ (ttp46_udp false sample_tuple6 false false (sample_udp_ip4 0)
        sample_udp_ip6 (sample_udp 0) sample_payload 14).sent
          = [{ code := ICMPERR_FILTER, info := 0 }]
      ∧ (ttp46_udp false sample_tuple6 false false (sample_udp_ip4 0)
        sample_udp_ip6 (sample_udp 0) sample_payload 14).out
          = sample_udp 0 := by
  decide

/-! ## C30: the MTU plateaus `update_plateaus` stores -/

theorem take_set_self (cur : List Nat) (n x : Nat) :
    (cur.set n x).take n = cur.take n := by
  induction cur generalizing n with
  | nil => simp
  | cons a l ih =>
    cases n with
    | zero => simp
    | succ n => simp [List.set, ih]

theorem update_plateaus_loop_spec :
    ∀ (n : Nat) (cur : List Nat) (i j : Nat), i < j → j + n = cur.length →
      (update_plateaus_loop n cur i j).1.length = cur.length
        ∧ (update_plateaus_loop n cur i j).2 < cur.length
        ∧ (update_plateaus_loop n cur i j).1.take
            ((update_plateaus_loop n cur i j).2 + 1)
          = cur.take (i + 1) ++ spec_compress (cur.getD i 0) (cur.drop j) := by
  intro n
  induction n with
  | zero =>
    intro cur i j hij hj
    have hj' : cur.length ≤ j := by omega
    simp only [update_plateaus_loop, List.drop_eq_nil_of_le hj',
      spec_compress, List.append_nil, true_and, and_true]
    omega
  | succ n ih =>
    intro cur i j hij hj
    have hjl : j < cur.length := by omega
    have hd : cur.drop j = cur.getD j 0 :: cur.drop (j + 1) := by
      rw [List.getD_eq_getElem cur 0 hjl]
      exact List.drop_eq_getElem_cons hjl
    rw [hd]
    unfold update_plateaus_loop
    by_cases h0 : cur.getD j 0 = 0
    · simp only [h0, if_true, spec_compress, List.append_nil, true_and,
        and_true]
      omega
    · by_cases hne : cur.getD i 0 ≠ cur.getD j 0
      · simp only [h0, if_false, hne, if_true, spec_compress, ne_eq,
          not_false_eq_true]
        have hlen : (cur.set (i + 1) (cur.getD j 0)).length = cur.length :=
          List.length_set _ _ _
        obtain ⟨e1, e2, e3⟩ := ih (cur.set (i + 1) (cur.getD j 0)) (i + 1)
          (j + 1) (by omega) (by rw [hlen]; omega)
        rw [hlen] at e1 e2
        refine ⟨e1, e2, ?_⟩
        rw [e3]
        have hi1 : i + 1 < cur.length := by omega
        have t1 : (cur.set (i + 1) (cur.getD j 0)).take (i + 1 + 1)
            = cur.take (i + 1) ++ [cur.getD j 0] := by
          rw [List.take_succ, take_set_self, List.getElem?_set_self hi1]
          rfl
        have t2 : (cur.set (i + 1) (cur.getD j 0)).getD (i + 1) 0
            = cur.getD j 0 := by
          rw [List.getD_eq_getElem _ 0 (by rw [hlen]; exact hi1)]
          exact List.getElem_set_self _
        have t3 : (cur.set (i + 1) (cur.getD j 0)).drop (j + 1)
            = cur.drop (j + 1) :=
          List.drop_set_of_lt _ _ (by omega)
        rw [t1, t2, t3, List.append_assoc]
        rfl
      · simp only [h0, if_false, hne, spec_compress]
        have hne' : cur.getD i 0 = cur.getD j 0 := not_not.mp hne
        obtain ⟨e1, e2, e3⟩ := ih cur i (j + 1) (by omega) (by omega)
        refine ⟨e1, e2, ?_⟩
        rw [e3, hne']

theorem spec_compress_sorted :
    ∀ (rest : List Nat) (a : Nat), a ≠ 0 →
      List.Pairwise (fun x y => y ≤ x) (a :: rest) →
      List.Pairwise (fun x y => y < x) (a :: spec_compress a rest)
        ∧ ∀ v, v ∈ a :: spec_compress a rest ↔ (v ∈ a :: rest ∧ v ≠ 0) := by
  intro rest
  induction rest with
  | nil =>
    intro a ha _
    refine ⟨by simp [spec_compress], ?_⟩
    intro v
    simp only [spec_compress, List.mem_singleton]
    constructor
    · intro h; subst h; exact ⟨rfl, ha⟩
    · intro h; exact h.1
  | cons x xs ih =>
    intro a ha hs
    rw [List.pairwise_cons] at hs
    obtain ⟨hA, hxs⟩ := hs
    have hxa : x ≤ a := hA x (List.mem_cons_self x xs)
    have hall : ∀ v ∈ xs, v ≤ x := (List.pairwise_cons.mp hxs).1
    unfold spec_compress
    by_cases h0 : x = 0
    · simp only [h0, if_true]
      refine ⟨by simp, ?_⟩
      intro v
      simp only [List.mem_singleton, List.mem_cons, List.not_mem_nil,
        or_false]
      constructor
      · intro h; subst h; exact ⟨Or.inl rfl, ha⟩
      · rintro ⟨h | h | h, hv⟩
        · exact h
        · exact absurd h hv
        · have := hall v h; omega
    · by_cases hne : a ≠ x
      · simp only [h0, if_false, hne, if_true, ne_eq, not_false_eq_true]
        obtain ⟨s1, s2⟩ := ih x h0 hxs
        refine ⟨?_, ?_⟩
        · rw [List.pairwise_cons]
          refine ⟨?_, s1⟩
          intro v hv
          have hv' := ((s2 v).mp hv).1
          rcases List.mem_cons.mp hv' with h | h
          · omega
          · have := hall v h; omega
        · intro v
          rw [List.mem_cons, s2 v, List.mem_cons, List.mem_cons, List.mem_cons]
          constructor
          · rintro (h | ⟨h, hv⟩)
            · subst h; exact ⟨Or.inl rfl, ha⟩
            · exact ⟨Or.inr h, hv⟩
          · rintro ⟨h | h, hv⟩
            · exact Or.inl h
            · exact Or.inr ⟨h, hv⟩
      · have hax : a = x := not_not.mp hne
        subst hax
        simp only [h0, if_false, ne_eq, not_true_eq_false]
        obtain ⟨s1, s2⟩ := ih a ha
          (List.pairwise_cons.mpr ⟨hall, (List.pairwise_cons.mp hxs).2⟩)
        refine ⟨s1, ?_⟩
        intro v
        rw [s2 v, List.mem_cons, List.mem_cons, List.mem_cons]
        constructor
        · rintro ⟨h | h, hv⟩
          · exact ⟨Or.inl h, hv⟩
          · exact ⟨Or.inr (Or.inr h), hv⟩
        · rintro ⟨h | h | h, hv⟩
          · exact ⟨Or.inl h, hv⟩
          · exact ⟨Or.inl h, hv⟩
          · exact ⟨Or.inr h, hv⟩

/-- The list `sort` returns for `be16_compare` is descending and holds the
values of its argument. -/
theorem sort_be16_compare (l : List Nat) :
    List.Pairwise (fun x y => y ≤ x) (sort l be16_compare)
      ∧ (sort l be16_compare).length = l.length
      ∧ ∀ v, v ∈ sort l be16_compare ↔ v ∈ l := by
  have hrel : (fun a b : Nat => be16_compare a b ≤ 0)
      = (fun a b : Nat => b ≤ a) := by
    funext a b
    unfold be16_compare
    apply propext
    omega
  unfold sort
  have hp := List.perm_insertionSort (fun a b : Nat => be16_compare a b ≤ 0) l
  refine ⟨?_, hp.length_eq, fun v => hp.mem_iff⟩
  letI : IsTotal Nat (fun a b : Nat => be16_compare a b ≤ 0) :=
    ⟨fun a b => by unfold be16_compare; omega⟩
  letI : IsTrans Nat (fun a b : Nat => be16_compare a b ≤ 0) :=
    ⟨fun a b c => by unfold be16_compare; omega⟩
  have hs := List.sorted_insertionSort
    (fun a b : Nat => be16_compare a b ≤ 0) l
  exact List.Pairwise.imp (fun h => by unfold be16_compare at h; omega) hs

/-- The run of `update_plateaus` past its three length checks: with the
sorted list `a :: rest`, the array keeps `a` in front and the loop leaves
`a :: spec_compress a rest` in its first `i + 1` entries. -/
theorem update_plateaus_loop_sorted (list : List Nat) (h1 : 1 ≤ list.length) :
    ∃ a rest, sort list be16_compare = a :: rest
      ∧ (update_plateaus_loop (list.length - 1) (sort list be16_compare) 0
          1).1.getD 0 0 = a
      ∧ (update_plateaus_loop (list.length - 1) (sort list be16_compare) 0
          1).2 < list.length
      ∧ (update_plateaus_loop (list.length - 1) (sort list be16_compare) 0
          1).1.take
          ((update_plateaus_loop (list.length - 1)
            (sort list be16_compare) 0 1).2 + 1)
        = a :: spec_compress a rest := by
  obtain ⟨_, hl, _⟩ := sort_be16_compare list
  generalize sort list be16_compare = L at hl ⊢
  cases L with
  | nil => simp at hl; omega
  | cons a rest =>
    obtain ⟨e1, e2, e3⟩ := update_plateaus_loop_spec (list.length - 1)
      (a :: rest) 0 1 (by omega) (by rw [hl]; omega)
    rw [hl] at e2
    have e3' : (update_plateaus_loop (list.length - 1) (a :: rest) 0 1).1.take
          ((update_plateaus_loop (list.length - 1) (a :: rest) 0 1).2 + 1)
        = a :: spec_compress a rest := by
      rw [e3]; rfl
    refine ⟨a, rest, rfl, ?_, e2, e3'⟩
    have h := List.take_append_drop
      ((update_plateaus_loop (list.length - 1) (a :: rest) 0 1).2 + 1)
      (update_plateaus_loop (list.length - 1) (a :: rest) 0 1).1
    rw [e3'] at h
    rw [← h]
    rfl

/-- C30: for a received list of 1 to capacity values (the request holding
all of them) with at least one nonzero value, `update_plateaus` returns 0
and the stored plateaus are strictly descending, contain no zero and no
duplicate, are exactly the nonzero values of the input, and
`mtu_plateau_count` is their number; an empty list, a list longer than the
capacity and a list of nothing but zeroes are rejected with -EINVAL and the
configuration stays as it was. -/
theorem update_plateaus_stores (config : global_config_usr) (list : List Nat)
    (room : Nat) :
    (1 ≤ list.length → list.length ≤ config.mtu_plateaus.length →
        list.length * 2 ≤ room → (∃ v ∈ list, v ≠ 0) →
        (update_plateaus config list room).1 = 0
          ∧ List.Pairwise (fun x y => y < x)
              (update_plateaus config list room).2.plateaus
          ∧ (∀ v, v ∈ (update_plateaus config list room).2.plateaus
              ↔ (v ∈ list ∧ v ≠ 0))
          ∧ 0 ∉ (update_plateaus config list room).2.plateaus
          ∧ (update_plateaus config list room).2.plateaus.Nodup
          ∧ (update_plateaus config list room).2.mtu_plateau_count
              = (update_plateaus config list room).2.plateaus.length)
      ∧ (list = [] ∨ config.mtu_plateaus.length < list.length
          ∨ (∀ v ∈ list, v = 0) →
        update_plateaus config list room = (-EINVAL, config)) := by
  refine ⟨?_, ?_⟩
  · intro h1 h2 h3 hnz
    obtain ⟨hs, hl, hm⟩ := sort_be16_compare list
    obtain ⟨a, rest, hL, g0, gi, gt⟩ := update_plateaus_loop_sorted list h1
    rw [hL] at hs hm
    have ha : a ≠ 0 := by
      obtain ⟨v, hv, hv0⟩ := hnz
      rcases List.mem_cons.mp ((hm v).mpr hv) with h | h
      · rw [← h]; exact hv0
      · have := (List.pairwise_cons.mp hs).1 v h
        omega
    obtain ⟨c1, c2⟩ := spec_compress_sorted rest a ha hs
    have hlenS : (a :: spec_compress a rest).length
        = (update_plateaus_loop (list.length - 1) (sort list be16_compare) 0
          1).2 + 1 := by
      rw [← gt, List.length_take]
      have := (update_plateaus_loop_spec (list.length - 1)
        (sort list be16_compare) 0 1 (by omega) (by rw [hl]; omega)).1
      rw [this, hl]
      omega
    have hres : update_plateaus config list room
        = (0, { mtu_plateaus := (a :: spec_compress a rest)
                  ++ config.mtu_plateaus.drop
                    ((update_plateaus_loop (list.length - 1)
                      (sort list be16_compare) 0 1).2 + 1),
                mtu_plateau_count :=
                  (update_plateaus_loop (list.length - 1)
                    (sort list be16_compare) 0 1).2 + 1 }) := by
      unfold update_plateaus
      dsimp only
      rw [if_neg (by omega), if_neg (by omega), if_neg (by omega), g0,
        if_neg ha, gt]
    have hpl : (update_plateaus config list room).2.plateaus
        = a :: spec_compress a rest := by
      rw [hres]
      unfold global_config_usr.plateaus
      dsimp only
      exact List.take_left' hlenS
    rw [hpl]
    refine ⟨by rw [hres], c1, ?_, ?_, ?_, ?_⟩
    · intro v
      rw [c2 v, hm v]
    · intro h
      exact ((c2 0).mp h).2 rfl
    · exact List.Pairwise.imp (fun h => by omega) c1
    · rw [hres]
      exact hlenS.symm
  · intro h
    unfold update_plateaus
    dsimp only
    by_cases h1 : list.length < 1
    · rw [if_pos h1]
    · rw [if_neg h1]
      by_cases h2 : list.length > config.mtu_plateaus.length
      · rw [if_pos h2]
      · rw [if_neg h2]
        by_cases h3 : list.length * 2 > room
        · rw [if_pos h3]
        · rw [if_neg h3]
          have hz : ∀ v ∈ list, v = 0 := by
            rcases h with h | h | h
            · rw [h] at h1; simp at h1
            · exact absurd h h2
            · exact h
          obtain ⟨_, _, hm⟩ := sort_be16_compare list
          obtain ⟨a, rest, hL, g0, _, _⟩ :=
            update_plateaus_loop_sorted list (by omega)
          have ha : a = 0 :=
            hz a ((hm a).mp (by rw [hL]; exact List.mem_cons_self a rest))
          rw [g0, if_pos ha]

/-- C30 on an example: the list 1500, 0, 1000, 1500, 0, 9000, 1000 is
stored as 9000, 1500, 1000 with a count of 3, and a list of two zeroes is
rejected. -/
theorem update_plateaus_stores_witness :
    (update_plateaus sample_global_config sample_plateau_list 14).1 = 0
      ∧ (update_plateaus sample_global_config sample_plateau_list
          14).2.plateaus = [9000, 1500, 1000]
      ∧ (update_plateaus sample_global_config sample_plateau_list
          14).2.mtu_plateau_count = 3
      ∧ update_plateaus sample_global_config [0, 0] 4
          = (-EINVAL, sample_global_config) :=
  ⟨((update_plateaus_stores sample_global_config sample_plateau_list 14).1
      (by decide) (by decide) (by decide) ⟨1500, by decide, by decide⟩).1,
    by decide, by decide,
    (update_plateaus_stores sample_global_config [0, 0] 4).2
      (Or.inr (Or.inr (by decide)))⟩

/-! ## C28: the parts of an inner packet -/

/-- C28: `buffer6_to_parts`, applied to the IPv6 packet embedded in an
ICMPv6 error, fails with -EINVAL and reports INHDRERRORS when the
upper-layer header of that packet (found by `validate_ipv6_integrity` and
wholly inside the buffer) is an ICMPv6 message that carries an inner packet
itself; it fails with -EINVAL and reports INUNKNOWNPROTOS when the
upper-layer protocol is none of TCP, UDP and ICMPv6; on success the L3
length, the L4 length and the payload length of the parts add up to the
buffer length, the L4 header starts where the L3 headers end and the
payload starts where the L4 header ends. `post_icmp4error` hands either
failure on without translating the inner packet. -/
theorem buffer6_to_parts_nesting (hdr6 : buffer6) (len : Nat)
    (parts : pkt_parts) (field : Option ipstats_mib)
    (hlen : len < 4294967296) :
    ((hdr6.validate_ipv6_integrity len).1 = 0 →
        (hdr6.validate_ipv6_integrity len).2.1.hdr_type = NEXTHDR_ICMP →
        (hdr6.validate_ipv6_integrity len).2.1.data % 4294967296 + 8 ≤ len →
        icmpv6_has_inner_packet hdr6.icmp6_type = true →
        (buffer6_to_parts hdr6 len parts field).1 = -EINVAL
          ∧ (buffer6_to_parts hdr6 len parts field).2.2
            = some IPSTATS_MIB_INHDRERRORS)
      ∧ ((hdr6.validate_ipv6_integrity len).1 = 0 →
        (hdr6.validate_ipv6_integrity len).2.1.hdr_type ≠ NEXTHDR_TCP →
        (hdr6.validate_ipv6_integrity len).2.1.hdr_type ≠ NEXTHDR_UDP →
        (hdr6.validate_ipv6_integrity len).2.1.hdr_type ≠ NEXTHDR_ICMP →
        (buffer6_to_parts hdr6 len parts field).1 = -EINVAL
          ∧ (buffer6_to_parts hdr6 len parts field).2.2
            = some IPSTATS_MIB_INUNKNOWNPROTOS)
      ∧ ((buffer6_to_parts hdr6 len parts field).1 = 0 →
        (buffer6_to_parts hdr6 len parts field).2.1.l3_hdr.len
            + (buffer6_to_parts hdr6 len parts field).2.1.l4_hdr.len
            + (buffer6_to_parts hdr6 len parts field).2.1.payload.len = len
          ∧ (buffer6_to_parts hdr6 len parts field).2.1.l3_hdr.ptr = 0
          ∧ (buffer6_to_parts hdr6 len parts field).2.1.l4_hdr.ptr
              % 4294967296
            = (buffer6_to_parts hdr6 len parts field).2.1.l3_hdr.len
          ∧ (buffer6_to_parts hdr6 len parts field).2.1.payload.ptr
            = (buffer6_to_parts hdr6 len parts field).2.1.l4_hdr.ptr
              + (buffer6_to_parts hdr6 len parts field).2.1.l4_hdr.len)
      ∧ ((buffer6_to_parts hdr6 len parts field).1 ≠ 0 →
        ∀ translate_inner : pkt_parts → Int,
          ttp.post_icmp4error hdr6 len parts translate_inner field
            = ((buffer6_to_parts hdr6 len parts field).1,
                (buffer6_to_parts hdr6 len parts field).2.2)) := by
  have hE : (-EINVAL : Int) ≠ 0 := by decide
  refine ⟨?_, ?_, ?_, ?_⟩
  · intro h1 h2 h3 h4
    have h5 : (NEXTHDR_ICMP : Nat) ≠ NEXTHDR_TCP := by decide
    have h6 : (NEXTHDR_ICMP : Nat) ≠ NEXTHDR_UDP := by decide
    have h7 : ¬ len < (hdr6.validate_ipv6_integrity len).2.1.data
        % 4294967296 + 8 := by omega
    unfold buffer6_to_parts validate_lengths_icmp6
    simp only [h1, h2, h4, h5, h6, h7, ne_eq, not_true_eq_false, if_false,
      if_true]
    refine ⟨?_, ?_⟩ <;> first | rfl | trivial
  · intro h1 h2 h3 h4
    unfold buffer6_to_parts
    simp only [h1, h2, h3, h4, ne_eq, not_true_eq_false, if_false]
    refine ⟨?_, ?_⟩ <;> first | rfl | trivial
  · unfold buffer6_to_parts validate_lengths_tcp validate_lengths_udp
      validate_lengths_icmp6 MIN_TCP_HDR_LEN tcp_hdr_len
    dsimp only
    generalize hdr6.validate_ipv6_integrity len = v
    obtain ⟨e, it, f⟩ := v
    dsimp only
    have hd := Nat.mod_lt it.data (by omega : 0 < 4294967296)
    generalize hl3 : it.data % 4294967296 = l3 at hd ⊢
    have ht : hdr6.tcp_doff % 16 * 4 ≤ 60 := by omega
    generalize hdr6.tcp_doff % 16 * 4 = l4 at ht ⊢
    split_ifs <;> intro h0 <;>
      first
      | exact absurd h0 (by assumption)
      | exact absurd h0 hE
      | (dsimp only; refine ⟨?_, rfl, ?_, rfl⟩ <;> omega)
  · intro h tr
    unfold ttp.post_icmp4error
    simp only [h, ne_eq, not_false_eq_true, if_true]

/-- C28 on examples: a buffer of 48 bytes holding an IPv6 header and an
ICMPv6 Destination Unreachable is refused with -EINVAL and INHDRERRORS; for
a buffer of 100 bytes holding an IPv6 header and a TCP header of 24 bytes
the parts are 40, 24 and 36 bytes long. -/
theorem buffer6_to_parts_nesting_witness :
    ((buffer6_to_parts (sample_buffer6_icmp 1) 48 sample_parts0 none).1
        = -EINVAL
      ∧ (buffer6_to_parts (sample_buffer6_icmp 1) 48 sample_parts0 none).2.2
        = some IPSTATS_MIB_INHDRERRORS)
      ∧ (buffer6_to_parts sample_buffer6_tcp 100 sample_parts0 none).2.1.l3_hdr.len
          + (buffer6_to_parts sample_buffer6_tcp 100 sample_parts0
              none).2.1.l4_hdr.len
          + (buffer6_to_parts sample_buffer6_tcp 100 sample_parts0
              none).2.1.payload.len = 100
      ∧ (buffer6_to_parts sample_buffer6_tcp 100 sample_parts0 none).2.1.payload
          = { len := 36, ptr := 64 } :=
  ⟨(buffer6_to_parts_nesting (sample_buffer6_icmp 1) 48 sample_parts0 none
      (by decide)).1 rfl rfl (by decide) (by decide),
   ((buffer6_to_parts_nesting sample_buffer6_tcp 100 sample_parts0 none
      (by decide)).2.2.1 (by decide)).1,
   by decide⟩

/-! ## C26 and C27: the port allocator of `pool4.c` -/

theorem pool4_table_get_aux_some {pool : List pool4_node} {a i : Nat}
    (h : pool4_table_get_aux pool a = some i) :
    ∃ x, pool[i]? = some x ∧ i < pool.length ∧ x.addr = a := by
  unfold pool4_table_get_aux at h
  split at h
  · rename_i hlt
    cases h
    have hlt' : List.indexOf a (pool.map pool4_node.addr)
        < (pool.map pool4_node.addr).length := by
      rw [List.length_map]; exact hlt
    have := List.indexOf_get hlt'
    rw [List.get_eq_getElem, List.getElem_map] at this
    exact ⟨_, List.getElem?_eq_getElem hlt, hlt, this⟩
  · cases h

theorem pool4_table_get_aux_none {pool : List pool4_node} {a : Nat}
    (h : pool4_table_get_aux pool a = none) :
    a ∉ pool.map pool4_node.addr := by
  unfold pool4_table_get_aux at h
  split at h
  · cases h
  · rename_i hlt
    intro hm
    apply hlt
    have := List.indexOf_lt_length.mpr hm
    rwa [List.length_map] at this

theorem pool4_table_get_aux_nodup {pool : List pool4_node}
    (hnd : (pool.map pool4_node.addr).Nodup) {i : Nat} {x : pool4_node}
    (hx : pool[i]? = some x) :
    pool4_table_get_aux pool x.addr = some i := by
  obtain ⟨hi, hxi⟩ := List.getElem?_eq_some.mp hx
  have hi' : i < (pool.map pool4_node.addr).length := by
    rw [List.length_map]; exact hi
  have h2 := List.indexOf_getElem hnd i hi'
  rw [List.getElem_map, hxi] at h2
  unfold pool4_table_get_aux
  rw [h2, if_pos hi]

theorem pool4_table_get_some {pool : List pool4_node} {a : Nat}
    {x : pool4_node} (h : pool4_table_get pool a = some x) :
    ∃ i, pool4_table_get_aux pool a = some i ∧ pool[i]? = some x
      ∧ x ∈ pool ∧ x.addr = a := by
  unfold pool4_table_get at h
  split at h
  · rename_i i hi
    obtain ⟨y, hy, _, ha⟩ := pool4_table_get_aux_some hi
    rw [hy] at h
    cases h
    exact ⟨i, hi, hy, List.getElem?_mem hy, ha⟩
  · cases h

theorem pool4_table_get_none {pool : List pool4_node} {a : Nat}
    (h : pool4_table_get pool a = none) :
    a ∉ pool.map pool4_node.addr := by
  unfold pool4_table_get at h
  split at h
  · rename_i i hi
    obtain ⟨y, hy, _, _⟩ := pool4_table_get_aux_some hi
    rw [hy] at h
    cases h
  · rename_i hn
    exact pool4_table_get_aux_none hn

theorem pool4_table_get_nodup {pool : List pool4_node}
    (hnd : (pool.map pool4_node.addr).Nodup) {i : Nat} {x : pool4_node}
    (hx : pool[i]? = some x) :
    pool4_table_get pool x.addr = some x := by
  unfold pool4_table_get
  rw [pool4_table_get_aux_nodup hnd hx]
  exact hx

/-- A write through the pointer of a node that keeps the address keeps the
addresses of the table; the nodes are the old ones and the new one. -/
theorem pool4_table_update_spec {pool : List pool4_node} {a : Nat}
    (node : pool4_node) (ha : node.addr = a) :
    (pool4_table_update pool a node).map pool4_node.addr
        = pool.map pool4_node.addr
      ∧ (∀ y ∈ pool4_table_update pool a node, y ∈ pool ∨ y = node)
      ∧ (pool4_table_update pool a node).length = pool.length := by
  unfold pool4_table_update
  split
  · rename_i i hi
    obtain ⟨x, hx, hlt, hxa⟩ := pool4_table_get_aux_some hi
    refine ⟨?_, fun y hy => List.mem_or_eq_of_mem_set hy,
      List.length_set _ _ _⟩
    rw [List.map_set]
    apply List.ext_getElem?
    intro j
    rw [List.getElem?_set]
    split
    · rename_i hij
      subst hij
      rw [List.length_map, if_pos hlt, List.getElem?_map, hx, ha, ← hxa]
      rfl
    · rfl
  · exact ⟨rfl, fun y hy => Or.inl hy, rfl⟩

/-- A write of the node that is already there changes nothing. -/
theorem pool4_table_update_self {pool : List pool4_node} {x : pool4_node}
    (h : pool4_table_get pool x.addr = some x) :
    pool4_table_update pool x.addr x = pool := by
  obtain ⟨i, hi, hx, _, _⟩ := pool4_table_get_some h
  unfold pool4_table_update
  rw [hi]
  apply List.ext_getElem?
  intro j
  rw [List.getElem?_set]
  split
  · rename_i hij
    subst hij
    rw [hx]
    obtain ⟨hlt, _⟩ := List.getElem?_eq_some.mp hx
    rw [if_pos hlt]
  · rfl

/-- A write through the pointer of a node that keeps the table entry keeps
the entries of the table. -/
theorem pool4_table_update_entry {pool : List pool4_node} {a : Nat}
    {x node : pool4_node} (hget : pool4_table_get pool a = some x)
    (he : node.entry = x.entry) :
    (pool4_table_update pool a node).map pool4_node.entry
      = pool.map pool4_node.entry := by
  obtain ⟨i, hi, hx, _, _⟩ := pool4_table_get_some hget
  obtain ⟨hlt, _⟩ := List.getElem?_eq_some.mp hx
  unfold pool4_table_update
  rw [hi]
  dsimp only
  rw [List.map_set]
  apply List.ext_getElem?
  intro j
  rw [List.getElem?_set]
  split
  · rename_i hij
    subst hij
    rw [List.length_map, if_pos hlt, List.getElem?_map, hx, he]
    rfl
  · rfl

/-- After a write through the pointer of a node, the table holds what was
written. -/
theorem pool4_table_get_update {pool : List pool4_node} {a : Nat}
    {x : pool4_node} (hget : pool4_table_get pool a = some x)
    (node : pool4_node) (ha : node.addr = a) :
    pool4_table_get (pool4_table_update pool a node) a = some node
      ∧ node ∈ pool4_table_update pool a node := by
  obtain ⟨i, hi, hx, _, _⟩ := pool4_table_get_some hget
  obtain ⟨hlt, _⟩ := List.getElem?_eq_some.mp hx
  have hmap := (@pool4_table_update_spec pool a node ha).1
  have hlen := (@pool4_table_update_spec pool a node ha).2.2
  have hset : pool4_table_update pool a node = pool.set i node := by
    unfold pool4_table_update
    rw [hi]
  have haux : pool4_table_get_aux (pool4_table_update pool a node) a
      = some i := by
    unfold pool4_table_get_aux at hi ⊢
    rw [hmap, hlen]
    exact hi
  have hnode : (pool4_table_update pool a node)[i]? = some node := by
    rw [hset, List.getElem?_set_self hlt]
  refine ⟨?_, List.getElem?_mem hnode⟩
  unfold pool4_table_get
  rw [haux]
  exact hnode

/-- Two nodes of a list without a repeated address that have the same
address are the same node; likewise for the table entries. -/
theorem pool4_node_eq_of_addr {pool : List pool4_node}
    (hnd : (pool.map pool4_node.addr).Nodup) {x y : pool4_node}
    (hx : x ∈ pool) (hy : y ∈ pool) (h : x.addr = y.addr) : x = y :=
  List.inj_on_of_nodup_map hnd hx hy h

theorem pool4_node_eq_of_entry {pool : List pool4_node}
    (hnd : (pool.map pool4_node.entry).Nodup) {x y : pool4_node}
    (hx : x ∈ pool) (hy : y ∈ pool) (h : x.entry = y.entry) : x = y :=
  List.inj_on_of_nodup_map hnd hx hy h

theorem pool4_node_get_set (x : pool4_node) (ref ref' : poolnum_ref)
    (p : poolnum) :
    (x.set ref p).get ref' = if ref' = ref then p else x.get ref' := by
  cases ref <;> cases ref' <;> rfl

theorem pool4_node_set_addr (x : pool4_node) (ref : poolnum_ref) (p : poolnum) :
    (x.set ref p).addr = x.addr ∧ (x.set ref p).active = x.active := by
  cases ref <;> exact ⟨rfl, rfl⟩

theorem pool4_node_set_entry (x : pool4_node) (ref : poolnum_ref)
    (p : poolnum) : (x.set ref p).entry = x.entry := by
  cases ref <;> rfl

theorem pool4_node_set_get_self (x : pool4_node) (ref : poolnum_ref) :
    x.set ref (x.get ref) = x := by
  cases ref <;> rfl

theorem get_poolnum_from_pool4_node_proto (proto : l4_protocol) (id : Nat) :
    (get_poolnum_from_pool4_node proto id).proto = proto := by
  unfold get_poolnum_from_pool4_node
  cases proto <;> dsimp only <;> first | rfl | (split_ifs <;> rfl)

theorem pool4_node_wf_set {x : pool4_node} (hx : x.wf) (ref : poolnum_ref)
    (p : poolnum)
    (hp : ∀ v ∈ p.free, get_poolnum_from_pool4_node ref.proto v = ref) :
    (x.set ref p).wf := by
  intro ref' v hv
  rw [pool4_node_get_set] at hv
  split at hv
  · rename_i h; subst h; exact hp v hv
  · exact hx ref' v hv

theorem pool4_node_wf_active {x : pool4_node} (hx : x.wf) (b : Bool) :
    ({ x with active := b } : pool4_node).wf := by
  intro ref v hv
  exact hx ref v (by cases ref <;> exact hv)

theorem poolnum_get_any_free (p : poolnum) (result : Nat) :
    ∀ v ∈ (poolnum_get_any p result).2.1.free, v ∈ p.free := by
  unfold poolnum_get_any
  split
  · intro v hv; exact hv
  · rename_i w rest hfree
    intro v hv
    rw [hfree]
    exact List.mem_cons_of_mem w hv

theorem poolnum_get_free (p : poolnum) (value : Nat) :
    ∀ v ∈ (poolnum_get p value).2.free, v ∈ p.free := by
  unfold poolnum_get
  split
  · intro v hv; exact List.mem_of_mem_erase hv
  · intro v hv; exact hv

theorem poolnum_return_free (p : poolnum) (value : Nat) :
    ∀ v ∈ (poolnum_return p value).2.free, v ∈ p.free ∨ v = value := by
  unfold poolnum_return
  split
  · intro v hv; exact Or.inl hv
  · intro v hv
    rcases List.mem_append.mp hv with h | h
    · exact Or.inl h
    · exact Or.inr (List.mem_singleton.mp h)

theorem pool4_state_wf_update {st : pool4_state} (hst : st.wf) {a : Nat}
    {x : pool4_node} (hget : pool4_table_get st.pool a = some x)
    (node : pool4_node) (ha : node.addr = a) (he : node.entry = x.entry)
    (hn : node.wf) :
    ({ st with pool := pool4_table_update st.pool a node } : pool4_state).wf := by
  obtain ⟨h1, h2, _⟩ := @pool4_table_update_spec st.pool a node ha
  obtain ⟨_, _, _, hxm, hxa⟩ := pool4_table_get_some hget
  refine ⟨?_, ?_, ?_, ?_⟩
  · show (List.map pool4_node.addr (pool4_table_update st.pool a node)).Nodup
    rw [h1]; exact hst.1
  · intro y hy
    rcases h2 y hy with h | h
    · exact hst.2.1 y h
    · rw [h]; exact hn
  · show (List.map pool4_node.entry (pool4_table_update st.pool a node)).Nodup
    rw [pool4_table_update_entry hget he]; exact hst.2.2.1
  · intro c hc y hy hye
    rcases h2 y hy with h | h
    · exact hst.2.2.2 c hc y h hye
    · rw [h] at hye ⊢
      rw [ha, ← hxa]
      exact hst.2.2.2 c hc x hxm (he ▸ hye)

theorem pool4_table_remove_wf {st : pool4_state} (hst : st.wf) (a : Nat) :
    ({ st with pool := (pool4_table_remove st.pool a).2 } : pool4_state).wf := by
  unfold pool4_table_remove
  split
  · rename_i i _
    refine ⟨?_, ?_, ?_, ?_⟩
    · exact List.Nodup.sublist
        ((List.eraseIdx_sublist st.pool i).map pool4_node.addr) hst.1
    · intro y hy
      exact hst.2.1 y (List.mem_of_mem_eraseIdx hy)
    · exact List.Nodup.sublist
        ((List.eraseIdx_sublist st.pool i).map pool4_node.entry) hst.2.2.1
    · intro c hc y hy hye
      exact hst.2.2.2 c hc y (List.mem_of_mem_eraseIdx hy) hye
  · exact hst

theorem deactivate_or_destroy_pool4_node_wf {st : pool4_state} (hst : st.wf)
    {node : pool4_node}
    (hget : pool4_table_get st.pool node.addr = some node) (hn : node.wf) :
    (deactivate_or_destroy_pool4_node st node).2.wf := by
  unfold deactivate_or_destroy_pool4_node
  split
  · exact pool4_state_wf_update hst hget _ rfl rfl
      (pool4_node_wf_active hn false)
  · exact pool4_table_remove_wf hst node.addr

theorem poolnum_init_free {min max step v : Nat}
    (hv : v ∈ (poolnum_init min max step).free) :
    ∃ k, k ≤ (max - min) / step ∧ v = min + k * step := by
  unfold poolnum_init at hv
  obtain ⟨k, hk, hkv⟩ := List.mem_map.mp hv
  exact ⟨k, by have := List.mem_range.mp hk; omega, hkv.symm⟩

theorem pool4_register_wf {st : pool4_state} (hst : st.wf) (addr : Nat)
    (alloc : Option Nat)
    (hfresh : ∀ p, alloc = some p → p ∉ st.pool.map pool4_node.entry) :
    (pool4_register addr alloc st).2.wf := by
  unfold pool4_register
  split
  · rename_i node hg
    obtain ⟨_, _, _, hm, ha⟩ := pool4_table_get_some hg
    split
    · exact hst
    · exact pool4_state_wf_update hst hg _ ha rfl
        (pool4_node_wf_active (hst.2.1 node hm) true)
  · rename_i hg
    split
    · exact hst
    · rename_i entry
      have hf1 := hfresh entry rfl
      refine ⟨?_, ?_, ?_, ?_⟩
      · show (List.map pool4_node.addr (pool4_table_put st.pool _)).Nodup
        unfold pool4_table_put
        rw [List.map_append, List.nodup_append]
        refine ⟨hst.1, List.nodup_singleton _, ?_⟩
        intro a h1 h2
        rw [List.map_singleton, List.mem_singleton] at h2
        rw [h2] at h1
        exact pool4_table_get_none hg h1
      · intro y hy
        rcases List.mem_append.mp hy with h | h
        · exact hst.2.1 y h
        · rw [List.mem_singleton] at h
          rw [h]
          intro ref v hv
          cases ref <;>
            (obtain ⟨k, hk, hkv⟩ := poolnum_init_free hv
             unfold get_poolnum_from_pool4_node poolnum_ref.proto
             dsimp only <;>
             first
             | rfl
             | (split_ifs <;> first | rfl | omega))
      · show (List.map pool4_node.entry (pool4_table_put st.pool _)).Nodup
        unfold pool4_table_put
        rw [List.map_append, List.nodup_append]
        refine ⟨hst.2.2.1, List.nodup_singleton _, ?_⟩
        intro a h1 h2
        rw [List.map_singleton, List.mem_singleton] at h2
        rw [h2] at h1
        exact hf1 h1
      · intro c' hc' y hy hye
        dsimp only at hc'
        cases hl : st.last_used_addr with
        | none => rw [hl] at hc'; cases hc'
        | some c =>
          rw [hl, Option.map_some'] at hc'
          injection hc' with hc'
          by_cases he : c.entry = entry
          · rw [if_pos he] at hc'
            subst hc'
            rcases List.mem_append.mp hy with h | h
            · exact absurd (List.mem_map.mpr ⟨y, h, hye⟩) hf1
            · rw [List.mem_singleton] at h
              rw [h]
              rfl
          · rw [if_neg he] at hc'
            subst hc'
            rcases List.mem_append.mp hy with h | h
            · exact hst.2.2.2 c hl y h hye
            · rw [List.mem_singleton] at h
              rw [h] at hye
              exact absurd hye.symm he

theorem pool4_remove_wf {st : pool4_state} (hst : st.wf) (addr : Nat) :
    (pool4_remove addr st).2.wf := by
  unfold pool4_remove
  split
  · exact hst
  · rename_i node hg
    obtain ⟨_, _, _, hm, ha⟩ := pool4_table_get_some hg
    have := deactivate_or_destroy_pool4_node_wf hst (ha ▸ hg)
      (hst.2.1 node hm)
    dsimp only
    split_ifs <;> first | exact hst | exact this

theorem pool4_get_wf {st : pool4_state} (hst : st.wf) (proto : l4_protocol)
    (addr : ipv4_transport_addr) : (pool4_get proto addr st).2.wf := by
  unfold pool4_get
  split
  · exact hst
  · rename_i node hg
    obtain ⟨_, _, _, hm, ha⟩ := pool4_table_get_some hg
    dsimp only
    split
    · exact hst
    · refine pool4_state_wf_update hst hg _
        ((pool4_node_set_addr _ _ _).1.trans ha)
        (pool4_node_set_entry _ _ _)
        (pool4_node_wf_set (hst.2.1 node hm) _ _ ?_)
      intro v hv
      exact hst.2.1 node hm _ v (poolnum_get_free _ _ v hv)

theorem pool4_get_match_wf {st : pool4_state} (hst : st.wf)
    (proto : l4_protocol) (addr : ipv4_transport_addr) (result : Nat) :
    (pool4_get_match proto addr result st).2.1.wf := by
  unfold pool4_get_match
  split
  · exact hst
  · rename_i node hg
    obtain ⟨_, _, _, hm, ha⟩ := pool4_table_get_some hg
    dsimp only
    split
    · exact hst
    · refine pool4_state_wf_update hst hg _
        ((pool4_node_set_addr _ _ _).1.trans ha)
        (pool4_node_set_entry _ _ _)
        (pool4_node_wf_set (hst.2.1 node hm) _ _ ?_)
      intro v hv
      exact hst.2.1 node hm _ v (poolnum_get_any_free _ _ v hv)

/-- An attempt on a set of the node: the port comes out of that set, the
node keeps its address and stays well formed, and a failure changes
neither the node nor the port. -/
theorem poolnum_attempt_spec (x : pool4_node) (ref : poolnum_ref)
    (l4 : Nat) :
    ((x.set ref (poolnum_get_any (x.get ref) l4).2.1).addr = x.addr)
      ∧ (x.wf → (x.set ref (poolnum_get_any (x.get ref) l4).2.1).wf)
      ∧ ((poolnum_get_any (x.get ref) l4).1 = 0 ↔ (x.get ref).free ≠ [])
      ∧ ((poolnum_get_any (x.get ref) l4).1 = 0 →
        (poolnum_get_any (x.get ref) l4).2.2 ∈ (x.get ref).free)
      ∧ ((poolnum_get_any (x.get ref) l4).1 ≠ 0 →
        x.set ref (poolnum_get_any (x.get ref) l4).2.1 = x
          ∧ (poolnum_get_any (x.get ref) l4).2.2 = l4) := by
  have hE : (-ESRCH : Int) ≠ 0 := by decide
  refine ⟨(pool4_node_set_addr _ _ _).1, ?_, ?_, ?_, ?_⟩
  · intro hx
    refine pool4_node_wf_set hx _ _ ?_
    intro v hv
    exact hx _ v (poolnum_get_any_free _ _ v hv)
  · unfold poolnum_get_any
    split
    · rename_i h; simp [h, hE]
    · rename_i h; simp [h]
  · unfold poolnum_get_any
    split
    · intro h; exact absurd h hE
    · rename_i h; intro _; rw [h]; exact List.mem_cons_self _ _
  · unfold poolnum_get_any
    split
    · intro _; exact ⟨pool4_node_set_get_self x ref, rfl⟩
    · intro h; exact absurd rfl h

theorem poolnum_attempt_entry (x : pool4_node) (ref : poolnum_ref)
    (l4 : Nat) :
    (x.set ref (poolnum_get_any (x.get ref) l4).2.1).entry = x.entry :=
  pool4_node_set_entry _ _ _

theorem poolnum_get_any_nil {p : poolnum} (h : p.free = []) (l4 : Nat) :
    poolnum_get_any p l4 = (-ESRCH, p, l4) := by
  unfold poolnum_get_any; rw [h]

theorem poolnum_get_any_cons {p : poolnum} {v : Nat} {rest : List Nat}
    (h : p.free = v :: rest) (l4 : Nat) :
    poolnum_get_any p l4 = (0, { p with free := rest }, v) := by
  unfold poolnum_get_any; rw [h]

/-- What `get_any_port` does to a node, whatever the protocol: the node
keeps its address, whether it is active and its well-formedness, and a
failure changes neither the node nor the port. -/
theorem get_any_port_spec (x : pool4_node) (proto : l4_protocol) (l4 : Nat) :
    (get_any_port x proto l4).2.1.addr = x.addr
      ∧ (x.wf → (get_any_port x proto l4).2.1.wf)
      ∧ ((get_any_port x proto l4).1 ≠ 0 →
        (get_any_port x proto l4).2.1 = x
          ∧ (get_any_port x proto l4).2.2 = l4) := by
  have hE : (-ESRCH : Int) ≠ 0 := by decide
  have key : ∀ (y : pool4_node) (ref : poolnum_ref) (l : Nat),
      y.addr = x.addr → (x.wf → y.wf) →
      (y.set ref (poolnum_get_any (y.get ref) l).2.1).addr = x.addr
        ∧ (x.wf → (y.set ref (poolnum_get_any (y.get ref) l).2.1).wf) := by
    intro y ref l ha hw
    obtain ⟨a1, a2, _⟩ := poolnum_attempt_spec y ref l
    exact ⟨a1.trans ha, fun h => a2 (hw h)⟩
  cases proto
  · -- TCP
    unfold get_any_port
    dsimp only
    cases h1 : x.tcp_high.free with
    | cons v rest =>
      rw [poolnum_get_any_cons h1]
      simp only [if_true]
      have := key x .tcp_high l4 rfl id
      rw [show x.get .tcp_high = x.tcp_high from rfl,
        poolnum_get_any_cons h1] at this
      refine ⟨?_, ?_, ?_⟩ <;> first | trivial | exact this.1 | exact this.2 | exact fun h => absurd rfl h
    | nil =>
      rw [poolnum_get_any_nil h1]
      simp only [hE, if_false]
      cases h2 : x.tcp_low.free with
      | cons v rest =>
        rw [poolnum_get_any_cons h2]
        have := key x .tcp_low l4 rfl id
        rw [show x.get .tcp_low = x.tcp_low from rfl,
          poolnum_get_any_cons h2] at this
        refine ⟨?_, ?_, ?_⟩ <;> first | trivial | exact this.1 | exact this.2 | exact fun h => absurd rfl h
      | nil =>
        rw [poolnum_get_any_nil h2]
        refine ⟨?_, ?_, ?_⟩ <;> first | trivial | rfl | exact fun h => h | exact fun _ => ⟨rfl, rfl⟩
  · -- UDP
    unfold get_any_port
    dsimp only
    cases h1 : x.udp_high_even.free with
    | cons v rest =>
      rw [poolnum_get_any_cons h1]
      simp only [if_true]
      have := key x .udp_high_even l4 rfl id
      rw [show x.get .udp_high_even = x.udp_high_even from rfl,
        poolnum_get_any_cons h1] at this
      refine ⟨?_, ?_, ?_⟩ <;> first | trivial | exact this.1 | exact this.2 | exact fun h => absurd rfl h
    | nil =>
      rw [poolnum_get_any_nil h1]
      simp only [hE, if_false]
      cases h2 : x.udp_high_odd.free with
      | cons v rest =>
        rw [poolnum_get_any_cons h2]
        simp only [if_true]
        have := key x .udp_high_odd l4 rfl id
        rw [show x.get .udp_high_odd = x.udp_high_odd from rfl,
          poolnum_get_any_cons h2] at this
        refine ⟨?_, ?_, ?_⟩ <;> first | trivial | exact this.1 | exact this.2 | exact fun h => absurd rfl h
      | nil =>
        rw [poolnum_get_any_nil h2]
        simp only [hE, if_false]
        cases h3 : x.udp_low_even.free with
        | cons v rest =>
          rw [poolnum_get_any_cons h3]
          simp only [if_true]
          have := key x .udp_low_even l4 rfl id
          rw [show x.get .udp_low_even = x.udp_low_even from rfl,
            poolnum_get_any_cons h3] at this
          refine ⟨?_, ?_, ?_⟩ <;> first | trivial | exact this.1 | exact this.2 | exact fun h => absurd rfl h
        | nil =>
          rw [poolnum_get_any_nil h3]
          simp only [hE, if_false]
          cases h4 : x.udp_low_odd.free with
          | cons v rest =>
            rw [poolnum_get_any_cons h4]
            have := key x .udp_low_odd l4 rfl id
            rw [show x.get .udp_low_odd = x.udp_low_odd from rfl,
              poolnum_get_any_cons h4] at this
            refine ⟨?_, ?_, ?_⟩ <;> first | trivial | exact this.1 | exact this.2 | exact fun h => absurd rfl h
          | nil =>
            rw [poolnum_get_any_nil h4]
            refine ⟨?_, ?_, ?_⟩ <;> first | trivial | rfl | exact fun h => h | exact fun _ => ⟨rfl, rfl⟩
  · -- ICMP
    unfold get_any_port
    dsimp only
    cases h1 : x.icmp_ids.free with
    | cons v rest =>
      rw [poolnum_get_any_cons h1]
      have := key x .icmp_ids l4 rfl id
      rw [show x.get .icmp_ids = x.icmp_ids from rfl,
        poolnum_get_any_cons h1] at this
      refine ⟨?_, ?_, ?_⟩ <;> first | trivial | exact this.1 | exact this.2 | exact fun h => absurd rfl h
    | nil =>
      rw [poolnum_get_any_nil h1]
      refine ⟨?_, ?_, ?_⟩ <;> first | trivial | rfl | exact fun h => h | exact fun _ => ⟨rfl, rfl⟩

theorem get_any_port_entry (x : pool4_node) (proto : l4_protocol)
    (l4 : Nat) : (get_any_port x proto l4).2.1.entry = x.entry := by
  unfold get_any_port
  cases proto <;> dsimp only <;> (try split_ifs) <;> rfl

/-- The order of `get_any_port` for UDP: a high even port if the node has
one, else a high odd one, else a low even one, else a low odd one. -/
theorem get_any_port_udp (x : pool4_node) (l4 : Nat) :
    (x.udp_high_even.free ≠ [] →
        (get_any_port x L4PROTO_UDP l4).1 = 0
          ∧ (get_any_port x L4PROTO_UDP l4).2.2 ∈ x.udp_high_even.free)
      ∧ (x.udp_high_even.free = [] → x.udp_high_odd.free ≠ [] →
        (get_any_port x L4PROTO_UDP l4).1 = 0
          ∧ (get_any_port x L4PROTO_UDP l4).2.2 ∈ x.udp_high_odd.free)
      ∧ (x.udp_high_even.free = [] → x.udp_high_odd.free = [] →
        x.udp_low_even.free ≠ [] →
        (get_any_port x L4PROTO_UDP l4).1 = 0
          ∧ (get_any_port x L4PROTO_UDP l4).2.2 ∈ x.udp_low_even.free)
      ∧ (x.udp_high_even.free = [] → x.udp_high_odd.free = [] →
        x.udp_low_even.free = [] → x.udp_low_odd.free ≠ [] →
        (get_any_port x L4PROTO_UDP l4).1 = 0
          ∧ (get_any_port x L4PROTO_UDP l4).2.2 ∈ x.udp_low_odd.free)
      ∧ (x.udp_high_even.free = [] → x.udp_high_odd.free = [] →
        x.udp_low_even.free = [] → x.udp_low_odd.free = [] →
        (get_any_port x L4PROTO_UDP l4).1 ≠ 0) := by
  have hE : (-ESRCH : Int) ≠ 0 := by decide
  unfold get_any_port
  dsimp only
  refine ⟨?_, ?_, ?_, ?_, ?_⟩
  · intro h1
    obtain ⟨v, rest, hv⟩ := List.exists_cons_of_ne_nil h1
    rw [poolnum_get_any_cons hv, hv]
    simp
  · intro h1 h2
    obtain ⟨v, rest, hv⟩ := List.exists_cons_of_ne_nil h2
    rw [poolnum_get_any_nil h1]
    simp only [hE, if_false]
    rw [poolnum_get_any_cons hv, hv]
    simp
  · intro h1 h2 h3
    obtain ⟨v, rest, hv⟩ := List.exists_cons_of_ne_nil h3
    rw [poolnum_get_any_nil h1]
    simp only [hE, if_false]
    rw [poolnum_get_any_nil h2]
    simp only [hE, if_false]
    rw [poolnum_get_any_cons hv, hv]
    simp
  · intro h1 h2 h3 h4
    obtain ⟨v, rest, hv⟩ := List.exists_cons_of_ne_nil h4
    rw [poolnum_get_any_nil h1]
    simp only [hE, if_false]
    rw [poolnum_get_any_nil h2]
    simp only [hE, if_false]
    rw [poolnum_get_any_nil h3]
    simp only [hE, if_false]
    rw [poolnum_get_any_cons hv, hv]
    simp
  · intro h1 h2 h3 h4
    rw [poolnum_get_any_nil h1]
    simp only [hE, if_false]
    rw [poolnum_get_any_nil h2]
    simp only [hE, if_false]
    rw [poolnum_get_any_nil h3]
    simp only [hE, if_false]
    rw [poolnum_get_any_nil h4]
    exact hE

theorem pool4_get_any_port_wf {st : pool4_state} (hst : st.wf)
    (proto : l4_protocol) (addr result : Nat) :
    (pool4_get_any_port proto addr result st).2.1.wf := by
  unfold pool4_get_any_port
  split
  · exact hst
  · rename_i node hg
    obtain ⟨_, _, _, hm, ha⟩ := pool4_table_get_some hg
    obtain ⟨g1, g2, _⟩ := get_any_port_spec node proto result
    dsimp only
    split
    · exact hst
    · exact pool4_state_wf_update hst hg _ (g1.trans ha)
        (get_any_port_entry node proto result) (g2 (hst.2.1 node hm))

theorem pool4_return_wf {st : pool4_state} (hst : st.wf) (proto : l4_protocol)
    (addr : ipv4_transport_addr) : (pool4_return proto addr st).2.wf := by
  unfold pool4_return
  split
  · exact hst
  · rename_i node hg
    obtain ⟨_, _, _, hm, ha⟩ := pool4_table_get_some hg
    have hn : (node.set (get_poolnum_from_pool4_node proto addr.l4)
        (poolnum_return
          (node.get (get_poolnum_from_pool4_node proto addr.l4))
          addr.l4).2).wf := by
      refine pool4_node_wf_set (hst.2.1 node hm) _ _ ?_
      intro v hv
      rcases poolnum_return_free _ _ v hv with h | h
      · exact hst.2.1 node hm _ v h
      · rw [h, get_poolnum_from_pool4_node_proto]
    have hna := (pool4_node_set_addr node
      (get_poolnum_from_pool4_node proto addr.l4)
      (poolnum_return
        (node.get (get_poolnum_from_pool4_node proto addr.l4))
        addr.l4).2).1.trans ha
    have hu := pool4_state_wf_update hst hg _ hna
      (pool4_node_set_entry _ _ _) hn
    have hget' := (pool4_table_get_update hg _ hna).1
    rw [← hna] at hget'
    have hd := deactivate_or_destroy_pool4_node_wf hu
      (by rw [hna] at hget' ⊢; exact hget') hn
    dsimp only
    split_ifs <;> first | exact hst | exact hu | exact hd

theorem increment_last_used_addr_pool (st : pool4_state) :
    (increment_last_used_addr st).pool = st.pool := by
  unfold increment_last_used_addr initialize_last_used_addr
  split
  · rfl
  · split
    · rfl
    · split <;> rfl

/-- After `increment_last_used_addr` the cursor is NULL or points at the
key of an entry of the table. -/
theorem increment_last_used_addr_cursor (st : pool4_state) :
    (increment_last_used_addr st).last_used_addr = none
      ∨ ∃ x ∈ st.pool,
        (increment_last_used_addr st).last_used_addr = some x.key_ptr := by
  have hinit : (initialize_last_used_addr st).last_used_addr = none
      ∨ ∃ x ∈ st.pool,
        (initialize_last_used_addr st).last_used_addr = some x.key_ptr := by
    unfold initialize_last_used_addr
    cases h : st.pool with
    | nil => exact Or.inl rfl
    | cons x0 rest => exact Or.inr ⟨x0, List.mem_cons_self _ _, rfl⟩
  unfold increment_last_used_addr
  split
  · exact hinit
  · split
    · exact hinit
    · split
      · exact hinit
      · rename_i i _ _
        cases h : st.pool[i + 1]? with
        | none => exact Or.inl rfl
        | some x => exact Or.inr ⟨x, List.getElem?_mem h, rfl⟩

theorem increment_last_used_addr_wf {st : pool4_state} (hst : st.wf) :
    (increment_last_used_addr st).wf := by
  refine ⟨?_, ?_, ?_, ?_⟩
  · rw [increment_last_used_addr_pool]; exact hst.1
  · rw [increment_last_used_addr_pool]; exact hst.2.1
  · rw [increment_last_used_addr_pool]; exact hst.2.2.1
  · intro c hc y hy hye
    rw [increment_last_used_addr_pool] at hy
    rcases increment_last_used_addr_cursor st with h | ⟨x, hx, h⟩
    · rw [h] at hc; cases hc
    · rw [h] at hc
      cases hc
      rw [pool4_node_eq_of_entry hst.2.2.1 hy hx hye]
      rfl

/-- A loop of `pool4_get_any_addr` keeps the state well formed when its
attempt keeps the address, the table entry and the well-formedness of the
node. -/
theorem pool4_get_any_addr_loop_wf
    (attempt : pool4_node → Nat → Int × pool4_node × Nat)
    (hA : ∀ x l4, (attempt x l4).2.1.addr = x.addr
      ∧ (attempt x l4).2.1.entry = x.entry
      ∧ (x.wf → (attempt x l4).2.1.wf)) :
    ∀ (fuel : Nat) (original : Option in_addr_ptr) (st : pool4_state)
      (l4 : Nat) (r : pool4_state × Nat × Option Nat), st.wf →
      pool4_get_any_addr_loop attempt fuel original st l4 = some r →
      r.1.wf := by
  intro fuel
  induction fuel with
  | zero =>
    intro original st l4 r _ h
    simp [pool4_get_any_addr_loop] at h
  | succ fuel ih =>
    intro original st l4 r hst h
    have hinc : (increment_last_used_addr st).wf :=
      increment_last_used_addr_wf hst
    unfold pool4_get_any_addr_loop at h
    dsimp only at h
    generalize increment_last_used_addr st = st1 at h hinc
    split at h
    · split at h
      · exact ih _ _ _ _ hinc h
      · cases h; exact hinc
    · rename_i node hg
      obtain ⟨_, _, _, hm, ha⟩ := pool4_table_get_some hg
      have hu := pool4_state_wf_update hinc hg _
        ((hA node l4).1.trans ha) (hA node l4).2.1
        ((hA node l4).2.2 (hinc.2.1 node hm))
      split at h
      · split at h
        · exact ih _ _ _ _ hinc h
        · cases h; exact hinc
      · split at h
        · cases h; exact hu
        · split at h
          · exact ih _ _ _ _ hu h
          · cases h; exact hu

theorem pool4_get_any_addr_wf {st : pool4_state} (hst : st.wf) (fuel : Nat)
    (proto : l4_protocol) (l4_id : Nat) (result : ipv4_transport_addr)
    (r : Int × pool4_state × ipv4_transport_addr)
    (h : pool4_get_any_addr fuel proto l4_id result st = some r) :
    r.2.1.wf := by
  unfold pool4_get_any_addr at h
  split at h
  · cases h; exact hst
  · dsimp only at h
    have w1 := pool4_get_any_addr_loop_wf
      (fun node l4 =>
        ((poolnum_get_any
            (node.get (get_poolnum_from_pool4_node proto l4_id)) l4).1,
          node.set (get_poolnum_from_pool4_node proto l4_id)
            (poolnum_get_any
              (node.get (get_poolnum_from_pool4_node proto l4_id)) l4).2.1,
          (poolnum_get_any
            (node.get (get_poolnum_from_pool4_node proto l4_id)) l4).2.2))
      (fun x l4 => ⟨(poolnum_attempt_spec x _ l4).1,
        poolnum_attempt_entry x _ l4, (poolnum_attempt_spec x _ l4).2.1⟩)
      fuel st.last_used_addr st result.l4
    have w2 := pool4_get_any_addr_loop_wf
      (fun node l4 => get_any_port node proto l4)
      (fun x l4 => ⟨(get_any_port_spec x proto l4).1,
        get_any_port_entry x proto l4,
        (get_any_port_spec x proto l4).2.1⟩) fuel
    split at h
    · cases h
    · rename_i st1 l4 l3 h1
      cases h
      exact w1 _ hst h1
    · rename_i st1 l4 h1
      have hst1 := w1 _ hst h1
      split at h
      · cases h
      · rename_i st2 l4' l3 h2
        cases h
        exact w2 _ _ _ _ hst1 h2
      · rename_i st2 l4' h2
        cases h
        exact w2 _ _ _ _ hst1 h2

/-- Every state the pool reaches is well formed. -/
theorem pool4_reachable_wf {st : pool4_state} (h : pool4_reachable st) :
    st.wf := by
  induction h with
  | init =>
    exact ⟨List.nodup_nil, fun x hx => absurd hx (List.not_mem_nil x),
      List.nodup_nil, fun c hc => by cases hc⟩
  | register addr alloc st _ hfresh ih =>
    exact pool4_register_wf ih addr alloc hfresh
  | remove addr st _ ih => exact pool4_remove_wf ih addr
  | get proto addr st _ ih => exact pool4_get_wf ih proto addr
  | get_match proto addr result st _ ih =>
    exact pool4_get_match_wf ih proto addr result
  | get_any_port proto addr result st _ ih =>
    exact pool4_get_any_port_wf ih proto addr result
  | get_any_addr fuel proto l4_id result st r _ hr ih =>
    exact pool4_get_any_addr_wf ih fuel proto l4_id result r hr
  | ret proto addr st _ ih => exact pool4_return_wf ih proto addr

theorem spec_pool4_dist_bounds {pool : List pool4_node} {g : Nat}
    (hg : g < pool.length) (c : Option Nat) :
    1 ≤ spec_pool4_dist pool g c ∧ spec_pool4_dist pool g c ≤ pool.length := by
  unfold spec_pool4_dist
  split
  · omega
  · split
    · omega
    · rename_i k hk
      obtain ⟨_, _, hlt, _⟩ := pool4_table_get_aux_some hk
      split <;> omega

theorem spec_pool4_dist_self {pool : List pool4_node}
    (hnd : (pool.map pool4_node.addr).Nodup) {g : Nat} {y : pool4_node}
    (hy : pool[g]? = some y) :
    spec_pool4_dist pool g (some y.addr) = pool.length := by
  unfold spec_pool4_dist
  dsimp only
  rw [pool4_table_get_aux_nodup hnd hy]
  dsimp only
  rw [if_neg (by omega)]
  obtain ⟨hlt, _⟩ := List.getElem?_eq_some.mp hy
  omega

/-- One step of `increment_last_used_addr` on a table that is not empty:
the cursor lands on the key of a node of the table, one step closer to any
given position. -/
theorem increment_last_used_addr_spec {pool : List pool4_node}
    (hnd : (pool.map pool4_node.addr).Nodup) (c : Option in_addr_ptr)
    {g : Nat} (hg : g < pool.length) :
    ∃ j x, pool[j]? = some x
      ∧ increment_last_used_addr { pool := pool, last_used_addr := c }
          = { pool := pool, last_used_addr := some x.key_ptr }
      ∧ (spec_pool4_dist pool g (c.map in_addr_ptr.addr) = 1 → j = g)
      ∧ (2 ≤ spec_pool4_dist pool g (c.map in_addr_ptr.addr) →
        spec_pool4_dist pool g (some x.addr) + 1
          = spec_pool4_dist pool g (c.map in_addr_ptr.addr)) := by
  have hhead : ∃ x0, pool[0]? = some x0
      ∧ pool.head?.map pool4_node.key_ptr = some x0.key_ptr := by
    cases pool with
    | nil => simp at hg
    | cons x0 rest => exact ⟨x0, by simp, rfl⟩
  obtain ⟨x0, hx0, hh⟩ := hhead
  have d0 : spec_pool4_dist pool g (some x0.addr)
      = if 0 < g then g - 0 else pool.length - 0 + g := by
    unfold spec_pool4_dist
    dsimp only
    rw [pool4_table_get_aux_nodup hnd hx0]
  -- the cursor starts over at the first node
  have start : ∀ (c' : Option in_addr_ptr) (a' : Option Nat),
      spec_pool4_dist pool g a' = g + 1 →
      initialize_last_used_addr { pool := pool, last_used_addr := c' }
        = { pool := pool, last_used_addr := some x0.key_ptr } ∧
      (spec_pool4_dist pool g a' = 1 → 0 = g)
        ∧ (2 ≤ spec_pool4_dist pool g a' →
          spec_pool4_dist pool g (some x0.addr) + 1
            = spec_pool4_dist pool g a') := by
    intro c' a' hc'
    refine ⟨?_, ?_, ?_⟩
    · unfold initialize_last_used_addr
      dsimp only
      rw [hh]
    · intro h; omega
    · intro h
      rw [d0, hc']
      split <;> omega
  cases c with
  | none =>
    obtain ⟨s1, s2, s3⟩ := start none none rfl
    exact ⟨0, x0, hx0, s1, s2, s3⟩
  | some a =>
    show ∃ j x, pool[j]? = some x
      ∧ increment_last_used_addr { pool := pool, last_used_addr := some a }
          = { pool := pool, last_used_addr := some x.key_ptr }
      ∧ (spec_pool4_dist pool g (some a.addr) = 1 → j = g)
      ∧ (2 ≤ spec_pool4_dist pool g (some a.addr) →
        spec_pool4_dist pool g (some x.addr) + 1
          = spec_pool4_dist pool g (some a.addr))
    cases hk : pool4_table_get_aux pool a.addr with
    | none =>
      have hd : spec_pool4_dist pool g (some a.addr) = g + 1 := by
        unfold spec_pool4_dist; dsimp only; rw [hk]
      obtain ⟨s1, s2, s3⟩ := start (some a) (some a.addr) hd
      refine ⟨0, x0, hx0, ?_, s2, s3⟩
      unfold increment_last_used_addr
      dsimp only
      rw [hk]
      exact s1
    | some k =>
      obtain ⟨_, _, hlt, _⟩ := pool4_table_get_aux_some hk
      have hd : spec_pool4_dist pool g (some a.addr)
          = if k < g then g - k else pool.length - k + g := by
        unfold spec_pool4_dist; dsimp only; rw [hk]
      by_cases hlast : k + 1 = pool.length
      · have hd' : spec_pool4_dist pool g (some a.addr) = g + 1 := by
          rw [hd]; split <;> omega
        obtain ⟨s1, s2, s3⟩ := start (some a) (some a.addr) hd'
        refine ⟨0, x0, hx0, ?_, s2, s3⟩
        unfold increment_last_used_addr
        dsimp only
        rw [hk]
        dsimp only
        rw [if_pos hlast]
        exact s1
      · have hlt' : k + 1 < pool.length := by omega
        have hx : pool[k + 1]? = some pool[k + 1] :=
          List.getElem?_eq_getElem hlt'
        have d1 : spec_pool4_dist pool g (some pool[k + 1].addr)
            = if k + 1 < g then g - (k + 1) else pool.length - (k + 1) + g := by
          unfold spec_pool4_dist
          dsimp only
          rw [pool4_table_get_aux_nodup hnd hx]
        refine ⟨k + 1, pool[k + 1], hx, ?_, ?_, ?_⟩
        · unfold increment_last_used_addr
          dsimp only
          rw [hk]
          dsimp only
          rw [if_neg hlast, hx]
          rfl
        · rw [hd]; split <;> omega
        · rw [hd, d1]; split <;> split <;> omega

/-- A loop of `pool4_get_any_addr` ends with success when an active node of
the table accepts the attempt: it stops at an active node that accepts
it.  The pointer `original` is NULL, or dangling, or reads the address of
the entry it points into. -/
theorem pool4_get_any_addr_loop_success
    (attempt : pool4_node → Nat → Int × pool4_node × Nat)
    (P : pool4_node → Prop)
    (hP : ∀ x l4, (attempt x l4).1 = 0 ↔ P x)
    (hF : ∀ x l4, (attempt x l4).1 ≠ 0 →
      (attempt x l4).2.1 = x ∧ (attempt x l4).2.2 = l4)
    {pool : List pool4_node} (hnd : (pool.map pool4_node.addr).Nodup)
    {g : Nat} {y : pool4_node} (hy : pool[g]? = some y)
    (hya : y.active = true) (hyP : P y) (original : Option in_addr_ptr)
    (hO : ∀ o, original = some o →
      ∀ x ∈ pool, x.entry = o.entry → x.addr = o.addr) :
    ∀ (fuel : Nat) (c : Option in_addr_ptr) (l4 : Nat),
      spec_pool4_dist pool g (c.map in_addr_ptr.addr)
        ≤ spec_pool4_dist pool g (original.map in_addr_ptr.addr) →
      spec_pool4_dist pool g (c.map in_addr_ptr.addr) ≤ fuel →
      ∃ x, x ∈ pool ∧ x.active = true ∧ P x
        ∧ pool4_get_any_addr_loop attempt fuel original
            { pool := pool, last_used_addr := c } l4
          = some ({ pool := pool4_table_update pool x.addr (attempt x l4).2.1,
                    last_used_addr := some x.key_ptr },
                  (attempt x l4).2.2, some x.addr) := by
  obtain ⟨hg, _⟩ := List.getElem?_eq_some.mp hy
  intro fuel
  induction fuel with
  | zero =>
    intro c l4 _ h
    have := (spec_pool4_dist_bounds hg (c.map in_addr_ptr.addr)).1
    omega
  | succ fuel ih =>
    intro c l4 ho hf
    obtain ⟨j, x, hx, hinc, hd1, hd2⟩ :=
      increment_last_used_addr_spec hnd c hg
    have hget := pool4_table_get_nodup hnd hx
    have hxm : x ∈ pool := List.getElem?_mem hx
    unfold pool4_get_any_addr_loop
    dsimp only
    rw [hinc]
    dsimp only [Option.map_some', Option.getD_some, pool4_node.key_ptr]
    rw [hget]
    dsimp only
    by_cases hgood : x.active = true ∧ (attempt x l4).1 = 0
    · refine ⟨x, hxm, hgood.1, (hP x l4).mp hgood.2, ?_⟩
      rw [if_neg (by rw [hgood.1]; decide), if_pos hgood.2]
    · -- the cursor has not reached position `g` yet
      have hd : 2 ≤ spec_pool4_dist pool g (c.map in_addr_ptr.addr) := by
        by_contra hlt
        have h1 : spec_pool4_dist pool g (c.map in_addr_ptr.addr) = 1 := by
          have := (spec_pool4_dist_bounds hg (c.map in_addr_ptr.addr)).1
          omega
        have hj := hd1 h1
        subst hj
        rw [hy] at hx
        cases hx
        exact hgood ⟨hya, (hP y l4).mpr hyP⟩
      have hstep := hd2 hd
      have hne : original.map in_addr_ptr.entry ≠ some x.entry := by
        intro h
        cases ho' : original with
        | none => rw [ho'] at h; cases h
        | some o =>
          rw [ho'] at h ho
          have he : x.entry = o.entry := by
            simpa using h.symm
          have ha := hO o ho' x hxm he
          have : spec_pool4_dist pool g ((some o).map in_addr_ptr.addr)
              = spec_pool4_dist pool g (some x.addr) := by
            rw [ha]; rfl
          omega
      obtain ⟨x', hx'm, hx'a, hx'P, hx'⟩ :=
        ih (some x.key_ptr) l4
          (by show spec_pool4_dist pool g (some x.addr) ≤ _; omega)
          (by show spec_pool4_dist pool g (some x.addr) ≤ _; omega)
      refine ⟨x', hx'm, hx'a, hx'P, ?_⟩
      by_cases ha : x.active = true
      · have hfail : (attempt x l4).1 ≠ 0 := fun h => hgood ⟨ha, h⟩
        obtain ⟨f1, f2⟩ := hF x l4 hfail
        rw [if_neg (by rw [ha]; decide), if_neg hfail, f1, f2,
          pool4_table_update_self hget, if_pos hne]
        exact hx'
      · rw [if_pos (by simpa using ha), if_pos hne]
        exact hx'

/-- A loop of `pool4_get_any_addr` whose cursor started at the key of a
node of the table, on a table in which no active node accepts the attempt,
is left through its condition after one round, with the state and the port
as they were. -/
theorem pool4_get_any_addr_loop_exit
    (attempt : pool4_node → Nat → Int × pool4_node × Nat)
    (hF : ∀ x l4, (attempt x l4).1 ≠ 0 →
      (attempt x l4).2.1 = x ∧ (attempt x l4).2.2 = l4)
    {pool : List pool4_node} (hnd : (pool.map pool4_node.addr).Nodup)
    (hne : (pool.map pool4_node.entry).Nodup)
    {k0 : Nat} {y0 : pool4_node} (hy0 : pool[k0]? = some y0)
    (hbad : ∀ x ∈ pool, x.active = true → ∀ l4, (attempt x l4).1 ≠ 0) :
    ∀ (fuel : Nat) (c : Option in_addr_ptr) (l4 : Nat),
      spec_pool4_dist pool k0 (c.map in_addr_ptr.addr) ≤ fuel →
      pool4_get_any_addr_loop attempt fuel (some y0.key_ptr)
          { pool := pool, last_used_addr := c } l4
        = some ({ pool := pool, last_used_addr := some y0.key_ptr }, l4,
            none) := by
  obtain ⟨hg, _⟩ := List.getElem?_eq_some.mp hy0
  have hy0m : y0 ∈ pool := List.getElem?_mem hy0
  intro fuel
  induction fuel with
  | zero =>
    intro c l4 h
    have := (spec_pool4_dist_bounds hg (c.map in_addr_ptr.addr)).1
    omega
  | succ fuel ih =>
    intro c l4 hf
    obtain ⟨j, x, hx, hinc, hd1, hd2⟩ :=
      increment_last_used_addr_spec hnd c hg
    have hget := pool4_table_get_nodup hnd hx
    have hxm : x ∈ pool := List.getElem?_mem hx
    -- what happens behind the attempt
    have again : (if some y0.entry ≠ some x.entry then
          pool4_get_any_addr_loop attempt fuel (some y0.key_ptr)
            { pool := pool, last_used_addr := some x.key_ptr } l4
        else
          some ({ pool := pool, last_used_addr := some x.key_ptr }, l4, none))
        = some ({ pool := pool, last_used_addr := some y0.key_ptr }, l4,
            none) := by
      by_cases h1 : spec_pool4_dist pool k0 (c.map in_addr_ptr.addr) = 1
      · have hj := hd1 h1
        subst hj
        rw [hy0] at hx
        cases hx
        rw [if_neg (by simp)]
      · have hd : 2 ≤ spec_pool4_dist pool k0 (c.map in_addr_ptr.addr) := by
          have := (spec_pool4_dist_bounds hg (c.map in_addr_ptr.addr)).1
          omega
        have hstep := hd2 hd
        have hself := spec_pool4_dist_self hnd hy0
        have hb := (spec_pool4_dist_bounds hg (c.map in_addr_ptr.addr)).2
        have hne' : some y0.entry ≠ some x.entry := by
          intro h
          have he : y0.entry = x.entry := by simpa using h
          have := pool4_node_eq_of_entry hne hy0m hxm he
          rw [← this] at hstep
          omega
        rw [if_pos hne']
        exact ih (some x.key_ptr) l4
          (by show spec_pool4_dist pool k0 (some x.addr) ≤ _; omega)
    unfold pool4_get_any_addr_loop
    dsimp only
    rw [hinc]
    dsimp only [Option.map_some', Option.getD_some, pool4_node.key_ptr]
    rw [hget]
    dsimp only
    by_cases ha : x.active = true
    · have hfail := hbad x hxm ha l4
      obtain ⟨f1, f2⟩ := hF x l4 hfail
      rw [if_neg (by rw [ha]; decide), if_neg hfail, f1, f2,
        pool4_table_update_self hget]
      exact again
    · rw [if_pos (by simpa using ha)]
      exact again

/-- Two ports of the same set have the same class: for UDP the same parity
and the same side of 1024, for TCP the same side of 1024. -/
theorem get_poolnum_from_pool4_node_eq {proto : l4_protocol} {a b : Nat}
    (h : get_poolnum_from_pool4_node proto a
      = get_poolnum_from_pool4_node proto b) :
    (proto = L4PROTO_UDP → a % 2 = b % 2 ∧ (a < 1024 ↔ b < 1024))
      ∧ (proto = L4PROTO_TCP → (a < 1024 ↔ b < 1024)) := by
  unfold get_poolnum_from_pool4_node at h
  cases proto
  · refine ⟨fun hh => (by cases hh), fun _ => ?_⟩
    dsimp only at h
    split_ifs at h <;> omega
  · refine ⟨fun _ => ?_, fun hh => (by cases hh)⟩
    dsimp only at h
    split_ifs at h <;> omega
  · exact ⟨fun hh => (by cases hh), fun hh => (by cases hh)⟩

/-- When some active address has a free port in the set of the requested
id, `pool4_get_any_addr` returns 0 within as many iterations as the table
has addresses, with an active address of the table and a port of that
same set. -/
theorem pool4_get_any_addr_compatible (st : pool4_state)
    (hr : pool4_reachable st) (proto : l4_protocol) (l4_id : Nat)
    (result : ipv4_transport_addr) (fuel : Nat)
    (hfuel : st.pool.length ≤ fuel)
    (hav : ∃ x ∈ st.pool, x.active = true
      ∧ (x.get (get_poolnum_from_pool4_node proto l4_id)).free ≠ []) :
    ∃ st' res, pool4_get_any_addr fuel proto l4_id result st
        = some (0, st', res)
      ∧ (∃ x ∈ st.pool, x.active = true ∧ x.addr = res.l3)
      ∧ get_poolnum_from_pool4_node proto res.l4
          = get_poolnum_from_pool4_node proto l4_id := by
  obtain ⟨hnd, hwf, _, hcur⟩ := pool4_reachable_wf hr
  obtain ⟨y, hym, hya, hyf⟩ := hav
  obtain ⟨g, hy⟩ := List.mem_iff_getElem?.mp hym
  obtain ⟨hg, _⟩ := List.getElem?_eq_some.mp hy
  obtain ⟨pool, last⟩ := st
  dsimp only at hnd hwf hcur hym hy hg hfuel
  have hne : pool4_is_emtpy { pool := pool, last_used_addr := last }
      = false := by
    unfold pool4_is_emtpy
    cases pool with
    | nil => simp at hg
    | cons _ _ => rfl
  obtain ⟨x, hxm, hxa, hxP, hloop⟩ := pool4_get_any_addr_loop_success
    (fun node l4 =>
      ((poolnum_get_any
          (node.get (get_poolnum_from_pool4_node proto l4_id)) l4).1,
        node.set (get_poolnum_from_pool4_node proto l4_id)
          (poolnum_get_any
            (node.get (get_poolnum_from_pool4_node proto l4_id)) l4).2.1,
        (poolnum_get_any
          (node.get (get_poolnum_from_pool4_node proto l4_id)) l4).2.2))
    (fun x => (x.get (get_poolnum_from_pool4_node proto l4_id)).free ≠ [])
    (fun x l4 => (poolnum_attempt_spec x _ l4).2.2.1)
    (fun x l4 => (poolnum_attempt_spec x _ l4).2.2.2.2)
    hnd hy hya hyf last hcur fuel last result.l4 (Nat.le_refl _)
    (Nat.le_trans (spec_pool4_dist_bounds hg _).2 hfuel)
  have hport := (poolnum_attempt_spec x
    (get_poolnum_from_pool4_node proto l4_id) result.l4).2.2.2.1
    ((poolnum_attempt_spec x _ result.l4).2.2.1.mpr hxP)
  have hclass := hwf x hxm _ _ hport
  rw [get_poolnum_from_pool4_node_proto] at hclass
  have heq : pool4_get_any_addr fuel proto l4_id result
      { pool := pool, last_used_addr := last }
      = some (0,
          { pool := pool4_table_update pool x.addr
              (x.set (get_poolnum_from_pool4_node proto l4_id)
                (poolnum_get_any
                  (x.get (get_poolnum_from_pool4_node proto l4_id))
                  result.l4).2.1),
            last_used_addr := some x.key_ptr },
          { l3 := x.addr,
            l4 := (poolnum_get_any
              (x.get (get_poolnum_from_pool4_node proto l4_id))
              result.l4).2.2 }) := by
    unfold pool4_get_any_addr
    rw [hne]
    dsimp only
    rw [hloop]
    rfl
  exact ⟨_, _, heq, ⟨x, hxm, hxa, rfl⟩, hclass⟩

/-- C26: in every state the pool reaches through `pool4_register`,
`pool4_get`, `pool4_get_match`, `pool4_get_any_port`, `pool4_get_any_addr`,
`pool4_return` and `pool4_remove`, if some active address has a free port in
the class of the requested id, `pool4_get_any_addr` returns (given as many
iterations as the pool has addresses) 0 with an active address of the pool
and a port of that class: for UDP the same parity and the same side of
1024, for TCP the same side of 1024, for ICMP any identifier. -/
theorem pool4_get_any_addr_keeps_class (st : pool4_state)
    (hr : pool4_reachable st) (proto : l4_protocol) (l4_id : Nat)
    (result : ipv4_transport_addr) (fuel : Nat)
    (hfuel : st.pool.length ≤ fuel)
    (hav : ∃ x ∈ st.pool, x.active = true
      ∧ (x.get (get_poolnum_from_pool4_node proto l4_id)).free ≠ []) :
    ∃ st' res, pool4_get_any_addr fuel proto l4_id result st
        = some (0, st', res)
      ∧ (∃ x ∈ st.pool, x.active = true ∧ x.addr = res.l3)
      ∧ get_poolnum_from_pool4_node proto res.l4
          = get_poolnum_from_pool4_node proto l4_id
      ∧ (proto = L4PROTO_UDP →
          res.l4 % 2 = l4_id % 2 ∧ (res.l4 < 1024 ↔ l4_id < 1024))
      ∧ (proto = L4PROTO_TCP → (res.l4 < 1024 ↔ l4_id < 1024)) := by
  obtain ⟨st', res, heq, hx, hclass⟩ :=
    pool4_get_any_addr_compatible st hr proto l4_id result fuel hfuel hav
  exact ⟨st', res, heq, hx, hclass,
    (get_poolnum_from_pool4_node_eq hclass).1,
    (get_poolnum_from_pool4_node_eq hclass).2⟩

theorem poolnum_init_free_ne_nil (min max step : Nat) :
    (poolnum_init min max step).free ≠ [] := by
  unfold poolnum_init
  simp [List.range_succ]

/-- C26 on an example: from the pool that holds only 192.0.2.7, all ports
free, a request for the UDP port 80 is answered with 192.0.2.7 and a port
that is even and below 1024. -/
theorem pool4_get_any_addr_keeps_class_witness :
    pool4_reachable sample_pool4
      ∧ ∃ st' res, pool4_get_any_addr 1 L4PROTO_UDP 80 { l3 := 0, l4 := 0 }
          sample_pool4 = some (0, st', res)
        ∧ res.l3 = 0xc0000207 ∧ res.l4 % 2 = 0 ∧ res.l4 < 1024 := by
  have hr : pool4_reachable sample_pool4 :=
    pool4_reachable.register _ _ _ pool4_reachable.init
      (fun _ _ h => nomatch h)
  obtain ⟨st', res, h1, ⟨x, hx, _, hxa⟩, _, h4, _⟩ :=
    pool4_get_any_addr_keeps_class sample_pool4 hr L4PROTO_UDP 80
      { l3 := 0, l4 := 0 } 1 (Nat.le_refl 1)
      ⟨_, List.mem_singleton.mpr rfl, rfl, poolnum_init_free_ne_nil 0 1022 2⟩
  refine ⟨hr, st', res, h1, ?_, (h4 rfl).1, (h4 rfl).2.mpr (by decide)⟩
  rw [← hxa, List.mem_singleton.mp hx]

/-- The set of a UDP port, in terms of its side of 1024 and its parity. -/
theorem get_poolnum_from_pool4_node_udp (p : Nat) :
    (get_poolnum_from_pool4_node L4PROTO_UDP p = .udp_low_even
        ↔ p < 1024 ∧ p % 2 = 0)
      ∧ (get_poolnum_from_pool4_node L4PROTO_UDP p = .udp_low_odd
        ↔ p < 1024 ∧ p % 2 = 1)
      ∧ (get_poolnum_from_pool4_node L4PROTO_UDP p = .udp_high_even
        ↔ 1024 ≤ p ∧ p % 2 = 0)
      ∧ (get_poolnum_from_pool4_node L4PROTO_UDP p = .udp_high_odd
        ↔ 1024 ≤ p ∧ p % 2 = 1) := by
  unfold get_poolnum_from_pool4_node
  dsimp only
  split_ifs <;> simp <;> omega

/-- The requests of `sample_pool4_requests` stay among the states the pool
reaches. -/
theorem sample_pool4_requests_reachable (n : Nat) :
    pool4_reachable (sample_pool4_requests n) := by
  induction n with
  | zero =>
    exact pool4_reachable.register _ _ _ pool4_reachable.init
      (fun _ _ h => nomatch h)
  | succ n ih =>
    unfold sample_pool4_requests
    cases h : pool4_get_any_addr 1 L4PROTO_UDP 80 { l3 := 0, l4 := 0 }
        (sample_pool4_requests n) with
    | none => exact ih
    | some r => exact pool4_reachable.get_any_addr _ _ _ _ _ r ih h

/-- `get_any_port` succeeds for UDP exactly when one of the four UDP sets
of the node has a free port. -/
theorem get_any_port_udp_iff (x : pool4_node) (l4 : Nat) :
    (get_any_port x L4PROTO_UDP l4).1 = 0
      ↔ (x.udp_high_even.free ≠ [] ∨ x.udp_high_odd.free ≠ []
        ∨ x.udp_low_even.free ≠ [] ∨ x.udp_low_odd.free ≠ []) := by
  obtain ⟨h1, h2, h3, h4, h5⟩ := get_any_port_udp x l4
  by_cases a1 : x.udp_high_even.free = []
  · by_cases a2 : x.udp_high_odd.free = []
    · by_cases a3 : x.udp_low_even.free = []
      · by_cases a4 : x.udp_low_odd.free = []
        · simp [a1, a2, a3, a4, h5 a1 a2 a3 a4]
        · simp [a1, a2, a3, a4, (h4 a1 a2 a3 a4).1]
      · simp [a1, a2, a3, (h3 a1 a2 a3).1]
    · simp [a1, a2, (h2 a1 a2).1]
  · simp [a1, (h1 a1).1]

/-- C27, amended: for an incoming UDP port that is low and even, in every
state the pool reaches and within as many iterations as the table has
addresses, `pool4_get_any_addr` returns a low even port when an active
address has one.  When none has and `last_used_addr` points into an entry
of the table (it is neither NULL nor left on an entry that was destroyed),
it returns 0 with an active address `x` that has a free UDP
port, and from that address a high even port if `x` has one, else a high
odd port if `x` has one, else a low odd port: the range class is relaxed
before the parity is.  When no active address has a free UDP port at all
it returns -ESRCH and leaves the pool and `*result` as they were. -/
theorem pool4_get_any_addr_fallback (st : pool4_state)
    (hr : pool4_reachable st) (l4_id : Nat) (hlow : l4_id < 1024)
    (heven : l4_id % 2 = 0) (result : ipv4_transport_addr) (fuel : Nat)
    (hfuel : st.pool.length ≤ fuel) :
    ((∃ x ∈ st.pool, x.active = true ∧ x.udp_low_even.free ≠ []) →
        ∃ st' res, pool4_get_any_addr fuel L4PROTO_UDP l4_id result st
            = some (0, st', res)
          ∧ res.l4 < 1024 ∧ res.l4 % 2 = 0)
      ∧ ((∀ x ∈ st.pool, x.active = true → x.udp_low_even.free = []) →
        (∃ y ∈ st.pool, st.last_used_addr = some y.key_ptr) →
        ((∃ x ∈ st.pool, x.active = true
            ∧ (x.udp_high_even.free ≠ [] ∨ x.udp_high_odd.free ≠ []
              ∨ x.udp_low_odd.free ≠ [])) →
          ∃ st' res x, pool4_get_any_addr fuel L4PROTO_UDP l4_id result st
              = some (0, st', res)
            ∧ x ∈ st.pool ∧ x.active = true ∧ x.addr = res.l3
            ∧ (x.udp_high_even.free ≠ [] →
              1024 ≤ res.l4 ∧ res.l4 % 2 = 0)
            ∧ (x.udp_high_even.free = [] → x.udp_high_odd.free ≠ [] →
              1024 ≤ res.l4 ∧ res.l4 % 2 = 1)
            ∧ (x.udp_high_even.free = [] → x.udp_high_odd.free = [] →
              res.l4 < 1024 ∧ res.l4 % 2 = 1))
        ∧ ((∀ x ∈ st.pool, x.active = true →
            x.udp_high_even.free = [] ∧ x.udp_high_odd.free = []
              ∧ x.udp_low_odd.free = []) →
          pool4_get_any_addr fuel L4PROTO_UDP l4_id result st
            = some (-ESRCH, st, result))) := by
  have hids : get_poolnum_from_pool4_node L4PROTO_UDP l4_id
      = poolnum_ref.udp_low_even :=
    (get_poolnum_from_pool4_node_udp l4_id).1.mpr ⟨hlow, heven⟩
  refine ⟨?_, ?_⟩
  · rintro ⟨x, hxm, hxa, hxf⟩
    obtain ⟨st', res, heq, _, hclass⟩ :=
      pool4_get_any_addr_compatible st hr L4PROTO_UDP l4_id result fuel
        hfuel ⟨x, hxm, hxa, by rw [hids]; exact hxf⟩
    rw [hids] at hclass
    exact ⟨st', res, heq, (get_poolnum_from_pool4_node_udp res.l4).1.mp hclass⟩
  · obtain ⟨hnd, hwf, hne', _⟩ := pool4_reachable_wf hr
    obtain ⟨pool, last⟩ := st
    dsimp only at hnd hwf hne' hfuel ⊢
    rintro hnone ⟨y0, hy0m, hlast⟩
    subst hlast
    obtain ⟨k0, hy0⟩ := List.mem_iff_getElem?.mp hy0m
    obtain ⟨hk0, _⟩ := List.getElem?_eq_some.mp hy0
    have hne : pool4_is_emtpy
        { pool := pool, last_used_addr := some y0.key_ptr } = false := by
      unfold pool4_is_emtpy
      cases pool with
      | nil => simp at hk0
      | cons _ _ => rfl
    have hbound : ∀ (g : Nat), g < pool.length →
        spec_pool4_dist pool g (some y0.addr) ≤ fuel := fun g hg =>
      Nat.le_trans (spec_pool4_dist_bounds hg _).2 hfuel
    have hloop1 := pool4_get_any_addr_loop_exit
      (fun node l4 =>
        ((poolnum_get_any (node.get poolnum_ref.udp_low_even) l4).1,
          node.set poolnum_ref.udp_low_even
            (poolnum_get_any (node.get poolnum_ref.udp_low_even) l4).2.1,
          (poolnum_get_any (node.get poolnum_ref.udp_low_even) l4).2.2))
      (fun x l4 => (poolnum_attempt_spec x _ l4).2.2.2.2)
      hnd hne' hy0
      (fun x hxm hxa l4 h =>
        (poolnum_attempt_spec x poolnum_ref.udp_low_even l4).2.2.1.mp h
          (hnone x hxm hxa))
      fuel (some y0.key_ptr) result.l4 (hbound k0 hk0)
    refine ⟨?_, ?_⟩
    · rintro ⟨x0, hx0m, hx0a, hx0f⟩
      obtain ⟨g, hx0⟩ := List.mem_iff_getElem?.mp hx0m
      obtain ⟨hg, _⟩ := List.getElem?_eq_some.mp hx0
      obtain ⟨x, hxm, hxa, hxP, hloop2⟩ := pool4_get_any_addr_loop_success
        (fun node l4 => get_any_port node L4PROTO_UDP l4)
        (fun x => x.udp_high_even.free ≠ [] ∨ x.udp_high_odd.free ≠ []
          ∨ x.udp_low_even.free ≠ [] ∨ x.udp_low_odd.free ≠ [])
        (fun x l4 => get_any_port_udp_iff x l4)
        (fun x l4 => (get_any_port_spec x L4PROTO_UDP l4).2.2)
        hnd hx0 hx0a
        (by rcases hx0f with h | h | h
            · exact Or.inl h
            · exact Or.inr (Or.inl h)
            · exact Or.inr (Or.inr (Or.inr h)))
        (some y0.key_ptr)
        (fun o ho x hxm he => by
          cases ho
          exact congrArg pool4_node.addr
            (pool4_node_eq_of_entry hne' hxm hy0m he))
        fuel (some y0.key_ptr) result.l4 (Nat.le_refl _) (hbound g hg)
      have heq : pool4_get_any_addr fuel L4PROTO_UDP l4_id result
          { pool := pool, last_used_addr := some y0.key_ptr }
          = some (0,
              { pool := pool4_table_update pool x.addr
                  (get_any_port x L4PROTO_UDP result.l4).2.1,
                last_used_addr := some x.key_ptr },
              { l3 := x.addr,
                l4 := (get_any_port x L4PROTO_UDP result.l4).2.2 }) := by
        unfold pool4_get_any_addr
        rw [hne]
        dsimp only
        rw [hids, hloop1]
        dsimp only
        rw [hloop2]
        rfl
      obtain ⟨h1, h2, _, h4, _⟩ := get_any_port_udp x result.l4
      have hxw := hwf x hxm
      have hle := hnone x hxm hxa
      refine ⟨_, _, x, heq, hxm, hxa, rfl, ?_, ?_, ?_⟩
      · intro a1
        exact (get_poolnum_from_pool4_node_udp _).2.2.1.mp
          (hxw poolnum_ref.udp_high_even _ (h1 a1).2)
      · intro a1 a2
        exact (get_poolnum_from_pool4_node_udp _).2.2.2.mp
          (hxw poolnum_ref.udp_high_odd _ (h2 a1 a2).2)
      · intro a1 a2
        have a4 : x.udp_low_odd.free ≠ [] := by
          rcases hxP with h | h | h | h
          · exact absurd a1 h
          · exact absurd a2 h
          · exact absurd hle h
          · exact h
        exact (get_poolnum_from_pool4_node_udp _).2.1.mp
          (hxw poolnum_ref.udp_low_odd _ (h4 a1 a2 hle a4).2)
    · intro hall
      have hloop2 := pool4_get_any_addr_loop_exit
        (fun node l4 => get_any_port node L4PROTO_UDP l4)
        (fun x l4 => (get_any_port_spec x L4PROTO_UDP l4).2.2)
        hnd hne' hy0
        (fun x hxm hxa l4 h => by
          have hz := (get_any_port_udp_iff x l4).mp h
          obtain ⟨b1, b2, b4⟩ := hall x hxm hxa
          have b3 := hnone x hxm hxa
          rcases hz with h | h | h | h
          · exact h b1
          · exact h b2
          · exact h b3
          · exact h b4)
        fuel (some y0.key_ptr) result.l4 (hbound k0 hk0)
      unfold pool4_get_any_addr
      rw [hne]
      dsimp only
      rw [hids, hloop1]
      dsimp only
      rw [hloop2]
      rfl

/-- C27 refuted: after 512 requests for the UDP port 80 the only address
of the pool, 192.0.2.7, has no low even port left and has all its low odd
ports, 1 and 3 first; the next request for the port 80 is answered with
the high even port 1024. -/
theorem pool4_get_any_addr_prefers_high :
    pool4_reachable (sample_pool4_requests 512)
      ∧ (sample_pool4_requests 512).pool.map
          (fun x => (x.addr, x.active, x.udp_low_even.free,
            x.udp_low_odd.free.take 2, x.udp_low_odd.free.length))
        = [(0xc0000207, true, [], [1, 3], 512)]
      ∧ (pool4_get_any_addr 1 L4PROTO_UDP 80 { l3 := 0, l4 := 0 }
          (sample_pool4_requests 512)).map (fun r => (r.1, r.2.2))
        = some (0, { l3 := 0xc0000207, l4 := 1024 }) :=
  ⟨sample_pool4_requests_reachable 512, by decide!, by decide!⟩

/-- C27, amended, on an example: the pool of `sample_pool4` after 512
requests for the UDP port 80 has no low even port left; the next request
for the port 80 returns 0 with a high even port. -/
theorem pool4_get_any_addr_fallback_witness :
    pool4_reachable (sample_pool4_requests 512)
      ∧ (∀ x ∈ (sample_pool4_requests 512).pool,
          x.active = true → x.udp_low_even.free = [])
      ∧ ∃ st' res, pool4_get_any_addr 1 L4PROTO_UDP 80 { l3 := 0, l4 := 0 }
            (sample_pool4_requests 512) = some (0, st', res)
          ∧ 1024 ≤ res.l4 ∧ res.l4 % 2 = 0 := by
  have hnone : ∀ x ∈ (sample_pool4_requests 512).pool,
      x.active = true → x.udp_low_even.free = [] := by decide!
  have hhigh : ∀ x ∈ (sample_pool4_requests 512).pool,
      x.active = true ∧ x.udp_high_even.free ≠ [] := by decide!
  obtain ⟨st', res, x, heq, hxm, _, _, h1, _⟩ :=
    ((pool4_get_any_addr_fallback (sample_pool4_requests 512)
      (sample_pool4_requests_reachable 512) 80 (by decide) (by decide)
      { l3 := 0, l4 := 0 } 1 (by decide!)).2 hnone (by decide!)).1
      (by decide!)
  exact ⟨sample_pool4_requests_reachable 512, hnone, st', res, heq,
    h1 (hhigh x hxm).2⟩

/-! ## C31: the pool6 prefix `validate_pool6` accepts -/

/-- C31: `validate_pool6` accepts an unset prefix; it rejects with -EINVAL
every set prefix whose length (a `__u8`) is not one of 32, 40, 48, 56, 64,
96; and for a set prefix of one of these lengths that `prefix6_validate`
accepts it returns 0 if and only if the force flag is given or the ninth
octet of the address is zero, and -EINVAL otherwise. -/
theorem validate_pool6_accepts (env : config_env) (pfx : optional_prefix6)
    (force : Nat) (hlen : pfx.prefix6.len < 256) :
    (pfx.set = false → validate_pool6 env pfx force = 0)
      ∧ (pfx.set = true →
        ¬ (pfx.prefix6.len = 32 ∨ pfx.prefix6.len = 40 ∨ pfx.prefix6.len = 48
          ∨ pfx.prefix6.len = 56 ∨ pfx.prefix6.len = 64
          ∨ pfx.prefix6.len = 96) →
        validate_pool6 env pfx force = -EINVAL)
      ∧ (pfx.set = true →
        (pfx.prefix6.len = 32 ∨ pfx.prefix6.len = 40 ∨ pfx.prefix6.len = 48
          ∨ pfx.prefix6.len = 56 ∨ pfx.prefix6.len = 64
          ∨ pfx.prefix6.len = 96) →
        env.prefix6_validate pfx.prefix6 = 0 →
        (validate_pool6 env pfx force = 0
            ↔ (force ≠ 0 ∨ pfx.prefix6.address.s6_addr8 = 0))
          ∧ (validate_pool6 env pfx force ≠ 0 →
            validate_pool6 env pfx force = -EINVAL)) := by
  have hE : (-EINVAL : Int) ≠ 0 := by decide
  refine ⟨fun hs => ?_, fun hs hl => ?_, fun hs hl hv => ?_⟩
  · unfold validate_pool6
    rw [hs]
    rfl
  · have h1 : validate_pool6_len pfx.prefix6.len = -EINVAL := by
      unfold validate_pool6_len
      rw [Nat.mod_eq_of_lt hlen]
      rw [if_neg (by omega), if_neg (by omega)]
    unfold validate_pool6
    rw [hs]
    dsimp only
    rw [h1]
    simp [hE]
  · have h1 : validate_pool6_len pfx.prefix6.len = 0 := by
      unfold validate_pool6_len
      rw [Nat.mod_eq_of_lt hlen]
      by_cases h : pfx.prefix6.len = 32 ∨ pfx.prefix6.len = 40
          ∨ pfx.prefix6.len = 48
      · rw [if_pos h]
      · rw [if_neg h, if_pos (by omega)]
    have h2 : validate_pool6 env pfx force
        = validate_ubit pfx.prefix6 force := by
      unfold validate_pool6
      rw [hs]
      dsimp only
      rw [h1, hv]
      simp
    rw [h2]
    unfold validate_ubit
    by_cases h : force ≠ 0 ∨ pfx.prefix6.address.s6_addr8 = 0
    · rw [if_pos h]
      exact ⟨⟨fun _ => h, fun _ => rfl⟩, fun hh => absurd rfl hh⟩
    · rw [if_neg h]
      exact ⟨⟨fun hh => absurd hh hE, fun hh => absurd hh h⟩, fun _ => rfl⟩

/-- C31 on examples: 64:ff9b::/96 is accepted without the force flag;
2001:db8:0:0:ff00::/64, whose ninth octet is 0xFF, is refused without the
flag and accepted with it. -/
theorem validate_pool6_accepts_witness :
    validate_pool6 (sample_config_env true) sample_pool6 0 = 0
      ∧ validate_pool6 (sample_config_env true) sample_pool6_ubit 0 = -EINVAL
      ∧ validate_pool6 (sample_config_env true) sample_pool6_ubit 1 = 0 :=
  ⟨((validate_pool6_accepts (sample_config_env true) sample_pool6 0
      (by decide)).2.2 rfl (by decide) rfl).1.mpr (by decide),
   ((validate_pool6_accepts (sample_config_env true) sample_pool6_ubit 0
      (by decide)).2.2 rfl (by decide) rfl).2
      (fun h => absurd
        (((validate_pool6_accepts (sample_config_env true) sample_pool6_ubit 0
          (by decide)).2.2 rfl (by decide) rfl).1.mp h) (by decide)),
   ((validate_pool6_accepts (sample_config_env true) sample_pool6_ubit 1
      (by decide)).2.2 rfl (by decide) rfl).1.mpr (by decide)⟩

/-! ## C32: the hairpinning mode of a configuration request -/

/-- What `massive_switch` does with a `GT_EAM_HAIRPINNING_MODE` chunk that
lies inside the payload, in a SIIT module: it stores the byte behind the
header, whatever its value, and returns 0. -/
theorem massive_switch_eam_hairpin_mode (env : config_env)
    (cfg : full_config) (payload : config_payload) (chunk size : Nat)
    (ht : (payload.chunk chunk).type = GT_EAM_HAIRPINNING_MODE)
    (hlen : (payload.chunk chunk).len ≤ size) (h1 : 1 ≤ size)
    (hs : env.xlat_is_siit = true) :
    massive_switch env cfg payload chunk size
      = (0, { cfg with
          global_siit_eam_hairpin_mode :=
            payload.u8 (chunk + env.sizeof_global_value) }) := by
  have e1 : ensure_bytes size (payload.chunk chunk).len = true := by
    unfold ensure_bytes
    rw [if_neg (by omega)]
  have e2 : ensure_bytes size 1 = true := by
    unfold ensure_bytes
    rw [if_neg (by omega)]
  have e3 : ensure_siit env = 0 := by
    unfold ensure_siit
    rw [hs]
    rfl
  unfold massive_switch
  rw [e1, ht]
  dsimp only
  rw [e3]
  unfold parse_bool parse_u8
  rw [e2]
  rfl

/-- C32 fails: in a SIIT module, `massive_switch` and `config_parse` store
every byte value they find in a `GT_EAM_HAIRPINNING_MODE` chunk as the
hairpinning mode and return success; the bytes 3 and 255, for example, are
stored like the bytes 0, 1 and 2. -/
theorem massive_switch_eam_hairpin_mode_unchecked :
    ∀ (cfg : full_config) (value : Nat),
      massive_switch (sample_config_env true) cfg
          (sample_config_payload GT_EAM_HAIRPINNING_MODE 9 value) 0 9
        = (0, { cfg with global_siit_eam_hairpin_mode := value % 256 })
      ∧ config_parse 2 (sample_config_env true) cfg
          (sample_config_payload GT_EAM_HAIRPINNING_MODE 9 value) 9
        = some (9, { cfg with global_siit_eam_hairpin_mode := value % 256 }) := by
  intro cfg value
  have h := massive_switch_eam_hairpin_mode (sample_config_env true) cfg
    (sample_config_payload GT_EAM_HAIRPINNING_MODE 9 value) 0 9 rfl
    (Nat.le_refl 9) (by decide) rfl
  refine ⟨h, ?_⟩
  unfold config_parse config_parse_loop
  rw [if_pos (by decide)]
  rw [if_neg (by decide)]
  dsimp only
  rw [h]
  unfold config_parse_loop
  rfl

/-! ## C33: the pointer of an ICMPv4 Parameter Problem -/

/-- The pointer of an ICMPv4 Parameter Problem: the most significant byte
of the rest of the header, as `icmp4_to_icmp6_param_prob` reads it. -/
theorem icmp4_to_icmp6_param_prob_unfold (icmp4_hdr : icmphdr)
    (icmp6_hdr : icmp6hdr) (p : Nat)
    (hp : icmp4_hdr.un % 4294967296 / 16777216 % 256 = p)
    (hcode : icmp4_hdr.code = 0 ∨ icmp4_hdr.code = 2) :
    icmp4_to_icmp6_param_prob icmp4_hdr icmp6_hdr
      = if 19 < p ∨ ptrs.getD p 0 = PTR_DROP then
          drop { icmp6_hdr with icmp6_type := ICMPV6_PARAMPROB }
        else
          { result := VERDICT_CONTINUE, sent := [],
            out := { icmp6_type := ICMPV6_PARAMPROB,
                     icmp6_code := ICMPV6_HDR_FIELD,
                     icmp6_cksum := icmp6_hdr.icmp6_cksum,
                     icmp6_dataun := cpu_to_be32 (ptrs.getD p 0) } } := by
  have hc : icmp4_hdr.code = ICMP_PTR_INDICATES_ERROR
      ∨ icmp4_hdr.code = ICMP_BAD_LENGTH := hcode
  unfold icmp4_to_icmp6_param_prob
  simp only [hc, if_true, hp]

/-- C33: for an ICMPv4 Parameter Problem with code 0 or 2 and `p` the most
significant byte of the rest of the header, `icmp4_to_icmp6_param_prob`
drops the message (without an ICMP error) when `p > 19` or `p` is one of
4, 5, 6, 7, 10, 11, and otherwise continues with ICMPv6 type 4 (Parameter
Problem), code 0 and the pointer 0 for `p = 0`, 1 for `p = 1`, 4 for `p` 2
or 3, 7 for `p = 8`, 6 for `p = 9`, 8 for `p` from 12 to 15 and 24 for `p`
from 16 to 19; with any other code the message is dropped. -/
theorem icmp4_to_icmp6_param_prob_by_pointer (icmp4_hdr : icmphdr)
    (icmp6_hdr : icmp6hdr) (p : Nat)
    (hp : icmp4_hdr.un % 4294967296 / 16777216 % 256 = p) :
    ((icmp4_hdr.code = 0 ∨ icmp4_hdr.code = 2) →
        ((19 < p ∨ p = 4 ∨ p = 5 ∨ p = 6 ∨ p = 7 ∨ p = 10 ∨ p = 11) →
          (icmp4_to_icmp6_param_prob icmp4_hdr icmp6_hdr).result = VERDICT_DROP
            ∧ (icmp4_to_icmp6_param_prob icmp4_hdr icmp6_hdr).sent = [])
        ∧ (¬ (19 < p ∨ p = 4 ∨ p = 5 ∨ p = 6 ∨ p = 7 ∨ p = 10 ∨ p = 11) →
          (icmp4_to_icmp6_param_prob icmp4_hdr icmp6_hdr).result
              = VERDICT_CONTINUE
            ∧ (icmp4_to_icmp6_param_prob icmp4_hdr icmp6_hdr).out.icmp6_type
              = ICMPV6_PARAMPROB
            ∧ (icmp4_to_icmp6_param_prob icmp4_hdr icmp6_hdr).out.icmp6_code
              = ICMPV6_HDR_FIELD
            ∧ (icmp4_to_icmp6_param_prob icmp4_hdr icmp6_hdr).out.icmp6_dataun
              = (if p = 0 then 0 else if p = 1 then 1
                else if p = 2 ∨ p = 3 then 4 else if p = 8 then 7
                else if p = 9 then 6 else if 12 ≤ p ∧ p ≤ 15 then 8
                else 24)))
      ∧ (icmp4_hdr.code ≠ 0 → icmp4_hdr.code ≠ 2 →
        (icmp4_to_icmp6_param_prob icmp4_hdr icmp6_hdr).result = VERDICT_DROP
          ∧ (icmp4_to_icmp6_param_prob icmp4_hdr icmp6_hdr).sent = []) := by
  refine ⟨fun hcode => ?_, fun h0 h2 => ?_⟩
  · rw [icmp4_to_icmp6_param_prob_unfold icmp4_hdr icmp6_hdr p hp hcode]
    clear hp hcode
    by_cases h19 : 19 < p
    · refine ⟨fun _ => ?_, fun h => absurd (Or.inl h19) h⟩
      rw [if_pos (Or.inl h19)]
      exact ⟨rfl, rfl⟩
    · have hle : p ≤ 19 := by omega
      clear h19
      interval_cases p <;> refine ⟨fun h => ?_, fun h => ?_⟩ <;>
        first
        | exact ⟨rfl, rfl⟩
        | exact ⟨rfl, rfl, rfl, rfl⟩
        | exact absurd h (by decide)
  · have hc : ¬ (icmp4_hdr.code = ICMP_PTR_INDICATES_ERROR
        ∨ icmp4_hdr.code = ICMP_BAD_LENGTH) := by
      rintro (h | h)
      · exact h0 h
      · exact h2 h
    unfold icmp4_to_icmp6_param_prob
    simp only [hc, if_false]
    exact ⟨rfl, rfl⟩

/-- C33 on examples: a Parameter Problem with code 2 and pointer 9 (the
protocol octet) becomes an ICMPv6 Parameter Problem with code 0 and pointer
6; with pointer 10 it is dropped. -/
theorem icmp4_to_icmp6_param_prob_by_pointer_witness :
    (icmp4_to_icmp6_param_prob
        { type := 12, code := 2, checksum := 0, un := 9 * 16777216 + 5 }
        { icmp6_type := 0, icmp6_code := 0, icmp6_cksum := 0,
          icmp6_dataun := 0 }).out.icmp6_dataun = 6
      ∧ (icmp4_to_icmp6_param_prob
        { type := 12, code := 2, checksum := 0, un := 10 * 16777216 }
        { icmp6_type := 0, icmp6_code := 0, icmp6_cksum := 0,
          icmp6_dataun := 0 }).result = VERDICT_DROP :=
  ⟨(((icmp4_to_icmp6_param_prob_by_pointer
      { type := 12, code := 2, checksum := 0, un := 9 * 16777216 + 5 }
      { icmp6_type := 0, icmp6_code := 0, icmp6_cksum := 0, icmp6_dataun := 0 }
      9 (by decide)).1 (Or.inr rfl)).2 (by decide)).2.2.2,
   (((icmp4_to_icmp6_param_prob_by_pointer
      { type := 12, code := 2, checksum := 0, un := 10 * 16777216 }
      { icmp6_type := 0, icmp6_code := 0, icmp6_cksum := 0, icmp6_dataun := 0 }
      10 (by decide)).1 (Or.inr rfl)).1 (by decide)).1⟩

/-! ## C34: the fragment identification, there and back -/

/-- The conversion `be16_to_cpu` gives the number that a field holds in
network byte order. -/
theorem wire_be16_to_cpu_load16 (little_endian : Bool) (c d : Nat)
    (hc : c < 256) (hd : d < 256) :
    wire.be16_to_cpu little_endian (wire.load16 little_endian c d)
      = c * 256 + d := by
  unfold wire.be16_to_cpu wire.load16 swab16
  cases little_endian <;> simp only [if_true, Bool.false_eq_true, if_false]
    <;> omega

/-- The conversion `be32_to_cpu` gives the number that a field holds in
network byte order. -/
theorem wire_be32_to_cpu_load32 (little_endian : Bool) (a b c d : Nat)
    (ha : a < 256) (hb : b < 256) (hc : c < 256) (hd : d < 256) :
    wire.be32_to_cpu little_endian (wire.load32 little_endian a b c d)
      = a * 16777216 + b * 65536 + c * 256 + d := by
  unfold wire.be32_to_cpu wire.load32 swab32
  cases little_endian <;> simp only [if_true, Bool.false_eq_true, if_false]
    <;> omega

/-- The conversion `cpu_to_be16` gives the content of a field that holds
the low 16 bits of the number in network byte order. -/
theorem wire_cpu_to_be16_load16 (little_endian : Bool) (x : Nat) :
    wire.cpu_to_be16 little_endian x
      = wire.load16 little_endian (x / 256 % 256) (x % 256) := by
  unfold wire.cpu_to_be16 wire.load16 swab16
  cases little_endian <;> simp only [if_true, Bool.false_eq_true, if_false]
    <;> omega

/-- The conversion `cpu_to_be32` gives the content of a field that holds
the low 32 bits of the number in network byte order. -/
theorem wire_cpu_to_be32_load32 (little_endian : Bool) (x : Nat) :
    wire.cpu_to_be32 little_endian x
      = wire.load32 little_endian (x / 16777216 % 256) (x / 65536 % 256)
          (x / 256 % 256) (x % 256) := by
  unfold wire.cpu_to_be32 wire.load32 swab32
  cases little_endian <;> simp only [if_true, Bool.false_eq_true, if_false]
    <;> omega

/-- What is written is what is read. -/
theorem wire_store16_load16 (little_endian : Bool) (c d : Nat)
    (hc : c < 256) (hd : d < 256) :
    wire.store16 little_endian (wire.load16 little_endian c d) = [c, d] := by
  unfold wire.store16 wire.load16
  cases little_endian <;>
    simp only [if_true, Bool.false_eq_true, if_false, List.cons.injEq,
      and_true] <;> omega

theorem wire_store32_load32 (little_endian : Bool) (a b c d : Nat)
    (ha : a < 256) (hb : b < 256) (hc : c < 256) (hd : d < 256) :
    wire.store32 little_endian (wire.load32 little_endian a b c d)
      = [a, b, c, d] := by
  unfold wire.store32 wire.load32
  cases little_endian <;>
    simp only [if_true, Bool.false_eq_true, if_false, List.cons.injEq,
      and_true] <;> omega

/-- The function `build_id_field` on octets: the identification it returns
holds two zero octets and then the two octets of `hdr4->id`. -/
theorem wire_build_id_field_octets (little_endian : Bool) (c d : Nat)
    (hc : c < 256) (hd : d < 256) :
    wire.build_id_field little_endian (wire.load16 little_endian c d)
      = wire.load32 little_endian 0 0 c d := by
  unfold wire.build_id_field
  rw [wire_be16_to_cpu_load16 little_endian c d hc hd,
    wire_cpu_to_be32_load32]
  have e1 : (c * 256 + d) / 16777216 % 256 = 0 := by omega
  have e2 : (c * 256 + d) / 65536 % 256 = 0 := by omega
  have e3 : (c * 256 + d) / 256 % 256 = c := by omega
  have e4 : (c * 256 + d) % 256 = d := by omega
  rw [e1, e2, e3, e4]

/-- The function `generate_ipv4_id_dofrag` on octets: the Identification it
returns holds the last two octets of the fragment identification. -/
theorem wire_generate_ipv4_id_dofrag_octets (little_endian : Bool)
    (a b c d : Nat) (ha : a < 256) (hb : b < 256) (hc : c < 256)
    (hd : d < 256) :
    wire.generate_ipv4_id_dofrag little_endian
        (wire.load32 little_endian a b c d)
      = wire.load16 little_endian c d := by
  unfold wire.generate_ipv4_id_dofrag
  rw [wire_be32_to_cpu_load32 little_endian a b c d ha hb hc hd,
    wire_cpu_to_be16_load16]
  have e3 : (a * 16777216 + b * 65536 + c * 256 + d) / 256 % 256 = c := by
    omega
  have e4 : (a * 16777216 + b * 65536 + c * 256 + d) % 256 = d := by omega
  rw [e3, e4]

/-- On a CPU of either byte order the conversions of this section agree
with the values of the embedding: the number a header field stands for is
what `be16_to_cpu` makes of the content of the field, and `build_id_field`
as embedded above gives the number that the identification it returns
stands for. -/
theorem build_id_field_value (little_endian : Bool) (hdr4 : iphdr)
    (hid : hdr4.id < 65536) :
    wire.be32_to_cpu little_endian
        (wire.build_id_field little_endian
          (wire.cpu_to_be16 little_endian hdr4.id))
      = build_id_field hdr4 := by
  rw [wire_cpu_to_be16_load16,
    wire_build_id_field_octets little_endian _ _ (by omega) (by omega),
    wire_be32_to_cpu_load32 little_endian _ _ _ _ (by omega) (by omega)
      (by omega) (by omega)]
  unfold build_id_field cpu_to_be32
  omega

/-- The same for `generate_ipv4_id_dofrag` and every 32-bit
identification. -/
theorem generate_ipv4_id_dofrag_value (little_endian : Bool)
    (ipv6_frag_hdr : frag_hdr) :
    wire.be16_to_cpu little_endian
        (wire.generate_ipv4_id_dofrag little_endian
          (wire.cpu_to_be32 little_endian ipv6_frag_hdr.identification))
      = generate_ipv4_id_dofrag ipv6_frag_hdr := by
  rw [wire_cpu_to_be32_load32,
    wire_generate_ipv4_id_dofrag_octets little_endian _ _ _ _ (by omega)
      (by omega) (by omega) (by omega),
    wire_be16_to_cpu_load16 little_endian _ _ (by omega) (by omega)]
  unfold generate_ipv4_id_dofrag cpu_to_be16
  omega

/-- C34: for every 16-bit IPv4 Identification `id`, on a little-endian CPU
and on a big-endian CPU alike, when the field `hdr4->id` holds `id` in
network byte order (the octets `id / 256` and `id % 256`), the fragment
identification `build_id_field` returns is written to the IPv6 fragment
header as the octets 0, 0, `id / 256`, `id % 256`: it is `id` in network
byte order, and its upper 16 bits are zero.  Applied to that identification,
`generate_ipv4_id_dofrag` returns the content of `hdr4->id` again, which is
written to the IPv4 header as the octets `id / 256` and `id % 256`: it is
`id` in network byte order. -/
theorem build_id_field_network_order (little_endian : Bool) (id : Nat)
    (hid : id < 65536) :
    wire.store32 little_endian
        (wire.build_id_field little_endian
          (wire.load16 little_endian (id / 256) (id % 256)))
      = [0, 0, id / 256, id % 256]
    ∧ wire.be32_to_cpu little_endian
        (wire.build_id_field little_endian
          (wire.load16 little_endian (id / 256) (id % 256)))
      = id
    ∧ wire.generate_ipv4_id_dofrag little_endian
        (wire.build_id_field little_endian
          (wire.load16 little_endian (id / 256) (id % 256)))
      = wire.load16 little_endian (id / 256) (id % 256)
    ∧ wire.store16 little_endian
        (wire.generate_ipv4_id_dofrag little_endian
          (wire.build_id_field little_endian
            (wire.load16 little_endian (id / 256) (id % 256))))
      = [id / 256, id % 256]
    ∧ wire.be16_to_cpu little_endian
        (wire.generate_ipv4_id_dofrag little_endian
          (wire.build_id_field little_endian
            (wire.load16 little_endian (id / 256) (id % 256))))
      = id := by
  have hc : id / 256 < 256 := by omega
  have hd : id % 256 < 256 := by omega
  have z : (0 : Nat) < 256 := by omega
  rw [wire_build_id_field_octets little_endian _ _ hc hd,
    wire_generate_ipv4_id_dofrag_octets little_endian 0 0 _ _ z z hc hd,
    wire_store32_load32 little_endian 0 0 _ _ z z hc hd,
    wire_store16_load16 little_endian _ _ hc hd,
    wire_be32_to_cpu_load32 little_endian 0 0 _ _ z z hc hd,
    wire_be16_to_cpu_load16 little_endian _ _ hc hd]
  refine ⟨rfl, ?_, rfl, rfl, ?_⟩ <;> omega

/-- C34 on an example: on a little-endian CPU the Identification 0xBEEF,
which the IPv4 header holds as the octets 0xBE, 0xEF, is read as 0xEFBE;
the fragment identification is written as the octets 0, 0, 0xBE, 0xEF, and
the Identification made of it is written as 0xBE, 0xEF again. -/
theorem build_id_field_network_order_witness :
    wire.load16 true 0xBE 0xEF = 0xEFBE
      ∧ wire.store32 true (wire.build_id_field true 0xEFBE)
        = [0, 0, 0xBE, 0xEF]
      ∧ wire.store16 true
          (wire.generate_ipv4_id_dofrag true (wire.build_id_field true 0xEFBE))
        = [0xBE, 0xEF] :=
  ⟨rfl, (build_id_field_network_order true 0xBEEF (by decide)).1,
    (build_id_field_network_order true 0xBEEF (by decide)).2.2.2.1⟩

/-! ## C35: the option scan of `has_unexpired_src_route` -/

/-- The option scan of `has_unexpired_src_route` returns within as many
iterations as the header has option bytes when no option other than END,
NOOP, LSRR and SSRR carries the length byte 0. -/
theorem has_unexpired_src_route_loop_returns (mem : List Nat) (stop : Nat)
    (hlen : ∀ cur, cur < stop → mem.getD cur 0 ≠ IPOPT_END →
      mem.getD cur 0 ≠ IPOPT_NOOP → mem.getD cur 0 ≠ IPOPT_LSRR →
      mem.getD cur 0 ≠ IPOPT_SSRR → mem.getD (cur + 1) 0 ≠ 0) :
    ∀ (fuel cur : Nat), cur < stop → stop - cur ≤ fuel →
      ∃ b, has_unexpired_src_route_loop mem stop fuel cur = some b := by
  intro fuel
  induction fuel with
  | zero => intro cur h1 h2; omega
  | succ fuel ih =>
    intro cur h1 h2
    unfold has_unexpired_src_route_loop
    by_cases hs : mem.getD cur 0 ≠ IPOPT_LSRR ∧ mem.getD cur 0 ≠ IPOPT_SSRR
    · rw [if_pos hs]
      by_cases he : mem.getD cur 0 = IPOPT_END
      · rw [if_pos he]; exact ⟨false, rfl⟩
      · rw [if_neg he]
        dsimp only
        by_cases hn : mem.getD cur 0 = IPOPT_NOOP
        · rw [if_pos hn]
          by_cases hge : cur + 1 ≥ stop
          · rw [if_pos hge]; exact ⟨false, rfl⟩
          · rw [if_neg hge]
            exact ih (cur + 1) (by omega) (by omega)
        · rw [if_neg hn]
          have hz := hlen cur h1 he hn hs.1 hs.2
          by_cases hge : cur + mem.getD (cur + 1) 0 ≥ stop
          · rw [if_pos hge]; exact ⟨false, rfl⟩
          · rw [if_neg hge]
            exact ih _ (by omega) (by omega)
    · rw [if_neg hs]
      exact ⟨_, rfl⟩

/-- `has_unexpired_src_route` returns, given one iteration per option byte,
on every header whose options other than END, NOOP, LSRR and SSRR have a
length byte that is not 0. -/
theorem has_unexpired_src_route_returns (hdr : iphdr) (mem : List Nat)
    (fuel : Nat) (hfuel : 4 * hdr.ihl - 20 ≤ fuel)
    (hlen : ∀ cur, cur < 4 * hdr.ihl - 20 → mem.getD cur 0 ≠ IPOPT_END →
      mem.getD cur 0 ≠ IPOPT_NOOP → mem.getD cur 0 ≠ IPOPT_LSRR →
      mem.getD cur 0 ≠ IPOPT_SSRR → mem.getD (cur + 1) 0 ≠ 0) :
    ∃ b, has_unexpired_src_route fuel hdr mem = some b := by
  unfold has_unexpired_src_route
  by_cases h : 20 ≥ 4 * hdr.ihl
  · rw [if_pos h]; exact ⟨false, rfl⟩
  · rw [if_neg h]
    exact has_unexpired_src_route_loop_returns mem _ hlen fuel 0 (by omega)
      (by omega)

/-- C35 fails on an option with the length byte 0: for the header with IHL
6 and the option bytes 07 00 00 00 (Record Route, length 0),
`has_unexpired_src_route` does not return, however many iterations it is
given: `current_opt += current_opt[1]` leaves `current_opt` where it
is. -/
theorem has_unexpired_src_route_spins :
    ∀ fuel : Nat,
      has_unexpired_src_route fuel { sample_ip4 with ihl := 6 } [7, 0, 0, 0]
        = none := by
  have hloop : ∀ fuel : Nat,
      has_unexpired_src_route_loop [7, 0, 0, 0] 4 fuel 0 = none := by
    intro fuel
    induction fuel with
    | zero => rfl
    | succ fuel ih =>
      unfold has_unexpired_src_route_loop
      exact ih
  intro fuel
  exact hloop fuel

/-! ## C36: `pool4_get_any_addr` with `last_used_addr` NULL -/

theorem poolnum_is_full_init (min max step : Nat) :
    poolnum_is_full (poolnum_init min max step) = true := by
  simp [poolnum_is_full, poolnum_init]

theorem poolnum_get_mem {p : poolnum} {v : Nat} (h : v ∈ p.free) :
    (poolnum_get p v).2.free = p.free.erase v
      ∧ (poolnum_get p v).2.count = p.count := by
  unfold poolnum_get
  rw [if_pos h]
  exact ⟨rfl, rfl⟩

/-- A node with a low even UDP port handed out is not full. -/
theorem pool4_is_full_low_even (node : pool4_node)
    (h : poolnum_is_full node.udp_low_even = false) :
    pool4_is_full node = false := by
  unfold pool4_is_full
  rw [h]
  cases poolnum_is_full node.icmp_ids <;> cases poolnum_is_full node.tcp_high
    <;> cases poolnum_is_full node.tcp_low <;> rfl

/-- What `pool4_remove` does to an active node that is not full: the node
stays in the table, inactive. -/
theorem pool4_remove_not_full (a : Nat) (st : pool4_state) (node : pool4_node)
    (hget : pool4_table_get st.pool a = some node)
    (hact : node.active = true) (hfull : pool4_is_full node = false) :
    (pool4_remove a st).2
      = { st with
          pool := pool4_table_update st.pool node.addr
            { node with active := false } } := by
  unfold pool4_remove
  rw [hget]
  dsimp only
  rw [hact]
  unfold deactivate_or_destroy_pool4_node
  rw [hfull]
  rfl

theorem sample_pool4_port80 : 80 ∈ (poolnum_init 0 1022 2).free := by
  simp only [poolnum_init, List.mem_map, List.mem_range]
  exact ⟨40, by omega, by omega⟩

theorem sample_pool4_node80_not_full :
    poolnum_is_full sample_pool4_node80.udp_low_even = false := by
  dsimp only [sample_pool4_node80]
  obtain ⟨e1, e2⟩ := poolnum_get_mem sample_pool4_port80
  unfold poolnum_is_full
  rw [e1, e2, List.length_erase_of_mem sample_pool4_port80]
  simp [poolnum_init]

/-- The state `sample_pool4_removed` is what `pool4_get` of the UDP port 80
and `pool4_remove` of the address make of `sample_pool4`. -/
theorem sample_pool4_removed_eq :
    (pool4_remove 0xc0000207
        (pool4_get L4PROTO_UDP { l3 := 0xc0000207, l4 := 80 }
          sample_pool4).2).2
      = sample_pool4_removed :=
  (pool4_remove_not_full 0xc0000207
    (pool4_get L4PROTO_UDP { l3 := 0xc0000207, l4 := 80 } sample_pool4).2
    sample_pool4_node80 rfl rfl
    (pool4_is_full_low_even sample_pool4_node80
      sample_pool4_node80_not_full)).trans rfl

/-- The state `sample_pool4_removed` is one the pool reaches. -/
theorem sample_pool4_removed_reachable :
    pool4_reachable sample_pool4_removed :=
  sample_pool4_removed_eq ▸
    pool4_reachable.remove 0xc0000207
      (pool4_get L4PROTO_UDP { l3 := 0xc0000207, l4 := 80 } sample_pool4).2
      (pool4_reachable.get L4PROTO_UDP { l3 := 0xc0000207, l4 := 80 }
        sample_pool4
        (pool4_reachable.register _ _ _ pool4_reachable.init
          (fun _ _ h => nomatch h)))

/-- A loop of `pool4_get_any_addr` that starts with `last_used_addr` NULL,
or left on an entry that was destroyed, never ends when no active node of
the table accepts the attempt: the cursor points into an entry of the table
after every step, so `original_addr != last_used_addr` stays true. -/
theorem pool4_get_any_addr_loop_astray
    (attempt : pool4_node → Nat → Int × pool4_node × Nat)
    (hF : ∀ x l4, (attempt x l4).1 ≠ 0 →
      (attempt x l4).2.1 = x ∧ (attempt x l4).2.2 = l4)
    {pool : List pool4_node} (hnd : (pool.map pool4_node.addr).Nodup)
    (hne : 0 < pool.length)
    (hbad : ∀ x ∈ pool, x.active = true → ∀ l4, (attempt x l4).1 ≠ 0)
    (original : Option in_addr_ptr)
    (hout : ∀ x ∈ pool, original.map in_addr_ptr.entry ≠ some x.entry) :
    ∀ (fuel : Nat) (c : Option in_addr_ptr) (l4 : Nat),
      pool4_get_any_addr_loop attempt fuel original
          { pool := pool, last_used_addr := c } l4 = none := by
  intro fuel
  induction fuel with
  | zero => intro c l4; rfl
  | succ fuel ih =>
    intro c l4
    obtain ⟨j, x, hx, hinc, _, _⟩ := increment_last_used_addr_spec hnd c hne
    have hget := pool4_table_get_nodup hnd hx
    have hxm : x ∈ pool := List.getElem?_mem hx
    have again : (if original.map in_addr_ptr.entry ≠ some x.entry then
          pool4_get_any_addr_loop attempt fuel original
            { pool := pool, last_used_addr := some x.key_ptr } l4
        else
          some ({ pool := pool, last_used_addr := some x.key_ptr }, l4, none))
        = none := by
      rw [if_pos (hout x hxm)]
      exact ih (some x.key_ptr) l4
    unfold pool4_get_any_addr_loop
    dsimp only
    rw [hinc]
    dsimp only [Option.map_some', Option.getD_some, pool4_node.key_ptr]
    rw [hget]
    dsimp only
    by_cases ha : x.active = true
    · have hfail := hbad x hxm ha l4
      obtain ⟨f1, f2⟩ := hF x l4 hfail
      rw [if_neg (by rw [ha]; decide), if_neg hfail, f1, f2,
        pool4_table_update_self hget]
      exact again
    · rw [if_pos (by simpa using ha)]
      exact again

/-- With `last_used_addr` NULL or left on an entry that was destroyed, a
table that is not empty and no active address with a free port in the set
of the requested id, `pool4_get_any_addr` does not return, however many
iterations it is given. -/
theorem pool4_get_any_addr_astray (st : pool4_state)
    (hr : pool4_reachable st)
    (hout : ∀ x ∈ st.pool,
      st.last_used_addr.map in_addr_ptr.entry ≠ some x.entry)
    (hne : 0 < st.pool.length)
    (proto : l4_protocol) (l4_id : Nat) (result : ipv4_transport_addr)
    (hbad : ∀ x ∈ st.pool, x.active = true →
      (x.get (get_poolnum_from_pool4_node proto l4_id)).free = []) :
    ∀ fuel : Nat, pool4_get_any_addr fuel proto l4_id result st = none := by
  obtain ⟨hnd, _⟩ := pool4_reachable_wf hr
  obtain ⟨pool, last⟩ := st
  dsimp only at hnd hout hne hbad
  intro fuel
  have hemp : pool4_is_emtpy { pool := pool, last_used_addr := last }
      = false := by
    unfold pool4_is_emtpy
    cases pool with
    | nil => simp at hne
    | cons _ _ => rfl
  have hloop := pool4_get_any_addr_loop_astray
    (fun node l4 =>
      ((poolnum_get_any
          (node.get (get_poolnum_from_pool4_node proto l4_id)) l4).1,
        node.set (get_poolnum_from_pool4_node proto l4_id)
          (poolnum_get_any
            (node.get (get_poolnum_from_pool4_node proto l4_id)) l4).2.1,
        (poolnum_get_any
          (node.get (get_poolnum_from_pool4_node proto l4_id)) l4).2.2))
    (fun x l4 => (poolnum_attempt_spec x _ l4).2.2.2.2)
    hnd hne
    (fun x hxm hxa l4 h =>
      (poolnum_attempt_spec x _ l4).2.2.1.mp h (hbad x hxm hxa))
    last hout fuel last result.l4
  unfold pool4_get_any_addr
  rw [hemp]
  dsimp only
  rw [hloop]
  rfl

/-- C36 fails with `last_used_addr` NULL: after `pool4_register` of
192.0.2.7, `pool4_get` of its UDP port 80 and `pool4_remove` of the
address, the table holds the one, inactive, node and `last_used_addr` is
NULL; `pool4_get_any_addr` for the UDP port 80 then does not return,
however many iterations it is given. -/
theorem pool4_get_any_addr_spins :
    (pool4_remove 0xc0000207
        (pool4_get L4PROTO_UDP { l3 := 0xc0000207, l4 := 80 }
          (pool4_register 0xc0000207 (some 1)
            { pool := [], last_used_addr := none }).2).2).2
        = sample_pool4_removed
      ∧ sample_pool4_removed.last_used_addr = none
      ∧ sample_pool4_removed.pool.map (fun x => (x.addr, x.active))
        = [(0xc0000207, false)]
      ∧ ∀ fuel : Nat,
        pool4_get_any_addr fuel L4PROTO_UDP 80 { l3 := 0, l4 := 0 }
          sample_pool4_removed = none :=
  ⟨sample_pool4_removed_eq, rfl, rfl,
    pool4_get_any_addr_astray sample_pool4_removed
      sample_pool4_removed_reachable (fun _ _ h => nomatch h) (by decide)
      L4PROTO_UDP 80 { l3 := 0, l4 := 0 }
      (fun x hx ha => by
        rw [List.mem_singleton.mp hx] at ha
        cases ha)⟩

/-! ## C37: the loop of `config_parse` -/

/-- A chunk that `massive_switch` accepts is not longer than what is left
of the payload. -/
theorem massive_switch_len (env : config_env) (cfg : full_config)
    (payload : config_payload) (chunk size : Nat)
    (h : (massive_switch env cfg payload chunk size).1 = 0) :
    (payload.chunk chunk).len ≤ size := by
  by_cases hle : (payload.chunk chunk).len ≤ size
  · exact hle
  · exfalso
    have e1 : ensure_bytes size (payload.chunk chunk).len = false := by
      unfold ensure_bytes
      rw [if_pos (by omega)]
    unfold massive_switch at h
    rw [e1] at h
    simp only [Bool.not_false, if_true] at h
    exact absurd h (by decide)

theorem einval_nonpos : (-EINVAL : Int) ≤ 0 := by decide

theorem einval_neg : (-EINVAL : Int) < 0 := by decide

theorem parse_u8_nonpos (env : config_env) (field : Nat)
    (payload : config_payload) (chunk size : Nat) :
    (parse_u8 env field payload chunk size).1 ≤ 0 := by
  unfold parse_u8
  split <;> first | exact einval_nonpos | exact Int.le_refl 0

theorem parse_bool_nonpos (env : config_env) (field : Nat)
    (payload : config_payload) (chunk size : Nat) :
    (parse_bool env field payload chunk size).1 ≤ 0 :=
  parse_u8_nonpos env field payload chunk size

theorem parse_u16_nonpos (env : config_env) (field : Nat)
    (payload : config_payload) (chunk size max : Nat) :
    (parse_u16 env field payload chunk size max).1 ≤ 0 := by
  unfold parse_u16
  dsimp only
  split_ifs <;> first | exact einval_nonpos | exact Int.le_refl 0

theorem parse_u32_nonpos (env : config_env) (field : Nat)
    (payload : config_payload) (chunk size : Nat) :
    (parse_u32 env field payload chunk size).1 ≤ 0 := by
  unfold parse_u32
  split <;> first | exact einval_nonpos | exact Int.le_refl 0

theorem parse_timeout_nonpos (env : config_env) (field : Nat)
    (payload : config_payload) (chunk size min : Nat) :
    (parse_timeout env field payload chunk size min).1 ≤ 0 := by
  unfold parse_timeout
  dsimp only
  split_ifs <;> first | exact einval_nonpos | exact Int.le_refl 0

theorem parse_ipv6_prefix_nonpos (env : config_env) (dst : optional_prefix6)
    (payload : config_payload) (chunk size : Nat) :
    ( parse_ipv6_prefix env dst payload chunk size).1 ≤ 0 := by
  unfold parse_ipv6_prefix
  dsimp only
  split_ifs <;> first | exact einval_nonpos | exact Int.le_refl 0

theorem validate_pool6_nonpos (env : config_env)
    (hv : ∀ p, env.prefix6_validate p ≤ 0) (pfx : optional_prefix6)
    (force : Nat) : validate_pool6 env pfx force ≤ 0 := by
  unfold validate_pool6 validate_pool6_len validate_ubit
  dsimp only
  split_ifs <;> first | exact einval_nonpos | exact Int.le_refl 0 | exact hv _

theorem update_plateaus_nonpos (config : global_config_usr) (list : List Nat)
    (room : Nat) : (update_plateaus config list room).1 ≤ 0 := by
  unfold update_plateaus
  dsimp only
  split_ifs <;> first | exact einval_nonpos | exact Int.le_refl 0

theorem ensure_siit_nonpos (env : config_env) : ensure_siit env ≤ 0 := by
  unfold ensure_siit
  split <;> first | exact einval_nonpos | exact Int.le_refl 0

theorem ensure_nat64_nonpos (env : config_env) : ensure_nat64 env ≤ 0 := by
  unfold ensure_nat64
  split <;> first | exact einval_nonpos | exact Int.le_refl 0

/-- The value `massive_switch` returns is 0 or negative, when
`prefix6_validate` keeps to that convention. -/
theorem massive_switch_nonpos (env : config_env)
    (hv : ∀ p, env.prefix6_validate p ≤ 0) (cfg : full_config)
    (payload : config_payload) (chunk size : Nat) :
    (massive_switch env cfg payload chunk size).1 ≤ 0 := by
  unfold massive_switch
  split
  · exact einval_nonpos
  · split <;> dsimp only <;> (try split) <;> (try dsimp only) <;>
      first
      | with_reducible exact einval_nonpos
      | with_reducible exact Int.le_refl 0
      | with_reducible exact parse_bool_nonpos _ _ _ _ _
      | with_reducible exact parse_u8_nonpos _ _ _ _ _
      | with_reducible exact parse_u16_nonpos _ _ _ _ _ _
      | with_reducible exact parse_u32_nonpos _ _ _ _ _
      | with_reducible exact parse_timeout_nonpos _ _ _ _ _ _
      | with_reducible exact parse_ipv6_prefix_nonpos _ _ _ _ _
      | with_reducible exact validate_pool6_nonpos env hv _ _
      | with_reducible exact update_plateaus_nonpos _ _ _
      | with_reducible exact ensure_siit_nonpos env
      | with_reducible exact ensure_nat64_nonpos env

/-- When the loop of `config_parse` returns a value that is not negative,
it is the number of bytes read so far plus the length of the payload left
(for a payload of less than 2^31 bytes and a `prefix6_validate` that
returns 0 or a negative error code); otherwise the value is negative. -/
theorem config_parse_loop_result (env : config_env)
    (hv : ∀ p, env.prefix6_validate p ≤ 0) (buf : config_payload) :
    ∀ (fuel : Nat) (config : full_config) (payload payload_len bytes_read : Nat)
      (r : Int × full_config),
      bytes_read + payload_len < 2147483648 →
      config_parse_loop env buf fuel config payload payload_len bytes_read
        = some r →
      r.1 = ((bytes_read + payload_len : Nat) : Int) ∨ r.1 < 0 := by
  intro fuel
  induction fuel with
  | zero =>
    intro config payload payload_len bytes_read r _ h
    unfold config_parse_loop at h
    cases h
  | succ fuel ih =>
    intro config payload payload_len bytes_read r hb h
    unfold config_parse_loop at h
    by_cases hp : payload_len > 0
    · rw [if_pos hp] at h
      cases he : ensure_bytes payload_len env.sizeof_global_value with
      | false =>
        rw [he] at h
        simp only [Bool.not_false, if_true] at h
        cases h
        exact Or.inr einval_neg
      | true =>
        rw [he] at h
        simp only [Bool.not_true] at h
        by_cases hm : (massive_switch env config buf payload payload_len).1 ≠ 0
        · rw [if_neg (by decide), if_pos hm] at h
          cases h
          have := massive_switch_nonpos env hv config buf payload payload_len
          exact Or.inr (by omega)
        · rw [if_neg (by decide), if_neg hm] at h
          have hlen := massive_switch_len env config buf payload payload_len
            (not_not.mp hm)
          have hmod : (bytes_read + (buf.chunk payload).len)
              % 18446744073709551616
              = bytes_read + (buf.chunk payload).len := by omega
          rw [hmod] at h
          rcases ih _ _ _ _ r (by omega) h with h1 | h1
          · left
            rw [h1]
            congr 1
            omega
          · exact Or.inr h1
    · rw [if_neg hp] at h
      cases h
      have hz : payload_len = 0 := by omega
      subst hz
      left
      unfold size_t_to_int
      rw [if_pos (by omega)]
      omega

/-- The loop of `config_parse` returns within `payload_len + 1` tests of
its condition when no chunk header of the payload holds the length 0. -/
theorem config_parse_loop_returns (env : config_env) (buf : config_payload)
    (hlen : ∀ off, (buf.chunk off).len ≠ 0) :
    ∀ (fuel : Nat) (config : full_config) (payload payload_len bytes_read : Nat),
      payload_len < fuel →
      ∃ r, config_parse_loop env buf fuel config payload payload_len bytes_read
        = some r := by
  intro fuel
  induction fuel with
  | zero => intro _ _ _ _ h; omega
  | succ fuel ih =>
    intro config payload payload_len bytes_read hf
    unfold config_parse_loop
    by_cases hp : payload_len > 0
    · rw [if_pos hp]
      cases he : ensure_bytes payload_len env.sizeof_global_value with
      | false => exact ⟨_, rfl⟩
      | true =>
        simp only [Bool.not_true]
        rw [if_neg (by decide)]
        by_cases hm : (massive_switch env config buf payload payload_len).1 ≠ 0
        · rw [if_pos hm]
          exact ⟨_, rfl⟩
        · rw [if_neg hm]
          have := hlen payload
          exact ih _ _ _ _ (by omega)
    · rw [if_neg hp]
      exact ⟨_, rfl⟩

/-- `config_parse` returns when no chunk header of the payload holds the
length 0, and a value it returns is then the length of the payload or
negative (for a payload of less than 2^31 bytes and a `prefix6_validate`
that returns 0 or a negative error code). -/
theorem config_parse_returns (env : config_env)
    (hv : ∀ p, env.prefix6_validate p ≤ 0) (cfg : full_config)
    (payload : config_payload) (payload_len fuel : Nat)
    (hlen : ∀ off, (payload.chunk off).len ≠ 0)
    (hsmall : payload_len < 2147483648) (hfuel : payload_len < fuel) :
    ∃ r, config_parse fuel env cfg payload payload_len = some r
      ∧ (r.1 = (payload_len : Int) ∨ r.1 < 0) := by
  obtain ⟨r, hr⟩ := config_parse_loop_returns env payload hlen fuel cfg 0
    payload_len 0 hfuel
  refine ⟨r, hr, ?_⟩
  have := config_parse_loop_result env hv payload fuel cfg 0 payload_len 0 r
    (by omega) hr
  rwa [Nat.zero_add] at this

/-- C37 fails on a chunk of length 0: for a payload whose chunk header
reads option `GT_ENABLE` and length 0, and a payload length of one byte
more than the header, `config_parse` does not return, however many
iterations it is given and whatever the module and the configuration are:
`payload_len -= chunk->len` leaves `payload_len` as it is. -/
theorem config_parse_spins :
    ∀ (env : config_env) (cfg : full_config) (fuel : Nat),
      config_parse fuel env cfg (sample_config_payload GT_ENABLE 0 0)
        (env.sizeof_global_value + 1) = none := by
  intro env cfg fuel
  have hloop : ∀ (fuel : Nat) (config : full_config)
      (payload bytes_read : Nat),
      config_parse_loop env (sample_config_payload GT_ENABLE 0 0) fuel config
        payload (env.sizeof_global_value + 1) bytes_read = none := by
    intro fuel
    induction fuel with
    | zero => intro _ _ _; rfl
    | succ fuel ih =>
      intro config payload bytes_read
      have e1 : ensure_bytes (env.sizeof_global_value + 1)
          env.sizeof_global_value = true := by
        unfold ensure_bytes
        rw [if_neg (by omega)]
      have e2 : massive_switch env config (sample_config_payload GT_ENABLE 0 0)
          payload (env.sizeof_global_value + 1)
          = (0, { config with global_enabled := 1 }) := by
        unfold massive_switch
        rfl
      unfold config_parse_loop
      rw [if_pos (by omega), e1, e2]
      exact ih _ _ _
  exact hloop fuel cfg 0 0

/-! ## C38: `init_siit` and `init_nat64` when a step fails -/

/-- When `init_siit` returns a value other than 0, no component is left
initialised; and it returns 0 with every component released exactly when
all the steps before `cfgcandidate_create` succeed and
`cfgcandidate_create` returns NULL. -/
theorem init_siit_result (env : xlator_env) (ns : Nat) :
    ((init_siit env { ns := ns, live := [], released := [] }).1 ≠ 0 →
        (init_siit env { ns := ns, live := [], released := [] }).2.live = [])
      ∧ (((init_siit env { ns := ns, live := [], released := [] }).1 = 0
          ∧ (init_siit env { ns := ns, live := [], released := [] }).2.live
            = [])
        ↔ (env.config_init = 0 ∧ env.pool6_init = 0 ∧ env.eamt_init = 0
          ∧ env.blacklist_init = 0 ∧ env.rfc6791_init = 0 ∧ env.mapt_init = 0
          ∧ env.mapt_init_enduser_prefix6_table = 0
          ∧ env.cfgcandidate_create = false)) := by
  unfold init_siit
  dsimp only
  split_ifs <;>
    simp_all [init_siit.newcfg_fail, init_siit.mapt_enduser_fail,
      init_siit.mapt_fail, init_siit.rfc6791_fail, init_siit.blacklist_fail,
      init_siit.eamt_fail, init_siit.pool6_fail, init_siit.config_fail,
      xlator.init, xlator.put]

/-- When `init_nat64` returns a value other than 0, no component is left
initialised; and it returns 0 with every component released exactly when
the steps before it succeed and one of `fragdb_create`, `joold_create`
and `cfgcandidate_create` returns NULL. -/
theorem init_nat64_result (env : xlator_env) (ns : Nat) :
    ((init_nat64 env { ns := ns, live := [], released := [] }).1 ≠ 0 →
        (init_nat64 env { ns := ns, live := [], released := [] }).2.live = [])
      ∧ (((init_nat64 env { ns := ns, live := [], released := [] }).1 = 0
          ∧ (init_nat64 env { ns := ns, live := [], released := [] }).2.live
            = [])
        ↔ (env.config_init = 0 ∧ env.pool6_init = 0
          ∧ (env.fragdb_create = false
            ∨ (env.pool4db_init = 0 ∧ env.bibdb_init = 0
              ∧ env.sessiondb_init = 0
              ∧ (env.joold_create = false
                ∨ env.cfgcandidate_create = false))))) := by
  unfold init_nat64
  dsimp only
  split_ifs <;>
    simp_all [init_nat64.newcfg_fail, init_nat64.joold_fail,
      init_nat64.sessiondb_fail, init_nat64.bibdb_fail, init_nat64.pool4_fail,
      init_nat64.fragdb_fail, init_nat64.pool6_fail, init_nat64.config_fail,
      xlator.init, xlator.put]

/-- C38 fails for the steps that return a pointer: when every step
succeeds except `cfgcandidate_create`, which returns NULL, `init_siit`
releases the seven components it has initialised, in reverse order, and
returns 0, and `xlator_add` then returns 0 and adds the instance, none of
whose components is initialised, to the list; `init_nat64` returns 0 in
the same way when `cfgcandidate_create` returns NULL. -/
theorem init_siit_returns_zero_on_null :
    init_siit (sample_xlator_env true 1 false)
        { ns := 1, live := [], released := [] }
      = (0, { ns := 1, live := [],
              released := [.siit_mapt_enduprefix6_table,
                .siit_mapt_bmr_table, .siit_pool6791, .siit_blacklist,
                .siit_eamt, .pool6, .global] })
      ∧ xlator_add (sample_xlator_env true 1 false) false []
        = (0, [{ ns := 1, live := [],
                 released := [.siit_mapt_enduprefix6_table,
                   .siit_mapt_bmr_table, .siit_pool6791, .siit_blacklist,
                   .siit_eamt, .pool6, .global] }], none)
      ∧ init_nat64 (sample_xlator_env false 1 false)
          { ns := 1, live := [], released := [] }
        = (0, { ns := 1, live := [],
                released := [.nat64_joold, .nat64_session, .nat64_bib,
                  .nat64_pool4, .nat64_frag, .pool6, .global] })
      ∧ (xlator_add (sample_xlator_env false 1 false) false []).1 = 0 := by
  decide

/-! ## C39: one instance for each namespace -/

end Jool
